import Mathlib

/-!
Mouse kinetic engine of the keyboard firmware (`right/src/mouse_controller.c`).

A shallow embedding of the key-driven mouse engine and theorems about it.

Conventions of the embedding:

* C `float` values are modelled by exact rationals (`ℚ`): every arithmetic
  operation of the source is the corresponding exact operation, `modff` is the
  exact split into integral part (truncation toward zero) and fractional part.
  Rounding, infinities and NaN are outside the model.
* `uint8_t` counters are natural numbers; an increment wraps modulo `2^8`.
* `int8_t` direction signs and the integer outputs `xOut`, `yOut` are integers;
  the conversion of an integral float to the output type is the identity (the
  value is assumed to be in the range of the output type).
* `uint32_t mouseElapsedTime` is a natural number.
* File-scope variables are fields of an explicit state record.
-/

namespace MouseController

/-! ## Data model -/

/-- Modelled from the spec: the enum `serialized_mouse_action_t` is declared in
`key_action.h`, which is not among the sources; the constructors are the
eighteen mouse actions the spec lists and the code names. -/
inductive serialized_mouse_action_t where
  | SerializedMouseAction_LeftClick
  | SerializedMouseAction_MiddleClick
  | SerializedMouseAction_RightClick
  | SerializedMouseAction_MoveUp
  | SerializedMouseAction_MoveDown
  | SerializedMouseAction_MoveLeft
  | SerializedMouseAction_MoveRight
  | SerializedMouseAction_ScrollUp
  | SerializedMouseAction_ScrollDown
  | SerializedMouseAction_ScrollLeft
  | SerializedMouseAction_ScrollRight
  | SerializedMouseAction_Accelerate
  | SerializedMouseAction_Decelerate
  | SerializedMouseAction_Button_4
  | SerializedMouseAction_Button_5
  | SerializedMouseAction_Button_6
  | SerializedMouseAction_Button_7
  | SerializedMouseAction_Button_8
  deriving DecidableEq, Repr

open serialized_mouse_action_t

/-- Modelled from the spec: the enum `mouse_speed_t` of `mouse_controller.h`
(not among the sources), the three speed modes used by the code. -/
inductive mouse_speed_t where
  | MouseSpeed_Normal
  | MouseSpeed_Accelerated
  | MouseSpeed_Decelerated
  deriving DecidableEq, Repr

open mouse_speed_t

/-- Modelled from the spec: the struct `mouse_kinetic_state_t` of
`mouse_controller.h` (not among the sources); the fields are those the code
reads and writes. Float fields are rationals, the tuning values are rationals
(this covers integer-typed tuning fields as well), signs and outputs are
integers. -/
structure mouse_kinetic_state_t where
  isScroll : Bool
  wasMoveAction : Bool
  upState : serialized_mouse_action_t
  downState : serialized_mouse_action_t
  leftState : serialized_mouse_action_t
  rightState : serialized_mouse_action_t
  verticalStateSign : Int
  horizontalStateSign : Int
  prevMouseSpeed : mouse_speed_t
  intMultiplier : ℚ
  currentSpeed : ℚ
  targetSpeed : ℚ
  initialSpeed : ℚ
  acceleration : ℚ
  deceleratedSpeed : ℚ
  baseSpeed : ℚ
  acceleratedSpeed : ℚ
  xSum : ℚ
  ySum : ℚ
  xOut : Int
  yOut : Int
  axisSkew : ℚ
  deriving DecidableEq

/-- The file-scope variables of `mouse_controller.c` that the key-driven mouse
engine reads and writes. -/
structure mouse_controller_state_t where
  ActiveMouseStates : serialized_mouse_action_t → Nat
  ToggledMouseStates : serialized_mouse_action_t → Nat
  CompensateDiagonalSpeed : Bool
  mouseElapsedTime : Nat
  MouseMoveState : mouse_kinetic_state_t
  MouseScrollState : mouse_kinetic_state_t

/-- Initializer of `MouseMoveState` (lines 32-47); fields the initializer does
not name are zero-initialized. -/
def MouseMoveState_init : mouse_kinetic_state_t :=
  { isScroll := false
    wasMoveAction := false
    upState := SerializedMouseAction_MoveUp
    downState := SerializedMouseAction_MoveDown
    leftState := SerializedMouseAction_MoveLeft
    rightState := SerializedMouseAction_MoveRight
    verticalStateSign := 0
    horizontalStateSign := 0
    prevMouseSpeed := MouseSpeed_Normal
    intMultiplier := 25
    currentSpeed := 0
    targetSpeed := 0
    initialSpeed := 5
    acceleration := 35
    deceleratedSpeed := 10
    baseSpeed := 40
    acceleratedSpeed := 80
    xSum := 0
    ySum := 0
    xOut := 0
    yOut := 0
    axisSkew := 1 }

/-- Initializer of `MouseScrollState` (lines 49-64). Note that `upState` is
`ScrollDown` and `downState` is `ScrollUp`. -/
def MouseScrollState_init : mouse_kinetic_state_t :=
  { isScroll := true
    wasMoveAction := false
    upState := SerializedMouseAction_ScrollDown
    downState := SerializedMouseAction_ScrollUp
    leftState := SerializedMouseAction_ScrollLeft
    rightState := SerializedMouseAction_ScrollRight
    verticalStateSign := 0
    horizontalStateSign := 0
    prevMouseSpeed := MouseSpeed_Normal
    intMultiplier := 1
    currentSpeed := 0
    targetSpeed := 0
    initialSpeed := 20
    acceleration := 20
    deceleratedSpeed := 10
    baseSpeed := 20
    acceleratedSpeed := 50
    xSum := 0
    ySum := 0
    xOut := 0
    yOut := 0
    axisSkew := 1 }

/-! ## Direction signs -/

/-- Source function `updateOneDirectionSign` (lines 78-82): the new value of `*sign`. -/
def updateOneDirectionSign (ActiveMouseStates : serialized_mouse_action_t → Nat)
    (sign expectedSign : Int) (expectedState otherState : serialized_mouse_action_t) : Int :=
  if sign = expectedSign ∧ ActiveMouseStates expectedState = 0 then
    (if ActiveMouseStates otherState ≠ 0 then -expectedSign else 0)
  else sign

/-- Source function `updateDirectionSigns` (lines 86-91): four calls of `updateOneDirectionSign`,
two on the horizontal sign and two on the vertical sign, in source order. -/
def updateDirectionSigns (ActiveMouseStates : serialized_mouse_action_t → Nat)
    (kineticState : mouse_kinetic_state_t) : mouse_kinetic_state_t :=
  let h1 := updateOneDirectionSign ActiveMouseStates kineticState.horizontalStateSign (-1)
    kineticState.leftState kineticState.rightState
  let h2 := updateOneDirectionSign ActiveMouseStates h1 1
    kineticState.rightState kineticState.leftState
  let v1 := updateOneDirectionSign ActiveMouseStates kineticState.verticalStateSign (-1)
    kineticState.upState kineticState.downState
  let v2 := updateOneDirectionSign ActiveMouseStates v1 1
    kineticState.downState kineticState.upState
  { kineticState with horizontalStateSign := h2, verticalStateSign := v2 }

/-- Source function `MouseController_ActivateDirectionSigns` (lines 95-122): the
switch over the eight direction actions; any other value falls through. -/
def MouseController_ActivateDirectionSigns (st : mouse_controller_state_t)
    (state : serialized_mouse_action_t) : mouse_controller_state_t :=
  match state with
  | SerializedMouseAction_MoveUp =>
    { st with MouseMoveState := { st.MouseMoveState with verticalStateSign := -1 } }
  | SerializedMouseAction_MoveDown =>
    { st with MouseMoveState := { st.MouseMoveState with verticalStateSign := 1 } }
  | SerializedMouseAction_MoveLeft =>
    { st with MouseMoveState := { st.MouseMoveState with horizontalStateSign := -1 } }
  | SerializedMouseAction_MoveRight =>
    { st with MouseMoveState := { st.MouseMoveState with horizontalStateSign := 1 } }
  | SerializedMouseAction_ScrollUp =>
    { st with MouseScrollState := { st.MouseScrollState with verticalStateSign := 1 } }
  | SerializedMouseAction_ScrollDown =>
    { st with MouseScrollState := { st.MouseScrollState with verticalStateSign := -1 } }
  | SerializedMouseAction_ScrollLeft =>
    { st with MouseScrollState := { st.MouseScrollState with horizontalStateSign := -1 } }
  | SerializedMouseAction_ScrollRight =>
    { st with MouseScrollState := { st.MouseScrollState with horizontalStateSign := 1 } }
  | _ => st

/-! ## The kinetic step -/

/-- C `modff` on the rational model: `(fractional part, integral part)`, the
integral part being the truncation toward zero (`⌊x⌋` for `0 ≤ x`, `-⌊-x⌋`
otherwise); both parts carry the sign of `x`. -/
def modff (x : ℚ) : ℚ × Int :=
  let i : Int := if 0 ≤ x then ⌊x⌋ else -⌊-x⌋
  (x - (i : ℚ), i)

/-- Local `doublePressedStateExists` of `processMouseKineticState` (lines 136-139). -/
def doublePressedStateExists (ActiveMouseStates : serialized_mouse_action_t → Nat)
    (kineticState : mouse_kinetic_state_t) : Bool :=
  decide (ActiveMouseStates kineticState.upState > 1) ||
  decide (ActiveMouseStates kineticState.downState > 1) ||
  decide (ActiveMouseStates kineticState.leftState > 1) ||
  decide (ActiveMouseStates kineticState.rightState > 1)

/-- Local `isMoveAction` of `processMouseKineticState` (lines 141-144). -/
def isMoveAction (ActiveMouseStates : serialized_mouse_action_t → Nat)
    (kineticState : mouse_kinetic_state_t) : Bool :=
  decide (ActiveMouseStates kineticState.upState ≠ 0) ||
  decide (ActiveMouseStates kineticState.downState ≠ 0) ||
  decide (ActiveMouseStates kineticState.leftState ≠ 0) ||
  decide (ActiveMouseStates kineticState.rightState ≠ 0)

/-- Local `mouseSpeed` of `processMouseKineticState` as left by lines 146-155. -/
def mouseSpeed (ActiveMouseStates : serialized_mouse_action_t → Nat)
    (kineticState : mouse_kinetic_state_t) : mouse_speed_t :=
  if ActiveMouseStates SerializedMouseAction_Accelerate ≠ 0 ∨
      doublePressedStateExists ActiveMouseStates kineticState = true then
    MouseSpeed_Accelerated
  else if ActiveMouseStates SerializedMouseAction_Decelerate ≠ 0 then
    MouseSpeed_Decelerated
  else MouseSpeed_Normal

/-- Lines 132-134 of `processMouseKineticState`: reset of `currentSpeed` to the
initial speed when the last step had no move action and Decelerate is off. -/
def stepResetSpeed (ActiveMouseStates : serialized_mouse_action_t → Nat)
    (kineticState : mouse_kinetic_state_t) : mouse_kinetic_state_t :=
  if kineticState.wasMoveAction = false ∧
      ActiveMouseStates SerializedMouseAction_Decelerate = 0 then
    { kineticState with currentSpeed := kineticState.intMultiplier * kineticState.initialSpeed }
  else kineticState

/-- Lines 146-155 of `processMouseKineticState`: selection of `targetSpeed`. -/
def stepSelectTarget (ActiveMouseStates : serialized_mouse_action_t → Nat)
    (kineticState : mouse_kinetic_state_t) : mouse_kinetic_state_t :=
  if ActiveMouseStates SerializedMouseAction_Accelerate ≠ 0 ∨
      doublePressedStateExists ActiveMouseStates kineticState = true then
    { kineticState with
      targetSpeed := kineticState.intMultiplier * kineticState.acceleratedSpeed }
  else if ActiveMouseStates SerializedMouseAction_Decelerate ≠ 0 then
    { kineticState with
      targetSpeed := kineticState.intMultiplier * kineticState.deceleratedSpeed }
  else if isMoveAction ActiveMouseStates kineticState = true then
    { kineticState with targetSpeed := kineticState.intMultiplier * kineticState.baseSpeed }
  else kineticState

/-- Lines 157-159 of `processMouseKineticState`: snap of `currentSpeed` to
`targetSpeed` in Accelerated mode or when the mode changed while moving. -/
def stepSnapSpeed (ActiveMouseStates : serialized_mouse_action_t → Nat)
    (kineticState : mouse_kinetic_state_t) : mouse_kinetic_state_t :=
  if mouseSpeed ActiveMouseStates kineticState = MouseSpeed_Accelerated ∨
      (kineticState.wasMoveAction = true ∧ isMoveAction ActiveMouseStates kineticState = true ∧
        kineticState.prevMouseSpeed ≠ mouseSpeed ActiveMouseStates kineticState) then
    { kineticState with currentSpeed := kineticState.targetSpeed }
  else kineticState

/-- Lines 162-172 of `processMouseKineticState`: ramp of `currentSpeed` toward
`targetSpeed` by `acceleration * mouseElapsedTime / 1000`, clamped. -/
def stepRampSpeed (mouseElapsedTime : Nat)
    (kineticState : mouse_kinetic_state_t) : mouse_kinetic_state_t :=
  let acceleration : ℚ := kineticState.intMultiplier * kineticState.acceleration
  if kineticState.currentSpeed < kineticState.targetSpeed then
    let cs : ℚ := kineticState.currentSpeed + acceleration * (mouseElapsedTime : ℚ) / 1000
    { kineticState with
      currentSpeed := if cs > kineticState.targetSpeed then kineticState.targetSpeed else cs }
  else
    let cs : ℚ := kineticState.currentSpeed - acceleration * (mouseElapsedTime : ℚ) / 1000
    { kineticState with
      currentSpeed := if cs < kineticState.targetSpeed then kineticState.targetSpeed else cs }

/-- Lines 177-184 of `processMouseKineticState`: for Scroll after an idle step
the sums are reset, then `updateDirectionSigns` runs. -/
def emitSigns (ActiveMouseStates : serialized_mouse_action_t → Nat)
    (kineticState : mouse_kinetic_state_t) : mouse_kinetic_state_t :=
  updateDirectionSigns ActiveMouseStates
    (if kineticState.isScroll = true ∧ kineticState.wasMoveAction = false then
      { kineticState with xSum := 0, ySum := 0 }
    else kineticState)

/-- Local `distance` of `processMouseKineticState` as used by the two additions:
`currentSpeed * mouseElapsedTime / 1000` (line 174), divided by `1.41` when both
signs are non-zero and `CompensateDiagonalSpeed` is set (lines 186-188). -/
def emitDistance (ActiveMouseStates : serialized_mouse_action_t → Nat)
    (CompensateDiagonalSpeed : Bool) (mouseElapsedTime : Nat)
    (kineticState : mouse_kinetic_state_t) : ℚ :=
  if (emitSigns ActiveMouseStates kineticState).horizontalStateSign ≠ 0 ∧
      (emitSigns ActiveMouseStates kineticState).verticalStateSign ≠ 0 ∧
      CompensateDiagonalSpeed = true then
    kineticState.currentSpeed * (mouseElapsedTime : ℚ) / 1000 / (141 / 100)
  else kineticState.currentSpeed * (mouseElapsedTime : ℚ) / 1000

/-- Line 190: the value of `xSum` after the addition, before the split. -/
def emitXAcc (ActiveMouseStates : serialized_mouse_action_t → Nat)
    (CompensateDiagonalSpeed : Bool) (mouseElapsedTime : Nat)
    (kineticState : mouse_kinetic_state_t) : ℚ :=
  (emitSigns ActiveMouseStates kineticState).xSum +
    emitDistance ActiveMouseStates CompensateDiagonalSpeed mouseElapsedTime kineticState *
      ((emitSigns ActiveMouseStates kineticState).horizontalStateSign : ℚ) *
      kineticState.axisSkew

/-- Line 191: the value of `ySum` after the addition, before the split. -/
def emitYAcc (ActiveMouseStates : serialized_mouse_action_t → Nat)
    (CompensateDiagonalSpeed : Bool) (mouseElapsedTime : Nat)
    (kineticState : mouse_kinetic_state_t) : ℚ :=
  (emitSigns ActiveMouseStates kineticState).ySum +
    emitDistance ActiveMouseStates CompensateDiagonalSpeed mouseElapsedTime kineticState *
      ((emitSigns ActiveMouseStates kineticState).verticalStateSign : ℚ) /
      kineticState.axisSkew

/-- Condition of the first scroll tick on x (line 203), `xOut` being the
integral part of the split sum. -/
def firstScrollTickX (ActiveMouseStates : serialized_mouse_action_t → Nat)
    (CompensateDiagonalSpeed : Bool) (mouseElapsedTime : Nat)
    (kineticState : mouse_kinetic_state_t) : Bool :=
  kineticState.isScroll && !kineticState.wasMoveAction &&
    decide ((modff (emitXAcc ActiveMouseStates CompensateDiagonalSpeed mouseElapsedTime
      kineticState)).2 = 0) &&
    decide ((emitSigns ActiveMouseStates kineticState).horizontalStateSign ≠ 0)

/-- Condition of the first scroll tick on y (line 218). -/
def firstScrollTickY (ActiveMouseStates : serialized_mouse_action_t → Nat)
    (CompensateDiagonalSpeed : Bool) (mouseElapsedTime : Nat)
    (kineticState : mouse_kinetic_state_t) : Bool :=
  kineticState.isScroll && !kineticState.wasMoveAction &&
    decide ((modff (emitYAcc ActiveMouseStates CompensateDiagonalSpeed mouseElapsedTime
      kineticState)).2 = 0) &&
    decide ((emitSigns ActiveMouseStates kineticState).verticalStateSign ≠ 0)

/-- Lines 174-221 of `processMouseKineticState`: travelled distance, scroll
reset, direction-sign update, diagonal compensation, accumulation, split of the
sums by `modff`, and the first scroll tick. -/
def stepEmit (ActiveMouseStates : serialized_mouse_action_t → Nat)
    (CompensateDiagonalSpeed : Bool) (mouseElapsedTime : Nat)
    (kineticState : mouse_kinetic_state_t) : mouse_kinetic_state_t :=
  let xAcc : ℚ := emitXAcc ActiveMouseStates CompensateDiagonalSpeed mouseElapsedTime kineticState
  let yAcc : ℚ := emitYAcc ActiveMouseStates CompensateDiagonalSpeed mouseElapsedTime kineticState
  let firstTickX : Bool :=
    firstScrollTickX ActiveMouseStates CompensateDiagonalSpeed mouseElapsedTime kineticState
  let firstTickY : Bool :=
    firstScrollTickY ActiveMouseStates CompensateDiagonalSpeed mouseElapsedTime kineticState
  { emitSigns ActiveMouseStates kineticState with
    xSum := if firstTickX = true then 0 else (modff xAcc).1
    xOut := if firstTickX = true then
        (if ActiveMouseStates kineticState.leftState ≠ 0 then -1 else 1)
      else (modff xAcc).2
    ySum := if firstTickY = true then 0 else (modff yAcc).1
    yOut := if firstTickY = true then
        (if ActiveMouseStates kineticState.upState ≠ 0 then -1 else 1)
      else (modff yAcc).2 }

/-- Source function `processMouseKineticState` (lines 124-228), as the sequence of its parts;
`isMoveAction` and `mouseSpeed` depend only on the counters and on the fields
`upState .. rightState`, which no part changes. -/
def processMouseKineticState (ActiveMouseStates : serialized_mouse_action_t → Nat)
    (CompensateDiagonalSpeed : Bool) (mouseElapsedTime : Nat)
    (kineticState : mouse_kinetic_state_t) : mouse_kinetic_state_t :=
  let ks3 : mouse_kinetic_state_t :=
    stepSnapSpeed ActiveMouseStates
      (stepSelectTarget ActiveMouseStates (stepResetSpeed ActiveMouseStates kineticState))
  let ks4 : mouse_kinetic_state_t :=
    if isMoveAction ActiveMouseStates kineticState = true then
      stepEmit ActiveMouseStates CompensateDiagonalSpeed mouseElapsedTime
        (stepRampSpeed mouseElapsedTime ks3)
    else { ks3 with currentSpeed := 0 }
  { ks4 with
    prevMouseSpeed := mouseSpeed ActiveMouseStates kineticState
    wasMoveAction := isMoveAction ActiveMouseStates kineticState }

/-- The value of `currentSpeed` after the reset (lines 132-134) and the snap
(lines 157-159), that is, on entry to the ramp of lines 161-172. -/
def speedBeforeRamp (ActiveMouseStates : serialized_mouse_action_t → Nat)
    (kineticState : mouse_kinetic_state_t) : ℚ :=
  (stepSnapSpeed ActiveMouseStates
    (stepSelectTarget ActiveMouseStates
      (stepResetSpeed ActiveMouseStates kineticState))).currentSpeed

/-- Truncation toward zero of a rational, in the words of the spec
("split each sum into (int, frac) via truncation-toward-zero"): the floor of a
non-negative number, the ceiling of a negative one. -/
def truncTowardZero (x : ℚ) : Int :=
  if 0 ≤ x then ⌊x⌋ else ⌈x⌉

/-! ## Toggled mouse states -/

/-- Update of one entry of a counter array. -/
def setCounter (counters : serialized_mouse_action_t → Nat)
    (action : serialized_mouse_action_t) (v : Nat) : serialized_mouse_action_t → Nat :=
  fun b => if b = action then v else counters b

/-- Source function `ToggleMouseState` (lines 531-543); the `uint8_t` increments
wrap modulo 256, the decrement is guarded by the source's `> 0` test. -/
def ToggleMouseState (st : mouse_controller_state_t)
    (action : serialized_mouse_action_t) (activate : Bool) : mouse_controller_state_t :=
  if activate = true then
    let st1 : mouse_controller_state_t :=
      { st with
        ToggledMouseStates :=
          setCounter st.ToggledMouseStates action ((st.ToggledMouseStates action + 1) % 256) }
    let st2 : mouse_controller_state_t :=
      { st1 with
        ActiveMouseStates :=
          setCounter st1.ActiveMouseStates action ((st1.ActiveMouseStates action + 1) % 256) }
    MouseController_ActivateDirectionSigns st2 action
  else
    { st with
      ToggledMouseStates :=
        setCounter st.ToggledMouseStates action
          (st.ToggledMouseStates action -
            (if st.ToggledMouseStates action > 0 then 1 else 0)) }

/-- The state at boot: all counters zero, no diagonal compensation, the two
kinetic states as initialized in the source. -/
def initialState : mouse_controller_state_t :=
  { ActiveMouseStates := fun _ => 0
    ToggledMouseStates := fun _ => 0
    CompensateDiagonalSpeed := false
    mouseElapsedTime := 0
    MouseMoveState := MouseMoveState_init
    MouseScrollState := MouseScrollState_init }

/-- No mouse key is active: every counter is 0. -/
def noActiveMouseStates : serialized_mouse_action_t → Nat := fun _ => 0

/-- The Move kinetic state after MoveRight has been held: the horizontal sign is
`+1` and the last step had a move action. -/
def moveStateAfterRight : mouse_kinetic_state_t :=
  { MouseMoveState_init with horizontalStateSign := 1, wasMoveAction := true }

/-- A Scroll kinetic state in mid-motion with tuning `axisSkew = 2`, used to
instantiate the invariant of the accumulators. -/
def scrollStateSkewed : mouse_kinetic_state_t :=
  { MouseScrollState_init with
    wasMoveAction := true, horizontalStateSign := 1, verticalStateSign := -1,
    xSum := 3 / 4, ySum := -1 / 2, axisSkew := 2 }

/-- ScrollRight and ScrollDown are held (one key each). -/
def scrollRightDownHeld : serialized_mouse_action_t → Nat :=
  fun a =>
    if a = SerializedMouseAction_ScrollRight ∨ a = SerializedMouseAction_ScrollDown then 1 else 0

/-- Only MoveRight is held (one key). -/
def moveRightHeld : serialized_mouse_action_t → Nat :=
  fun a => if a = SerializedMouseAction_MoveRight then 1 else 0

/-- ScrollLeft and ScrollRight are both held (one key each). -/
def scrollLeftRightHeld : serialized_mouse_action_t → Nat :=
  fun a =>
    if a = SerializedMouseAction_ScrollLeft ∨ a = SerializedMouseAction_ScrollRight then 1 else 0

/-- The Scroll kinetic state at rest after ScrollRight was the last horizontal
scroll key pressed: `MouseController_ActivateDirectionSigns` has set the
horizontal sign to `+1`, no kinetic step has run yet. -/
def scrollStateRightPressedLast : mouse_kinetic_state_t :=
  { MouseScrollState_init with horizontalStateSign := 1 }

/-- The Move kinetic state in mid-motion to the lower right with accumulators
`1/2` and `-1/4`. -/
def moveStateDiagonal : mouse_kinetic_state_t :=
  { MouseMoveState_init with
    wasMoveAction := true, horizontalStateSign := 1, verticalStateSign := 1,
    currentSpeed := 1000, targetSpeed := 1000, xSum := 1 / 2, ySum := -1 / 4 }

/-- MoveRight and MoveDown are held (one key each). -/
def moveRightDownHeld : serialized_mouse_action_t → Nat :=
  fun a =>
    if a = SerializedMouseAction_MoveRight ∨ a = SerializedMouseAction_MoveDown then 1 else 0

/-! ### Scenario S1: MoveRight held for 100 steps of 1 ms -/

/-- The Move kinetic state at the start of scenario S1: at rest as initialized,
after `MouseController_ActivateDirectionSigns(MoveRight)` on key-down. -/
def s1Start : mouse_kinetic_state_t :=
  (MouseController_ActivateDirectionSigns initialState
    SerializedMouseAction_MoveRight).MouseMoveState

/-- The Move kinetic state after `n` consecutive kinetic steps of scenario S1
(only MoveRight held, no diagonal compensation, 1 ms per step). -/
def s1Run (n : Nat) : mouse_kinetic_state_t :=
  (processMouseKineticState moveRightHeld false 1)^[n] s1Start

/-- The sum of the `xOut` values emitted by the first `n` steps of scenario S1. -/
def s1Total (n : Nat) : Int :=
  ∑ i in Finset.range n, (s1Run (i + 1)).xOut

/-- The distance travelled in the first `n` steps of scenario S1 while the speed
ramps from 125 by 0.875 per step: the sum of `(125 + 7k/8) / 1000` over
`k = 1 .. n`. -/
def s1Distance (n : Nat) : ℚ :=
  (125 * (n : ℚ) + 7 * ((n : ℚ) * ((n : ℚ) + 1)) / 16) / 1000

/-- The facts about the kinetic state that hold after `n` steps of scenario S1
(for `n = 0` the state is at rest, afterwards it is moving at speed
`125 + 7n/8`). -/
structure S1Inv (n : Nat) (ks : mouse_kinetic_state_t) : Prop where
  isScroll : ks.isScroll = false
  upState : ks.upState = SerializedMouseAction_MoveUp
  downState : ks.downState = SerializedMouseAction_MoveDown
  leftState : ks.leftState = SerializedMouseAction_MoveLeft
  rightState : ks.rightState = SerializedMouseAction_MoveRight
  intMultiplier : ks.intMultiplier = 25
  initialSpeed : ks.initialSpeed = 5
  acceleration : ks.acceleration = 35
  baseSpeed : ks.baseSpeed = 40
  axisSkew : ks.axisSkew = 1
  hSign : ks.horizontalStateSign = 1
  vSign : ks.verticalStateSign = 0
  prevMouseSpeed : ks.prevMouseSpeed = MouseSpeed_Normal
  speed : (ks.wasMoveAction = false ∧ n = 0) ∨
    (ks.wasMoveAction = true ∧ ks.currentSpeed = 125 + 7 * (n : ℚ) / 8)
  ySum : ks.ySum = 0
  yOut : ks.yOut = 0
  xSum_nonneg : 0 ≤ ks.xSum
  xSum_lt_one : ks.xSum < 1
  xOut_nonneg : 0 ≤ ks.xOut

/-- A state in which every toggle counter has reached the largest `uint8_t`
value, 255. -/
def toggledSaturated : mouse_controller_state_t :=
  { initialState with ToggledMouseStates := fun _ => 255 }

end MouseController

namespace UsbReportUpdater

/-! ## Data model of `right/src/usb_report_updater.c`

Conventions: a key (`key_state_t*` in the source) is identified by its slot and
key index; file-scope variables, function statics and the variables of other
modules that the file reads or writes are fields of one state record; calls of
functions of other modules are appended to the field `calls`, and where such a
function returns a value or writes a variable the file reads, the value comes
from a record of external functions. `CurrentTime` and the semaphore are taken
to be constant during one call (no interrupt in between). -/

/-- Modelled from the spec: the struct `key_state_t` of `key_states.h`, which is
not among the sources (spec section 3, KeyState). -/
structure key_state_t where
  hardwareSwitchState : Bool
  debouncedSwitchState : Bool
  debouncing : Bool
  timestamp : Nat
  current : Bool
  previous : Bool
  deriving DecidableEq, Repr

/-- Modelled from the spec: `KeyState_ActivatedNow` of `key_states.h`,
"not previous and current". -/
def KeyState_ActivatedNow (s : key_state_t) : Bool := !s.previous && s.current

/-- Modelled from the spec: `KeyState_DeactivatedNow` of `key_states.h`,
"previous and not current". -/
def KeyState_DeactivatedNow (s : key_state_t) : Bool := s.previous && !s.current

/-- Modelled from the spec: `KeyState_Active` of `key_states.h`, "current". -/
def KeyState_Active (s : key_state_t) : Bool := s.current

/-- Modelled from the spec: `KeyState_NonZero` of `key_states.h`,
"current or previous". -/
def KeyState_NonZero (s : key_state_t) : Bool := s.current || s.previous

/-- Modelled from the spec: `KeyState_ActivatedEarlier` of `key_states.h`; the
spec names it without defining it ("emit from the next cycle onward"), it is
taken as "previous and current". -/
def KeyState_ActivatedEarlier (s : key_state_t) : Bool := s.previous && s.current

/-- Modelled from the spec: the enum `key_action_type_t` of `key_action.h` (not
among the sources), the tags of the variant KeyAction. -/
inductive key_action_type_t where
  | KeyActionType_None
  | KeyActionType_Keystroke
  | KeyActionType_Mouse
  | KeyActionType_SwitchLayer
  | KeyActionType_SwitchKeymap
  | KeyActionType_PlayMacro
  deriving DecidableEq, Repr

/-- Modelled from the spec: the enum `keystroke_type_t` of `key_action.h`. -/
inductive keystroke_type_t where
  | KeystrokeType_Basic
  | KeystrokeType_Media
  | KeystrokeType_System
  deriving DecidableEq, Repr

/-- Modelled from the spec: the enum `switch_layer_mode_t` of `key_action.h`. -/
inductive switch_layer_mode_t where
  | SwitchLayerMode_HoldAndDoubleTapToggle
  | SwitchLayerMode_Toggle
  | SwitchLayerMode_Hold
  deriving DecidableEq, Repr

/-- Modelled from the spec: the result of `SecondaryRoles_ResolveState`. -/
inductive secondary_role_state_t where
  | SecondaryRoleState_DontKnowYet
  | SecondaryRoleState_Primary
  | SecondaryRoleState_Secondary
  deriving DecidableEq, Repr

open key_action_type_t keystroke_type_t switch_layer_mode_t secondary_role_state_t

/-- Modelled from the spec: member `keystroke` of `key_action_t`. A secondary
role of 0 means "none" (the code tests `action->keystroke.secondaryRole`). -/
structure keystroke_t where
  keystrokeType : keystroke_type_t
  scancode : Nat
  modifiers : Nat
  secondaryRole : Nat
  deriving DecidableEq, Repr

/-- Modelled from the spec: member `switchLayer` of `key_action_t`. -/
structure switch_layer_t where
  layer : Nat
  mode : switch_layer_mode_t
  deriving DecidableEq, Repr

/-- Modelled from the spec: member `switchKeymap` of `key_action_t`. -/
structure switch_keymap_t where
  keymapId : Nat
  deriving DecidableEq, Repr

/-- Modelled from the spec: member `playMacro` of `key_action_t`. -/
structure play_macro_t where
  macroId : Nat
  deriving DecidableEq, Repr

/-- Modelled from the spec: the struct `key_action_t` of `key_action.h` (not
among the sources). The members that the source keeps in a union are separate
fields here, so a member of another tag than `type` has a value of its own. -/
structure key_action_t where
  type : key_action_type_t
  keystroke : keystroke_t
  mouseAction : MouseController.serialized_mouse_action_t
  switchLayer : switch_layer_t
  switchKeymap : switch_keymap_t
  playMacro : play_macro_t
  deriving DecidableEq, Repr

/-- The basic keyboard report `usb_basic_keyboard_report_t`
(`usb_interface_basic_keyboard.h`, lines 29-33): `scancodes` is an array of
`USB_BASIC_KEYBOARD_MAX_KEYS` bytes. -/
structure usb_basic_keyboard_report_t where
  modifiers : Nat
  reserved : Nat
  scancodes : List Nat
  deriving DecidableEq, Repr

/-- Modelled from the spec: the media keyboard report, an array of scancodes. -/
structure usb_media_keyboard_report_t where
  scancodes : List Nat
  deriving DecidableEq, Repr

/-- Modelled from the spec: the system keyboard report, an array of scancodes. -/
structure usb_system_keyboard_report_t where
  scancodes : List Nat
  deriving DecidableEq, Repr

/-- Modelled from the spec: the mouse report (buttons bitmask, x, y, wheelX,
wheelY); the signed fields are integers, sums are taken to stay in range. -/
structure usb_mouse_report_t where
  buttons : Nat
  x : Int
  y : Int
  wheelX : Int
  wheelY : Int
  deriving DecidableEq, Repr

/-- Modelled from the spec: member `pointerDelta` of a module state. -/
structure pointer_delta_t where
  x : Int
  y : Int
  deriving DecidableEq, Repr

/-- Modelled from the spec: the fields of `uhk_module_state_t` that
`processMouseActions` uses (`moduleId`, `pointerCount`, `pointerDelta`); the
header among the sources is of a revision that does not declare them. -/
structure uhk_module_state_t where
  moduleId : Nat
  pointerCount : Nat
  pointerDelta : pointer_delta_t
  deriving DecidableEq, Repr

/-- The calls of functions of other modules that `usb_report_updater.c` makes
for their effect. A key argument is the pair (slot, key index). -/
inductive foreign_call_t where
  | LayerSwitcher_HoldLayer (layer : Nat)
  | LayerSwitcher_ToggleLayer (layer : Nat)
  | LayerSwitcher_UnToggleLayerOnly (layer : Nat)
  | LayerSwitcher_DoubleTapToggle (layer : Nat) (slotId keyId : Nat)
  | LayerSwitcher_DoubleTapInterrupt (slotId keyId : Nat)
  | LayerSwitcher_UpdateActiveLayer
  | PostponerCore_TrackKeyEvent (slotId keyId : Nat) (active : Bool)
  | PostponerCore_PostponeNCycles (n : Nat)
  | PostponerCore_RunPostponedEvents
  | PostponerCore_FinishCycle
  | SwitchKeymapById (keymapId : Nat)
  | Macros_StartMacro (macroId : Nat)
  | Macros_ContinueMacro
  | WakeUpHost
  | LedDisplay_SetLayer (layer : Nat)
  | LedDisplay_SetIcon_Agent (isOn : Bool)
  | UsbBasicKeyboardAction
  | UsbMediaKeyboardAction
  | UsbSystemKeyboardAction
  | UsbMouseAction
  deriving DecidableEq, Repr

open foreign_call_t

/-- Constants, macros and configuration variables that the file uses and that
are declared in headers not among the sources; they are parameters of the
model. `USB_BASIC_KEYBOARD_INTERFACE_INDEX` and `UHK_MODULE_MAX_COUNT` are in
the sources and are definitions below. -/
structure updater_config_t where
  SLOT_COUNT : Nat
  MAX_KEY_COUNT_PER_MODULE : Nat
  RIGHT_KEY_MATRIX_KEY_COUNT : Nat
  SlotId_RightKeyboardHalf : Nat
  SlotId_LeftKeyboardHalf : Nat
  LayerId_Fn : Nat
  ModuleId_KeyClusterLeft : Nat
  USB_MEDIA_KEYBOARD_MAX_KEYS : Nat
  USB_SYSTEM_KEYBOARD_MAX_KEYS : Nat
  USB_MEDIA_KEYBOARD_INTERFACE_INDEX : Nat
  USB_SYSTEM_KEYBOARD_INTERFACE_INDEX : Nat
  USB_MOUSE_INTERFACE_INDEX : Nat
  USB_SEMAPHORE_TIMEOUT : Nat
  DebounceTimePress : Nat
  DebounceTimeRelease : Nat
  IS_SECONDARY_ROLE_LAYER_SWITCHER : Nat → Bool
  IS_SECONDARY_ROLE_MODIFIER : Nat → Bool
  SECONDARY_ROLE_LAYER_TO_LAYER_ID : Nat → Nat
  SECONDARY_ROLE_MODIFIER_TO_HID_MODIFIER : Nat → Nat
  HID_KEYBOARD_SC_A : Nat
  HID_KEYBOARD_SC_BACKSPACE : Nat
  MEDIA_VOLUME_DOWN : Nat
  MEDIA_VOLUME_UP : Nat

/-- Modelled from the spec: `LayerId_Base` of `layer.h` (not among the sources),
the base layer; the first enumerator. -/
def LayerId_Base : Nat := 0

/-- Modelled from the spec: the capacity of the basic report's scancode array,
6 (the report is 8 bytes long, two of them are `modifiers` and `reserved`). -/
def USB_BASIC_KEYBOARD_MAX_KEYS : Nat := 6

/-- `USB_BASIC_KEYBOARD_INTERFACE_INDEX` (`usb_interface_basic_keyboard.h`, line 13). -/
def USB_BASIC_KEYBOARD_INTERFACE_INDEX : Nat := 1

/-- `UHK_MODULE_MAX_COUNT` (`uhk_module_driver.h`, line 11). -/
def UHK_MODULE_MAX_COUNT : Nat := 3

/-- Modelled from the spec: HID modifier bit `LCTL = 1`. -/
def HID_KEYBOARD_MODIFIER_LEFTCTRL : Nat := 1
/-- Modelled from the spec: HID modifier bit `LSFT = 2`. -/
def HID_KEYBOARD_MODIFIER_LEFTSHIFT : Nat := 2
/-- Modelled from the spec: HID modifier bit `LALT = 4`. -/
def HID_KEYBOARD_MODIFIER_LEFTALT : Nat := 4
/-- Modelled from the spec: HID modifier bit `LGUI = 8`. -/
def HID_KEYBOARD_MODIFIER_LEFTGUI : Nat := 8
/-- Modelled from the spec: HID modifier bit `RCTL = 16`. -/
def HID_KEYBOARD_MODIFIER_RIGHTCTRL : Nat := 16
/-- Modelled from the spec: HID modifier bit of the right Shift key, 32 (the
standard mask the spec refers to). -/
def HID_KEYBOARD_MODIFIER_RIGHTSHIFT : Nat := 32
/-- Modelled from the spec: HID modifier bit of the right Alt key, 64. -/
def HID_KEYBOARD_MODIFIER_RIGHTALT : Nat := 64
/-- Modelled from the spec: HID modifier bit of the right GUI key, 128. -/
def HID_KEYBOARD_MODIFIER_RIGHTGUI : Nat := 128

/-- Modelled from the spec: scancode of Tab, the HID usage id 0x2B. -/
def HID_KEYBOARD_SC_TAB : Nat := 0x2B
/-- Modelled from the spec: scancode of Right Arrow, the HID usage id 0x4F. -/
def HID_KEYBOARD_SC_RIGHT_ARROW : Nat := 0x4F
/-- Modelled from the spec: scancode of Left Arrow, the HID usage id 0x50. -/
def HID_KEYBOARD_SC_LEFT_ARROW : Nat := 0x50
/-- Modelled from the spec: scancode of Down Arrow, the HID usage id 0x51. -/
def HID_KEYBOARD_SC_DOWN_ARROW : Nat := 0x51
/-- Modelled from the spec: scancode of Up Arrow, the HID usage id 0x52. -/
def HID_KEYBOARD_SC_UP_ARROW : Nat := 0x52

/-- Modelled from the spec: mouse button bits, `Left=1, Right=2, Middle=4,
Button4=8, ..., Button8=128`. -/
def MouseButton_Left : Nat := 1
/-- Modelled from the spec: mouse button bit `Right = 2`. -/
def MouseButton_Right : Nat := 2
/-- Modelled from the spec: mouse button bit `Middle = 4`. -/
def MouseButton_Middle : Nat := 4
/-- Modelled from the spec: mouse button bit `Button4 = 8`. -/
def MouseButton_4 : Nat := 8
/-- Modelled from the spec: mouse button bit of button 5, 16. -/
def MouseButton_5 : Nat := 16
/-- Modelled from the spec: mouse button bit of button 6, 32. -/
def MouseButton_6 : Nat := 32
/-- Modelled from the spec: mouse button bit of button 7, 64. -/
def MouseButton_7 : Nat := 64
/-- Modelled from the spec: mouse button bit `Button8 = 128`. -/
def MouseButton_8 : Nat := 128

/-- The variables that `usb_report_updater.c` reads and writes: its file-scope
variables, its function statics (`simulateKeypresses` .. `mediaCounter` of
`handleUsbStackTestMode`, `previousLayer` of `handleLayerChanges`,
`lastUpdateTime` of `UpdateUsbReports`), the variables of other modules it uses,
the four active reports (the pointees of `ActiveUsb*Report`), the four inactive
reports (the pointees of `GetInactiveUsb*Report()`), and the calls made so far. -/
structure updater_state_t where
  mouseUsbReportUpdateTime : Nat
  mouseElapsedTime : Nat
  activeMouseStates : MouseController.serialized_mouse_action_t → Bool
  TestUsbStack : Bool
  actionCache : Nat → Nat → key_action_t
  UsbReportUpdateSemaphore : Nat
  MouseMoveState : MouseController.mouse_kinetic_state_t
  MouseScrollState : MouseController.mouse_kinetic_state_t
  basicScancodeIndex : Nat
  mediaScancodeIndex : Nat
  systemScancodeIndex : Nat
  stickyModifiers : Nat
  stickyModifierKey : Option (Nat × Nat)
  stickyModifierShouldStick : Bool
  LastUsbGetKeyboardStateRequestTimestamp : Nat
  UsbReportUpdateCounter : Nat
  simulateKeypresses : Bool
  isEven : Bool
  isEvenMedia : Bool
  mediaCounter : Nat
  previousLayer : Nat
  lastUpdateTime : Nat
  CurrentTime : Nat
  KeyStates : Nat → Nat → key_state_t
  RightKeyMatrix_keyStates : Nat → Bool
  CurrentKeymap : Nat → Nat → Nat → key_action_t
  ActiveLayer : Nat
  ActiveLayerHeld : Bool
  MacroPlaying : Bool
  MacroMouseReport : usb_mouse_report_t
  MacroBasicKeyboardReport : usb_basic_keyboard_report_t
  MacroMediaKeyboardReport : usb_media_keyboard_report_t
  MacroSystemKeyboardReport : usb_system_keyboard_report_t
  SleepModeActive : Bool
  TouchpadUsbMouseReport : usb_mouse_report_t
  UhkModuleStates : Nat → uhk_module_state_t
  ActiveUsbBasicKeyboardReport : usb_basic_keyboard_report_t
  ActiveUsbMediaKeyboardReport : usb_media_keyboard_report_t
  ActiveUsbSystemKeyboardReport : usb_system_keyboard_report_t
  ActiveUsbMouseReport : usb_mouse_report_t
  InactiveUsbBasicKeyboardReport : usb_basic_keyboard_report_t
  InactiveUsbMediaKeyboardReport : usb_media_keyboard_report_t
  InactiveUsbSystemKeyboardReport : usb_system_keyboard_report_t
  InactiveUsbMouseReport : usb_mouse_report_t
  calls : List foreign_call_t

/-- What `Macros_ContinueMacro` leaves in the variables the file reads next. -/
structure macro_result_t where
  MacroMouseReport : usb_mouse_report_t
  MacroBasicKeyboardReport : usb_basic_keyboard_report_t
  MacroMediaKeyboardReport : usb_media_keyboard_report_t
  MacroSystemKeyboardReport : usb_system_keyboard_report_t

/-- Modelled from the spec: the functions of other modules (layer switcher,
postponer, secondary-role driver, keymap, macro engine, USB stack) whose
results the file uses. Their code is not among the sources; each is an
arbitrary function of the state at the call (which contains the calls made so
far). `PostponerCore_RunPostponedEvents` returns the key states it leaves,
`LayerSwitcher_UpdateActiveLayer` the new `ActiveLayer` and `ActiveLayerHeld`,
`SwitchKeymapById` the new `CurrentKeymap`, a `Usb*Action` whether the status
is `kStatus_USB_Success`. -/
structure foreign_t where
  LayerSwitcher_UpdateActiveLayer : updater_state_t → Nat × Bool
  PostponerCore_IsActive : updater_state_t → Bool
  PostponerCore_RunPostponedEvents : updater_state_t → Nat → Nat → key_state_t
  SecondaryRoles_ResolveState : updater_state_t → Nat → Nat → secondary_role_state_t
  SwitchKeymapById : updater_state_t → Nat → Nat → Nat → Nat → key_action_t
  Macros_ContinueMacro : updater_state_t → macro_result_t
  UsbBasicKeyboardAction : updater_state_t → Bool
  UsbMediaKeyboardAction : updater_state_t → Bool
  UsbSystemKeyboardAction : updater_state_t → Bool
  UsbMouseAction : updater_state_t → Bool

/-- A call of a function of another module is appended to `calls`. -/
def recordCall (st : updater_state_t) (c : foreign_call_t) : updater_state_t :=
  { st with calls := st.calls ++ [c] }

/-- Write through a `key_state_t*`: the key state of one key is replaced. -/
def setKeyState (st : updater_state_t) (slotId keyId : Nat) (s : key_state_t) :
    updater_state_t :=
  { st with
    KeyStates := fun a b => if a = slotId ∧ b = keyId then s else st.KeyStates a b }

/-- Subtraction of two `uint32_t` values. -/
def sub32 (a b : Nat) : Nat := (a % 2 ^ 32 + 2 ^ 32 - b % 2 ^ 32) % 2 ^ 32

/-- The all-zero basic keyboard report. -/
def zeroBasicKeyboardReport : usb_basic_keyboard_report_t :=
  { modifiers := 0, reserved := 0, scancodes := List.replicate USB_BASIC_KEYBOARD_MAX_KEYS 0 }

/-- The all-zero media keyboard report. -/
def zeroMediaKeyboardReport (C : updater_config_t) : usb_media_keyboard_report_t :=
  { scancodes := List.replicate C.USB_MEDIA_KEYBOARD_MAX_KEYS 0 }

/-- The all-zero system keyboard report. -/
def zeroSystemKeyboardReport (C : updater_config_t) : usb_system_keyboard_report_t :=
  { scancodes := List.replicate C.USB_SYSTEM_KEYBOARD_MAX_KEYS 0 }

/-- The all-zero mouse report. -/
def zeroMouseReport : usb_mouse_report_t :=
  { buttons := 0, x := 0, y := 0, wheelX := 0, wheelY := 0 }

/-! ## Mouse keys in `usb_report_updater.c` -/

/-- Source function `updateOneDirectionSign` (`usb_report_updater.c`, lines
66-70), over the boolean `activeMouseStates`: the new value of `*sign`. -/
def updateOneDirectionSign (activeMouseStates : MouseController.serialized_mouse_action_t → Bool)
    (sign expectedSign : Int)
    (expectedState otherState : MouseController.serialized_mouse_action_t) : Int :=
  if sign = expectedSign ∧ activeMouseStates expectedState = false then
    (if activeMouseStates otherState = true then -expectedSign else 0)
  else sign

/-- Source function `updateDirectionSigns` (`usb_report_updater.c`, lines 74-79). -/
def updateDirectionSigns (activeMouseStates : MouseController.serialized_mouse_action_t → Bool)
    (kineticState : MouseController.mouse_kinetic_state_t) :
    MouseController.mouse_kinetic_state_t :=
  let h1 := updateOneDirectionSign activeMouseStates kineticState.horizontalStateSign (-1)
    kineticState.leftState kineticState.rightState
  let h2 := updateOneDirectionSign activeMouseStates h1 1
    kineticState.rightState kineticState.leftState
  let v1 := updateOneDirectionSign activeMouseStates kineticState.verticalStateSign (-1)
    kineticState.upState kineticState.downState
  let v2 := updateOneDirectionSign activeMouseStates v1 1
    kineticState.downState kineticState.upState
  { kineticState with horizontalStateSign := h2, verticalStateSign := v2 }

/-- Source function `activateDirectionSigns` (`usb_report_updater.c`, lines 83-110). -/
def activateDirectionSigns (st : updater_state_t)
    (state : MouseController.serialized_mouse_action_t) : updater_state_t :=
  match state with
  | .SerializedMouseAction_MoveUp =>
    { st with MouseMoveState := { st.MouseMoveState with verticalStateSign := -1 } }
  | .SerializedMouseAction_MoveDown =>
    { st with MouseMoveState := { st.MouseMoveState with verticalStateSign := 1 } }
  | .SerializedMouseAction_MoveLeft =>
    { st with MouseMoveState := { st.MouseMoveState with horizontalStateSign := -1 } }
  | .SerializedMouseAction_MoveRight =>
    { st with MouseMoveState := { st.MouseMoveState with horizontalStateSign := 1 } }
  | .SerializedMouseAction_ScrollUp =>
    { st with MouseScrollState := { st.MouseScrollState with verticalStateSign := 1 } }
  | .SerializedMouseAction_ScrollDown =>
    { st with MouseScrollState := { st.MouseScrollState with verticalStateSign := -1 } }
  | .SerializedMouseAction_ScrollLeft =>
    { st with MouseScrollState := { st.MouseScrollState with horizontalStateSign := -1 } }
  | .SerializedMouseAction_ScrollRight =>
    { st with MouseScrollState := { st.MouseScrollState with horizontalStateSign := 1 } }
  | _ => st

/-- Local `isMoveAction` of `processMouseKineticState` (`usb_report_updater.c`,
lines 124-127). -/
def isMoveAction (activeMouseStates : MouseController.serialized_mouse_action_t → Bool)
    (kineticState : MouseController.mouse_kinetic_state_t) : Bool :=
  activeMouseStates kineticState.upState ||
  activeMouseStates kineticState.downState ||
  activeMouseStates kineticState.leftState ||
  activeMouseStates kineticState.rightState

/-- Local `mouseSpeed` of `processMouseKineticState` (`usb_report_updater.c`) as
left by lines 129-138. -/
def mouseSpeed (activeMouseStates : MouseController.serialized_mouse_action_t → Bool) :
    MouseController.mouse_speed_t :=
  if activeMouseStates .SerializedMouseAction_Accelerate = true then
    .MouseSpeed_Accelerated
  else if activeMouseStates .SerializedMouseAction_Decelerate = true then
    .MouseSpeed_Decelerated
  else .MouseSpeed_Normal

/-- Lines 120-122 of `processMouseKineticState` (`usb_report_updater.c`). -/
def stepResetSpeed (activeMouseStates : MouseController.serialized_mouse_action_t → Bool)
    (kineticState : MouseController.mouse_kinetic_state_t) :
    MouseController.mouse_kinetic_state_t :=
  if kineticState.wasMoveAction = false ∧
      activeMouseStates .SerializedMouseAction_Decelerate = false then
    { kineticState with currentSpeed := kineticState.intMultiplier * kineticState.initialSpeed }
  else kineticState

/-- Lines 129-138 of `processMouseKineticState` (`usb_report_updater.c`). -/
def stepSelectTarget (activeMouseStates : MouseController.serialized_mouse_action_t → Bool)
    (kineticState : MouseController.mouse_kinetic_state_t) :
    MouseController.mouse_kinetic_state_t :=
  if activeMouseStates .SerializedMouseAction_Accelerate = true then
    { kineticState with
      targetSpeed := kineticState.intMultiplier * kineticState.acceleratedSpeed }
  else if activeMouseStates .SerializedMouseAction_Decelerate = true then
    { kineticState with
      targetSpeed := kineticState.intMultiplier * kineticState.deceleratedSpeed }
  else if isMoveAction activeMouseStates kineticState = true then
    { kineticState with targetSpeed := kineticState.intMultiplier * kineticState.baseSpeed }
  else kineticState

/-- Lines 140-142 of `processMouseKineticState` (`usb_report_updater.c`). -/
def stepSnapSpeed (activeMouseStates : MouseController.serialized_mouse_action_t → Bool)
    (kineticState : MouseController.mouse_kinetic_state_t) :
    MouseController.mouse_kinetic_state_t :=
  if mouseSpeed activeMouseStates = .MouseSpeed_Accelerated ∨
      (kineticState.wasMoveAction = true ∧ isMoveAction activeMouseStates kineticState = true ∧
        kineticState.prevMouseSpeed ≠ mouseSpeed activeMouseStates) then
    { kineticState with currentSpeed := kineticState.targetSpeed }
  else kineticState

/-- Lines 145-155 of `processMouseKineticState` (`usb_report_updater.c`). -/
def stepRampSpeed (mouseElapsedTime : Nat)
    (kineticState : MouseController.mouse_kinetic_state_t) :
    MouseController.mouse_kinetic_state_t :=
  let acceleration : ℚ := kineticState.intMultiplier * kineticState.acceleration
  if kineticState.currentSpeed < kineticState.targetSpeed then
    let cs : ℚ := kineticState.currentSpeed + acceleration * (mouseElapsedTime : ℚ) / 1000
    { kineticState with
      currentSpeed := if cs > kineticState.targetSpeed then kineticState.targetSpeed else cs }
  else
    let cs : ℚ := kineticState.currentSpeed - acceleration * (mouseElapsedTime : ℚ) / 1000
    { kineticState with
      currentSpeed := if cs < kineticState.targetSpeed then kineticState.targetSpeed else cs }

/-- Lines 160-167 of `processMouseKineticState` (`usb_report_updater.c`): the
Scroll reset of the sums, then `updateDirectionSigns`. -/
def emitSigns (activeMouseStates : MouseController.serialized_mouse_action_t → Bool)
    (kineticState : MouseController.mouse_kinetic_state_t) :
    MouseController.mouse_kinetic_state_t :=
  updateDirectionSigns activeMouseStates
    (if kineticState.isScroll = true ∧ kineticState.wasMoveAction = false then
      { kineticState with xSum := 0, ySum := 0 }
    else kineticState)

/-- Lines 157-200 of `processMouseKineticState` (`usb_report_updater.c`):
`distance`, Scroll reset, sign update, accumulation (no axis skew and no
diagonal compensation in this file), split by `modff`, first scroll tick. -/
def stepEmit (activeMouseStates : MouseController.serialized_mouse_action_t → Bool)
    (mouseElapsedTime : Nat) (kineticState : MouseController.mouse_kinetic_state_t) :
    MouseController.mouse_kinetic_state_t :=
  let distance : ℚ := kineticState.currentSpeed * (mouseElapsedTime : ℚ) / 1000
  let ks2 := emitSigns activeMouseStates kineticState
  let xAcc : ℚ := ks2.xSum + distance * (ks2.horizontalStateSign : ℚ)
  let yAcc : ℚ := ks2.ySum + distance * (ks2.verticalStateSign : ℚ)
  let firstTickX : Bool :=
    kineticState.isScroll && !kineticState.wasMoveAction &&
      decide ((MouseController.modff xAcc).2 = 0) && decide (ks2.horizontalStateSign ≠ 0)
  let firstTickY : Bool :=
    kineticState.isScroll && !kineticState.wasMoveAction &&
      decide ((MouseController.modff yAcc).2 = 0) && decide (ks2.verticalStateSign ≠ 0)
  { ks2 with
    xSum := if firstTickX = true then 0 else (MouseController.modff xAcc).1
    xOut := if firstTickX = true then
        (if activeMouseStates kineticState.leftState = true then -1 else 1)
      else (MouseController.modff xAcc).2
    ySum := if firstTickY = true then 0 else (MouseController.modff yAcc).1
    yOut := if firstTickY = true then
        (if activeMouseStates kineticState.upState = true then -1 else 1)
      else (MouseController.modff yAcc).2 }

/-- Source function `processMouseKineticState` of `usb_report_updater.c` (lines
112-207), over the boolean `activeMouseStates`. -/
def processMouseKineticState
    (activeMouseStates : MouseController.serialized_mouse_action_t → Bool)
    (mouseElapsedTime : Nat) (kineticState : MouseController.mouse_kinetic_state_t) :
    MouseController.mouse_kinetic_state_t :=
  let ks3 := stepSnapSpeed activeMouseStates
    (stepSelectTarget activeMouseStates (stepResetSpeed activeMouseStates kineticState))
  let ks4 :=
    if isMoveAction activeMouseStates kineticState = true then
      stepEmit activeMouseStates mouseElapsedTime (stepRampSpeed mouseElapsedTime ks3)
    else { ks3 with currentSpeed := 0 }
  { ks4 with
    prevMouseSpeed := mouseSpeed activeMouseStates
    wasMoveAction := isMoveAction activeMouseStates kineticState }

/-- One iteration of the module loop of `processMouseActions` (lines 231-242). -/
def processMouseActions_module (C : updater_config_t) (st : updater_state_t)
    (moduleId : Nat) : updater_state_t :=
  let moduleState := st.UhkModuleStates moduleId
  if moduleState.pointerCount ≠ 0 then
    let report : usb_mouse_report_t :=
      if moduleState.moduleId = C.ModuleId_KeyClusterLeft then
        { st.ActiveUsbMouseReport with
          wheelX := st.ActiveUsbMouseReport.wheelX + moduleState.pointerDelta.x
          wheelY := st.ActiveUsbMouseReport.wheelY - moduleState.pointerDelta.y }
      else
        { st.ActiveUsbMouseReport with
          x := st.ActiveUsbMouseReport.x + moduleState.pointerDelta.x
          y := st.ActiveUsbMouseReport.y - moduleState.pointerDelta.y }
    { st with
      ActiveUsbMouseReport := report
      UhkModuleStates := fun i =>
        if i = moduleId then { moduleState with pointerDelta := { x := 0, y := 0 } }
        else st.UhkModuleStates i }
  else st

/-- The button part of `processMouseActions` (lines 253-276): the bits OR-ed
into `buttons`. -/
def mouseButtons (activeMouseStates : MouseController.serialized_mouse_action_t → Bool) : Nat :=
  (if activeMouseStates .SerializedMouseAction_LeftClick = true then MouseButton_Left else 0) |||
  (if activeMouseStates .SerializedMouseAction_MiddleClick = true then MouseButton_Middle
    else 0) |||
  (if activeMouseStates .SerializedMouseAction_RightClick = true then MouseButton_Right else 0) |||
  (if activeMouseStates .SerializedMouseAction_Button_4 = true then MouseButton_4 else 0) |||
  (if activeMouseStates .SerializedMouseAction_Button_5 = true then MouseButton_5 else 0) |||
  (if activeMouseStates .SerializedMouseAction_Button_6 = true then MouseButton_6 else 0) |||
  (if activeMouseStates .SerializedMouseAction_Button_7 = true then MouseButton_7 else 0) |||
  (if activeMouseStates .SerializedMouseAction_Button_8 = true then MouseButton_8 else 0)

/-- Source function `processMouseActions` (lines 209-277).
`Timer_GetElapsedTimeAndSetCurrent` is modelled from the spec: it returns
`CurrentTime` minus the stored time and stores `CurrentTime`. -/
def processMouseActions (C : updater_config_t) (st : updater_state_t) : updater_state_t :=
  let elapsed := sub32 st.CurrentTime st.mouseUsbReportUpdateTime
  let move := processMouseKineticState st.activeMouseStates elapsed st.MouseMoveState
  let scroll := processMouseKineticState st.activeMouseStates elapsed st.MouseScrollState
  let st1 : updater_state_t :=
    { st with
      mouseElapsedTime := elapsed
      mouseUsbReportUpdateTime := st.CurrentTime
      MouseMoveState := { move with xOut := 0, yOut := 0 }
      MouseScrollState := { scroll with xOut := 0, yOut := 0 }
      ActiveUsbMouseReport :=
        { st.ActiveUsbMouseReport with
          x := move.xOut + st.TouchpadUsbMouseReport.x
          y := move.yOut + st.TouchpadUsbMouseReport.y
          wheelX := scroll.xOut
          wheelY := scroll.yOut }
      TouchpadUsbMouseReport := { st.TouchpadUsbMouseReport with x := 0, y := 0 } }
  let st2 : updater_state_t :=
    List.foldl (processMouseActions_module C) st1 (List.range UHK_MODULE_MAX_COUNT)
  { st2 with
    ActiveUsbMouseReport :=
      { st2.ActiveUsbMouseReport with
        buttons := st2.ActiveUsbMouseReport.buttons ||| mouseButtons st2.activeMouseStates } }

/-! ## Key actions in `usb_report_updater.c` -/

/-- Source function `applyLayerHolds` (lines 280-306); `keyState` is the key
`(slotId, keyId)`. -/
def applyLayerHolds (C : updater_config_t) (st : updater_state_t) (slotId keyId : Nat)
    (action : key_action_t) : updater_state_t :=
  let st1 : updater_state_t :=
    if action.type = KeyActionType_SwitchLayer ∧
        KeyState_Active (st.KeyStates slotId keyId) = true then
      match action.switchLayer.mode with
      | SwitchLayerMode_HoldAndDoubleTapToggle =>
        recordCall st (LayerSwitcher_HoldLayer action.switchLayer.layer)
      | SwitchLayerMode_Hold =>
        recordCall st (LayerSwitcher_HoldLayer action.switchLayer.layer)
      | SwitchLayerMode_Toggle => st
    else st
  if st1.ActiveLayer ≠ LayerId_Base ∧
      action.type = KeyActionType_Keystroke ∧
      action.keystroke.secondaryRole ≠ 0 ∧
      C.IS_SECONDARY_ROLE_LAYER_SWITCHER action.keystroke.secondaryRole = true ∧
      KeyState_Active (st1.KeyStates slotId keyId) = true then
    recordCall st1
      (LayerSwitcher_HoldLayer
        (C.SECONDARY_ROLE_LAYER_TO_LAYER_ID action.keystroke.secondaryRole))
  else st1

/-- Source function `applyToggleLayerAction` (lines 309-327). -/
def applyToggleLayerAction (st : updater_state_t) (slotId keyId : Nat)
    (action : key_action_t) : updater_state_t :=
  match action.switchLayer.mode with
  | SwitchLayerMode_HoldAndDoubleTapToggle =>
    if (st.KeyStates slotId keyId).current ≠ (st.KeyStates slotId keyId).previous then
      recordCall st (LayerSwitcher_DoubleTapToggle action.switchLayer.layer slotId keyId)
    else st
  | SwitchLayerMode_Toggle =>
    if KeyState_ActivatedNow (st.KeyStates slotId keyId) = true then
      recordCall st (LayerSwitcher_ToggleLayer action.switchLayer.layer)
    else st
  | SwitchLayerMode_Hold =>
    if KeyState_ActivatedNow (st.KeyStates slotId keyId) = true then
      recordCall st (LayerSwitcher_UnToggleLayerOnly action.switchLayer.layer)
    else st

/-- Source function `handleEventInterrupts` (lines 329-333). -/
def handleEventInterrupts (st : updater_state_t) (slotId keyId : Nat) : updater_state_t :=
  if KeyState_ActivatedNow (st.KeyStates slotId keyId) = true then
    recordCall st (LayerSwitcher_DoubleTapInterrupt slotId keyId)
  else st

/-- Source function `isStickyShortcut` (lines 352-372). The returned `bool` is
the conversion of `modifiers & (alt | super | ctrl)`: true when it is non-zero. -/
def isStickyShortcut (action : key_action_t) : Bool :=
  if action.keystroke.modifiers = 0 ∨ action.type ≠ KeyActionType_Keystroke ∨
      action.keystroke.keystrokeType ≠ KeystrokeType_Basic then
    false
  else
    let alt := HID_KEYBOARD_MODIFIER_LEFTALT ||| HID_KEYBOARD_MODIFIER_RIGHTALT
    let super := HID_KEYBOARD_MODIFIER_LEFTGUI ||| HID_KEYBOARD_MODIFIER_RIGHTGUI
    let ctrl := HID_KEYBOARD_MODIFIER_LEFTCTRL ||| HID_KEYBOARD_MODIFIER_RIGHTCTRL
    if action.keystroke.scancode = HID_KEYBOARD_SC_TAB ∨
        action.keystroke.scancode = HID_KEYBOARD_SC_LEFT_ARROW ∨
        action.keystroke.scancode = HID_KEYBOARD_SC_RIGHT_ARROW ∨
        action.keystroke.scancode = HID_KEYBOARD_SC_UP_ARROW ∨
        action.keystroke.scancode = HID_KEYBOARD_SC_DOWN_ARROW then
      decide (action.keystroke.modifiers &&& (alt ||| super ||| ctrl) ≠ 0)
    else false

/-- Source function `shouldStickAction` (lines 374-377). -/
def shouldStickAction (st : updater_state_t) (action : key_action_t) : Bool :=
  st.ActiveLayerHeld && isStickyShortcut action

/-- Source function `activateStickyMods` (lines 379-384). -/
def activateStickyMods (st : updater_state_t) (slotId keyId : Nat) (action : key_action_t) :
    updater_state_t :=
  { st with
    stickyModifiers := action.keystroke.modifiers
    stickyModifierKey := some (slotId, keyId)
    stickyModifierShouldStick := shouldStickAction st action }

/-- The `switch` of `applyKeystrokePrimary` that appends the scancode (lines
401-420). The basic report holds bytes, so the stored scancode is reduced
modulo 256. -/
def appendScancode (C : updater_config_t) (st : updater_state_t) (action : key_action_t) :
    updater_state_t :=
  match action.keystroke.keystrokeType with
  | KeystrokeType_Basic =>
    if st.basicScancodeIndex ≥ USB_BASIC_KEYBOARD_MAX_KEYS ∨ action.keystroke.scancode = 0 then
      st
    else
      { st with
        ActiveUsbBasicKeyboardReport :=
          { st.ActiveUsbBasicKeyboardReport with
            scancodes := st.ActiveUsbBasicKeyboardReport.scancodes.set st.basicScancodeIndex
              (action.keystroke.scancode % 256) }
        basicScancodeIndex := st.basicScancodeIndex + 1 }
  | KeystrokeType_Media =>
    if st.mediaScancodeIndex ≥ C.USB_MEDIA_KEYBOARD_MAX_KEYS then st
    else
      { st with
        ActiveUsbMediaKeyboardReport :=
          { st.ActiveUsbMediaKeyboardReport with
            scancodes := st.ActiveUsbMediaKeyboardReport.scancodes.set st.mediaScancodeIndex
              action.keystroke.scancode }
        mediaScancodeIndex := st.mediaScancodeIndex + 1 }
  | KeystrokeType_System =>
    if st.systemScancodeIndex ≥ C.USB_SYSTEM_KEYBOARD_MAX_KEYS then st
    else
      { st with
        ActiveUsbSystemKeyboardReport :=
          { st.ActiveUsbSystemKeyboardReport with
            scancodes := st.ActiveUsbSystemKeyboardReport.scancodes.set st.systemScancodeIndex
              action.keystroke.scancode }
        systemScancodeIndex := st.systemScancodeIndex + 1 }

/-- Local `stickyModifiersChanged` of `applyKeystrokePrimary` (lines 389-395),
for an active key. -/
def stickyModifiersChanged (st : updater_state_t) (slotId keyId : Nat)
    (action : key_action_t) : Bool :=
  if action.keystroke.scancode ≠ 0 ∧
      KeyState_ActivatedNow (st.KeyStates slotId keyId) = true then
    decide (action.keystroke.modifiers ≠ st.stickyModifiers)
  else false

/-- Source function `applyKeystrokePrimary` (lines 386-429). -/
def applyKeystrokePrimary (C : updater_config_t) (st : updater_state_t) (slotId keyId : Nat)
    (action : key_action_t) : updater_state_t :=
  if KeyState_Active (st.KeyStates slotId keyId) = true then
    let st1 : updater_state_t :=
      if action.keystroke.scancode ≠ 0 then
        (if KeyState_ActivatedNow (st.KeyStates slotId keyId) = true then
          activateStickyMods st slotId keyId action
        else st)
      else
        { st with
          ActiveUsbBasicKeyboardReport :=
            { st.ActiveUsbBasicKeyboardReport with
              modifiers := st.ActiveUsbBasicKeyboardReport.modifiers |||
                action.keystroke.modifiers } }
    if stickyModifiersChanged st slotId keyId action = false ∨
        KeyState_ActivatedEarlier (st.KeyStates slotId keyId) = true then
      appendScancode C st1 action
    else st1
  else if KeyState_DeactivatedNow (st.KeyStates slotId keyId) = true then
    if st.stickyModifierKey = some (slotId, keyId) ∧ st.stickyModifierShouldStick = false then
      { st with
        ActiveUsbBasicKeyboardReport :=
          { st.ActiveUsbBasicKeyboardReport with
            modifiers := st.ActiveUsbBasicKeyboardReport.modifiers ||| st.stickyModifiers }
        stickyModifiers := 0 }
    else st
  else st

/-- Source function `applyKeystrokeSecondary` (lines 431-443). -/
def applyKeystrokeSecondary (C : updater_config_t) (st : updater_state_t)
    (action actionBase : key_action_t) : updater_state_t :=
  let secondaryRole := action.keystroke.secondaryRole
  if C.IS_SECONDARY_ROLE_LAYER_SWITCHER secondaryRole = true then
    if action.type = actionBase.type ∧
        action.keystroke.secondaryRole = actionBase.keystroke.secondaryRole then
      recordCall st (LayerSwitcher_HoldLayer (C.SECONDARY_ROLE_LAYER_TO_LAYER_ID secondaryRole))
    else st
  else if C.IS_SECONDARY_ROLE_MODIFIER secondaryRole = true then
    { st with
      ActiveUsbBasicKeyboardReport :=
        { st.ActiveUsbBasicKeyboardReport with
          modifiers := st.ActiveUsbBasicKeyboardReport.modifiers |||
            C.SECONDARY_ROLE_MODIFIER_TO_HID_MODIFIER secondaryRole } }
  else st

/-- Source function `applyKeystroke` (lines 445-463). -/
def applyKeystroke (E : foreign_t) (C : updater_config_t) (st : updater_state_t)
    (slotId keyId : Nat) (action actionBase : key_action_t) : updater_state_t :=
  if action.keystroke.secondaryRole ≠ 0 then
    match E.SecondaryRoles_ResolveState st slotId keyId with
    | SecondaryRoleState_Primary => applyKeystrokePrimary C st slotId keyId action
    | SecondaryRoleState_Secondary => applyKeystrokeSecondary C st action actionBase
    | SecondaryRoleState_DontKnowYet => recordCall st (PostponerCore_PostponeNCycles 1)
  else applyKeystrokePrimary C st slotId keyId action

/-- Source function `applyKeyAction` (lines 465-498). -/
def applyKeyAction (E : foreign_t) (C : updater_config_t) (st : updater_state_t)
    (slotId keyId : Nat) (action actionBase : key_action_t) : updater_state_t :=
  match action.type with
  | KeyActionType_Keystroke =>
    if KeyState_NonZero (st.KeyStates slotId keyId) = true then
      applyKeystroke E C st slotId keyId action actionBase
    else st
  | KeyActionType_Mouse =>
    let st1 : updater_state_t :=
      if KeyState_ActivatedNow (st.KeyStates slotId keyId) = true then
        activateDirectionSigns { st with stickyModifiers := 0 } action.mouseAction
      else st
    { st1 with
      activeMouseStates := fun a =>
        if a = action.mouseAction then true else st1.activeMouseStates a }
  | KeyActionType_SwitchLayer =>
    if (st.KeyStates slotId keyId).current ≠ (st.KeyStates slotId keyId).previous then
      applyToggleLayerAction st slotId keyId action
    else st
  | KeyActionType_SwitchKeymap =>
    if KeyState_ActivatedNow (st.KeyStates slotId keyId) = true then
      let st1 : updater_state_t :=
        recordCall { st with stickyModifiers := 0 } (SwitchKeymapById action.switchKeymap.keymapId)
      { st1 with CurrentKeymap := E.SwitchKeymapById st1 action.switchKeymap.keymapId }
    else st
  | KeyActionType_PlayMacro =>
    if KeyState_ActivatedNow (st.KeyStates slotId keyId) = true then
      recordCall { st with stickyModifiers := 0 } (Macros_StartMacro action.playMacro.macroId)
    else st
  | KeyActionType_None => st

/-- Source function `commitKeyState` (lines 500-507). `PostponerCore_TrackKeyEvent`
is modelled from the spec: the event goes into the postponer's queue and the
key state is not written. -/
def commitKeyState (E : foreign_t) (st : updater_state_t) (slotId keyId : Nat)
    (active : Bool) : updater_state_t :=
  if E.PostponerCore_IsActive st = true then
    recordCall st (PostponerCore_TrackKeyEvent slotId keyId active)
  else
    setKeyState st slotId keyId { st.KeyStates slotId keyId with current := active }

/-- Local `debounceTime` of `preprocessKeyState` (line 511), a `uint8_t`. -/
def debounceTime (C : updater_config_t) (s : key_state_t) : Nat :=
  (if s.previous = true then C.DebounceTimePress else C.DebounceTimeRelease) % 256

/-- The gate of `preprocessKeyState` (lines 512-514): the value of `debouncing`
after it. The difference `CurrentTime - timestamp` is a `uint32_t` that the
source converts to `uint8_t` before the comparison. -/
def debouncingAfterGate (C : updater_config_t) (CurrentTime : Nat) (s : key_state_t) : Bool :=
  if s.debouncing = true ∧ sub32 CurrentTime s.timestamp % 256 > debounceTime C s then false
  else s.debouncing

/-- Source function `preprocessKeyState` (lines 509-523). The writes go to one
key state: `s1` is its value after the gate, `s2` its value when the second
`if` is taken (the three assignments of lines 517-519 on top of `s1`). -/
def preprocessKeyState (E : foreign_t) (C : updater_config_t) (st : updater_state_t)
    (slotId keyId : Nat) : updater_state_t :=
  let s := st.KeyStates slotId keyId
  let s1 : key_state_t := { s with debouncing := debouncingAfterGate C st.CurrentTime s }
  let st1 := setKeyState st slotId keyId s1
  if s1.debouncing = false ∧ s1.debouncedSwitchState ≠ s1.hardwareSwitchState then
    let s2 : key_state_t :=
      { s1 with
        timestamp := st.CurrentTime
        debouncing := true
        debouncedSwitchState := s1.hardwareSwitchState }
    commitKeyState E (setKeyState st slotId keyId s2) slotId keyId s2.debouncedSwitchState
  else st1

/-! ## The update cycle of `usb_report_updater.c` -/

/-- Source function `handleUsbStackTestMode` (lines 527-546). -/
def handleUsbStackTestMode (C : updater_config_t) (st : updater_state_t) : updater_state_t :=
  if st.TestUsbStack = true then
    let testKeyState := st.KeyStates C.SlotId_LeftKeyboardHalf 0
    let st1 : updater_state_t :=
      if st.ActiveLayer = C.LayerId_Fn ∧ testKeyState.current = true ∧
          testKeyState.previous = false then
        { st with simulateKeypresses := !st.simulateKeypresses }
      else st
    if st1.simulateKeypresses = true then
      let isEven := !st1.isEven
      let st2 : updater_state_t :=
        { st1 with
          isEven := isEven
          ActiveUsbBasicKeyboardReport :=
            { st1.ActiveUsbBasicKeyboardReport with
              scancodes := st1.ActiveUsbBasicKeyboardReport.scancodes.set st1.basicScancodeIndex
                ((if isEven = true then C.HID_KEYBOARD_SC_A
                  else C.HID_KEYBOARD_SC_BACKSPACE) % 256) }
          basicScancodeIndex := (st1.basicScancodeIndex + 1) % 256
          mediaCounter := (st1.mediaCounter + 1) % 2 ^ 32 }
      let st3 : updater_state_t :=
        if st2.mediaCounter % 200 = 0 then
          { st2 with
            isEvenMedia := !st2.isEvenMedia
            ActiveUsbMediaKeyboardReport :=
              { st2.ActiveUsbMediaKeyboardReport with
                scancodes := st2.ActiveUsbMediaKeyboardReport.scancodes.set
                  st2.mediaScancodeIndex
                  (if (!st2.isEvenMedia) = true then C.MEDIA_VOLUME_DOWN
                    else C.MEDIA_VOLUME_UP) }
            mediaScancodeIndex := (st2.mediaScancodeIndex + 1) % 256 }
        else st2
      { st3 with
        MouseMoveState := { st3.MouseMoveState with xOut := if isEven = true then -5 else 5 } }
    else st1
  else st

/-- Source function `handleLayerChanges` (lines 549-558).
`LayerSwitcher_UpdateActiveLayer` leaves the new `ActiveLayer` and
`ActiveLayerHeld`. -/
def handleLayerChanges (E : foreign_t) (st : updater_state_t) : updater_state_t :=
  let st0 := recordCall st LayerSwitcher_UpdateActiveLayer
  let st1 : updater_state_t :=
    { st0 with
      ActiveLayer := (E.LayerSwitcher_UpdateActiveLayer st0).1
      ActiveLayerHeld := (E.LayerSwitcher_UpdateActiveLayer st0).2 }
  if st1.ActiveLayer ≠ st1.previousLayer then
    { st1 with previousLayer := st1.ActiveLayer, stickyModifiers := 0 }
  else st1

/-- The body of the key loop of `updateActiveUsbReports` (lines 591-616) for
the key `(slotId, keyId)`. -/
def updateActiveUsbReports_key (E : foreign_t) (C : updater_config_t) (st : updater_state_t)
    (slotId keyId : Nat) : updater_state_t :=
  let st1 := preprocessKeyState E C st slotId keyId
  if KeyState_NonZero (st1.KeyStates slotId keyId) = true then
    let st2 : updater_state_t :=
      if KeyState_ActivatedNow (st1.KeyStates slotId keyId) = true then
        let stw : updater_state_t :=
          if st1.SleepModeActive = true then recordCall st1 WakeUpHost else st1
        handleEventInterrupts
          { stw with
            actionCache := fun a b =>
              if a = slotId ∧ b = keyId then stw.CurrentKeymap stw.ActiveLayer slotId keyId
              else stw.actionCache a b }
          slotId keyId
      else st1
    let action := st2.actionCache slotId keyId
    let actionBase := st2.CurrentKeymap LayerId_Base slotId keyId
    let st3 := applyLayerHolds C st2 slotId keyId actionBase
    let st4 := applyKeyAction E C st3 slotId keyId action actionBase
    setKeyState st4 slotId keyId
      { st4.KeyStates slotId keyId with previous := (st4.KeyStates slotId keyId).current }
  else st1

/-- The key loop of `updateActiveUsbReports` (lines 589-618): slots in order, in
each slot the keys in order. -/
def updateActiveUsbReports_keys (E : foreign_t) (C : updater_config_t) (st : updater_state_t) :
    updater_state_t :=
  List.foldl
    (fun s slotId =>
      List.foldl (fun s keyId => updateActiveUsbReports_key E C s slotId keyId) s
        (List.range C.MAX_KEY_COUNT_PER_MODULE))
    st (List.range C.SLOT_COUNT)

/-- Lines 571-587 of `updateActiveUsbReports`: what the function does before
the key loop when no macro is playing. -/
def updateActiveUsbReports_start (E : foreign_t) (C : updater_config_t) (st : updater_state_t) :
    updater_state_t :=
  let st1 : updater_state_t :=
    { st with
      activeMouseStates := fun _ => false
      basicScancodeIndex := 0
      mediaScancodeIndex := 0
      systemScancodeIndex := 0 }
  let st2 := handleLayerChanges E st1
  let st3 := recordCall st2 (LedDisplay_SetLayer st2.ActiveLayer)
  let st4 := recordCall st3
    (LedDisplay_SetIcon_Agent
      (decide (sub32 st3.CurrentTime st3.LastUsbGetKeyboardStateRequestTimestamp < 1000)))
  let st5 := handleUsbStackTestMode C st4
  if E.PostponerCore_IsActive st5 = true then
    let stp := recordCall st5 PostponerCore_RunPostponedEvents
    { stp with KeyStates := E.PostponerCore_RunPostponedEvents stp }
  else st5

/-- Lines 620-627 of `updateActiveUsbReports`: what the function does after the
key loop. -/
def updateActiveUsbReports_finish (C : updater_config_t) (st : updater_state_t) :
    updater_state_t :=
  let st8 := processMouseActions C st
  let st9 := recordCall st8 PostponerCore_FinishCycle
  { st9 with
    ActiveUsbBasicKeyboardReport :=
      { st9.ActiveUsbBasicKeyboardReport with
        modifiers := st9.ActiveUsbBasicKeyboardReport.modifiers ||| st9.stickyModifiers } }

/-- Source function `updateActiveUsbReports` (lines 560-628): the macro branch,
or the start, the key loop and the finish. -/
def updateActiveUsbReports (E : foreign_t) (C : updater_config_t) (st : updater_state_t) :
    updater_state_t :=
  if st.MacroPlaying = true then
    let st0 := recordCall st Macros_ContinueMacro
    let m := E.Macros_ContinueMacro st0
    { st0 with
      MacroMouseReport := m.MacroMouseReport
      MacroBasicKeyboardReport := m.MacroBasicKeyboardReport
      MacroMediaKeyboardReport := m.MacroMediaKeyboardReport
      MacroSystemKeyboardReport := m.MacroSystemKeyboardReport
      ActiveUsbMouseReport := m.MacroMouseReport
      ActiveUsbBasicKeyboardReport := m.MacroBasicKeyboardReport
      ActiveUsbMediaKeyboardReport := m.MacroMediaKeyboardReport
      ActiveUsbSystemKeyboardReport := m.MacroSystemKeyboardReport }
  else
    updateActiveUsbReports_finish C
      (updateActiveUsbReports_keys E C (updateActiveUsbReports_start E C st))

/-- Setting bit `index` of the `uint8_t` semaphore (`|= 1 << index`). -/
def semaphoreSet (semaphore index : Nat) : Nat := (semaphore ||| 1 <<< index) % 256

/-- Clearing bit `index` of the `uint8_t` semaphore (`&= ~(1 << index)`). -/
def semaphoreClear (semaphore index : Nat) : Nat :=
  (semaphore % 256) &&& (255 ^^^ ((1 <<< index) % 256))

/-- The four send blocks of `UpdateUsbReports` have this shape (lines 663-698):
when `changed`, set the semaphore bit, invoke the send action and clear the bit
again if the send did not succeed. -/
def sendReport (st : updater_state_t) (changed : Bool) (index : Nat) (c : foreign_call_t)
    (action : updater_state_t → Bool) : updater_state_t :=
  if changed = true then
    let st1 : updater_state_t :=
      recordCall { st with UsbReportUpdateSemaphore := semaphoreSet st.UsbReportUpdateSemaphore index }
        c
    if action st1 = true then st1
    else { st1 with UsbReportUpdateSemaphore := semaphoreClear st1.UsbReportUpdateSemaphore index }
  else st

/-- The part of `UpdateUsbReports` after the semaphore check (lines 648-698).
`ResetActiveUsb*Report` are modelled from the spec: they zero the active
report. The comparisons with the inactive reports are all made before the
first send. -/
def UpdateUsbReports_run (E : foreign_t) (C : updater_config_t) (st : updater_state_t) :
    updater_state_t :=
  let st1 : updater_state_t :=
    { st with
      lastUpdateTime := st.CurrentTime
      UsbReportUpdateCounter := (st.UsbReportUpdateCounter + 1) % 2 ^ 32
      ActiveUsbBasicKeyboardReport := zeroBasicKeyboardReport
      ActiveUsbMediaKeyboardReport := zeroMediaKeyboardReport C
      ActiveUsbSystemKeyboardReport := zeroSystemKeyboardReport C
      ActiveUsbMouseReport := zeroMouseReport }
  let st2 := updateActiveUsbReports E C st1
  let HasUsbBasicKeyboardReportChanged : Bool :=
    decide (st2.ActiveUsbBasicKeyboardReport ≠ st2.InactiveUsbBasicKeyboardReport)
  let HasUsbMediaKeyboardReportChanged : Bool :=
    decide (st2.ActiveUsbMediaKeyboardReport ≠ st2.InactiveUsbMediaKeyboardReport)
  let HasUsbSystemKeyboardReportChanged : Bool :=
    decide (st2.ActiveUsbSystemKeyboardReport ≠ st2.InactiveUsbSystemKeyboardReport)
  let HasUsbMouseReportChanged : Bool :=
    decide (st2.ActiveUsbMouseReport ≠ st2.InactiveUsbMouseReport)
  let st3 := sendReport st2 HasUsbBasicKeyboardReportChanged
    USB_BASIC_KEYBOARD_INTERFACE_INDEX UsbBasicKeyboardAction E.UsbBasicKeyboardAction
  let st4 := sendReport st3 HasUsbMediaKeyboardReportChanged
    C.USB_MEDIA_KEYBOARD_INTERFACE_INDEX UsbMediaKeyboardAction E.UsbMediaKeyboardAction
  let st5 := sendReport st4 HasUsbSystemKeyboardReportChanged
    C.USB_SYSTEM_KEYBOARD_INTERFACE_INDEX UsbSystemKeyboardAction E.UsbSystemKeyboardAction
  sendReport st5
    (HasUsbMouseReportChanged || decide (st5.ActiveUsbMouseReport.x ≠ 0) ||
      decide (st5.ActiveUsbMouseReport.y ≠ 0) || decide (st5.ActiveUsbMouseReport.wheelX ≠ 0) ||
      decide (st5.ActiveUsbMouseReport.wheelY ≠ 0))
    C.USB_MOUSE_INTERFACE_INDEX UsbMouseAction E.UsbMouseAction

/-- Source function `UpdateUsbReports` (lines 632-699). `Timer_GetElapsedTime`
is modelled from the spec: `CurrentTime` minus the stored time. -/
def UpdateUsbReports (E : foreign_t) (C : updater_config_t) (st : updater_state_t) :
    updater_state_t :=
  let st1 : updater_state_t :=
    { st with
      KeyStates := fun slotId keyId =>
        if slotId = C.SlotId_RightKeyboardHalf ∧ keyId < C.RIGHT_KEY_MATRIX_KEY_COUNT then
          { st.KeyStates slotId keyId with hardwareSwitchState := st.RightKeyMatrix_keyStates keyId }
        else st.KeyStates slotId keyId }
  if st1.UsbReportUpdateSemaphore ≠ 0 ∧ st1.SleepModeActive = false then
    if sub32 st1.CurrentTime st1.lastUpdateTime < C.USB_SEMAPHORE_TIMEOUT then st1
    else UpdateUsbReports_run E C { st1 with UsbReportUpdateSemaphore := 0 }
  else UpdateUsbReports_run E C st1

/-! ## Inputs of the statements about the update cycle -/

/-- A key action of type None with all members zero. -/
def noAction : key_action_t :=
  { type := KeyActionType_None
    keystroke :=
      { keystrokeType := KeystrokeType_Basic, scancode := 0, modifiers := 0, secondaryRole := 0 }
    mouseAction := .SerializedMouseAction_LeftClick
    switchLayer := { layer := 0, mode := SwitchLayerMode_HoldAndDoubleTapToggle }
    switchKeymap := { keymapId := 0 }
    playMacro := { macroId := 0 } }

/-- A key state at rest: nothing pressed, no debounce window open. -/
def idleKeyState : key_state_t :=
  { hardwareSwitchState := false, debouncedSwitchState := false, debouncing := false,
    timestamp := 0, current := false, previous := false }

/-- An example configuration: four slots of 64 keys, debounce times of 50 ms,
secondary roles 1..8 are modifiers and 9..11 are layer switchers. -/
def exampleConfig : updater_config_t :=
  { SLOT_COUNT := 4
    MAX_KEY_COUNT_PER_MODULE := 64
    RIGHT_KEY_MATRIX_KEY_COUNT := 35
    SlotId_RightKeyboardHalf := 0
    SlotId_LeftKeyboardHalf := 1
    LayerId_Fn := 2
    ModuleId_KeyClusterLeft := 2
    USB_MEDIA_KEYBOARD_MAX_KEYS := 4
    USB_SYSTEM_KEYBOARD_MAX_KEYS := 1
    USB_MEDIA_KEYBOARD_INTERFACE_INDEX := 2
    USB_SYSTEM_KEYBOARD_INTERFACE_INDEX := 3
    USB_MOUSE_INTERFACE_INDEX := 0
    USB_SEMAPHORE_TIMEOUT := 100
    DebounceTimePress := 50
    DebounceTimeRelease := 50
    IS_SECONDARY_ROLE_LAYER_SWITCHER := fun r => decide (9 ≤ r ∧ r ≤ 11)
    IS_SECONDARY_ROLE_MODIFIER := fun r => decide (1 ≤ r ∧ r ≤ 8)
    SECONDARY_ROLE_LAYER_TO_LAYER_ID := fun r => r - 8
    SECONDARY_ROLE_MODIFIER_TO_HID_MODIFIER := fun r => 1 <<< (r - 1)
    HID_KEYBOARD_SC_A := 4
    HID_KEYBOARD_SC_BACKSPACE := 42
    MEDIA_VOLUME_DOWN := 234
    MEDIA_VOLUME_UP := 233 }

/-- Example behaviour of the other modules: the postponer is never active, the
layer switcher keeps the active layer, secondary roles resolve to Primary, a
keymap switch and the macro engine leave things as they are, every USB send
succeeds. -/
def exampleForeign : foreign_t :=
  { LayerSwitcher_UpdateActiveLayer := fun st => (st.ActiveLayer, st.ActiveLayerHeld)
    PostponerCore_IsActive := fun _ => false
    PostponerCore_RunPostponedEvents := fun st => st.KeyStates
    SecondaryRoles_ResolveState := fun _ _ _ => SecondaryRoleState_Primary
    SwitchKeymapById := fun st _ => st.CurrentKeymap
    Macros_ContinueMacro := fun st =>
      { MacroMouseReport := st.MacroMouseReport
        MacroBasicKeyboardReport := st.MacroBasicKeyboardReport
        MacroMediaKeyboardReport := st.MacroMediaKeyboardReport
        MacroSystemKeyboardReport := st.MacroSystemKeyboardReport }
    UsbBasicKeyboardAction := fun _ => true
    UsbMediaKeyboardAction := fun _ => true
    UsbSystemKeyboardAction := fun _ => true
    UsbMouseAction := fun _ => true }

/-- The state at boot for a configuration: every variable zero, every key at
rest, an empty keymap, all reports zero, the kinetic states as initialized
(lines 34-64 give them the values of `mouse_controller.c`; `axisSkew` is not a
field in this file and is not read). -/
def initialUpdaterState (C : updater_config_t) : updater_state_t :=
  { mouseUsbReportUpdateTime := 0
    mouseElapsedTime := 0
    activeMouseStates := fun _ => false
    TestUsbStack := false
    actionCache := fun _ _ => noAction
    UsbReportUpdateSemaphore := 0
    MouseMoveState := MouseController.MouseMoveState_init
    MouseScrollState := MouseController.MouseScrollState_init
    basicScancodeIndex := 0
    mediaScancodeIndex := 0
    systemScancodeIndex := 0
    stickyModifiers := 0
    stickyModifierKey := none
    stickyModifierShouldStick := false
    LastUsbGetKeyboardStateRequestTimestamp := 0
    UsbReportUpdateCounter := 0
    simulateKeypresses := false
    isEven := false
    isEvenMedia := false
    mediaCounter := 0
    previousLayer := LayerId_Base
    lastUpdateTime := 0
    CurrentTime := 0
    KeyStates := fun _ _ => idleKeyState
    RightKeyMatrix_keyStates := fun _ => false
    CurrentKeymap := fun _ _ _ => noAction
    ActiveLayer := LayerId_Base
    ActiveLayerHeld := false
    MacroPlaying := false
    MacroMouseReport := zeroMouseReport
    MacroBasicKeyboardReport := zeroBasicKeyboardReport
    MacroMediaKeyboardReport := zeroMediaKeyboardReport C
    MacroSystemKeyboardReport := zeroSystemKeyboardReport C
    SleepModeActive := false
    TouchpadUsbMouseReport := zeroMouseReport
    UhkModuleStates := fun _ => { moduleId := 0, pointerCount := 0, pointerDelta := { x := 0, y := 0 } }
    ActiveUsbBasicKeyboardReport := zeroBasicKeyboardReport
    ActiveUsbMediaKeyboardReport := zeroMediaKeyboardReport C
    ActiveUsbSystemKeyboardReport := zeroSystemKeyboardReport C
    ActiveUsbMouseReport := zeroMouseReport
    InactiveUsbBasicKeyboardReport := zeroBasicKeyboardReport
    InactiveUsbMediaKeyboardReport := zeroMediaKeyboardReport C
    InactiveUsbSystemKeyboardReport := zeroSystemKeyboardReport C
    InactiveUsbMouseReport := zeroMouseReport
    calls := [] }

/-- A key whose debounce window is open: the last edge was stamped at time 0
and the key is at rest (`previous` is false, so the release threshold applies). -/
def debouncingKeyState : key_state_t :=
  { idleKeyState with debouncing := true }

/-- The boot state 256 ms later with key 0 of slot 0 still in its debounce
window. -/
def stateDebouncingAt256 : updater_state_t :=
  { initialUpdaterState exampleConfig with
    CurrentTime := 256
    KeyStates := fun a b => if a = 0 ∧ b = 0 then debouncingKeyState else idleKeyState }

/-- The boot state 60 ms later with key 0 of slot 0 still in its debounce
window. -/
def stateDebouncingAt60 : updater_state_t :=
  { initialUpdaterState exampleConfig with
    CurrentTime := 60
    KeyStates := fun a b => if a = 0 ∧ b = 0 then debouncingKeyState else idleKeyState }

/-- A key that has just been pressed: `current` is set, `previous` is not. -/
def activatedKeyState : key_state_t :=
  { hardwareSwitchState := true, debouncedSwitchState := true, debouncing := true,
    timestamp := 0, current := true, previous := false }

/-- A key that is held: `current` and `previous` are set. -/
def heldKeyState : key_state_t :=
  { hardwareSwitchState := true, debouncedSwitchState := true, debouncing := false,
    timestamp := 0, current := true, previous := true }

/-- A keystroke action without secondary role. -/
def keystrokeAction (t : keystroke_type_t) (scancode modifiers : Nat) : key_action_t :=
  { noAction with
    type := KeyActionType_Keystroke
    keystroke :=
      { keystrokeType := t, scancode := scancode, modifiers := modifiers, secondaryRole := 0 } }

/-- A cycle in which six basic scancodes have already been written and key 0 of
slot 0 has just been pressed; `stickyModifiers` is 0. -/
def stateBasicReportFull : updater_state_t :=
  { initialUpdaterState exampleConfig with
    basicScancodeIndex := 6
    ActiveUsbBasicKeyboardReport :=
      { modifiers := 0, reserved := 0, scancodes := [10, 11, 12, 13, 14, 15] }
    KeyStates := fun a b => if a = 0 ∧ b = 0 then activatedKeyState else idleKeyState }

/-- A cycle in which nothing has been written yet and key 0 of slot 0 is held. -/
def stateKeyHeld : updater_state_t :=
  { initialUpdaterState exampleConfig with
    KeyStates := fun a b => if a = 0 ∧ b = 0 then heldKeyState else idleKeyState }

/-- The matching scancode array of a keystroke has a free slot: the write index
of the array of its keystroke type is below the capacity of that array. -/
def hasFreeSlot (C : updater_config_t) (st : updater_state_t) (action : key_action_t) : Prop :=
  match action.keystroke.keystrokeType with
  | KeystrokeType_Basic => st.basicScancodeIndex < USB_BASIC_KEYBOARD_MAX_KEYS
  | KeystrokeType_Media => st.mediaScancodeIndex < C.USB_MEDIA_KEYBOARD_MAX_KEYS
  | KeystrokeType_System => st.systemScancodeIndex < C.USB_SYSTEM_KEYBOARD_MAX_KEYS

/-- The scancode of a keystroke is appended to its report between `st` and
`st1`: it is written at the write index of the array of its keystroke type (as a
byte in the basic report), that index advances by one, and the other two arrays
and indices are as before. -/
def scancodeAppended (st st1 : updater_state_t) (action : key_action_t) : Prop :=
  match action.keystroke.keystrokeType with
  | KeystrokeType_Basic =>
    st1.ActiveUsbBasicKeyboardReport.scancodes
      = st.ActiveUsbBasicKeyboardReport.scancodes.set st.basicScancodeIndex
          (action.keystroke.scancode % 256) ∧
    st1.basicScancodeIndex = st.basicScancodeIndex + 1 ∧
    st1.ActiveUsbMediaKeyboardReport = st.ActiveUsbMediaKeyboardReport ∧
    st1.mediaScancodeIndex = st.mediaScancodeIndex ∧
    st1.ActiveUsbSystemKeyboardReport = st.ActiveUsbSystemKeyboardReport ∧
    st1.systemScancodeIndex = st.systemScancodeIndex
  | KeystrokeType_Media =>
    st1.ActiveUsbMediaKeyboardReport.scancodes
      = st.ActiveUsbMediaKeyboardReport.scancodes.set st.mediaScancodeIndex
          action.keystroke.scancode ∧
    st1.mediaScancodeIndex = st.mediaScancodeIndex + 1 ∧
    st1.ActiveUsbBasicKeyboardReport.scancodes = st.ActiveUsbBasicKeyboardReport.scancodes ∧
    st1.basicScancodeIndex = st.basicScancodeIndex ∧
    st1.ActiveUsbSystemKeyboardReport = st.ActiveUsbSystemKeyboardReport ∧
    st1.systemScancodeIndex = st.systemScancodeIndex
  | KeystrokeType_System =>
    st1.ActiveUsbSystemKeyboardReport.scancodes
      = st.ActiveUsbSystemKeyboardReport.scancodes.set st.systemScancodeIndex
          action.keystroke.scancode ∧
    st1.systemScancodeIndex = st.systemScancodeIndex + 1 ∧
    st1.ActiveUsbBasicKeyboardReport.scancodes = st.ActiveUsbBasicKeyboardReport.scancodes ∧
    st1.basicScancodeIndex = st.basicScancodeIndex ∧
    st1.ActiveUsbMediaKeyboardReport = st.ActiveUsbMediaKeyboardReport ∧
    st1.mediaScancodeIndex = st.mediaScancodeIndex

/-- No scancode array and no write index differs between `st` and `st1`. -/
def scancodesUnchanged (st st1 : updater_state_t) : Prop :=
  st1.ActiveUsbBasicKeyboardReport.scancodes = st.ActiveUsbBasicKeyboardReport.scancodes ∧
  st1.basicScancodeIndex = st.basicScancodeIndex ∧
  st1.ActiveUsbMediaKeyboardReport = st.ActiveUsbMediaKeyboardReport ∧
  st1.mediaScancodeIndex = st.mediaScancodeIndex ∧
  st1.ActiveUsbSystemKeyboardReport = st.ActiveUsbSystemKeyboardReport ∧
  st1.systemScancodeIndex = st.systemScancodeIndex

/-- A key at rest: the switch is open, the debounced state and the logical
state are "released" and were so in the previous cycle (a debounce window may
still be open). -/
def keyAtRest (s : key_state_t) : Prop :=
  s.hardwareSwitchState = false ∧ s.debouncedSwitchState = false ∧
  s.current = false ∧ s.previous = false

/-- The state in which `updateActiveUsbReports`, started from `st` with no macro
playing, calls `LayerSwitcher_UpdateActiveLayer`: the mouse states and the write
indices have been cleared and the call is recorded. -/
def layerQueryState (st : updater_state_t) : updater_state_t :=
  recordCall
    { st with
      activeMouseStates := fun _ => false
      basicScancodeIndex := 0
      mediaScancodeIndex := 0
      systemScancodeIndex := 0 }
    LayerSwitcher_UpdateActiveLayer

/-- What the start of a cycle (lines 571-587) leaves when the USB test mode is
off and the postponer is inactive: `s` is the state before the key loop of a
cycle started from `st`. -/
structure startFacts (E : foreign_t) (st s : updater_state_t) : Prop where
  KeyStates : s.KeyStates = st.KeyStates
  actionCache : s.actionCache = st.actionCache
  CurrentKeymap : s.CurrentKeymap = st.CurrentKeymap
  CurrentTime : s.CurrentTime = st.CurrentTime
  SleepModeActive : s.SleepModeActive = st.SleepModeActive
  basic : s.ActiveUsbBasicKeyboardReport = st.ActiveUsbBasicKeyboardReport
  media : s.ActiveUsbMediaKeyboardReport = st.ActiveUsbMediaKeyboardReport
  system : s.ActiveUsbSystemKeyboardReport = st.ActiveUsbSystemKeyboardReport
  mouse : s.ActiveUsbMouseReport = st.ActiveUsbMouseReport
  inactiveBasic : s.InactiveUsbBasicKeyboardReport = st.InactiveUsbBasicKeyboardReport
  inactiveMedia : s.InactiveUsbMediaKeyboardReport = st.InactiveUsbMediaKeyboardReport
  inactiveSystem : s.InactiveUsbSystemKeyboardReport = st.InactiveUsbSystemKeyboardReport
  inactiveMouse : s.InactiveUsbMouseReport = st.InactiveUsbMouseReport
  basicIndex : s.basicScancodeIndex = 0
  mediaIndex : s.mediaScancodeIndex = 0
  systemIndex : s.systemScancodeIndex = 0
  activeMouseStates : s.activeMouseStates = fun _ => false
  MouseMoveState : s.MouseMoveState = st.MouseMoveState
  MouseScrollState : s.MouseScrollState = st.MouseScrollState
  Touchpad : s.TouchpadUsbMouseReport = st.TouchpadUsbMouseReport
  Modules : s.UhkModuleStates = st.UhkModuleStates
  semaphore : s.UsbReportUpdateSemaphore = st.UsbReportUpdateSemaphore
  ActiveLayer : s.ActiveLayer = (E.LayerSwitcher_UpdateActiveLayer (layerQueryState st)).1
  ActiveLayerHeld :
    s.ActiveLayerHeld = (E.LayerSwitcher_UpdateActiveLayer (layerQueryState st)).2
  previousLayer : s.previousLayer = (E.LayerSwitcher_UpdateActiveLayer (layerQueryState st)).1
  stickyModifiers :
    s.stickyModifiers
      = if (E.LayerSwitcher_UpdateActiveLayer (layerQueryState st)).1 ≠ st.previousLayer then 0
        else st.stickyModifiers
  stickyModifierKey : s.stickyModifierKey = st.stickyModifierKey
  stickyModifierShouldStick : s.stickyModifierShouldStick = st.stickyModifierShouldStick
  calls :
    s.calls = st.calls ++
      [LayerSwitcher_UpdateActiveLayer,
        LedDisplay_SetLayer (E.LayerSwitcher_UpdateActiveLayer (layerQueryState st)).1,
        LedDisplay_SetIcon_Agent
          (decide (sub32 st.CurrentTime st.LastUsbGetKeyboardStateRequestTimestamp < 1000))]

/-- What the finish of a cycle (lines 620-627) leaves in the variables other
than those of the mouse: `s` is the state after the finish applied to `st`. -/
structure finishFacts (st s : updater_state_t) : Prop where
  basic :
    s.ActiveUsbBasicKeyboardReport
      = { st.ActiveUsbBasicKeyboardReport with
          modifiers := st.ActiveUsbBasicKeyboardReport.modifiers ||| st.stickyModifiers }
  media : s.ActiveUsbMediaKeyboardReport = st.ActiveUsbMediaKeyboardReport
  system : s.ActiveUsbSystemKeyboardReport = st.ActiveUsbSystemKeyboardReport
  inactiveBasic : s.InactiveUsbBasicKeyboardReport = st.InactiveUsbBasicKeyboardReport
  inactiveMedia : s.InactiveUsbMediaKeyboardReport = st.InactiveUsbMediaKeyboardReport
  inactiveSystem : s.InactiveUsbSystemKeyboardReport = st.InactiveUsbSystemKeyboardReport
  inactiveMouse : s.InactiveUsbMouseReport = st.InactiveUsbMouseReport
  KeyStates : s.KeyStates = st.KeyStates
  actionCache : s.actionCache = st.actionCache
  semaphore : s.UsbReportUpdateSemaphore = st.UsbReportUpdateSemaphore
  stickyModifiers : s.stickyModifiers = st.stickyModifiers
  stickyModifierKey : s.stickyModifierKey = st.stickyModifierKey
  stickyModifierShouldStick : s.stickyModifierShouldStick = st.stickyModifierShouldStick
  previousLayer : s.previousLayer = st.previousLayer
  calls : s.calls = st.calls ++ [PostponerCore_FinishCycle]

/-- The variables that `processMouseActions` does not write: `s` agrees with
`st` on the keyboard reports, the inactive reports, the key states, the sticky
variables, the semaphore and the trace. -/
structure mouseFrame (st s : updater_state_t) : Prop where
  basic : s.ActiveUsbBasicKeyboardReport = st.ActiveUsbBasicKeyboardReport
  media : s.ActiveUsbMediaKeyboardReport = st.ActiveUsbMediaKeyboardReport
  system : s.ActiveUsbSystemKeyboardReport = st.ActiveUsbSystemKeyboardReport
  inactiveBasic : s.InactiveUsbBasicKeyboardReport = st.InactiveUsbBasicKeyboardReport
  inactiveMedia : s.InactiveUsbMediaKeyboardReport = st.InactiveUsbMediaKeyboardReport
  inactiveSystem : s.InactiveUsbSystemKeyboardReport = st.InactiveUsbSystemKeyboardReport
  inactiveMouse : s.InactiveUsbMouseReport = st.InactiveUsbMouseReport
  KeyStates : s.KeyStates = st.KeyStates
  actionCache : s.actionCache = st.actionCache
  semaphore : s.UsbReportUpdateSemaphore = st.UsbReportUpdateSemaphore
  stickyModifiers : s.stickyModifiers = st.stickyModifiers
  stickyModifierKey : s.stickyModifierKey = st.stickyModifierKey
  stickyModifierShouldStick : s.stickyModifierShouldStick = st.stickyModifierShouldStick
  previousLayer : s.previousLayer = st.previousLayer
  activeMouseStates : s.activeMouseStates = st.activeMouseStates
  calls : s.calls = st.calls

/-- The boot state with a basic keyboard report still in flight: the semaphore
bit of the basic keyboard interface is set and the active basic report carries
LeftAlt. -/
def stateSemaphoreBusy : updater_state_t :=
  { initialUpdaterState exampleConfig with
    UsbReportUpdateSemaphore := 2
    ActiveUsbBasicKeyboardReport :=
      { zeroBasicKeyboardReport with modifiers := HID_KEYBOARD_MODIFIER_LEFTALT } }

/-- What a cycle of `updateActiveUsbReports` started from `st` leaves in `s`
when every key is at rest: the basic report gains the sticky modifiers that
outlive the layer check, nothing else is written into the keyboard reports, and
the only calls are those of the start and the finish of the cycle. -/
structure restCycleFacts (E : foreign_t) (st s : updater_state_t) : Prop where
  basic :
    s.ActiveUsbBasicKeyboardReport
      = { st.ActiveUsbBasicKeyboardReport with
          modifiers := st.ActiveUsbBasicKeyboardReport.modifiers |||
            (if (E.LayerSwitcher_UpdateActiveLayer (layerQueryState st)).1 ≠ st.previousLayer
              then 0 else st.stickyModifiers) }
  media : s.ActiveUsbMediaKeyboardReport = st.ActiveUsbMediaKeyboardReport
  system : s.ActiveUsbSystemKeyboardReport = st.ActiveUsbSystemKeyboardReport
  mouse :
    st.MouseMoveState.xOut = 0 ∧ st.MouseMoveState.yOut = 0 →
    st.MouseScrollState.xOut = 0 ∧ st.MouseScrollState.yOut = 0 →
    st.TouchpadUsbMouseReport.x = 0 ∧ st.TouchpadUsbMouseReport.y = 0 →
    (∀ i, i < UHK_MODULE_MAX_COUNT →
      (st.UhkModuleStates i).pointerDelta = { x := 0, y := 0 }) →
    st.ActiveUsbMouseReport = zeroMouseReport →
    s.ActiveUsbMouseReport = zeroMouseReport
  inactiveBasic : s.InactiveUsbBasicKeyboardReport = st.InactiveUsbBasicKeyboardReport
  inactiveMedia : s.InactiveUsbMediaKeyboardReport = st.InactiveUsbMediaKeyboardReport
  inactiveSystem : s.InactiveUsbSystemKeyboardReport = st.InactiveUsbSystemKeyboardReport
  inactiveMouse : s.InactiveUsbMouseReport = st.InactiveUsbMouseReport
  semaphore : s.UsbReportUpdateSemaphore = st.UsbReportUpdateSemaphore
  stickyModifiers :
    s.stickyModifiers
      = if (E.LayerSwitcher_UpdateActiveLayer (layerQueryState st)).1 ≠ st.previousLayer then 0
        else st.stickyModifiers
  stickyModifierKey : s.stickyModifierKey = st.stickyModifierKey
  stickyModifierShouldStick : s.stickyModifierShouldStick = st.stickyModifierShouldStick
  actionCache : s.actionCache = st.actionCache
  keys : ∀ a b, keyAtRest (s.KeyStates a b)
  calls :
    s.calls = st.calls ++
      [LayerSwitcher_UpdateActiveLayer,
        LedDisplay_SetLayer (E.LayerSwitcher_UpdateActiveLayer (layerQueryState st)).1,
        LedDisplay_SetIcon_Agent
          (decide (sub32 st.CurrentTime st.LastUsbGetKeyboardStateRequestTimestamp < 1000)),
        PostponerCore_FinishCycle]

/-- The variables that the loop body reads and writes when it processes a
keystroke key `(slotId, keyId)` without secondary role: the basic report and its
write index, the sticky-modifier variables, the key's cache entry and key
state, and (read only) the key's action on the active layer, `ActiveLayerHeld`,
`CurrentTime` and `previousLayer`. -/
structure key_view_t where
  report : usb_basic_keyboard_report_t
  basicScancodeIndex : Nat
  stickyModifiers : Nat
  stickyModifierKey : Option (Nat × Nat)
  stickyModifierShouldStick : Bool
  cached : key_action_t
  key : key_state_t
  mapped : key_action_t
  ActiveLayerHeld : Bool
  CurrentTime : Nat
  previousLayer : Nat

/-- The values of the variables of `key_view_t` in a state. -/
def keyView (st : updater_state_t) (slotId keyId : Nat) : key_view_t :=
  { report := st.ActiveUsbBasicKeyboardReport
    basicScancodeIndex := st.basicScancodeIndex
    stickyModifiers := st.stickyModifiers
    stickyModifierKey := st.stickyModifierKey
    stickyModifierShouldStick := st.stickyModifierShouldStick
    cached := st.actionCache slotId keyId
    key := st.KeyStates slotId keyId
    mapped := st.CurrentKeymap st.ActiveLayer slotId keyId
    ActiveLayerHeld := st.ActiveLayerHeld
    CurrentTime := st.CurrentTime
    previousLayer := st.previousLayer }

/-- Every key but `(slotId, keyId)` is at rest. -/
def othersAtRest (st : updater_state_t) (slotId keyId : Nat) : Prop :=
  ∀ a b, ¬ (a = slotId ∧ b = keyId) → keyAtRest (st.KeyStates a b)

/-- The view of the key `(slotId, keyId)` at the start of the key loop of a cycle
started from `st` with no macro playing, test mode off and the postponer
inactive: the layer has been updated, the sticky modifiers cleared if the layer
changed, the write index reset. -/
def cycleStartView (E : foreign_t) (st : updater_state_t) (slotId keyId : Nat) : key_view_t :=
  { report := st.ActiveUsbBasicKeyboardReport
    basicScancodeIndex := 0
    stickyModifiers :=
      if (E.LayerSwitcher_UpdateActiveLayer (layerQueryState st)).1 ≠ st.previousLayer then 0
      else st.stickyModifiers
    stickyModifierKey := st.stickyModifierKey
    stickyModifierShouldStick := st.stickyModifierShouldStick
    cached := st.actionCache slotId keyId
    key := st.KeyStates slotId keyId
    mapped :=
      st.CurrentKeymap (E.LayerSwitcher_UpdateActiveLayer (layerQueryState st)).1 slotId keyId
    ActiveLayerHeld := (E.LayerSwitcher_UpdateActiveLayer (layerQueryState st)).2
    CurrentTime := st.CurrentTime
    previousLayer := (E.LayerSwitcher_UpdateActiveLayer (layerQueryState st)).1 }

/-- A key whose switch has just opened after the key was held: the debounced
state and the logical state are still "pressed". -/
def releasedKeyState : key_state_t :=
  { hardwareSwitchState := false, debouncedSwitchState := true, debouncing := false,
    timestamp := 0, current := true, previous := true }

/-- A cycle in which key 0 of slot 0 is released; its cached action is Tab with
LeftAlt, it owns the sticky modifiers (LeftAlt) and they are not to stick. -/
def stateKeyReleased : updater_state_t :=
  { initialUpdaterState exampleConfig with
    KeyStates := fun a b => if a = 0 ∧ b = 0 then releasedKeyState else idleKeyState
    actionCache := fun a b =>
      if a = 0 ∧ b = 0 then
        keystrokeAction KeystrokeType_Basic HID_KEYBOARD_SC_TAB HID_KEYBOARD_MODIFIER_LEFTALT
      else noAction
    stickyModifiers := HID_KEYBOARD_MODIFIER_LEFTALT
    stickyModifierKey := some (0, 0)
    stickyModifierShouldStick := false }

/-- The state `s1` can be the one in which `updateActiveUsbReports` starts the
cycle that follows a cycle ending in `s`: the static variables of the file
(action cache, sticky modifiers, `previousLayer`) and the key states apart from
`hardwareSwitchState` are as the last cycle left them, `UpdateUsbReports` has
reset the basic report (line 651), no macro is playing and the USB test mode is
off. Time, switches, keymap and layer are inputs of the new cycle. -/
def nextCycleStart (s s1 : updater_state_t) : Prop :=
  (∀ a b,
    (s1.KeyStates a b).debouncedSwitchState = (s.KeyStates a b).debouncedSwitchState ∧
    (s1.KeyStates a b).debouncing = (s.KeyStates a b).debouncing ∧
    (s1.KeyStates a b).timestamp = (s.KeyStates a b).timestamp ∧
    (s1.KeyStates a b).current = (s.KeyStates a b).current ∧
    (s1.KeyStates a b).previous = (s.KeyStates a b).previous) ∧
  s1.actionCache = s.actionCache ∧
  s1.stickyModifiers = s.stickyModifiers ∧
  s1.stickyModifierKey = s.stickyModifierKey ∧
  s1.stickyModifierShouldStick = s.stickyModifierShouldStick ∧
  s1.previousLayer = s.previousLayer ∧
  s1.ActiveUsbBasicKeyboardReport = zeroBasicKeyboardReport ∧
  s1.MacroPlaying = false ∧
  s1.TestUsbStack = false

/-- The keystroke Tab with the modifier LeftAlt, no secondary role. -/
def altTabAction : key_action_t :=
  keystrokeAction KeystrokeType_Basic HID_KEYBOARD_SC_TAB HID_KEYBOARD_MODIFIER_LEFTALT

/-- A key whose switch has just closed: nothing committed yet. -/
def pressedKeyState : key_state_t :=
  { hardwareSwitchState := true, debouncedSwitchState := false, debouncing := false,
    timestamp := 0, current := false, previous := false }

/-- A keystroke action with a secondary role. -/
def secondaryRoleAction (scancode secondaryRole : Nat) : key_action_t :=
  { noAction with
    type := KeyActionType_Keystroke
    keystroke :=
      { keystrokeType := KeystrokeType_Basic, scancode := scancode, modifiers := 0,
        secondaryRole := secondaryRole } }

/-- The variables that only `UpdateUsbReports` itself writes: the semaphore,
`lastUpdateTime` and `UsbReportUpdateCounter`. -/
def sendVars (st : updater_state_t) : Nat × Nat × Nat :=
  (st.UsbReportUpdateSemaphore, st.lastUpdateTime, st.UsbReportUpdateCounter)

/-- The state after `UpdateUsbReports` has sampled the right-half matrix (lines
634-636). -/
def sampledState (C : updater_config_t) (st : updater_state_t) : updater_state_t :=
  { st with
    KeyStates := fun slotId keyId =>
      if slotId = C.SlotId_RightKeyboardHalf ∧ keyId < C.RIGHT_KEY_MATRIX_KEY_COUNT then
        { st.KeyStates slotId keyId with hardwareSwitchState := st.RightKeyMatrix_keyStates keyId }
      else st.KeyStates slotId keyId }

/-- The state in which `UpdateUsbReports` calls `updateActiveUsbReports` (lines
648-656): the time and the counter are updated and the four active reports are
reset. -/
def rebuiltState (C : updater_config_t) (st : updater_state_t) : updater_state_t :=
  { st with
    lastUpdateTime := st.CurrentTime
    UsbReportUpdateCounter := (st.UsbReportUpdateCounter + 1) % 2 ^ 32
    ActiveUsbBasicKeyboardReport := zeroBasicKeyboardReport
    ActiveUsbMediaKeyboardReport := zeroMediaKeyboardReport C
    ActiveUsbSystemKeyboardReport := zeroSystemKeyboardReport C
    ActiveUsbMouseReport := zeroMouseReport }

/-- The state in which the send action of a send block runs: the semaphore bit
of the interface is set and the call is in the trace. -/
def sendState (st : updater_state_t) (index : Nat) (c : foreign_call_t) : updater_state_t :=
  recordCall { st with UsbReportUpdateSemaphore := semaphoreSet st.UsbReportUpdateSemaphore index }
    c

/-- A SwitchLayer action to a layer in a mode. -/
def switchLayerAction (layer : Nat) (mode : switch_layer_mode_t) : key_action_t :=
  { noAction with
    type := KeyActionType_SwitchLayer
    switchLayer := { layer := layer, mode := mode } }

/-- The state of the loop body at a key after `preprocessKeyState` and, for a
key that is ActivatedNow, after the wake-up call, the update of the action
cache and `handleEventInterrupts` (lines 596-605): the state in which the
cached action and the base action are read. -/
def keyCacheState (E : foreign_t) (C : updater_config_t) (st : updater_state_t)
    (slotId keyId : Nat) : updater_state_t :=
  let st1 := preprocessKeyState E C st slotId keyId
  if KeyState_ActivatedNow (st1.KeyStates slotId keyId) = true then
    let stw : updater_state_t :=
      if st1.SleepModeActive = true then recordCall st1 WakeUpHost else st1
    handleEventInterrupts
      { stw with
        actionCache := fun a b =>
          if a = slotId ∧ b = keyId then stw.CurrentKeymap stw.ActiveLayer slotId keyId
          else stw.actionCache a b }
      slotId keyId
  else st1

/-- A Mouse action. -/
def mouseKeyAction (a : MouseController.serialized_mouse_action_t) : key_action_t :=
  { noAction with type := KeyActionType_Mouse, mouseAction := a }

/-- The boot state with key (0, 0) in its release cycle (the switch is open,
the debounce window is over) and a cached Mouse action MoveRight. -/
def stateMouseKeyReleased : updater_state_t :=
  { initialUpdaterState exampleConfig with
    KeyStates := fun a b => if a = 0 ∧ b = 0 then releasedKeyState else idleKeyState
    actionCache := fun a b =>
      if a = 0 ∧ b = 0 then mouseKeyAction .SerializedMouseAction_MoveRight else noAction }

/-- A key that holds a layer: its cached action is a SwitchLayer action and the
key has been held (the debounced state and the logical state are "pressed", in
this cycle and the previous one); its switch may be closed or already open. -/
def keyHoldsLayer (st : updater_state_t) (slotId keyId : Nat) : Prop :=
  (st.actionCache slotId keyId).type = KeyActionType_SwitchLayer ∧
  (st.KeyStates slotId keyId).debouncedSwitchState = true ∧
  (st.KeyStates slotId keyId).current = true ∧
  (st.KeyStates slotId keyId).previous = true

/-- Every key but `(slotId, keyId)` is at rest or holds a layer. -/
def othersQuiet (st : updater_state_t) (slotId keyId : Nat) : Prop :=
  ∀ a b, ¬ (a = slotId ∧ b = keyId) → keyAtRest (st.KeyStates a b) ∨ keyHoldsLayer st a b

/-- The keys other than `(slotId, keyId)` in `s1` compared with `s`: a key at
rest in `s` is at rest in `s1`, a key that holds a layer in `s` holds it in
`s1` or is at rest there, and it holds it in `s1`, with its switch closed,
when its switch is closed in `s`. -/
def othersKept (s s1 : updater_state_t) (slotId keyId : Nat) : Prop :=
  ∀ a b, ¬ (a = slotId ∧ b = keyId) →
    (keyAtRest (s.KeyStates a b) → keyAtRest (s1.KeyStates a b)) ∧
    (keyHoldsLayer s a b → keyAtRest (s1.KeyStates a b) ∨ keyHoldsLayer s1 a b) ∧
    (keyHoldsLayer s a b → (s.KeyStates a b).hardwareSwitchState = true →
      keyHoldsLayer s1 a b ∧ (s1.KeyStates a b).hardwareSwitchState = true)

/-- The start of a next cycle after the state `s`: the basic report is reset,
the time is `t`, the switch of key 0 of slot 0 is closed exactly when
`pressed`, and every other switch is as it was. -/
def stateNextCycleKey (s : updater_state_t) (t : Nat) (pressed : Bool) : updater_state_t :=
  { s with
    CurrentTime := t
    KeyStates := fun a b =>
      if a = 0 ∧ b = 0 then { s.KeyStates a b with hardwareSwitchState := pressed }
      else s.KeyStates a b
    ActiveUsbBasicKeyboardReport := zeroBasicKeyboardReport
    MacroPlaying := false
    TestUsbStack := false }

/-- Modelled from the spec: the layer that the calls of a trace ask the layer
switcher to hold at its next update. The argument is a trace with the latest
call first; the latest `LayerSwitcher_HoldLayer` recorded after the previous
`LayerSwitcher_UpdateActiveLayer` counts. -/
def heldLayerOf : List foreign_call_t → Option Nat
  | [] => none
  | LayerSwitcher_HoldLayer layer :: _ => some layer
  | LayerSwitcher_UpdateActiveLayer :: _ => none
  | _ :: calls => heldLayerOf calls

/-- Modelled from the spec: a layer switcher that only holds layers (no layer
is toggled). `LayerSwitcher_UpdateActiveLayer` makes the layer of the latest
`LayerSwitcher_HoldLayer` call since its previous call the active layer, held
(`ActiveLayerHeld` true, a hold is the reason); without such a call the base
layer is active and not held. The state it is given is the one in which its
own call has just been recorded, so the last entry of the trace is skipped.
Everything else is as in `exampleForeign`. -/
def holdingLayerForeign : foreign_t :=
  { exampleForeign with
    LayerSwitcher_UpdateActiveLayer := fun st =>
      match heldLayerOf st.calls.reverse.tail with
      | some layer => (layer, true)
      | none => (LayerId_Base, false) }

/-- Scenario S3 with the key that holds the layer, cycle N: key 1 of slot 0 is
steadily held, its action (on the base layer and in the cache) is SwitchLayer
to layer 1 in mode Hold, and the previous cycle has recorded its
`LayerSwitcher_HoldLayer` call, so that layer 1 is the active layer; key 0 of
slot 0, Alt+Tab on every layer, has just been pressed; `stickyModifiers` is
0. -/
def stateLayerAltTabPressed : updater_state_t :=
  { initialUpdaterState exampleConfig with
    KeyStates := fun a b =>
      if a = 0 ∧ b = 0 then pressedKeyState
      else if a = 0 ∧ b = 1 then heldKeyState
      else idleKeyState
    CurrentKeymap := fun _ a b =>
      if a = 0 ∧ b = 0 then altTabAction
      else if a = 0 ∧ b = 1 then switchLayerAction 1 SwitchLayerMode_Hold
      else noAction
    actionCache := fun a b =>
      if a = 0 ∧ b = 1 then switchLayerAction 1 SwitchLayerMode_Hold else noAction
    ActiveLayer := 1
    ActiveLayerHeld := true
    previousLayer := 1
    calls := [LayerSwitcher_HoldLayer 1, PostponerCore_FinishCycle] }

/-- Scenario S3 with the key that holds the layer, cycle N+1: 10 ms later both
keys are still held. -/
def stateLayerAltTabHeld : updater_state_t :=
  stateNextCycleKey
    (updateActiveUsbReports holdingLayerForeign exampleConfig stateLayerAltTabPressed) 10 true

/-- Scenario S3 with the key that holds the layer, release cycle: 60 ms after
the press the switch of the Alt+Tab key is open, the layer key is still
held. -/
def stateLayerAltTabReleased : updater_state_t :=
  stateNextCycleKey
    (updateActiveUsbReports holdingLayerForeign exampleConfig stateLayerAltTabHeld) 60 false

end UsbReportUpdater

namespace MouseController

open serialized_mouse_action_t
open mouse_speed_t

/-! ## The module kinetic engine of `mouse_controller.c`

Lines 229-469: the engine that turns the pointer deltas of the modules into
mouse motion, scrolling or caret keystrokes. The one shared record
`moduleKineticState`, the active mouse report, the module configurations, the
time and the active layer are the fields of one state record; a pointer to a
module configuration is the id of the module. Floats are rationals as in the
rest of this development. -/

/-- Modelled from the spec: enumerator `CaretAxis_Horizontal` of `caret_axis_t`
(`caret_config.h` is not among the sources). The code uses the axis as the
index of the two-element arrays `{x, y}`, so Horizontal is 0. -/
def CaretAxis_Horizontal : Nat := 0

/-- Modelled from the spec: enumerator `CaretAxis_Vertical`, the index of the y
entries of the two-element arrays, and `1 - CaretAxis_Horizontal`. -/
def CaretAxis_Vertical : Nat := 1

/-- Modelled from the spec: `CaretAxis_Count`, the length of the arrays indexed
by an axis. -/
def CaretAxis_Count : Nat := 2

/-- Modelled from the spec: `CaretAxis_None`, the value of an axis that is not
locked; it is not below `CaretAxis_Count`. -/
def CaretAxis_None : Nat := 2

/-- Modelled from the spec: `CaretAxis_Inactive`, taken to be the same value as
`CaretAxis_None` (spec, open question at the end). -/
def CaretAxis_Inactive : Nat := 2

/-- Modelled from the spec: enumeration `navigation_mode_t` (its header is not
among the sources); the modes the code switches on. -/
inductive navigation_mode_t where
  | NavigationMode_Cursor
  | NavigationMode_Scroll
  | NavigationMode_Caret
  | NavigationMode_Media
  | NavigationMode_None
  deriving DecidableEq, Repr

open navigation_mode_t

/-- Modelled from the spec: `caret_dir_action_t`, the two actions of one axis. -/
structure caret_dir_action_t where
  positiveAction : UsbReportUpdater.key_action_t
  negativeAction : UsbReportUpdater.key_action_t
  deriving DecidableEq, Repr

/-- Modelled from the spec: `caret_configuration_t`, the actions per axis
(`axisActions[axis]`). -/
structure caret_configuration_t where
  axisActions : Nat → caret_dir_action_t

/-- Modelled from the spec: `module_configuration_t`, with the members the code
uses (spec section 5, `GetModuleConfiguration`). -/
structure module_configuration_t where
  baseSpeed : ℚ
  speed : ℚ
  acceleration : ℚ
  caretSpeedDivisor : ℚ
  scrollSpeedDivisor : ℚ
  caretLockSkew : ℚ
  caretLockSkewFirstTick : ℚ
  cursorAxisLock : Bool
  scrollAxisLock : Bool
  invertAxis : Bool
  navigationModes : Nat → navigation_mode_t
  currentSpeed : ℚ

/-- Modelled from the spec: `module_kinetic_state_t` (spec section 3,
ModuleKineticState). The pointer `caretAction` is the action it points to. -/
structure module_kinetic_state_t where
  currentModuleId : Nat
  currentNavigationMode : navigation_mode_t
  caretAxis : Nat
  caretFakeKeystate : UsbReportUpdater.key_state_t
  caretAction : UsbReportUpdater.key_action_t
  xFractionRemainder : ℚ
  yFractionRemainder : ℚ
  lastUpdate : Nat
  deriving DecidableEq, Repr

/-- The variables that the module kinetic engine reads and writes:
`moduleKineticState` (line 66), the active mouse report, the configurations
that `GetModuleConfiguration` points to (by module id), the static `lastUpdate`
of `computeModuleSpeed` (line 237), `CurrentTime`, `ActiveLayer`, and the trace
of the calls of `ApplyKeyAction` (key state at the call, action, base
action). -/
structure module_engine_state_t where
  moduleKineticState : module_kinetic_state_t
  ActiveUsbMouseReport : UsbReportUpdater.usb_mouse_report_t
  ModuleConfigurations : Nat → module_configuration_t
  computeModuleSpeed_lastUpdate : Nat
  CurrentTime : Nat
  ActiveLayer : Nat
  applied :
    List (UsbReportUpdater.key_state_t × UsbReportUpdater.key_action_t ×
      UsbReportUpdater.key_action_t)

/-- What the engine takes from outside the file: the module ids of the left key
cluster and the right touchpad, `GetModuleCaretConfiguration`, `sqrt` and `pow`
of the C library, the key state that `ApplyKeyAction` leaves behind the pointer
it is given (as a function of the state at the call and the two actions), the
result of a float to `uint8_t` conversion whose value is out of range (which C
leaves undefined), and the `navigation_mode_t` enumerator of value 0. -/
structure module_foreign_t where
  ModuleId_KeyClusterLeft : Nat
  ModuleId_TouchpadRight : Nat
  GetModuleCaretConfiguration : Nat → navigation_mode_t → caret_configuration_t
  sqrt : ℚ → ℚ
  pow : ℚ → ℚ → ℚ
  ApplyKeyAction :
    module_engine_state_t → UsbReportUpdater.key_action_t → UsbReportUpdater.key_action_t →
      UsbReportUpdater.key_state_t
  uint8_outOfRange : ℚ → Nat
  navigationMode_zero : navigation_mode_t

/-- Conversion of a float to `uint8_t`: the truncation when it is representable
(the value is above -1 and below 256), the value of the target otherwise. -/
def uint8_of_float (E : module_foreign_t) (x : ℚ) : Nat :=
  if -1 < x ∧ x < 256 then (modff x).2.toNat else E.uint8_outOfRange x

/-- The call `ApplyKeyAction(&ks->caretFakeKeystate, ks->caretAction,
ks->caretAction)` (lines 284 and 296): the call is recorded and the key state
is what the function leaves. -/
def ApplyKeyAction_caret (E : module_foreign_t) (st : module_engine_state_t) :
    module_engine_state_t :=
  { st with
    applied := st.applied ++
      [(st.moduleKineticState.caretFakeKeystate, st.moduleKineticState.caretAction,
        st.moduleKineticState.caretAction)]
    moduleKineticState :=
      { st.moduleKineticState with
        caretFakeKeystate :=
          E.ApplyKeyAction st st.moduleKineticState.caretAction
            st.moduleKineticState.caretAction } }

/-- Source function `computeModuleSpeed` (lines 229-246): the state after the
call and the returned speed. `elapsedTime + 1` is a `uint32_t` sum. -/
def computeModuleSpeed (E : module_foreign_t) (st : module_engine_state_t) (x y : ℚ)
    (moduleId : Nat) : module_engine_state_t × ℚ :=
  let midSpeed : ℚ := 3
  let st1 : module_engine_state_t :=
    if x ≠ 0 ∨ y ≠ 0 then
      let elapsedTime := UsbReportUpdater.sub32 st.CurrentTime st.computeModuleSpeed_lastUpdate
      let distance := E.sqrt (x * x + y * y)
      { st with
        ModuleConfigurations := fun i =>
          if i = moduleId then
            { st.ModuleConfigurations moduleId with
              currentSpeed := distance / (((elapsedTime + 1) % 2 ^ 32 : Nat) : ℚ) }
          else st.ModuleConfigurations i
        computeModuleSpeed_lastUpdate := st.CurrentTime }
    else st
  let normalizedSpeed := (st1.ModuleConfigurations moduleId).currentSpeed / midSpeed
  (st1,
    (st1.ModuleConfigurations moduleId).baseSpeed +
      (st1.ModuleConfigurations moduleId).speed *
        E.pow normalizedSpeed (st1.ModuleConfigurations moduleId).acceleration)

/-- Source function `handleNewCaretModeAction` (lines 266-290); `ks` is
`moduleKineticState`. -/
def handleNewCaretModeAction (E : module_foreign_t) (st : module_engine_state_t) (axis : Nat)
    (resultSign : Nat) (value : Int) : module_engine_state_t :=
  match st.moduleKineticState.currentNavigationMode with
  | NavigationMode_Cursor =>
    { st with
      ActiveUsbMouseReport :=
        { st.ActiveUsbMouseReport with
          x := st.ActiveUsbMouseReport.x + (if axis = CaretAxis_Horizontal then value else 0)
          y := st.ActiveUsbMouseReport.y - (if axis = CaretAxis_Vertical then value else 0) } }
  | NavigationMode_Scroll =>
    { st with
      ActiveUsbMouseReport :=
        { st.ActiveUsbMouseReport with
          wheelX :=
            st.ActiveUsbMouseReport.wheelX + (if axis = CaretAxis_Horizontal then value else 0)
          wheelY :=
            st.ActiveUsbMouseReport.wheelY + (if axis = CaretAxis_Vertical then value else 0) } }
  | NavigationMode_None => st
  | _ =>
    let dirActions :=
      (E.GetModuleCaretConfiguration st.moduleKineticState.currentModuleId
        st.moduleKineticState.currentNavigationMode).axisActions st.moduleKineticState.caretAxis
    ApplyKeyAction_caret E
      { st with
        moduleKineticState :=
          { st.moduleKineticState with
            caretAction :=
              if resultSign > 0 then dirActions.positiveAction else dirActions.negativeAction
            caretFakeKeystate :=
              { st.moduleKineticState.caretFakeKeystate with current := true } } }

/-- Source function `handleRunningCaretModeAction` (lines 292-297). -/
def handleRunningCaretModeAction (E : module_foreign_t) (st : module_engine_state_t) :
    module_engine_state_t :=
  let tmp := st.moduleKineticState.caretFakeKeystate.current
  ApplyKeyAction_caret E
    { st with
      moduleKineticState :=
        { st.moduleKineticState with
          caretFakeKeystate :=
            { st.moduleKineticState.caretFakeKeystate with
              current := !st.moduleKineticState.caretFakeKeystate.previous
              previous := tmp } } }

/-- Lines 305-314 of `processAxisLocking`: with motion, the lock and the
remainders are dropped when the last motion is more than 500 ms ago, and
`lastUpdate` is refreshed. `Timer_GetElapsedTime` is modelled from the spec:
`CurrentTime` minus the stored time. -/
def processAxisLocking_unlock (st : module_engine_state_t) (x y : ℚ) : module_engine_state_t :=
  if x ≠ 0 ∨ y ≠ 0 then
    let ks := st.moduleKineticState
    let ks1 : module_kinetic_state_t :=
      if UsbReportUpdater.sub32 st.CurrentTime ks.lastUpdate > 500 ∧
          ks.caretAxis ≠ CaretAxis_None then
        { ks with xFractionRemainder := 0, yFractionRemainder := 0, caretAxis := CaretAxis_None }
      else ks
    { st with moduleKineticState := { ks1 with lastUpdate := st.CurrentTime } }
  else st

/-- Lines 316-329 of `processAxisLocking`: the multipliers and the
accumulation of the motion into the remainders. -/
def processAxisLocking_accumulate (st : module_engine_state_t) (x y speed speedDivisor : ℚ)
    (moduleConfiguration : Nat) : module_engine_state_t :=
  let ks := st.moduleKineticState
  let caretXModeMultiplier : ℚ :=
    if ks.caretAxis = CaretAxis_None then
      (st.ModuleConfigurations moduleConfiguration).caretLockSkewFirstTick
    else if ks.caretAxis = CaretAxis_Horizontal then 1
    else (st.ModuleConfigurations moduleConfiguration).caretLockSkew
  let caretYModeMultiplier : ℚ :=
    if ks.caretAxis = CaretAxis_None then
      (st.ModuleConfigurations moduleConfiguration).caretLockSkewFirstTick
    else if ks.caretAxis = CaretAxis_Vertical then 1
    else (st.ModuleConfigurations moduleConfiguration).caretLockSkew
  { st with
    moduleKineticState :=
      { ks with
        xFractionRemainder := ks.xFractionRemainder + x * speed / speedDivisor * caretXModeMultiplier
        yFractionRemainder :=
          ks.yFractionRemainder + y * speed / speedDivisor * caretYModeMultiplier } }

/-- The local array `axisIntegerParts` of `processAxisLocking` (lines 341-344):
the integral parts of the two remainders; an index that is not an axis is
outside the array. -/
def axisIntegerParts (ks : module_kinetic_state_t) (axis : Nat) : Int :=
  if axis = CaretAxis_Horizontal then (modff ks.xFractionRemainder).2
  else if axis = CaretAxis_Vertical then (modff ks.yFractionRemainder).2
  else 0

/-- Read through the local pointer array `axisFractionRemainders` (line 340). -/
def axisFractionRemainders (ks : module_kinetic_state_t) (axis : Nat) : ℚ :=
  if axis = CaretAxis_Horizontal then ks.xFractionRemainder
  else if axis = CaretAxis_Vertical then ks.yFractionRemainder
  else 0

/-- Write through the local pointer array `axisFractionRemainders`. -/
def setAxisFractionRemainder (ks : module_kinetic_state_t) (axis : Nat) (v : ℚ) :
    module_kinetic_state_t :=
  if axis = CaretAxis_Horizontal then { ks with xFractionRemainder := v }
  else if axis = CaretAxis_Vertical then { ks with yFractionRemainder := v }
  else ks

/-- Lines 339 and 346-353 of `processAxisLocking`: the axis of the tick, the
locked axis first (Vertical when none is locked), or `CaretAxis_None`. -/
def axisCandidate (ks : module_kinetic_state_t) : Nat :=
  let axisCandidate := if ks.caretAxis = CaretAxis_Inactive then CaretAxis_Vertical else ks.caretAxis
  if axisIntegerParts ks axisCandidate ≠ 0 then axisCandidate
  else if axisIntegerParts ks (1 - axisCandidate) ≠ 0 then 1 - axisCandidate
  else CaretAxis_None

/-- Lines 356-364 of `processAxisLocking`: a new tick on the axis
`axisCandidate`. `sgn * currentAxisInversion` is converted to the `uint8_t`
parameter, `axisIntegerParts[axisCandidate] * currentAxisInversion` to the
`int16_t` parameter of `handleNewCaretModeAction`. -/
def processAxisLocking_tick (E : module_foreign_t) (st : module_engine_state_t)
    (yInversion : Int) (axisCandidate : Nat) : module_engine_state_t :=
  let ks := st.moduleKineticState
  let intPart := axisIntegerParts ks axisCandidate
  let ks1 : module_kinetic_state_t := { ks with caretAxis := axisCandidate }
  let sgn : Int := if intPart > 0 then 1 else -1
  let currentAxisInversion : Int := if axisCandidate = CaretAxis_Vertical then yInversion else 1
  let ks2 := setAxisFractionRemainder ks1 (1 - axisCandidate) 0
  let ks3 :=
    setAxisFractionRemainder ks2 axisCandidate (axisFractionRemainders ks2 axisCandidate - sgn)
  handleNewCaretModeAction E { st with moduleKineticState := ks3 } ks3.caretAxis
    (uint8_of_float E ((sgn : ℚ) * (currentAxisInversion : ℚ))) (intPart * currentAxisInversion)

/-- Source function `processAxisLocking` (lines 299-376). -/
def processAxisLocking (E : module_foreign_t) (st : module_engine_state_t) (x y speed : ℚ)
    (yInversion : Int) (speedDivisor : ℚ) (moduleConfiguration : Nat) : module_engine_state_t :=
  if x = 0 ∧ y = 0 ∧ st.moduleKineticState.caretAxis = CaretAxis_None then st
  else
    let st1 := processAxisLocking_unlock st x y
    let st2 := processAxisLocking_accumulate st1 x y speed speedDivisor moduleConfiguration
    if st2.moduleKineticState.caretFakeKeystate.current = true ∨
        st2.moduleKineticState.caretFakeKeystate.previous = true then
      handleRunningCaretModeAction E st2
    else if axisCandidate st2.moduleKineticState < CaretAxis_Count then
      processAxisLocking_tick E st2 yInversion (axisCandidate st2.moduleKineticState)
    else st2

/-- Local `yInversion` of `processModuleKineticState` (line 381). -/
def yInversion (E : module_foreign_t) (ks : module_kinetic_state_t) : Int :=
  if ks.currentModuleId = E.ModuleId_KeyClusterLeft ∨
      ks.currentModuleId = E.ModuleId_TouchpadRight then -1
  else 1

/-- Lines 383-387 of `processModuleKineticState`: the state after the speed
has been determined, and the speed. -/
def processModuleKineticState_speed (E : module_foreign_t) (st : module_engine_state_t)
    (x y : ℚ) : module_engine_state_t × ℚ :=
  if st.moduleKineticState.currentModuleId = E.ModuleId_KeyClusterLeft then
    (st, if st.moduleKineticState.currentNavigationMode = NavigationMode_Cursor then 5 else 1)
  else computeModuleSpeed E st x y st.moduleKineticState.currentModuleId

/-- Lines 391-400 of `processModuleKineticState`: Cursor mode without axis
lock. -/
def processModuleKineticState_cursor (st : module_engine_state_t) (x y speed : ℚ)
    (yInversion : Int) : module_engine_state_t :=
  let ks := st.moduleKineticState
  let xParts := modff (ks.xFractionRemainder + x * speed)
  let yParts := modff (ks.yFractionRemainder + y * speed)
  { st with
    moduleKineticState := { ks with xFractionRemainder := xParts.1, yFractionRemainder := yParts.1 }
    ActiveUsbMouseReport :=
      { st.ActiveUsbMouseReport with
        x := st.ActiveUsbMouseReport.x + xParts.2
        y := st.ActiveUsbMouseReport.y - yInversion * yParts.2 } }

/-- Lines 405-414 of `processModuleKineticState`: Scroll mode without axis
lock. -/
def processModuleKineticState_scroll (st : module_engine_state_t) (x y speed : ℚ)
    (yInversion : Int) (moduleConfiguration : Nat) : module_engine_state_t :=
  let ks := st.moduleKineticState
  let xParts :=
    modff (ks.xFractionRemainder +
      x * speed / (st.ModuleConfigurations moduleConfiguration).scrollSpeedDivisor)
  let yParts :=
    modff (ks.yFractionRemainder +
      y * speed / (st.ModuleConfigurations moduleConfiguration).scrollSpeedDivisor)
  { st with
    moduleKineticState := { ks with xFractionRemainder := xParts.1, yFractionRemainder := yParts.1 }
    ActiveUsbMouseReport :=
      { st.ActiveUsbMouseReport with
        wheelX := st.ActiveUsbMouseReport.wheelX + xParts.2
        wheelY := st.ActiveUsbMouseReport.wheelY + yInversion * yParts.2 } }

/-- Source function `processModuleKineticState` (lines 378-428); `ks` is
`moduleKineticState`, `moduleConfiguration` the id of the module whose
configuration is pointed to. -/
def processModuleKineticState (E : module_foreign_t) (st : module_engine_state_t) (x y : ℚ)
    (moduleConfiguration : Nat) : module_engine_state_t :=
  let inv := yInversion E st.moduleKineticState
  let st1 := (processModuleKineticState_speed E st x y).1
  let speed := (processModuleKineticState_speed E st x y).2
  match st1.moduleKineticState.currentNavigationMode with
  | NavigationMode_Cursor =>
    if (st1.ModuleConfigurations moduleConfiguration).cursorAxisLock = false then
      processModuleKineticState_cursor st1 x y speed inv
    else processAxisLocking E st1 x y speed inv 1 moduleConfiguration
  | NavigationMode_Scroll =>
    if (st1.ModuleConfigurations moduleConfiguration).scrollAxisLock = false then
      processModuleKineticState_scroll st1 x y speed inv moduleConfiguration
    else
      processAxisLocking E st1 x y speed inv
        (st1.ModuleConfigurations moduleConfiguration).scrollSpeedDivisor moduleConfiguration
  | NavigationMode_None => st1
  | _ =>
    processAxisLocking E st1 x y speed inv
      (st1.ModuleConfigurations moduleConfiguration).caretSpeedDivisor moduleConfiguration

/-- Source function `resetKineticModuleState` (lines 430-440);
`currentNavigationMode = 0` stores the enumerator of value 0. -/
def resetKineticModuleState (E : module_foreign_t) (kineticState : module_kinetic_state_t) :
    module_kinetic_state_t :=
  { kineticState with
    currentModuleId := 0
    currentNavigationMode := E.navigationMode_zero
    caretAxis := CaretAxis_None
    xFractionRemainder := 0
    yFractionRemainder := 0
    lastUpdate := 0 }

/-- Lines 444-457 of `processModuleActions`: the change of the owner of
`moduleKineticState`. -/
def processModuleActions_owner (E : module_foreign_t) (st : module_engine_state_t)
    (moduleId : Nat) (x y : ℚ) : module_engine_state_t :=
  let navigationMode := (st.ModuleConfigurations moduleId).navigationModes st.ActiveLayer
  let moduleIsActive : Bool := decide (x ≠ 0 ∨ y ≠ 0)
  let keystateOwnerDiffers : Bool :=
    decide (st.moduleKineticState.currentModuleId ≠ moduleId ∨
      st.moduleKineticState.currentNavigationMode ≠ navigationMode)
  let keyActionIsNotActive : Bool :=
    decide (st.moduleKineticState.caretFakeKeystate.current = false ∧
      st.moduleKineticState.caretFakeKeystate.previous = false)
  if moduleIsActive = true ∧ keystateOwnerDiffers = true ∧ keyActionIsNotActive = true then
    { st with
      moduleKineticState :=
        { resetKineticModuleState E st.moduleKineticState with
          currentModuleId := moduleId
          currentNavigationMode := navigationMode } }
  else st

/-- Source function `processModuleActions` (lines 442-469). -/
def processModuleActions (E : module_foreign_t) (st : module_engine_state_t) (moduleId : Nat)
    (x y : ℚ) : module_engine_state_t :=
  let navigationMode := (st.ModuleConfigurations moduleId).navigationModes st.ActiveLayer
  let st1 := processModuleActions_owner E st moduleId x y
  if st1.moduleKineticState.currentModuleId = moduleId ∧
      st1.moduleKineticState.currentNavigationMode = navigationMode then
    if (st1.ModuleConfigurations moduleId).invertAxis = true then
      processModuleKineticState E st1 y x moduleId
    else processModuleKineticState E st1 x y moduleId
  else st1


/-! ## Inputs of the statements about the module kinetic engine -/

/-- An example module configuration with the given navigation mode on every
layer: speed 1 whatever the motion (`speed` is 0), divisors 1, skew 1/2 and
first-tick skew 17/50, no axis lock in Cursor and Scroll mode. -/
def exampleModuleConfiguration (mode : navigation_mode_t) : module_configuration_t :=
  { baseSpeed := 1
    speed := 0
    acceleration := 1
    caretSpeedDivisor := 1
    scrollSpeedDivisor := 1
    caretLockSkew := 1 / 2
    caretLockSkewFirstTick := 17 / 50
    cursorAxisLock := false
    scrollAxisLock := false
    invertAxis := false
    navigationModes := fun _ => mode
    currentSpeed := 0 }

/-- A keystroke action of a scancode without modifiers and secondary role. -/
def scancodeAction (scancode : Nat) : UsbReportUpdater.key_action_t :=
  { UsbReportUpdater.noAction with
    type := .KeyActionType_Keystroke
    keystroke :=
      { keystrokeType := .KeystrokeType_Basic, scancode := scancode, modifiers := 0,
        secondaryRole := 0 } }

/-- Example surroundings of the engine: module ids 2 (left key cluster) and 5
(right touchpad); the caret configuration of every module and mode has the
arrow keys Right / Left on the horizontal and Up / Down on the vertical axis;
`sqrt` and `pow` are exact on squares and natural exponents; `ApplyKeyAction`
leaves the key state as it is; a float below 0 converts to the `uint8_t` 0. -/
def exampleModuleForeign : module_foreign_t :=
  { ModuleId_KeyClusterLeft := 2
    ModuleId_TouchpadRight := 5
    GetModuleCaretConfiguration := fun _ _ =>
      { axisActions := fun axis =>
          if axis = CaretAxis_Horizontal then
            { positiveAction := scancodeAction 79, negativeAction := scancodeAction 80 }
          else { positiveAction := scancodeAction 82, negativeAction := scancodeAction 81 } }
    sqrt := fun x => (Nat.sqrt ⌊x⌋.toNat : ℚ)
    pow := fun b e => b ^ ⌊e⌋.toNat
    ApplyKeyAction := fun st _ _ => st.moduleKineticState.caretFakeKeystate
    uint8_outOfRange := fun _ => 0
    navigationMode_zero := .NavigationMode_Cursor }

/-- A state of the engine in which the right touchpad (module 5) owns the
kinetic state in the given mode with the given axis and y remainder, no fake key
in flight; module 5 has that mode on every layer and every other module has
mode None; the last motion was 10 ms ago. -/
def stateTouchpadOwner (mode : navigation_mode_t) (caretAxis : Nat) (yFractionRemainder : ℚ) :
    module_engine_state_t :=
  { moduleKineticState :=
      { currentModuleId := 5
        currentNavigationMode := mode
        caretAxis := caretAxis
        caretFakeKeystate := UsbReportUpdater.idleKeyState
        caretAction := UsbReportUpdater.noAction
        xFractionRemainder := 0
        yFractionRemainder := yFractionRemainder
        lastUpdate := 1000 }
    ActiveUsbMouseReport := UsbReportUpdater.zeroMouseReport
    ModuleConfigurations := fun i =>
      exampleModuleConfiguration (if i = 5 then mode else .NavigationMode_None)
    computeModuleSpeed_lastUpdate := 1000
    CurrentTime := 1010
    ActiveLayer := 0
    applied := [] }

/-- A later call of `processAxisLocking` with yInversion -1, at the time `t`. -/
def caretCall (E : module_foreign_t) (st : module_engine_state_t) (t : Nat)
    (x y speed speedDivisor : ℚ) (moduleConfiguration : Nat) : module_engine_state_t :=
  processAxisLocking E { st with CurrentTime := t } x y speed (-1) speedDivisor
    moduleConfiguration

/-- A state like `stateTouchpadOwner` in which every module configuration has
the axis lock of Cursor and of Scroll mode switched on, with the given two
remainders. -/
def stateTouchpadLocked (mode : navigation_mode_t) (caretAxis : Nat)
    (xFractionRemainder yFractionRemainder : ℚ) : module_engine_state_t :=
  { stateTouchpadOwner mode caretAxis yFractionRemainder with
    moduleKineticState :=
      { (stateTouchpadOwner mode caretAxis yFractionRemainder).moduleKineticState with
        xFractionRemainder := xFractionRemainder }
    ModuleConfigurations := fun i =>
      { exampleModuleConfiguration (if i = 5 then mode else .NavigationMode_None) with
        cursorAxisLock := true
        scrollAxisLock := true } }

/-- C1: `MouseController_ActivateDirectionSigns` applied to a direction action
sets exactly one sign field of one kinetic state to the pressed direction,
whatever its prior value, and changes nothing else in the two kinetic states;
applied to any non-direction action it changes neither kinetic state. -/
theorem C1_activateDirectionSigns (st : mouse_controller_state_t) :
    ((MouseController_ActivateDirectionSigns st SerializedMouseAction_MoveUp).MouseMoveState
        = { st.MouseMoveState with verticalStateSign := -1 } ∧
      (MouseController_ActivateDirectionSigns st SerializedMouseAction_MoveUp).MouseScrollState
        = st.MouseScrollState) ∧
    ((MouseController_ActivateDirectionSigns st SerializedMouseAction_MoveDown).MouseMoveState
        = { st.MouseMoveState with verticalStateSign := 1 } ∧
      (MouseController_ActivateDirectionSigns st SerializedMouseAction_MoveDown).MouseScrollState
        = st.MouseScrollState) ∧
    ((MouseController_ActivateDirectionSigns st SerializedMouseAction_MoveLeft).MouseMoveState
        = { st.MouseMoveState with horizontalStateSign := -1 } ∧
      (MouseController_ActivateDirectionSigns st SerializedMouseAction_MoveLeft).MouseScrollState
        = st.MouseScrollState) ∧
    ((MouseController_ActivateDirectionSigns st SerializedMouseAction_MoveRight).MouseMoveState
        = { st.MouseMoveState with horizontalStateSign := 1 } ∧
      (MouseController_ActivateDirectionSigns st SerializedMouseAction_MoveRight).MouseScrollState
        = st.MouseScrollState) ∧
    ((MouseController_ActivateDirectionSigns st SerializedMouseAction_ScrollUp).MouseScrollState
        = { st.MouseScrollState with verticalStateSign := 1 } ∧
      (MouseController_ActivateDirectionSigns st SerializedMouseAction_ScrollUp).MouseMoveState
        = st.MouseMoveState) ∧
    ((MouseController_ActivateDirectionSigns st SerializedMouseAction_ScrollDown).MouseScrollState
        = { st.MouseScrollState with verticalStateSign := -1 } ∧
      (MouseController_ActivateDirectionSigns st SerializedMouseAction_ScrollDown).MouseMoveState
        = st.MouseMoveState) ∧
    ((MouseController_ActivateDirectionSigns st SerializedMouseAction_ScrollLeft).MouseScrollState
        = { st.MouseScrollState with horizontalStateSign := -1 } ∧
      (MouseController_ActivateDirectionSigns st SerializedMouseAction_ScrollLeft).MouseMoveState
        = st.MouseMoveState) ∧
    ((MouseController_ActivateDirectionSigns st SerializedMouseAction_ScrollRight).MouseScrollState
        = { st.MouseScrollState with horizontalStateSign := 1 } ∧
      (MouseController_ActivateDirectionSigns st SerializedMouseAction_ScrollRight).MouseMoveState
        = st.MouseMoveState) ∧
    (∀ a : serialized_mouse_action_t,
      a ∈ [SerializedMouseAction_Accelerate, SerializedMouseAction_Decelerate,
            SerializedMouseAction_LeftClick, SerializedMouseAction_MiddleClick,
            SerializedMouseAction_RightClick, SerializedMouseAction_Button_4,
            SerializedMouseAction_Button_5, SerializedMouseAction_Button_6,
            SerializedMouseAction_Button_7, SerializedMouseAction_Button_8] →
      (MouseController_ActivateDirectionSigns st a).MouseMoveState = st.MouseMoveState ∧
      (MouseController_ActivateDirectionSigns st a).MouseScrollState = st.MouseScrollState) := by
  refine ⟨⟨rfl, rfl⟩, ⟨rfl, rfl⟩, ⟨rfl, rfl⟩, ⟨rfl, rfl⟩, ⟨rfl, rfl⟩, ⟨rfl, rfl⟩, ⟨rfl, rfl⟩,
    ⟨rfl, rfl⟩, ?_⟩
  intro a ha
  cases a <;> simp at ha <;> exact ⟨rfl, rfl⟩

/-- C2: `updateDirectionSigns` on either axis of any kinetic state: a sign equal
to direction `d` whose action counter is 0 becomes `-d` when the opposite
counter is non-zero and 0 otherwise; a sign that is 0, or whose own action is
still active, is unchanged. (Horizontal: `-1` is `leftState`, `+1` is
`rightState`; vertical: `-1` is `upState`, `+1` is `downState`.) -/
theorem C2_updateDirectionSigns (ActiveMouseStates : serialized_mouse_action_t → Nat)
    (ks : mouse_kinetic_state_t) :
    ((ks.horizontalStateSign = -1 → ActiveMouseStates ks.leftState = 0 →
        (updateDirectionSigns ActiveMouseStates ks).horizontalStateSign
          = if ActiveMouseStates ks.rightState ≠ 0 then 1 else 0) ∧
      (ks.horizontalStateSign = 1 → ActiveMouseStates ks.rightState = 0 →
        (updateDirectionSigns ActiveMouseStates ks).horizontalStateSign
          = if ActiveMouseStates ks.leftState ≠ 0 then -1 else 0) ∧
      (ks.horizontalStateSign = 0 ∨
        (ks.horizontalStateSign = -1 ∧ ActiveMouseStates ks.leftState ≠ 0) ∨
        (ks.horizontalStateSign = 1 ∧ ActiveMouseStates ks.rightState ≠ 0) →
        (updateDirectionSigns ActiveMouseStates ks).horizontalStateSign
          = ks.horizontalStateSign)) ∧
    ((ks.verticalStateSign = -1 → ActiveMouseStates ks.upState = 0 →
        (updateDirectionSigns ActiveMouseStates ks).verticalStateSign
          = if ActiveMouseStates ks.downState ≠ 0 then 1 else 0) ∧
      (ks.verticalStateSign = 1 → ActiveMouseStates ks.downState = 0 →
        (updateDirectionSigns ActiveMouseStates ks).verticalStateSign
          = if ActiveMouseStates ks.upState ≠ 0 then -1 else 0) ∧
      (ks.verticalStateSign = 0 ∨
        (ks.verticalStateSign = -1 ∧ ActiveMouseStates ks.upState ≠ 0) ∨
        (ks.verticalStateSign = 1 ∧ ActiveMouseStates ks.downState ≠ 0) →
        (updateDirectionSigns ActiveMouseStates ks).verticalStateSign
          = ks.verticalStateSign)) := by
  refine ⟨⟨?_, ?_, ?_⟩, ?_, ?_, ?_⟩
  · intro h hl
    by_cases hr : ActiveMouseStates ks.rightState = 0 <;>
      simp [updateDirectionSigns, updateOneDirectionSign, h, hl, hr]
  · intro h hr
    by_cases hl : ActiveMouseStates ks.leftState = 0 <;>
      simp [updateDirectionSigns, updateOneDirectionSign, h, hl, hr]
  · rintro (h | ⟨h, hl⟩ | ⟨h, hr⟩)
    · simp [updateDirectionSigns, updateOneDirectionSign, h]
    · simp [updateDirectionSigns, updateOneDirectionSign, h, hl]
    · simp [updateDirectionSigns, updateOneDirectionSign, h, hr]
  · intro h hu
    by_cases hd : ActiveMouseStates ks.downState = 0 <;>
      simp [updateDirectionSigns, updateOneDirectionSign, h, hu, hd]
  · intro h hd
    by_cases hu : ActiveMouseStates ks.upState = 0 <;>
      simp [updateDirectionSigns, updateOneDirectionSign, h, hu, hd]
  · rintro (h | ⟨h, hu⟩ | ⟨h, hd⟩)
    · simp [updateDirectionSigns, updateOneDirectionSign, h]
    · simp [updateDirectionSigns, updateOneDirectionSign, h, hu]
    · simp [updateDirectionSigns, updateOneDirectionSign, h, hd]

/-! ### Fields that the parts of the step leave alone -/

/-- The horizontal sign after the sign update depends only on the counters, the
old sign and the two horizontal actions. -/
theorem updateDirectionSigns_hSign (A : serialized_mouse_action_t → Nat)
    (ks : mouse_kinetic_state_t) :
    (updateDirectionSigns A ks).horizontalStateSign
      = updateOneDirectionSign A
          (updateOneDirectionSign A ks.horizontalStateSign (-1) ks.leftState ks.rightState)
          1 ks.rightState ks.leftState := rfl

/-- The vertical sign after the sign update. -/
theorem updateDirectionSigns_vSign (A : serialized_mouse_action_t → Nat)
    (ks : mouse_kinetic_state_t) :
    (updateDirectionSigns A ks).verticalStateSign
      = updateOneDirectionSign A
          (updateOneDirectionSign A ks.verticalStateSign (-1) ks.upState ks.downState)
          1 ks.downState ks.upState := rfl

/-- The speed part of the step (reset, target selection, snap) as one function. -/
theorem speedPart_fields (A : serialized_mouse_action_t → Nat) (ks : mouse_kinetic_state_t) :
    let ks3 := stepSnapSpeed A (stepSelectTarget A (stepResetSpeed A ks))
    ks3.isScroll = ks.isScroll ∧ ks3.wasMoveAction = ks.wasMoveAction ∧
    ks3.upState = ks.upState ∧ ks3.downState = ks.downState ∧
    ks3.leftState = ks.leftState ∧ ks3.rightState = ks.rightState ∧
    ks3.verticalStateSign = ks.verticalStateSign ∧
    ks3.horizontalStateSign = ks.horizontalStateSign ∧
    ks3.intMultiplier = ks.intMultiplier ∧ ks3.acceleration = ks.acceleration ∧
    ks3.xSum = ks.xSum ∧ ks3.ySum = ks.ySum ∧ ks3.xOut = ks.xOut ∧ ks3.yOut = ks.yOut ∧
    ks3.axisSkew = ks.axisSkew := by
  simp only [stepSnapSpeed, stepSelectTarget, stepResetSpeed]
  split_ifs <;> simp

/-- The ramp changes `currentSpeed` only. -/
theorem stepRampSpeed_fields (dt : Nat) (ks : mouse_kinetic_state_t) :
    (stepRampSpeed dt ks).isScroll = ks.isScroll ∧
    (stepRampSpeed dt ks).wasMoveAction = ks.wasMoveAction ∧
    (stepRampSpeed dt ks).upState = ks.upState ∧
    (stepRampSpeed dt ks).downState = ks.downState ∧
    (stepRampSpeed dt ks).leftState = ks.leftState ∧
    (stepRampSpeed dt ks).rightState = ks.rightState ∧
    (stepRampSpeed dt ks).verticalStateSign = ks.verticalStateSign ∧
    (stepRampSpeed dt ks).horizontalStateSign = ks.horizontalStateSign ∧
    (stepRampSpeed dt ks).targetSpeed = ks.targetSpeed ∧
    (stepRampSpeed dt ks).xSum = ks.xSum ∧ (stepRampSpeed dt ks).ySum = ks.ySum ∧
    (stepRampSpeed dt ks).axisSkew = ks.axisSkew := by
  simp only [stepRampSpeed]
  split_ifs <;> simp

/-- The horizontal sign after a kinetic step: updated when the step has a move
action, untouched otherwise. -/
theorem process_hSign (A : serialized_mouse_action_t → Nat) (comp : Bool) (dt : Nat)
    (ks : mouse_kinetic_state_t) :
    (processMouseKineticState A comp dt ks).horizontalStateSign
      = if isMoveAction A ks = true then (updateDirectionSigns A ks).horizontalStateSign
        else ks.horizontalStateSign := by
  obtain ⟨-, -, -, -, h5, h6, -, h8, -⟩ := speedPart_fields A ks
  obtain ⟨-, -, -, -, r5, r6, -, r8, -⟩ :=
    stepRampSpeed_fields dt (stepSnapSpeed A (stepSelectTarget A (stepResetSpeed A ks)))
  by_cases hm : isMoveAction A ks = true
  · simp only [processMouseKineticState, hm, if_true, stepEmit, emitSigns,
      updateDirectionSigns_hSign]
    split_ifs <;> simp [r5, r6, r8, h5, h6, h8]
  · simp only [processMouseKineticState, hm, if_false]
    simp [h8]

/-- The vertical sign after a kinetic step. -/
theorem process_vSign (A : serialized_mouse_action_t → Nat) (comp : Bool) (dt : Nat)
    (ks : mouse_kinetic_state_t) :
    (processMouseKineticState A comp dt ks).verticalStateSign
      = if isMoveAction A ks = true then (updateDirectionSigns A ks).verticalStateSign
        else ks.verticalStateSign := by
  obtain ⟨-, -, h3, h4, -, -, h7, -⟩ := speedPart_fields A ks
  obtain ⟨-, -, r3, r4, -, -, r7, -⟩ :=
    stepRampSpeed_fields dt (stepSnapSpeed A (stepSelectTarget A (stepResetSpeed A ks)))
  by_cases hm : isMoveAction A ks = true
  · simp only [processMouseKineticState, hm, if_true, stepEmit, emitSigns,
      updateDirectionSigns_vSign]
    split_ifs <;> simp [r3, r4, r7, h3, h4, h7]
  · simp only [processMouseKineticState, hm, if_false]
    simp [h7]

/-- The step has a move action exactly when one of the four direction counters
of the kinetic state is non-zero. -/
theorem isMoveAction_iff (A : serialized_mouse_action_t → Nat) (ks : mouse_kinetic_state_t) :
    isMoveAction A ks = true ↔
      (A ks.upState ≠ 0 ∨ A ks.downState ≠ 0 ∨ A ks.leftState ≠ 0 ∨ A ks.rightState ≠ 0) := by
  simp [isMoveAction, or_assoc]

/-- C3 (amended): opposing direction keys. (i) Activating a direction makes the
sign of its axis that direction's, whatever the sign was (in particular while
the opposite key is held). (ii) After a kinetic step in which one direction's
counter is 0 and the opposite one's is non-zero, a sign that was `-1` or `+1`
is the sign of the direction still held. (iii) After a kinetic step that has a
move action and in which both counters of an axis are 0, a sign of that axis
that was in `{-1, 0, +1}` is 0; a step without a move action leaves both signs
as they were. -/
theorem C3_opposingDirections (st : mouse_controller_state_t)
    (A : serialized_mouse_action_t → Nat) (comp : Bool) (dt : Nat)
    (ks : mouse_kinetic_state_t) :
    ((MouseController_ActivateDirectionSigns st
          SerializedMouseAction_MoveLeft).MouseMoveState.horizontalStateSign = -1 ∧
      (MouseController_ActivateDirectionSigns st
          SerializedMouseAction_MoveRight).MouseMoveState.horizontalStateSign = 1 ∧
      (MouseController_ActivateDirectionSigns st
          SerializedMouseAction_MoveUp).MouseMoveState.verticalStateSign = -1 ∧
      (MouseController_ActivateDirectionSigns st
          SerializedMouseAction_MoveDown).MouseMoveState.verticalStateSign = 1 ∧
      (MouseController_ActivateDirectionSigns st
          SerializedMouseAction_ScrollLeft).MouseScrollState.horizontalStateSign = -1 ∧
      (MouseController_ActivateDirectionSigns st
          SerializedMouseAction_ScrollRight).MouseScrollState.horizontalStateSign = 1 ∧
      (MouseController_ActivateDirectionSigns st
          SerializedMouseAction_ScrollDown).MouseScrollState.verticalStateSign = -1 ∧
      (MouseController_ActivateDirectionSigns st
          SerializedMouseAction_ScrollUp).MouseScrollState.verticalStateSign = 1) ∧
    ((ks.horizontalStateSign = -1 ∨ ks.horizontalStateSign = 1 →
        (A ks.rightState = 0 → A ks.leftState ≠ 0 →
          (processMouseKineticState A comp dt ks).horizontalStateSign = -1) ∧
        (A ks.leftState = 0 → A ks.rightState ≠ 0 →
          (processMouseKineticState A comp dt ks).horizontalStateSign = 1)) ∧
      (ks.verticalStateSign = -1 ∨ ks.verticalStateSign = 1 →
        (A ks.downState = 0 → A ks.upState ≠ 0 →
          (processMouseKineticState A comp dt ks).verticalStateSign = -1) ∧
        (A ks.upState = 0 → A ks.downState ≠ 0 →
          (processMouseKineticState A comp dt ks).verticalStateSign = 1))) ∧
    ((isMoveAction A ks = true →
        (ks.horizontalStateSign = -1 ∨ ks.horizontalStateSign = 0 ∨ ks.horizontalStateSign = 1 →
          A ks.leftState = 0 → A ks.rightState = 0 →
          (processMouseKineticState A comp dt ks).horizontalStateSign = 0) ∧
        (ks.verticalStateSign = -1 ∨ ks.verticalStateSign = 0 ∨ ks.verticalStateSign = 1 →
          A ks.upState = 0 → A ks.downState = 0 →
          (processMouseKineticState A comp dt ks).verticalStateSign = 0)) ∧
      (isMoveAction A ks = false →
        (processMouseKineticState A comp dt ks).horizontalStateSign = ks.horizontalStateSign ∧
        (processMouseKineticState A comp dt ks).verticalStateSign = ks.verticalStateSign)) := by
  refine ⟨⟨rfl, rfl, rfl, rfl, rfl, rfl, rfl, rfl⟩, ⟨?_, ?_⟩, ?_, ?_⟩
  · intro hs
    refine ⟨fun hr hl => ?_, fun hl hr => ?_⟩
    · have hm : isMoveAction A ks = true := (isMoveAction_iff A ks).2 (Or.inr (Or.inr (Or.inl hl)))
      rw [process_hSign, if_pos hm, updateDirectionSigns_hSign]
      rcases hs with h | h <;> simp [updateOneDirectionSign, h, hl, hr]
    · have hm : isMoveAction A ks = true := (isMoveAction_iff A ks).2 (Or.inr (Or.inr (Or.inr hr)))
      rw [process_hSign, if_pos hm, updateDirectionSigns_hSign]
      rcases hs with h | h <;> simp [updateOneDirectionSign, h, hl, hr]
  · intro hs
    refine ⟨fun hd hu => ?_, fun hu hd => ?_⟩
    · have hm : isMoveAction A ks = true := (isMoveAction_iff A ks).2 (Or.inl hu)
      rw [process_vSign, if_pos hm, updateDirectionSigns_vSign]
      rcases hs with h | h <;> simp [updateOneDirectionSign, h, hu, hd]
    · have hm : isMoveAction A ks = true := (isMoveAction_iff A ks).2 (Or.inr (Or.inl hd))
      rw [process_vSign, if_pos hm, updateDirectionSigns_vSign]
      rcases hs with h | h <;> simp [updateOneDirectionSign, h, hu, hd]
  · intro hm
    refine ⟨fun hs hl hr => ?_, fun hs hu hd => ?_⟩
    · rw [process_hSign, if_pos hm, updateDirectionSigns_hSign]
      rcases hs with h | h | h <;> simp [updateOneDirectionSign, h, hl, hr]
    · rw [process_vSign, if_pos hm, updateDirectionSigns_vSign]
      rcases hs with h | h | h <;> simp [updateOneDirectionSign, h, hu, hd]
  · intro hm
    rw [process_hSign, process_vSign]
    simp [hm]

/-- C3 (as stated, part iii) fails: with no mouse key active at all, the kinetic
step of the Move state leaves the horizontal sign at `+1` although the counters
of MoveLeft and MoveRight are both 0. -/
theorem C3_releaseBoth_counterexample :
    noActiveMouseStates SerializedMouseAction_MoveLeft = 0 ∧
    noActiveMouseStates SerializedMouseAction_MoveRight = 0 ∧
    (processMouseKineticState noActiveMouseStates false 1
      moveStateAfterRight).horizontalStateSign = 1 ∧
    (processMouseKineticState noActiveMouseStates false 1
      moveStateAfterRight).horizontalStateSign ≠ 0 := by
  have h : (processMouseKineticState noActiveMouseStates false 1
      moveStateAfterRight).horizontalStateSign = 1 := by
    rw [process_hSign]
    simp [isMoveAction, noActiveMouseStates, moveStateAfterRight, MouseMoveState_init]
  exact ⟨rfl, rfl, h, by rw [h]; decide⟩

/-! ### `modff` -/

/-- The integral part of `modff` for a non-negative argument is the floor. -/
theorem modff_int_of_nonneg {x : ℚ} (hx : 0 ≤ x) : (modff x).2 = ⌊x⌋ := by
  simp [modff, hx]

/-- The integral part of `modff` for a negative argument is the ceiling. -/
theorem modff_int_of_neg {x : ℚ} (hx : x < 0) : (modff x).2 = ⌈x⌉ := by
  have h : ¬ (0 ≤ x) := not_le.mpr hx
  simp [modff, h, Int.floor_neg]

/-- The two parts returned by `modff` add up to the argument. -/
theorem modff_add (x : ℚ) : ((modff x).2 : ℚ) + (modff x).1 = x := by
  simp [modff]

/-- The fractional part returned by `modff` is the argument minus the integral part. -/
theorem modff_frac (x : ℚ) : (modff x).1 = x - ((modff x).2 : ℚ) := rfl

/-- The fractional part returned by `modff` is strictly between `-1` and `1`. -/
theorem modff_frac_abs_lt_one (x : ℚ) : |(modff x).1| < 1 := by
  rw [abs_lt]
  by_cases hx : 0 ≤ x
  · rw [modff_frac, modff_int_of_nonneg hx]
    have h1 := Int.floor_le x
    have h2 := Int.lt_floor_add_one x
    constructor <;> linarith
  · have hx' : x < 0 := not_le.mp hx
    rw [modff_frac, modff_int_of_neg hx']
    have h1 := Int.le_ceil x
    have h2 := Int.ceil_lt_add_one x
    constructor <;> linarith

/-! ### The accumulators -/

/-- After the emission part both accumulators are strictly between `-1` and `1`. -/
theorem stepEmit_sums_abs_lt_one (A : serialized_mouse_action_t → Nat) (comp : Bool) (dt : Nat)
    (ks : mouse_kinetic_state_t) :
    |(stepEmit A comp dt ks).xSum| < 1 ∧ |(stepEmit A comp dt ks).ySum| < 1 := by
  simp only [stepEmit]
  constructor
  · split_ifs
    · rw [abs_zero]; exact zero_lt_one
    · exact modff_frac_abs_lt_one _
  · split_ifs
    · rw [abs_zero]; exact zero_lt_one
    · exact modff_frac_abs_lt_one _

/-- The accumulators after a kinetic step: those of the emission part when the
step has a move action, the old ones otherwise. -/
theorem process_sums (A : serialized_mouse_action_t → Nat) (comp : Bool) (dt : Nat)
    (ks : mouse_kinetic_state_t) :
    (isMoveAction A ks = true →
      (processMouseKineticState A comp dt ks).xSum
        = (stepEmit A comp dt (stepRampSpeed dt
            (stepSnapSpeed A (stepSelectTarget A (stepResetSpeed A ks))))).xSum ∧
      (processMouseKineticState A comp dt ks).ySum
        = (stepEmit A comp dt (stepRampSpeed dt
            (stepSnapSpeed A (stepSelectTarget A (stepResetSpeed A ks))))).ySum) ∧
    (isMoveAction A ks = false →
      (processMouseKineticState A comp dt ks).xSum = ks.xSum ∧
      (processMouseKineticState A comp dt ks).ySum = ks.ySum) := by
  obtain ⟨-, -, -, -, -, -, -, -, -, -, h11, h12, -⟩ := speedPart_fields A ks
  constructor
  · intro hm
    simp [processMouseKineticState, hm]
  · intro hm
    simp [processMouseKineticState, hm, h11, h12]

/-- C4: the accumulator invariant of a kinetic state (Move or Scroll). For every
content of the counters, every elapsed time and every tuning with
`axisSkew ≠ 0`: if `|xSum| < 1` and `|ySum| < 1` hold before
`processMouseKineticState` they hold after it, and after a step that has a move
action they hold whatever the values were before. -/
theorem C4_sumsInvariant (A : serialized_mouse_action_t → Nat) (comp : Bool) (dt : Nat)
    (ks : mouse_kinetic_state_t) (_hskew : ks.axisSkew ≠ 0) :
    (|ks.xSum| < 1 ∧ |ks.ySum| < 1 →
      |(processMouseKineticState A comp dt ks).xSum| < 1 ∧
      |(processMouseKineticState A comp dt ks).ySum| < 1) ∧
    (isMoveAction A ks = true →
      |(processMouseKineticState A comp dt ks).xSum| < 1 ∧
      |(processMouseKineticState A comp dt ks).ySum| < 1) := by
  have hmove : isMoveAction A ks = true →
      |(processMouseKineticState A comp dt ks).xSum| < 1 ∧
      |(processMouseKineticState A comp dt ks).ySum| < 1 := by
    intro hm
    obtain ⟨hx, hy⟩ := (process_sums A comp dt ks).1 hm
    rw [hx, hy]
    exact stepEmit_sums_abs_lt_one A comp dt _
  refine ⟨fun hb => ?_, hmove⟩
  by_cases hm : isMoveAction A ks = true
  · exact hmove hm
  · obtain ⟨hx, hy⟩ := (process_sums A comp dt ks).2 (by simpa using hm)
    rw [hx, hy]
    exact hb

/-- C4 at a concrete input: a Scroll state with `axisSkew = 2`, accumulators
`3/4` and `-1/2`, ScrollRight and ScrollDown held, 7 ms elapsed. -/
theorem C4_sumsInvariant_witness :
    scrollStateSkewed.axisSkew ≠ 0 ∧
    ((|scrollStateSkewed.xSum| < 1 ∧ |scrollStateSkewed.ySum| < 1 →
      |(processMouseKineticState scrollRightDownHeld true 7 scrollStateSkewed).xSum| < 1 ∧
      |(processMouseKineticState scrollRightDownHeld true 7 scrollStateSkewed).ySum| < 1) ∧
    (isMoveAction scrollRightDownHeld scrollStateSkewed = true →
      |(processMouseKineticState scrollRightDownHeld true 7 scrollStateSkewed).xSum| < 1 ∧
      |(processMouseKineticState scrollRightDownHeld true 7 scrollStateSkewed).ySum| < 1)) :=
  ⟨by simp [scrollStateSkewed, MouseScrollState_init],
    C4_sumsInvariant scrollRightDownHeld true 7 scrollStateSkewed
      (by simp [scrollStateSkewed, MouseScrollState_init])⟩

/-! ### Mode and target speed -/

/-- The reset of the speed changes `currentSpeed` only, so the locals computed
from the counters and the four direction actions are the same before and after. -/
theorem stepResetSpeed_locals (A : serialized_mouse_action_t → Nat) (ks : mouse_kinetic_state_t) :
    doublePressedStateExists A (stepResetSpeed A ks) = doublePressedStateExists A ks ∧
    isMoveAction A (stepResetSpeed A ks) = isMoveAction A ks ∧
    (stepResetSpeed A ks).targetSpeed = ks.targetSpeed ∧
    (stepResetSpeed A ks).intMultiplier = ks.intMultiplier ∧
    (stepResetSpeed A ks).acceleratedSpeed = ks.acceleratedSpeed ∧
    (stepResetSpeed A ks).deceleratedSpeed = ks.deceleratedSpeed ∧
    (stepResetSpeed A ks).baseSpeed = ks.baseSpeed := by
  simp only [stepResetSpeed, doublePressedStateExists, isMoveAction]
  split_ifs <;> simp

/-- The snap of the speed changes `currentSpeed` only. -/
theorem stepSnapSpeed_targetSpeed (A : serialized_mouse_action_t → Nat)
    (ks : mouse_kinetic_state_t) :
    (stepSnapSpeed A ks).targetSpeed = ks.targetSpeed := by
  simp only [stepSnapSpeed]
  split_ifs <;> rfl

/-- The sign update of the emission part leaves speeds and tuning alone. -/
theorem emitSigns_speeds (A : serialized_mouse_action_t → Nat) (ks : mouse_kinetic_state_t) :
    (emitSigns A ks).targetSpeed = ks.targetSpeed ∧
    (emitSigns A ks).currentSpeed = ks.currentSpeed := by
  simp only [emitSigns, updateDirectionSigns]
  split_ifs <;> exact ⟨rfl, rfl⟩

/-- The emission part leaves speeds alone. -/
theorem stepEmit_speeds (A : serialized_mouse_action_t → Nat) (comp : Bool) (dt : Nat)
    (ks : mouse_kinetic_state_t) :
    (stepEmit A comp dt ks).targetSpeed = ks.targetSpeed ∧
    (stepEmit A comp dt ks).currentSpeed = ks.currentSpeed :=
  emitSigns_speeds A ks

/-- The target speed after a kinetic step is the one chosen by the selection. -/
theorem process_targetSpeed (A : serialized_mouse_action_t → Nat) (comp : Bool) (dt : Nat)
    (ks : mouse_kinetic_state_t) :
    (processMouseKineticState A comp dt ks).targetSpeed
      = (stepSelectTarget A (stepResetSpeed A ks)).targetSpeed := by
  have hr := (stepRampSpeed_fields dt
    (stepSnapSpeed A (stepSelectTarget A (stepResetSpeed A ks)))).2.2.2.2.2.2.2.2.1
  have hs := stepSnapSpeed_targetSpeed A (stepSelectTarget A (stepResetSpeed A ks))
  by_cases hm : isMoveAction A ks = true
  · simp only [processMouseKineticState, hm, if_true]
    rw [(stepEmit_speeds A comp dt _).1, hr, hs]
  · simp only [processMouseKineticState, hm, if_false]
    exact hs

/-- The mode committed by a kinetic step is the local `mouseSpeed`. -/
theorem process_prevMouseSpeed (A : serialized_mouse_action_t → Nat) (comp : Bool) (dt : Nat)
    (ks : mouse_kinetic_state_t) :
    (processMouseKineticState A comp dt ks).prevMouseSpeed = mouseSpeed A ks := rfl

/-- The flag committed by a kinetic step is the local `isMoveAction`. -/
theorem process_wasMoveAction (A : serialized_mouse_action_t → Nat) (comp : Bool) (dt : Nat)
    (ks : mouse_kinetic_state_t) :
    (processMouseKineticState A comp dt ks).wasMoveAction = isMoveAction A ks := rfl

/-- A double-pressed state exists exactly when one of the four direction
counters of the kinetic state exceeds 1. -/
theorem doublePressedStateExists_iff (A : serialized_mouse_action_t → Nat)
    (ks : mouse_kinetic_state_t) :
    doublePressedStateExists A ks = true ↔
      (1 < A ks.upState ∨ 1 < A ks.downState ∨ 1 < A ks.leftState ∨ 1 < A ks.rightState) := by
  simp [doublePressedStateExists, or_assoc]

/-- C5: mode selection of `processMouseKineticState`. The step commits mode
Accelerated exactly when the Accelerate counter is non-zero or one of the four
direction counters of the kinetic state exceeds 1, and then `targetSpeed =
intMultiplier * acceleratedSpeed`; otherwise it commits Decelerated exactly when
the Decelerate counter is non-zero, and then `targetSpeed = intMultiplier *
deceleratedSpeed`; otherwise the mode is Normal, with `targetSpeed =
intMultiplier * baseSpeed` when some direction counter is non-zero and
`targetSpeed` unchanged when none is. -/
theorem C5_modeSelection (A : serialized_mouse_action_t → Nat) (comp : Bool) (dt : Nat)
    (ks : mouse_kinetic_state_t) :
    ((processMouseKineticState A comp dt ks).prevMouseSpeed = MouseSpeed_Accelerated ↔
      (A SerializedMouseAction_Accelerate ≠ 0 ∨
        (1 < A ks.upState ∨ 1 < A ks.downState ∨ 1 < A ks.leftState ∨ 1 < A ks.rightState))) ∧
    ((A SerializedMouseAction_Accelerate ≠ 0 ∨
        (1 < A ks.upState ∨ 1 < A ks.downState ∨ 1 < A ks.leftState ∨ 1 < A ks.rightState)) →
      (processMouseKineticState A comp dt ks).targetSpeed
        = ks.intMultiplier * ks.acceleratedSpeed) ∧
    (¬ (A SerializedMouseAction_Accelerate ≠ 0 ∨
        (1 < A ks.upState ∨ 1 < A ks.downState ∨ 1 < A ks.leftState ∨ 1 < A ks.rightState)) →
      ((processMouseKineticState A comp dt ks).prevMouseSpeed = MouseSpeed_Decelerated ↔
        A SerializedMouseAction_Decelerate ≠ 0) ∧
      (A SerializedMouseAction_Decelerate ≠ 0 →
        (processMouseKineticState A comp dt ks).targetSpeed
          = ks.intMultiplier * ks.deceleratedSpeed) ∧
      (A SerializedMouseAction_Decelerate = 0 →
        (processMouseKineticState A comp dt ks).prevMouseSpeed = MouseSpeed_Normal ∧
        ((A ks.upState ≠ 0 ∨ A ks.downState ≠ 0 ∨ A ks.leftState ≠ 0 ∨ A ks.rightState ≠ 0) →
          (processMouseKineticState A comp dt ks).targetSpeed
            = ks.intMultiplier * ks.baseSpeed) ∧
        (¬ (A ks.upState ≠ 0 ∨ A ks.downState ≠ 0 ∨ A ks.leftState ≠ 0 ∨ A ks.rightState ≠ 0) →
          (processMouseKineticState A comp dt ks).targetSpeed = ks.targetSpeed))) := by
  obtain ⟨hd, hmv, ht, hi, ha, hde, hb⟩ := stepResetSpeed_locals A ks
  rw [process_targetSpeed, process_prevMouseSpeed, ← doublePressedStateExists_iff,
    ← isMoveAction_iff]
  by_cases hacc : A SerializedMouseAction_Accelerate ≠ 0 ∨ doublePressedStateExists A ks = true
  · refine ⟨?_, ?_, fun h => absurd hacc h⟩
    · simp [mouseSpeed, hacc]
    · intro _
      simp [stepSelectTarget, hd, hacc, hi, ha]
  · refine ⟨?_, fun h => absurd h hacc, fun _ => ?_⟩
    · simp only [mouseSpeed, if_neg hacc]
      constructor
      · intro h
        split_ifs at h
      · intro h
        exact absurd h hacc
    · by_cases hdec : A SerializedMouseAction_Decelerate ≠ 0
      · refine ⟨?_, ?_, fun h => absurd h hdec⟩
        · simp [mouseSpeed, hacc, hdec]
        · intro _
          simp [stepSelectTarget, hd, hacc, hdec, hi, hde]
      · refine ⟨?_, fun h => absurd h hdec, fun _ => ⟨?_, ?_, ?_⟩⟩
        · simp [mouseSpeed, hacc, hdec]
        · simp [mouseSpeed, hacc, hdec]
        · intro hm
          simp [stepSelectTarget, hd, hmv, hacc, hdec, hm, hi, hb]
        · intro hm
          simp [stepSelectTarget, hd, hmv, hacc, hdec, hm, ht]

/-! ### The speed ramp -/

/-- The ramp in closed form: toward the target by `step`, clamped at the target. -/
theorem stepRampSpeed_currentSpeed (dt : Nat) (ks : mouse_kinetic_state_t)
    (ha : 0 ≤ ks.intMultiplier * ks.acceleration) :
    (ks.currentSpeed < ks.targetSpeed →
      (stepRampSpeed dt ks).currentSpeed
        = min (ks.currentSpeed + ks.intMultiplier * ks.acceleration * (dt : ℚ) / 1000)
            ks.targetSpeed) ∧
    (¬ ks.currentSpeed < ks.targetSpeed →
      (stepRampSpeed dt ks).currentSpeed
        = max (ks.currentSpeed - ks.intMultiplier * ks.acceleration * (dt : ℚ) / 1000)
            ks.targetSpeed) := by
  have hd : 0 ≤ ks.intMultiplier * ks.acceleration * (dt : ℚ) / 1000 := by positivity
  constructor
  · intro hlt
    simp only [stepRampSpeed, if_pos hlt, min_def]
    split_ifs <;> first | rfl | (exfalso; linarith)
  · intro hge
    simp only [stepRampSpeed, if_neg hge, max_def]
    split_ifs <;> first | rfl | (exfalso; linarith) | linarith

/-- The speed after a kinetic step: the ramped speed when the step has a move
action, 0 otherwise. -/
theorem process_currentSpeed (A : serialized_mouse_action_t → Nat) (comp : Bool) (dt : Nat)
    (ks : mouse_kinetic_state_t) :
    (processMouseKineticState A comp dt ks).currentSpeed
      = if isMoveAction A ks = true then
          (stepRampSpeed dt
            (stepSnapSpeed A (stepSelectTarget A (stepResetSpeed A ks)))).currentSpeed
        else 0 := by
  by_cases hm : isMoveAction A ks = true
  · simp only [processMouseKineticState, hm, if_true]
    exact (stepEmit_speeds A comp dt _).2
  · have hm' : isMoveAction A ks = false := by simpa using hm
    simp [processMouseKineticState, hm']

/-- C6: the speed ramp. In a kinetic step that has a move action, with
`a = intMultiplier * acceleration ≥ 0`, `s` the speed after reset and snap and
`t` the target speed: the resulting speed is `min (s + a*dt/1000) t` when
`s < t` and `max (s - a*dt/1000) t` otherwise; it does not overshoot `t`, its
distance to `t` does not grow, and a speed equal to `t` stays at `t`. In a step
without a move action the resulting speed is 0. -/
theorem C6_speedRamp (A : serialized_mouse_action_t → Nat) (comp : Bool) (dt : Nat)
    (ks : mouse_kinetic_state_t) (ha : 0 ≤ ks.intMultiplier * ks.acceleration) :
    (isMoveAction A ks = true →
      (speedBeforeRamp A ks < (processMouseKineticState A comp dt ks).targetSpeed →
        (processMouseKineticState A comp dt ks).currentSpeed
          = min (speedBeforeRamp A ks + ks.intMultiplier * ks.acceleration * (dt : ℚ) / 1000)
              (processMouseKineticState A comp dt ks).targetSpeed) ∧
      (¬ speedBeforeRamp A ks < (processMouseKineticState A comp dt ks).targetSpeed →
        (processMouseKineticState A comp dt ks).currentSpeed
          = max (speedBeforeRamp A ks - ks.intMultiplier * ks.acceleration * (dt : ℚ) / 1000)
              (processMouseKineticState A comp dt ks).targetSpeed) ∧
      (speedBeforeRamp A ks ≤ (processMouseKineticState A comp dt ks).targetSpeed →
        (processMouseKineticState A comp dt ks).currentSpeed
          ≤ (processMouseKineticState A comp dt ks).targetSpeed) ∧
      ((processMouseKineticState A comp dt ks).targetSpeed ≤ speedBeforeRamp A ks →
        (processMouseKineticState A comp dt ks).targetSpeed
          ≤ (processMouseKineticState A comp dt ks).currentSpeed) ∧
      |(processMouseKineticState A comp dt ks).currentSpeed
          - (processMouseKineticState A comp dt ks).targetSpeed|
        ≤ |speedBeforeRamp A ks - (processMouseKineticState A comp dt ks).targetSpeed| ∧
      (speedBeforeRamp A ks = (processMouseKineticState A comp dt ks).targetSpeed →
        (processMouseKineticState A comp dt ks).currentSpeed
          = (processMouseKineticState A comp dt ks).targetSpeed)) ∧
    (isMoveAction A ks = false → (processMouseKineticState A comp dt ks).currentSpeed = 0) := by
  constructor
  · intro hm
    obtain ⟨-, -, -, -, -, -, -, -, h9, h10, -⟩ := speedPart_fields A ks
    have hd : 0 ≤ ks.intMultiplier * ks.acceleration * (dt : ℚ) / 1000 := by positivity
    have ht : (processMouseKineticState A comp dt ks).targetSpeed
        = (stepSnapSpeed A (stepSelectTarget A (stepResetSpeed A ks))).targetSpeed := by
      rw [process_targetSpeed, stepSnapSpeed_targetSpeed]
    have hramp := stepRampSpeed_currentSpeed dt
      (stepSnapSpeed A (stepSelectTarget A (stepResetSpeed A ks)))
      (by rw [h9, h10]; exact ha)
    rw [h9, h10] at hramp
    rw [process_currentSpeed, if_pos hm, ht]
    change (speedBeforeRamp A ks < _ → _ = min (speedBeforeRamp A ks + _) _) ∧
      (¬ speedBeforeRamp A ks < _ → _ = max (speedBeforeRamp A ks - _) _) at hramp
    obtain ⟨hup, hdown⟩ := hramp
    generalize (stepRampSpeed dt
      (stepSnapSpeed A (stepSelectTarget A (stepResetSpeed A ks)))).currentSpeed = c at hup hdown ⊢
    generalize (stepSnapSpeed A (stepSelectTarget A (stepResetSpeed A ks))).targetSpeed
      = t at hup hdown ⊢
    generalize speedBeforeRamp A ks = s at hup hdown ⊢
    generalize ks.intMultiplier * ks.acceleration * (dt : ℚ) / 1000 = d at hd hup hdown ⊢
    refine ⟨hup, hdown, ?_, ?_, ?_, ?_⟩
    · intro hst
      rcases lt_or_eq_of_le hst with h | h
      · rw [hup h]; exact min_le_right _ _
      · rw [hdown (by rw [h]; exact lt_irrefl _), h]
        exact le_of_eq (max_eq_right (by linarith))
    · intro hts
      rw [hdown (not_lt.mpr hts)]
      exact le_max_right _ _
    · by_cases h : s < t
      · rw [hup h, abs_le]
        have h1 : min (s + d) t ≤ t := min_le_right _ _
        have h2 : s ≤ min (s + d) t := le_min (by linarith) (le_of_lt h)
        have h3 : |s - t| = t - s := by rw [abs_sub_comm]; exact abs_of_nonneg (by linarith)
        rw [h3]
        constructor <;> linarith
      · rw [hdown h, abs_le]
        have hts : t ≤ s := not_lt.mp h
        have h1 : t ≤ max (s - d) t := le_max_right _ _
        have h2 : max (s - d) t ≤ s := max_le (by linarith) hts
        have h3 : |s - t| = s - t := abs_of_nonneg (by linarith)
        rw [h3]
        constructor <;> linarith
    · intro hst
      rw [hdown (by rw [hst]; exact lt_irrefl _), hst]
      exact max_eq_right (by linarith)
  · intro hm
    rw [process_currentSpeed]
    simp [hm]

/-- C6 at a concrete input: the Move state at rest with the default tuning
(`intMultiplier * acceleration = 875`), MoveRight held, 1 ms elapsed. -/
theorem C6_speedRamp_witness :
    (0 : ℚ) ≤ MouseMoveState_init.intMultiplier * MouseMoveState_init.acceleration ∧
    (processMouseKineticState moveRightHeld false 1 MouseMoveState_init).currentSpeed
      = min (speedBeforeRamp moveRightHeld MouseMoveState_init
          + MouseMoveState_init.intMultiplier * MouseMoveState_init.acceleration
            * ((1 : Nat) : ℚ) / 1000)
        (processMouseKineticState moveRightHeld false 1 MouseMoveState_init).targetSpeed :=
  have ha : (0 : ℚ) ≤ MouseMoveState_init.intMultiplier * MouseMoveState_init.acceleration := by
    norm_num [MouseMoveState_init]
  ⟨ha, ((C6_speedRamp moveRightHeld false 1 MouseMoveState_init ha).1 (by decide)).1
    (by
      rw [process_targetSpeed]
      simp [speedBeforeRamp, stepSnapSpeed, stepSelectTarget, stepResetSpeed, mouseSpeed,
        doublePressedStateExists, isMoveAction, moveRightHeld, MouseMoveState_init]
      norm_num)⟩

/-! ### The first scroll tick -/

/-- C7 (the code at the failing input): Scroll state at rest, ScrollLeft and
ScrollRight both held, ScrollRight pressed last so that the horizontal sign is
`+1`, 1 ms elapsed. The step is the first after idle and has a move action, the
sign stays `+1` and the truncated sum is 0, yet the forced tick is `xOut = -1`
(with `xSum = 0`): the tick follows the ScrollLeft counter, not the sign. The
next step accumulates in the direction of the sign (`xSum = 1/50`). -/
theorem C7_firstScrollTick_bothHeld :
    scrollStateRightPressedLast.isScroll = true ∧
    scrollStateRightPressedLast.wasMoveAction = false ∧
    isMoveAction scrollLeftRightHeld scrollStateRightPressedLast = true ∧
    (processMouseKineticState scrollLeftRightHeld false 1
      scrollStateRightPressedLast).horizontalStateSign = 1 ∧
    (processMouseKineticState scrollLeftRightHeld false 1
      scrollStateRightPressedLast).xOut = -1 ∧
    (processMouseKineticState scrollLeftRightHeld false 1
      scrollStateRightPressedLast).xSum = 0 ∧
    (processMouseKineticState scrollLeftRightHeld false 1
      (processMouseKineticState scrollLeftRightHeld false 1
        scrollStateRightPressedLast)).xSum = 1 / 50 := by
  refine ⟨rfl, rfl, by decide, ?_, ?_, ?_, ?_⟩
  · rw [process_hSign]
    simp [isMoveAction, updateDirectionSigns, updateOneDirectionSign, scrollLeftRightHeld,
      scrollStateRightPressedLast, MouseScrollState_init]
  · simp [processMouseKineticState, stepEmit, firstScrollTickX, emitXAcc, emitDistance,
      emitSigns, updateDirectionSigns, updateOneDirectionSign, stepRampSpeed, stepSnapSpeed,
      stepSelectTarget, stepResetSpeed, mouseSpeed, doublePressedStateExists, isMoveAction,
      scrollLeftRightHeld, scrollStateRightPressedLast, MouseScrollState_init, modff]
    norm_num
  · simp [processMouseKineticState, stepEmit, firstScrollTickX, emitXAcc, emitDistance,
      emitSigns, updateDirectionSigns, updateOneDirectionSign, stepRampSpeed, stepSnapSpeed,
      stepSelectTarget, stepResetSpeed, mouseSpeed, doublePressedStateExists, isMoveAction,
      scrollLeftRightHeld, scrollStateRightPressedLast, MouseScrollState_init, modff]
    norm_num
  · simp [processMouseKineticState, stepEmit, firstScrollTickX, emitXAcc, emitDistance,
      emitSigns, updateDirectionSigns, updateOneDirectionSign, stepRampSpeed, stepSnapSpeed,
      stepSelectTarget, stepResetSpeed, mouseSpeed, doublePressedStateExists, isMoveAction,
      scrollLeftRightHeld, scrollStateRightPressedLast, MouseScrollState_init, modff]
    norm_num

/-! ### The split of the sums -/

/-- The integral part of `modff` is the truncation toward zero. -/
theorem modff_int_eq_trunc (x : ℚ) : (modff x).2 = truncTowardZero x := by
  by_cases hx : 0 ≤ x
  · rw [modff_int_of_nonneg hx, truncTowardZero, if_pos hx]
  · rw [modff_int_of_neg (not_le.mp hx), truncTowardZero, if_neg hx]

/-- The sign update of the emission part resets the sums for Scroll after idle
and keeps them otherwise; it leaves the tuning and the flags alone. -/
theorem emitSigns_sums (A : serialized_mouse_action_t → Nat) (ks : mouse_kinetic_state_t)
    (hstep : ks.isScroll = false ∨ ks.wasMoveAction = true) :
    (emitSigns A ks).xSum = ks.xSum ∧ (emitSigns A ks).ySum = ks.ySum := by
  have h : ¬ (ks.isScroll = true ∧ ks.wasMoveAction = false) := by
    rintro ⟨h1, h2⟩
    rcases hstep with h | h
    · rw [h] at h1; exact Bool.noConfusion h1
    · rw [h] at h2; exact Bool.noConfusion h2
  simp only [emitSigns, if_neg h, updateDirectionSigns]
  exact ⟨trivial, trivial⟩

/-- No first scroll tick outside the first Scroll step after idle. -/
theorem firstScrollTick_false (A : serialized_mouse_action_t → Nat) (comp : Bool) (dt : Nat)
    (ks : mouse_kinetic_state_t) (hstep : ks.isScroll = false ∨ ks.wasMoveAction = true) :
    firstScrollTickX A comp dt ks = false ∧ firstScrollTickY A comp dt ks = false := by
  rcases hstep with h | h <;> simp [firstScrollTickX, firstScrollTickY, h]

/-- The emitted fields after a kinetic step that has a move action are those of
the emission part applied to the ramped state. -/
theorem process_emitted (A : serialized_mouse_action_t → Nat) (comp : Bool) (dt : Nat)
    (ks : mouse_kinetic_state_t) (hm : isMoveAction A ks = true) :
    (processMouseKineticState A comp dt ks).xOut
      = (stepEmit A comp dt (stepRampSpeed dt
          (stepSnapSpeed A (stepSelectTarget A (stepResetSpeed A ks))))).xOut ∧
    (processMouseKineticState A comp dt ks).yOut
      = (stepEmit A comp dt (stepRampSpeed dt
          (stepSnapSpeed A (stepSelectTarget A (stepResetSpeed A ks))))).yOut ∧
    (processMouseKineticState A comp dt ks).horizontalStateSign
      = (emitSigns A (stepRampSpeed dt
          (stepSnapSpeed A (stepSelectTarget A (stepResetSpeed A ks))))).horizontalStateSign ∧
    (processMouseKineticState A comp dt ks).verticalStateSign
      = (emitSigns A (stepRampSpeed dt
          (stepSnapSpeed A (stepSelectTarget A (stepResetSpeed A ks))))).verticalStateSign ∧
    (processMouseKineticState A comp dt ks).currentSpeed
      = (stepRampSpeed dt
          (stepSnapSpeed A (stepSelectTarget A (stepResetSpeed A ks)))).currentSpeed := by
  refine ⟨?_, ?_, ?_, ?_, ?_⟩
  · simp [processMouseKineticState, hm]
  · simp [processMouseKineticState, hm]
  · simp [processMouseKineticState, hm, stepEmit]
  · simp [processMouseKineticState, hm, stepEmit]
  · rw [process_currentSpeed, if_pos hm]

/-- The split of the sums in a step with a move action that is not the first
Scroll step after idle, without diagonal compensation: each output is the
truncation toward zero of the accumulated sum and the new sum is the rest. -/
theorem splitSums_of_move (A : serialized_mouse_action_t → Nat) (comp : Bool) (dt : Nat)
    (ks : mouse_kinetic_state_t) (hm : isMoveAction A ks = true)
    (hstep : ks.isScroll = false ∨ ks.wasMoveAction = true)
    (hcomp : comp = false ∨
      (processMouseKineticState A comp dt ks).horizontalStateSign = 0 ∨
      (processMouseKineticState A comp dt ks).verticalStateSign = 0) :
    ((processMouseKineticState A comp dt ks).xOut
        = truncTowardZero (ks.xSum +
            (processMouseKineticState A comp dt ks).currentSpeed * (dt : ℚ) / 1000 *
              ((processMouseKineticState A comp dt ks).horizontalStateSign : ℚ) * ks.axisSkew) ∧
      (processMouseKineticState A comp dt ks).xSum
        = (ks.xSum +
            (processMouseKineticState A comp dt ks).currentSpeed * (dt : ℚ) / 1000 *
              ((processMouseKineticState A comp dt ks).horizontalStateSign : ℚ) * ks.axisSkew)
          - ((processMouseKineticState A comp dt ks).xOut : ℚ) ∧
      ((processMouseKineticState A comp dt ks).xOut : ℚ)
          + (processMouseKineticState A comp dt ks).xSum
        = ks.xSum +
            (processMouseKineticState A comp dt ks).currentSpeed * (dt : ℚ) / 1000 *
              ((processMouseKineticState A comp dt ks).horizontalStateSign : ℚ) * ks.axisSkew) ∧
    ((processMouseKineticState A comp dt ks).yOut
        = truncTowardZero (ks.ySum +
            (processMouseKineticState A comp dt ks).currentSpeed * (dt : ℚ) / 1000 *
              ((processMouseKineticState A comp dt ks).verticalStateSign : ℚ) / ks.axisSkew) ∧
      (processMouseKineticState A comp dt ks).ySum
        = (ks.ySum +
            (processMouseKineticState A comp dt ks).currentSpeed * (dt : ℚ) / 1000 *
              ((processMouseKineticState A comp dt ks).verticalStateSign : ℚ) / ks.axisSkew)
          - ((processMouseKineticState A comp dt ks).yOut : ℚ) ∧
      ((processMouseKineticState A comp dt ks).yOut : ℚ)
          + (processMouseKineticState A comp dt ks).ySum
        = ks.ySum +
            (processMouseKineticState A comp dt ks).currentSpeed * (dt : ℚ) / 1000 *
              ((processMouseKineticState A comp dt ks).verticalStateSign : ℚ) / ks.axisSkew) := by
  obtain ⟨s1, s2, -, -, -, -, -, -, -, -, s11, s12, -, -, s15⟩ := speedPart_fields A ks
  obtain ⟨r1, r2, -, -, -, -, -, -, -, r10, r11, r12⟩ :=
    stepRampSpeed_fields dt (stepSnapSpeed A (stepSelectTarget A (stepResetSpeed A ks)))
  obtain ⟨ex, ey, eh, ev, ec⟩ := process_emitted A comp dt ks hm
  obtain ⟨sx, sy⟩ := (process_sums A comp dt ks).1 hm
  have hstep4 : (stepRampSpeed dt
      (stepSnapSpeed A (stepSelectTarget A (stepResetSpeed A ks)))).isScroll = false ∨
      (stepRampSpeed dt
        (stepSnapSpeed A (stepSelectTarget A (stepResetSpeed A ks)))).wasMoveAction = true := by
    rw [r1, r2, s1, s2]; exact hstep
  obtain ⟨fx, fy⟩ := firstScrollTick_false A comp dt _ hstep4
  obtain ⟨ux, uy⟩ := emitSigns_sums A _ hstep4
  rw [eh, ev] at hcomp
  have hdist : emitDistance A comp dt (stepRampSpeed dt
      (stepSnapSpeed A (stepSelectTarget A (stepResetSpeed A ks))))
      = (processMouseKineticState A comp dt ks).currentSpeed * (dt : ℚ) / 1000 := by
    have hno : ¬ ((emitSigns A (stepRampSpeed dt
        (stepSnapSpeed A (stepSelectTarget A (stepResetSpeed A ks))))).horizontalStateSign ≠ 0 ∧
      (emitSigns A (stepRampSpeed dt
        (stepSnapSpeed A (stepSelectTarget A (stepResetSpeed A ks))))).verticalStateSign ≠ 0 ∧
      comp = true) := by
      rintro ⟨h1, h2, h3⟩
      rcases hcomp with h | h | h
      · rw [h] at h3; exact Bool.noConfusion h3
      · exact h1 h
      · exact h2 h
    rw [emitDistance, if_neg hno, ec]
  have hxacc : emitXAcc A comp dt (stepRampSpeed dt
      (stepSnapSpeed A (stepSelectTarget A (stepResetSpeed A ks))))
      = ks.xSum + (processMouseKineticState A comp dt ks).currentSpeed * (dt : ℚ) / 1000 *
          ((processMouseKineticState A comp dt ks).horizontalStateSign : ℚ) * ks.axisSkew := by
    rw [emitXAcc, hdist, ux, r10, s11, r12, s15, eh]
  have hyacc : emitYAcc A comp dt (stepRampSpeed dt
      (stepSnapSpeed A (stepSelectTarget A (stepResetSpeed A ks))))
      = ks.ySum + (processMouseKineticState A comp dt ks).currentSpeed * (dt : ℚ) / 1000 *
          ((processMouseKineticState A comp dt ks).verticalStateSign : ℚ) / ks.axisSkew := by
    rw [emitYAcc, hdist, uy, r11, s12, r12, s15, ev]
  have hxo : (processMouseKineticState A comp dt ks).xOut
      = (modff (emitXAcc A comp dt (stepRampSpeed dt
          (stepSnapSpeed A (stepSelectTarget A (stepResetSpeed A ks)))))).2 := by
    rw [ex]; simp [stepEmit, fx]
  have hxs : (processMouseKineticState A comp dt ks).xSum
      = (modff (emitXAcc A comp dt (stepRampSpeed dt
          (stepSnapSpeed A (stepSelectTarget A (stepResetSpeed A ks)))))).1 := by
    rw [sx]; simp [stepEmit, fx]
  have hyo : (processMouseKineticState A comp dt ks).yOut
      = (modff (emitYAcc A comp dt (stepRampSpeed dt
          (stepSnapSpeed A (stepSelectTarget A (stepResetSpeed A ks)))))).2 := by
    rw [ey]; simp [stepEmit, fy]
  have hys : (processMouseKineticState A comp dt ks).ySum
      = (modff (emitYAcc A comp dt (stepRampSpeed dt
          (stepSnapSpeed A (stepSelectTarget A (stepResetSpeed A ks)))))).1 := by
    rw [sy]; simp [stepEmit, fy]
  rw [hxacc] at hxo hxs
  rw [hyacc] at hyo hys
  refine ⟨⟨?_, ?_, ?_⟩, ?_, ?_, ?_⟩
  · rw [← modff_int_eq_trunc]; exact hxo
  · rw [hxs, modff_frac, ← hxo]
  · rw [hxs, modff_frac, ← hxo]; ring
  · rw [← modff_int_eq_trunc]; exact hyo
  · rw [hys, modff_frac, ← hyo]
  · rw [hys, modff_frac, ← hyo]; ring

/-- C8: the split of the sums. In a Move step with a move action, and in a
Scroll step with a move action other than the first after idle, with
`CompensateDiagonalSpeed` off or one resulting sign zero: with
`distance = currentSpeed * dt / 1000` (the resulting speed) and
`S = xSum_before + distance * hSign * axisSkew`, `xOut` is the truncation toward
zero of `S`, `xSum_after = S - xOut`, hence `xOut + xSum_after = S`; likewise for
y with `distance * vSign / axisSkew`. -/
theorem C8_splitSums (A : serialized_mouse_action_t → Nat) (comp : Bool) (dt : Nat)
    (ks : mouse_kinetic_state_t) (hm : isMoveAction A ks = true)
    (hstep : ks.isScroll = false ∨ ks.wasMoveAction = true)
    (hcomp : comp = false ∨
      (processMouseKineticState A comp dt ks).horizontalStateSign = 0 ∨
      (processMouseKineticState A comp dt ks).verticalStateSign = 0) :
    ((processMouseKineticState A comp dt ks).xOut
        = truncTowardZero (ks.xSum +
            (processMouseKineticState A comp dt ks).currentSpeed * (dt : ℚ) / 1000 *
              ((processMouseKineticState A comp dt ks).horizontalStateSign : ℚ) * ks.axisSkew) ∧
      (processMouseKineticState A comp dt ks).xSum
        = (ks.xSum +
            (processMouseKineticState A comp dt ks).currentSpeed * (dt : ℚ) / 1000 *
              ((processMouseKineticState A comp dt ks).horizontalStateSign : ℚ) * ks.axisSkew)
          - ((processMouseKineticState A comp dt ks).xOut : ℚ) ∧
      ((processMouseKineticState A comp dt ks).xOut : ℚ)
          + (processMouseKineticState A comp dt ks).xSum
        = ks.xSum +
            (processMouseKineticState A comp dt ks).currentSpeed * (dt : ℚ) / 1000 *
              ((processMouseKineticState A comp dt ks).horizontalStateSign : ℚ) * ks.axisSkew) ∧
    ((processMouseKineticState A comp dt ks).yOut
        = truncTowardZero (ks.ySum +
            (processMouseKineticState A comp dt ks).currentSpeed * (dt : ℚ) / 1000 *
              ((processMouseKineticState A comp dt ks).verticalStateSign : ℚ) / ks.axisSkew) ∧
      (processMouseKineticState A comp dt ks).ySum
        = (ks.ySum +
            (processMouseKineticState A comp dt ks).currentSpeed * (dt : ℚ) / 1000 *
              ((processMouseKineticState A comp dt ks).verticalStateSign : ℚ) / ks.axisSkew)
          - ((processMouseKineticState A comp dt ks).yOut : ℚ) ∧
      ((processMouseKineticState A comp dt ks).yOut : ℚ)
          + (processMouseKineticState A comp dt ks).ySum
        = ks.ySum +
            (processMouseKineticState A comp dt ks).currentSpeed * (dt : ℚ) / 1000 *
              ((processMouseKineticState A comp dt ks).verticalStateSign : ℚ) / ks.axisSkew) :=
  splitSums_of_move A comp dt ks hm hstep hcomp

/-- C8 at a concrete input: the Move state in mid-motion (speed 1000, sums `1/2`
and `-1/4`), MoveRight and MoveDown held, no compensation, 10 ms elapsed. -/
theorem C8_splitSums_witness :
    isMoveAction moveRightDownHeld moveStateDiagonal = true ∧
    (moveStateDiagonal.isScroll = false ∨ moveStateDiagonal.wasMoveAction = true) ∧
    ((processMouseKineticState moveRightDownHeld false 10 moveStateDiagonal).xOut : ℚ)
        + (processMouseKineticState moveRightDownHeld false 10 moveStateDiagonal).xSum
      = moveStateDiagonal.xSum +
          (processMouseKineticState moveRightDownHeld false 10 moveStateDiagonal).currentSpeed
            * ((10 : Nat) : ℚ) / 1000 *
            ((processMouseKineticState moveRightDownHeld false 10
              moveStateDiagonal).horizontalStateSign : ℚ) * moveStateDiagonal.axisSkew :=
  ⟨by decide, Or.inl rfl,
    (C8_splitSums moveRightDownHeld false 10 moveStateDiagonal (by decide) (Or.inl rfl)
      (Or.inl rfl)).1.2.2⟩

/-! ### Configuration fields -/

/-- The configuration of a kinetic state: the fields no part of the step writes. -/
theorem process_config (A : serialized_mouse_action_t → Nat) (comp : Bool) (dt : Nat)
    (ks : mouse_kinetic_state_t) :
    (processMouseKineticState A comp dt ks).isScroll = ks.isScroll ∧
    (processMouseKineticState A comp dt ks).upState = ks.upState ∧
    (processMouseKineticState A comp dt ks).downState = ks.downState ∧
    (processMouseKineticState A comp dt ks).leftState = ks.leftState ∧
    (processMouseKineticState A comp dt ks).rightState = ks.rightState ∧
    (processMouseKineticState A comp dt ks).intMultiplier = ks.intMultiplier ∧
    (processMouseKineticState A comp dt ks).initialSpeed = ks.initialSpeed ∧
    (processMouseKineticState A comp dt ks).acceleration = ks.acceleration ∧
    (processMouseKineticState A comp dt ks).deceleratedSpeed = ks.deceleratedSpeed ∧
    (processMouseKineticState A comp dt ks).baseSpeed = ks.baseSpeed ∧
    (processMouseKineticState A comp dt ks).acceleratedSpeed = ks.acceleratedSpeed ∧
    (processMouseKineticState A comp dt ks).axisSkew = ks.axisSkew := by
  have h3 : ∀ k : mouse_kinetic_state_t,
      (stepSnapSpeed A (stepSelectTarget A (stepResetSpeed A k))).isScroll = k.isScroll ∧
      (stepSnapSpeed A (stepSelectTarget A (stepResetSpeed A k))).upState = k.upState ∧
      (stepSnapSpeed A (stepSelectTarget A (stepResetSpeed A k))).downState = k.downState ∧
      (stepSnapSpeed A (stepSelectTarget A (stepResetSpeed A k))).leftState = k.leftState ∧
      (stepSnapSpeed A (stepSelectTarget A (stepResetSpeed A k))).rightState = k.rightState ∧
      (stepSnapSpeed A (stepSelectTarget A (stepResetSpeed A k))).intMultiplier
        = k.intMultiplier ∧
      (stepSnapSpeed A (stepSelectTarget A (stepResetSpeed A k))).initialSpeed
        = k.initialSpeed ∧
      (stepSnapSpeed A (stepSelectTarget A (stepResetSpeed A k))).acceleration
        = k.acceleration ∧
      (stepSnapSpeed A (stepSelectTarget A (stepResetSpeed A k))).deceleratedSpeed
        = k.deceleratedSpeed ∧
      (stepSnapSpeed A (stepSelectTarget A (stepResetSpeed A k))).baseSpeed = k.baseSpeed ∧
      (stepSnapSpeed A (stepSelectTarget A (stepResetSpeed A k))).acceleratedSpeed
        = k.acceleratedSpeed ∧
      (stepSnapSpeed A (stepSelectTarget A (stepResetSpeed A k))).axisSkew = k.axisSkew := by
    intro k
    simp only [stepSnapSpeed, stepSelectTarget, stepResetSpeed]
    split_ifs <;> simp
  have h4 : ∀ k : mouse_kinetic_state_t,
      (stepRampSpeed dt k).isScroll = k.isScroll ∧
      (stepRampSpeed dt k).upState = k.upState ∧
      (stepRampSpeed dt k).downState = k.downState ∧
      (stepRampSpeed dt k).leftState = k.leftState ∧
      (stepRampSpeed dt k).rightState = k.rightState ∧
      (stepRampSpeed dt k).intMultiplier = k.intMultiplier ∧
      (stepRampSpeed dt k).initialSpeed = k.initialSpeed ∧
      (stepRampSpeed dt k).acceleration = k.acceleration ∧
      (stepRampSpeed dt k).deceleratedSpeed = k.deceleratedSpeed ∧
      (stepRampSpeed dt k).baseSpeed = k.baseSpeed ∧
      (stepRampSpeed dt k).acceleratedSpeed = k.acceleratedSpeed ∧
      (stepRampSpeed dt k).axisSkew = k.axisSkew := by
    intro k
    simp only [stepRampSpeed]
    split_ifs <;> simp
  have h5 : ∀ k : mouse_kinetic_state_t,
      (stepEmit A comp dt k).isScroll = k.isScroll ∧
      (stepEmit A comp dt k).upState = k.upState ∧
      (stepEmit A comp dt k).downState = k.downState ∧
      (stepEmit A comp dt k).leftState = k.leftState ∧
      (stepEmit A comp dt k).rightState = k.rightState ∧
      (stepEmit A comp dt k).intMultiplier = k.intMultiplier ∧
      (stepEmit A comp dt k).initialSpeed = k.initialSpeed ∧
      (stepEmit A comp dt k).acceleration = k.acceleration ∧
      (stepEmit A comp dt k).deceleratedSpeed = k.deceleratedSpeed ∧
      (stepEmit A comp dt k).baseSpeed = k.baseSpeed ∧
      (stepEmit A comp dt k).acceleratedSpeed = k.acceleratedSpeed ∧
      (stepEmit A comp dt k).axisSkew = k.axisSkew := by
    intro k
    simp only [stepEmit, emitSigns, updateDirectionSigns]
    split_ifs <;> simp
  obtain ⟨a1, a2, a3, a4, a5, a6, a7, a8, a9, a10, a11, a12⟩ := h3 ks
  obtain ⟨b1, b2, b3, b4, b5, b6, b7, b8, b9, b10, b11, b12⟩ :=
    h4 (stepSnapSpeed A (stepSelectTarget A (stepResetSpeed A ks)))
  obtain ⟨c1, c2, c3, c4, c5, c6, c7, c8, c9, c10, c11, c12⟩ :=
    h5 (stepRampSpeed dt (stepSnapSpeed A (stepSelectTarget A (stepResetSpeed A ks))))
  by_cases hm : isMoveAction A ks = true
  · simp only [processMouseKineticState, hm, if_true]
    exact ⟨c1.trans (b1.trans a1), c2.trans (b2.trans a2), c3.trans (b3.trans a3),
      c4.trans (b4.trans a4), c5.trans (b5.trans a5), c6.trans (b6.trans a6),
      c7.trans (b7.trans a7), c8.trans (b8.trans a8), c9.trans (b9.trans a9),
      c10.trans (b10.trans a10), c11.trans (b11.trans a11), c12.trans (b12.trans a12)⟩
  · have hm' : isMoveAction A ks = false := by simpa using hm
    simp only [processMouseKineticState, hm']
    exact ⟨a1, a2, a3, a4, a5, a6, a7, a8, a9, a10, a11, a12⟩

/-! ### Scenario S1 -/

/-- One step of scenario S1 keeps the scenario facts, ramps the speed by `7/8`
and adds the travelled distance to the emitted output plus accumulator. -/
theorem s1_step (n : Nat) (ks : mouse_kinetic_state_t) (inv : S1Inv n ks)
    (hn : n + 1 ≤ 1000) :
    S1Inv (n + 1) (processMouseKineticState moveRightHeld false 1 ks) ∧
    ((processMouseKineticState moveRightHeld false 1 ks).xOut : ℚ)
        + (processMouseKineticState moveRightHeld false 1 ks).xSum
      = ks.xSum + (125 + 7 * ((n : ℚ) + 1) / 8) / 1000 := by
  have hnq : ((n : ℚ) + 1) ≤ 1000 := by exact_mod_cast hn
  have hn0 : (0 : ℚ) ≤ (n : ℚ) := Nat.cast_nonneg n
  have hup : moveRightHeld ks.upState = 0 := by rw [inv.upState]; rfl
  have hdown : moveRightHeld ks.downState = 0 := by rw [inv.downState]; rfl
  have hleft : moveRightHeld ks.leftState = 0 := by rw [inv.leftState]; rfl
  have hright : moveRightHeld ks.rightState = 1 := by rw [inv.rightState]; rfl
  have hacc : moveRightHeld SerializedMouseAction_Accelerate = 0 := rfl
  have hdec : moveRightHeld SerializedMouseAction_Decelerate = 0 := rfl
  have hm : isMoveAction moveRightHeld ks = true := by
    simp [isMoveAction, hright]
  have hdp : doublePressedStateExists moveRightHeld ks = false := by
    simp [doublePressedStateExists, hup, hdown, hleft, hright]
  have hms : mouseSpeed moveRightHeld ks = MouseSpeed_Normal := by
    simp [mouseSpeed, hacc, hdec, hdp]
  obtain ⟨c1, c2, c3, c4, c5, c6, c7, c8, -, c10, -, c12⟩ :=
    process_config moveRightHeld false 1 ks
  obtain ⟨-, -, -, -, -, -, -, -, f9, f10, -⟩ := speedPart_fields moveRightHeld ks
  -- the speed on entry to the ramp and the target
  have hs : (stepSnapSpeed moveRightHeld (stepSelectTarget moveRightHeld
      (stepResetSpeed moveRightHeld ks))).currentSpeed = 125 + 7 * (n : ℚ) / 8 := by
    rcases inv.speed with ⟨hw, h0⟩ | ⟨hw, hc⟩
    · simp [stepSnapSpeed, stepSelectTarget, stepResetSpeed, mouseSpeed,
        doublePressedStateExists, isMoveAction, hup, hdown, hleft, hright, hacc, hdec, hw, h0,
        inv.intMultiplier, inv.initialSpeed, inv.prevMouseSpeed]
      norm_num
    · simp [stepSnapSpeed, stepSelectTarget, stepResetSpeed, mouseSpeed,
        doublePressedStateExists, isMoveAction, hup, hdown, hleft, hright, hacc, hdec, hw, hc,
        inv.prevMouseSpeed]
  have ht : (stepSnapSpeed moveRightHeld (stepSelectTarget moveRightHeld
      (stepResetSpeed moveRightHeld ks))).targetSpeed = 1000 := by
    obtain ⟨l1, l2, -, l4, -, -, l7⟩ := stepResetSpeed_locals moveRightHeld ks
    rw [stepSnapSpeed_targetSpeed]
    simp [stepSelectTarget, l1, l2, l4, l7, hacc, hdec, hdp, hm, inv.intMultiplier,
      inv.baseSpeed]
    norm_num
  have hcs : (processMouseKineticState moveRightHeld false 1 ks).currentSpeed
      = 125 + 7 * ((n : ℚ) + 1) / 8 := by
    rw [process_currentSpeed, if_pos hm]
    have hramp := (stepRampSpeed_currentSpeed 1 (stepSnapSpeed moveRightHeld
      (stepSelectTarget moveRightHeld (stepResetSpeed moveRightHeld ks)))
      (by rw [f9, f10, inv.intMultiplier, inv.acceleration]; norm_num)).1
      (by rw [hs, ht]; linarith)
    rw [hramp, hs, ht, f9, f10, inv.intMultiplier, inv.acceleration, min_eq_left]
    · push_cast; ring
    · push_cast; linarith
  have hh : (processMouseKineticState moveRightHeld false 1 ks).horizontalStateSign = 1 := by
    rw [process_hSign, if_pos hm, updateDirectionSigns_hSign]
    simp [updateOneDirectionSign, inv.hSign, hright]
  have hv : (processMouseKineticState moveRightHeld false 1 ks).verticalStateSign = 0 := by
    rw [process_vSign, if_pos hm, updateDirectionSigns_vSign]
    simp [updateOneDirectionSign, inv.vSign]
  obtain ⟨⟨x1, x2, x3⟩, y1, y2, -⟩ :=
    splitSums_of_move moveRightHeld false 1 ks hm (Or.inl inv.isScroll) (Or.inl rfl)
  rw [hcs, hh, inv.axisSkew] at x1 x2 x3
  rw [hcs, hv, inv.axisSkew, inv.ySum] at y1 y2
  have hxacc : ks.xSum + (125 + 7 * ((n : ℚ) + 1) / 8) * ((1 : Nat) : ℚ) / 1000
      * ((1 : Int) : ℚ) * 1 = ks.xSum + (125 + 7 * ((n : ℚ) + 1) / 8) / 1000 := by
    push_cast; ring
  have hyacc : (0 : ℚ) + (125 + 7 * ((n : ℚ) + 1) / 8) * ((1 : Nat) : ℚ) / 1000
      * ((0 : Int) : ℚ) / 1 = 0 := by
    push_cast; ring
  rw [hxacc] at x1 x2 x3
  rw [hyacc] at y1 y2
  have hSnonneg : (0 : ℚ) ≤ ks.xSum + (125 + 7 * ((n : ℚ) + 1) / 8) / 1000 := by
    have := inv.xSum_nonneg
    have h2 : (0 : ℚ) ≤ (125 + 7 * ((n : ℚ) + 1) / 8) / 1000 := by positivity
    linarith
  have hy0 : (processMouseKineticState moveRightHeld false 1 ks).yOut = 0 := by
    rw [y1]; simp [truncTowardZero]
  rw [truncTowardZero, if_pos hSnonneg] at x1
  refine ⟨?_, x3⟩
  exact
    { isScroll := c1.trans inv.isScroll
      upState := c2.trans inv.upState
      downState := c3.trans inv.downState
      leftState := c4.trans inv.leftState
      rightState := c5.trans inv.rightState
      intMultiplier := c6.trans inv.intMultiplier
      initialSpeed := c7.trans inv.initialSpeed
      acceleration := c8.trans inv.acceleration
      baseSpeed := c10.trans inv.baseSpeed
      axisSkew := c12.trans inv.axisSkew
      hSign := hh
      vSign := hv
      prevMouseSpeed := (process_prevMouseSpeed moveRightHeld false 1 ks).trans hms
      speed := Or.inr ⟨(process_wasMoveAction moveRightHeld false 1 ks).trans hm, by
        rw [hcs]; push_cast; ring⟩
      ySum := by rw [y2, hy0]; simp
      yOut := hy0
      xSum_nonneg := by
        rw [x2, x1]
        have := Int.floor_le (ks.xSum + (125 + 7 * ((n : ℚ) + 1) / 8) / 1000)
        linarith
      xSum_lt_one := by
        rw [x2, x1]
        have := Int.lt_floor_add_one (ks.xSum + (125 + 7 * ((n : ℚ) + 1) / 8) / 1000)
        linarith
      xOut_nonneg := by
        rw [x1]
        exact Int.floor_nonneg.mpr hSnonneg }

/-- The state after `n + 1` steps is one kinetic step applied to the state after
`n` steps. -/
theorem s1Run_succ (n : Nat) :
    s1Run (n + 1) = processMouseKineticState moveRightHeld false 1 (s1Run n) :=
  Function.iterate_succ_apply' _ _ _

/-- The scenario facts hold at the start of scenario S1. -/
theorem s1_inv_start : S1Inv 0 s1Start :=
  { isScroll := rfl
    upState := rfl
    downState := rfl
    leftState := rfl
    rightState := rfl
    intMultiplier := rfl
    initialSpeed := rfl
    acceleration := rfl
    baseSpeed := rfl
    axisSkew := rfl
    hSign := rfl
    vSign := rfl
    prevMouseSpeed := rfl
    speed := Or.inl ⟨rfl, rfl⟩
    ySum := rfl
    yOut := rfl
    xSum_nonneg := le_refl (0 : ℚ)
    xSum_lt_one := show (0 : ℚ) < 1 from zero_lt_one
    xOut_nonneg := le_refl (0 : Int) }

/-- Throughout the ramp of scenario S1 the scenario facts hold and the emitted
total plus the accumulator is the travelled distance. -/
theorem s1_all (n : Nat) (hn : n ≤ 1000) :
    S1Inv n (s1Run n) ∧ (s1Total n : ℚ) + (s1Run n).xSum = s1Distance n := by
  induction n with
  | zero =>
    refine ⟨s1_inv_start, ?_⟩
    show ((s1Total 0 : Int) : ℚ) + (0 : ℚ) = s1Distance 0
    simp [s1Total, s1Distance]
  | succ k ih =>
    obtain ⟨inv, htot⟩ := ih (Nat.le_of_succ_le hn)
    obtain ⟨inv', hstep⟩ := s1_step k (s1Run k) inv hn
    rw [← s1Run_succ] at inv' hstep
    refine ⟨inv', ?_⟩
    have hT : s1Total (k + 1) = s1Total k + (s1Run (k + 1)).xOut := by
      simp [s1Total, Finset.sum_range_succ]
    rw [hT]
    push_cast
    have hD : s1Distance (k + 1) = s1Distance k + (125 + 7 * ((k : ℚ) + 1) / 8) / 1000 := by
      simp only [s1Distance]
      push_cast
      ring
    rw [hD]
    linarith

/-- The 100 steps of scenario S1 emit 16 in total. -/
theorem s1_total_100 : s1Total 100 = 16 := by
  obtain ⟨inv, htot⟩ := s1_all 100 (by norm_num)
  have h0 := inv.xSum_nonneg
  have h1 := inv.xSum_lt_one
  have hD : s1Distance 100 = 16 + 147 / 160 := by
    simp only [s1Distance]
    norm_num
  rw [hD] at htot
  have hlo : ((15 : Int) : ℚ) < ((s1Total 100 : Int) : ℚ) := by push_cast; linarith
  have hhi : ((s1Total 100 : Int) : ℚ) < ((17 : Int) : ℚ) := by push_cast; linarith
  have hlo' : (15 : Int) < s1Total 100 := Int.cast_lt.mp hlo
  have hhi' : s1Total 100 < (17 : Int) := Int.cast_lt.mp hhi
  omega

/-- C9 (amended): scenario S1. From the Move state at rest with the default
tuning, the sign set by `MouseController_ActivateDirectionSigns(MoveRight)`,
only MoveRight held and 1 ms per step, over 100 consecutive kinetic steps: the
first step emits `xOut = 0`, every step emits `yOut = 0`, every `xOut` is
non-negative, and the `xOut` values sum to 16 (the travelled distance is
16.91875, the rest stays in `xSum`). -/
theorem C9_scenarioS1 :
    (s1Run 1).xOut = 0 ∧
    (∀ i : Fin 100, (s1Run (i.val + 1)).yOut = 0) ∧
    (∀ i : Fin 100, 0 ≤ (s1Run (i.val + 1)).xOut) ∧
    s1Total 100 = 16 ∧
    (s1Total 100 : ℚ) + (s1Run 100).xSum = 16 + 147 / 160 := by
  refine ⟨?_, ?_, ?_, s1_total_100, ?_⟩
  · obtain ⟨inv, htot⟩ := s1_all 1 (by norm_num)
    have h0 := inv.xSum_nonneg
    have h1 := inv.xSum_lt_one
    have hT : s1Total 1 = (s1Run 1).xOut := by simp [s1Total]
    have hD : s1Distance 1 = 1007 / 8000 := by
      simp only [s1Distance]
      norm_num
    rw [hD, hT] at htot
    have hlo : ((-1 : Int) : ℚ) < (((s1Run 1).xOut : Int) : ℚ) := by push_cast; linarith
    have hhi : (((s1Run 1).xOut : Int) : ℚ) < ((1 : Int) : ℚ) := by push_cast; linarith
    have hlo' : (-1 : Int) < (s1Run 1).xOut := Int.cast_lt.mp hlo
    have hhi' : (s1Run 1).xOut < (1 : Int) := Int.cast_lt.mp hhi
    omega
  · intro i
    exact (s1_all (i.val + 1) (by have := i.isLt; omega)).1.yOut
  · intro i
    exact (s1_all (i.val + 1) (by have := i.isLt; omega)).1.xOut_nonneg
  · have h := (s1_all 100 (by norm_num)).2
    rw [h]
    simp only [s1Distance]
    norm_num

/-- C9 (as stated) fails: the `xOut` values of the 100 steps of scenario S1 do
not sum to an integer between 17 and 19; they sum to 16. -/
theorem C9_total_counterexample :
    s1Total 100 = 16 ∧ ¬ (17 ≤ s1Total 100 ∧ s1Total 100 ≤ 19) := by
  refine ⟨s1_total_100, ?_⟩
  rw [s1_total_100]
  decide

/-! ### Toggled mouse states -/

/-- Activating a direction sign does not touch the counters. -/
theorem activateDirectionSigns_counters (st : mouse_controller_state_t)
    (a : serialized_mouse_action_t) :
    (MouseController_ActivateDirectionSigns st a).ToggledMouseStates = st.ToggledMouseStates ∧
    (MouseController_ActivateDirectionSigns st a).ActiveMouseStates = st.ActiveMouseStates := by
  cases a <;> exact ⟨rfl, rfl⟩

/-- The toggle counter of `a` after `ToggleMouseState(a, true)` followed by
`ToggleMouseState(a, false)`, for any starting value. -/
theorem toggle_on_off (st : mouse_controller_state_t) (a : serialized_mouse_action_t) :
    (ToggleMouseState (ToggleMouseState st a true) a false).ToggledMouseStates a
      = (st.ToggledMouseStates a + 1) % 256
        - (if (st.ToggledMouseStates a + 1) % 256 > 0 then 1 else 0) := by
  have h1 : (ToggleMouseState st a true).ToggledMouseStates a
      = (st.ToggledMouseStates a + 1) % 256 := by
    simp only [ToggleMouseState, if_true]
    rw [(activateDirectionSigns_counters _ a).1]
    simp [setCounter]
  have h2 : ∀ st' : mouse_controller_state_t,
      (ToggleMouseState st' a false).ToggledMouseStates a
        = st'.ToggledMouseStates a - (if st'.ToggledMouseStates a > 0 then 1 else 0) := by
    intro st'
    simp [ToggleMouseState, setCounter]
  rw [h2, h1]

/-- C10 (amended): for every mouse action `a` and every value of the 8-bit
counter `ToggledMouseStates[a]` below 255, `ToggleMouseState(a, true)` followed
by `ToggleMouseState(a, false)` leaves `ToggledMouseStates[a]` at its prior
value. -/
theorem C10_toggleRoundTrip (st : mouse_controller_state_t) (a : serialized_mouse_action_t)
    (h : st.ToggledMouseStates a < 255) :
    (ToggleMouseState (ToggleMouseState st a true) a false).ToggledMouseStates a
      = st.ToggledMouseStates a := by
  rw [toggle_on_off]
  have hmod : (st.ToggledMouseStates a + 1) % 256 = st.ToggledMouseStates a + 1 :=
    Nat.mod_eq_of_lt (by omega)
  rw [hmod]
  simp

/-- C10 at a concrete input: the state at boot and the action MoveUp. -/
theorem C10_toggleRoundTrip_witness :
    initialState.ToggledMouseStates SerializedMouseAction_MoveUp < 255 ∧
    (ToggleMouseState (ToggleMouseState initialState SerializedMouseAction_MoveUp true)
        SerializedMouseAction_MoveUp false).ToggledMouseStates SerializedMouseAction_MoveUp
      = initialState.ToggledMouseStates SerializedMouseAction_MoveUp :=
  ⟨by decide, C10_toggleRoundTrip initialState SerializedMouseAction_MoveUp (by decide)⟩

/-- C10 (as stated) fails at the counter value 255: the increment wraps to 0, the
decrement has nothing to take away, and the counter ends at 0. -/
theorem C10_wrap_counterexample :
    toggledSaturated.ToggledMouseStates SerializedMouseAction_LeftClick = 255 ∧
    (ToggleMouseState (ToggleMouseState toggledSaturated SerializedMouseAction_LeftClick true)
        SerializedMouseAction_LeftClick false).ToggledMouseStates
          SerializedMouseAction_LeftClick = 0 ∧
    (ToggleMouseState (ToggleMouseState toggledSaturated SerializedMouseAction_LeftClick true)
        SerializedMouseAction_LeftClick false).ToggledMouseStates
          SerializedMouseAction_LeftClick
      ≠ toggledSaturated.ToggledMouseStates SerializedMouseAction_LeftClick := by
  have h : (ToggleMouseState
      (ToggleMouseState toggledSaturated SerializedMouseAction_LeftClick true)
        SerializedMouseAction_LeftClick false).ToggledMouseStates
          SerializedMouseAction_LeftClick = 0 := by
    rw [toggle_on_off]
    rfl
  refine ⟨rfl, h, ?_⟩
  rw [h]
  show (0 : Nat) ≠ 255
  decide

/-- The kinetic states after `ToggleMouseState(a, true)` are those left by
`MouseController_ActivateDirectionSigns(a)`; the other non-counter variables are
untouched. -/
theorem toggle_on_kinetic (st : mouse_controller_state_t) (a : serialized_mouse_action_t) :
    (ToggleMouseState st a true).MouseMoveState
      = (MouseController_ActivateDirectionSigns st a).MouseMoveState ∧
    (ToggleMouseState st a true).MouseScrollState
      = (MouseController_ActivateDirectionSigns st a).MouseScrollState ∧
    (ToggleMouseState st a true).CompensateDiagonalSpeed = st.CompensateDiagonalSpeed ∧
    (ToggleMouseState st a true).mouseElapsedTime = st.mouseElapsedTime := by
  cases a <;> exact ⟨rfl, rfl, rfl, rfl⟩

/-- C11 (amended): `ToggleMouseState(a, true)` increments both
`ToggledMouseStates[a]` and `ActiveMouseStates[a]` by one modulo 256 (an 8-bit
counter at 255 wraps to 0), applies `MouseController_ActivateDirectionSigns(a)`
and changes no other counter; `ToggleMouseState(a, false)` decrements
`ToggledMouseStates[a]` by one when it is positive and leaves it at 0 when it is
0, and changes neither `ActiveMouseStates`, nor any other counter, nor any
direction sign (nor anything else in the two kinetic states). -/
theorem C11_toggleFrame (st : mouse_controller_state_t) (a : serialized_mouse_action_t) :
    ((ToggleMouseState st a true).ToggledMouseStates a = (st.ToggledMouseStates a + 1) % 256 ∧
      (ToggleMouseState st a true).ActiveMouseStates a = (st.ActiveMouseStates a + 1) % 256 ∧
      (∀ b : serialized_mouse_action_t, b ≠ a →
        (ToggleMouseState st a true).ToggledMouseStates b = st.ToggledMouseStates b ∧
        (ToggleMouseState st a true).ActiveMouseStates b = st.ActiveMouseStates b) ∧
      (ToggleMouseState st a true).MouseMoveState
        = (MouseController_ActivateDirectionSigns st a).MouseMoveState ∧
      (ToggleMouseState st a true).MouseScrollState
        = (MouseController_ActivateDirectionSigns st a).MouseScrollState) ∧
    ((0 < st.ToggledMouseStates a →
        (ToggleMouseState st a false).ToggledMouseStates a = st.ToggledMouseStates a - 1) ∧
      (st.ToggledMouseStates a = 0 →
        (ToggleMouseState st a false).ToggledMouseStates a = 0) ∧
      (∀ b : serialized_mouse_action_t, b ≠ a →
        (ToggleMouseState st a false).ToggledMouseStates b = st.ToggledMouseStates b) ∧
      (ToggleMouseState st a false).ActiveMouseStates = st.ActiveMouseStates ∧
      (ToggleMouseState st a false).MouseMoveState = st.MouseMoveState ∧
      (ToggleMouseState st a false).MouseScrollState = st.MouseScrollState) := by
  obtain ⟨k1, k2, -, -⟩ := toggle_on_kinetic st a
  refine ⟨⟨?_, ?_, ?_, k1, k2⟩, ?_, ?_, ?_, rfl, rfl, rfl⟩
  · simp only [ToggleMouseState, if_true]
    rw [(activateDirectionSigns_counters _ a).1]
    simp [setCounter]
  · simp only [ToggleMouseState, if_true]
    rw [(activateDirectionSigns_counters _ a).2]
    simp [setCounter]
  · intro b hb
    simp only [ToggleMouseState, if_true]
    rw [(activateDirectionSigns_counters _ a).1, (activateDirectionSigns_counters _ a).2]
    simp [setCounter, hb]
  · intro h
    simp [ToggleMouseState, setCounter, h]
  · intro h
    simp [ToggleMouseState, setCounter, h]
  · intro b hb
    simp [ToggleMouseState, setCounter, hb]

/-- C11 (as stated) fails at the counter value 255: after
`ToggleMouseState(a, true)` the toggle counter is 0, not one more than before. -/
theorem C11_increment_counterexample :
    toggledSaturated.ToggledMouseStates SerializedMouseAction_RightClick = 255 ∧
    (ToggleMouseState toggledSaturated
      SerializedMouseAction_RightClick true).ToggledMouseStates
        SerializedMouseAction_RightClick = 0 ∧
    (ToggleMouseState toggledSaturated
      SerializedMouseAction_RightClick true).ToggledMouseStates
        SerializedMouseAction_RightClick
      ≠ toggledSaturated.ToggledMouseStates SerializedMouseAction_RightClick + 1 := by
  refine ⟨rfl, rfl, ?_⟩
  show (0 : Nat) ≠ 255 + 1
  decide

/-! ### The module kinetic engine -/


/-- Determining the speed writes neither `moduleKineticState` nor the mouse
report nor the trace of `ApplyKeyAction`, and leaves every member of a module
configuration other than `currentSpeed` as it is. -/
theorem processModuleKineticState_speed_frame (E : module_foreign_t)
    (st : module_engine_state_t) (x y : ℚ) :
    (processModuleKineticState_speed E st x y).1.moduleKineticState = st.moduleKineticState ∧
    (processModuleKineticState_speed E st x y).1.ActiveUsbMouseReport = st.ActiveUsbMouseReport ∧
    (processModuleKineticState_speed E st x y).1.applied = st.applied ∧
    (processModuleKineticState_speed E st x y).1.CurrentTime = st.CurrentTime ∧
    (processModuleKineticState_speed E st x y).1.ActiveLayer = st.ActiveLayer := by
  simp only [processModuleKineticState_speed, computeModuleSpeed]
  split_ifs <;> exact ⟨rfl, rfl, rfl, rfl, rfl⟩

/-- In navigation mode None `processModuleKineticState` only determines the
speed. -/
theorem processModuleKineticState_none (E : module_foreign_t) (st : module_engine_state_t)
    (x y : ℚ) (moduleConfiguration : Nat)
    (hmode : st.moduleKineticState.currentNavigationMode = NavigationMode_None) :
    processModuleKineticState E st x y moduleConfiguration
      = (processModuleKineticState_speed E st x y).1 := by
  simp only [processModuleKineticState, (processModuleKineticState_speed_frame E st x y).1, hmode]

/-- The owner step of `processModuleActions` when the module produces motion,
is not the owner and no fake key is in flight: the kinetic state is reset and
the module becomes the owner. -/
theorem processModuleActions_owner_taken (E : module_foreign_t) (st : module_engine_state_t)
    (moduleId : Nat) (x y : ℚ)
    (h : (x ≠ 0 ∨ y ≠ 0) ∧
      (st.moduleKineticState.currentModuleId ≠ moduleId ∨
        st.moduleKineticState.currentNavigationMode
          ≠ (st.ModuleConfigurations moduleId).navigationModes st.ActiveLayer) ∧
      st.moduleKineticState.caretFakeKeystate.current = false ∧
      st.moduleKineticState.caretFakeKeystate.previous = false) :
    processModuleActions_owner E st moduleId x y
      = { st with
          moduleKineticState :=
            { st.moduleKineticState with
              currentModuleId := moduleId
              currentNavigationMode :=
                (st.ModuleConfigurations moduleId).navigationModes st.ActiveLayer
              caretAxis := CaretAxis_None
              xFractionRemainder := 0
              yFractionRemainder := 0
              lastUpdate := 0 } } := by
  simp only [processModuleActions_owner, resetKineticModuleState]
  rw [if_pos]
  simp only [decide_eq_true_eq]
  exact h

/-- The owner step of `processModuleActions` otherwise: nothing is written. -/
theorem processModuleActions_owner_kept (E : module_foreign_t) (st : module_engine_state_t)
    (moduleId : Nat) (x y : ℚ)
    (h : ¬ ((x ≠ 0 ∨ y ≠ 0) ∧
      (st.moduleKineticState.currentModuleId ≠ moduleId ∨
        st.moduleKineticState.currentNavigationMode
          ≠ (st.ModuleConfigurations moduleId).navigationModes st.ActiveLayer) ∧
      st.moduleKineticState.caretFakeKeystate.current = false ∧
      st.moduleKineticState.caretFakeKeystate.previous = false)) :
    processModuleActions_owner E st moduleId x y = st := by
  simp only [processModuleActions_owner]
  rw [if_neg]
  simp only [decide_eq_true_eq]
  exact h

/-- C25: module ownership. With mode = navigationModes[ActiveLayer] of the
module: when the module produces motion, the cached owner differs from
(module, mode) and the fake keystate has current = previous = false, the owner
step of `processModuleActions` sets the remainders to 0, caretAxis to None,
lastUpdate to 0 and the owner to (module, mode), leaving caretFakeKeystate and
caretAction (and everything outside the kinetic state) as they are, and the
call goes on to `processModuleKineticState` from there; when that condition
fails the owner step writes nothing; and when the owner differs and the
condition fails, the whole call leaves the state as it is. -/
theorem C25_moduleOwnership (E : module_foreign_t) (st : module_engine_state_t)
    (moduleId : Nat) (x y : ℚ) :
    ((x ≠ 0 ∨ y ≠ 0) ∧
        (st.moduleKineticState.currentModuleId ≠ moduleId ∨
          st.moduleKineticState.currentNavigationMode
            ≠ (st.ModuleConfigurations moduleId).navigationModes st.ActiveLayer) ∧
        st.moduleKineticState.caretFakeKeystate.current = false ∧
        st.moduleKineticState.caretFakeKeystate.previous = false →
      processModuleActions_owner E st moduleId x y
        = { st with
            moduleKineticState :=
              { st.moduleKineticState with
                currentModuleId := moduleId
                currentNavigationMode :=
                  (st.ModuleConfigurations moduleId).navigationModes st.ActiveLayer
                caretAxis := CaretAxis_None
                xFractionRemainder := 0
                yFractionRemainder := 0
                lastUpdate := 0 } } ∧
      processModuleActions E st moduleId x y
        = processModuleKineticState E (processModuleActions_owner E st moduleId x y)
            (if (st.ModuleConfigurations moduleId).invertAxis = true then y else x)
            (if (st.ModuleConfigurations moduleId).invertAxis = true then x else y) moduleId) ∧
    (¬ ((x ≠ 0 ∨ y ≠ 0) ∧
        (st.moduleKineticState.currentModuleId ≠ moduleId ∨
          st.moduleKineticState.currentNavigationMode
            ≠ (st.ModuleConfigurations moduleId).navigationModes st.ActiveLayer) ∧
        st.moduleKineticState.caretFakeKeystate.current = false ∧
        st.moduleKineticState.caretFakeKeystate.previous = false) →
      processModuleActions_owner E st moduleId x y = st ∧
      ((st.moduleKineticState.currentModuleId ≠ moduleId ∨
          st.moduleKineticState.currentNavigationMode
            ≠ (st.ModuleConfigurations moduleId).navigationModes st.ActiveLayer) →
        processModuleActions E st moduleId x y = st)) := by
  constructor
  · intro h
    refine ⟨processModuleActions_owner_taken E st moduleId x y h, ?_⟩
    simp only [processModuleActions]
    rw [processModuleActions_owner_taken E st moduleId x y h]
    simp only [and_self, if_true]
    split_ifs <;> rfl
  · intro h
    refine ⟨processModuleActions_owner_kept E st moduleId x y h, ?_⟩
    intro hown
    simp only [processModuleActions]
    rw [processModuleActions_owner_kept E st moduleId x y h, if_neg]
    intro hc
    cases hown with
    | inl h1 => exact h1 hc.1
    | inr h2 => exact h2 hc.2

/-- The owner step of `processModuleActions` writes `moduleKineticState`
only. -/
theorem processModuleActions_owner_frame (E : module_foreign_t) (st : module_engine_state_t)
    (moduleId : Nat) (x y : ℚ) :
    (processModuleActions_owner E st moduleId x y).ActiveUsbMouseReport
      = st.ActiveUsbMouseReport ∧
    (processModuleActions_owner E st moduleId x y).applied = st.applied ∧
    (processModuleActions_owner E st moduleId x y).ModuleConfigurations
      = st.ModuleConfigurations ∧
    (processModuleActions_owner E st moduleId x y).ActiveLayer = st.ActiveLayer := by
  simp only [processModuleActions_owner]
  split_ifs <;> exact ⟨rfl, rfl, rfl, rfl⟩

/-- A call of `processModuleActions` for a module whose navigation mode on the
active layer is None: the mouse report and the trace of `ApplyKeyAction` are
as before, and the kinetic state is the one the owner step leaves. -/
theorem processModuleActions_none (E : module_foreign_t) (st : module_engine_state_t)
    (moduleId : Nat) (x y : ℚ)
    (hmode : (st.ModuleConfigurations moduleId).navigationModes st.ActiveLayer
      = NavigationMode_None) :
    (processModuleActions E st moduleId x y).ActiveUsbMouseReport = st.ActiveUsbMouseReport ∧
    (processModuleActions E st moduleId x y).applied = st.applied ∧
    (processModuleActions E st moduleId x y).moduleKineticState
      = (processModuleActions_owner E st moduleId x y).moduleKineticState := by
  have hf := processModuleActions_owner_frame E st moduleId x y
  have hk : ∀ a b,
      (processModuleActions_owner E st moduleId x y).moduleKineticState.currentModuleId
          = moduleId ∧
        (processModuleActions_owner E st moduleId x y).moduleKineticState.currentNavigationMode
          = (st.ModuleConfigurations moduleId).navigationModes st.ActiveLayer →
      processModuleKineticState E (processModuleActions_owner E st moduleId x y) a b moduleId
        = (processModuleKineticState_speed E
            (processModuleActions_owner E st moduleId x y) a b).1 := by
    intro a b hown
    exact processModuleKineticState_none E _ a b moduleId (hown.2.trans hmode)
  simp only [processModuleActions]
  split_ifs with hown hinv
  · rw [hk _ _ hown]
    have hs := processModuleKineticState_speed_frame E
      (processModuleActions_owner E st moduleId x y) y x
    exact ⟨hs.2.1.trans hf.1, hs.2.2.1.trans hf.2.1, hs.1⟩
  · rw [hk _ _ hown]
    have hs := processModuleKineticState_speed_frame E
      (processModuleActions_owner E st moduleId x y) x y
    exact ⟨hs.2.1.trans hf.1, hs.2.2.1.trans hf.2.1, hs.1⟩
  · exact ⟨hf.1, hf.2.1, rfl⟩

/-- C26 (amended): navigation mode None. For a module whose navigation mode on
the active layer is None and every delta, `processModuleActions` changes
neither the mouse report nor the trace of `ApplyKeyAction`; the kinetic state
is unchanged unless the delta is non-zero, the cached owner differs from
(module, None) and no fake key is in flight, and in that case the owner becomes
(module, None), caretAxis becomes None, both remainders and lastUpdate become
0, and caretFakeKeystate and caretAction stay. -/
theorem C26_noneMode (E : module_foreign_t) (st : module_engine_state_t) (moduleId : Nat)
    (x y : ℚ)
    (hmode : (st.ModuleConfigurations moduleId).navigationModes st.ActiveLayer
      = NavigationMode_None) :
    (processModuleActions E st moduleId x y).ActiveUsbMouseReport = st.ActiveUsbMouseReport ∧
    (processModuleActions E st moduleId x y).applied = st.applied ∧
    ((x ≠ 0 ∨ y ≠ 0) ∧
        (st.moduleKineticState.currentModuleId ≠ moduleId ∨
          st.moduleKineticState.currentNavigationMode ≠ NavigationMode_None) ∧
        st.moduleKineticState.caretFakeKeystate.current = false ∧
        st.moduleKineticState.caretFakeKeystate.previous = false →
      (processModuleActions E st moduleId x y).moduleKineticState
        = { st.moduleKineticState with
            currentModuleId := moduleId
            currentNavigationMode := NavigationMode_None
            caretAxis := CaretAxis_None
            xFractionRemainder := 0
            yFractionRemainder := 0
            lastUpdate := 0 }) ∧
    (¬ ((x ≠ 0 ∨ y ≠ 0) ∧
        (st.moduleKineticState.currentModuleId ≠ moduleId ∨
          st.moduleKineticState.currentNavigationMode ≠ NavigationMode_None) ∧
        st.moduleKineticState.caretFakeKeystate.current = false ∧
        st.moduleKineticState.caretFakeKeystate.previous = false) →
      (processModuleActions E st moduleId x y).moduleKineticState = st.moduleKineticState) := by
  have h := processModuleActions_none E st moduleId x y hmode
  refine ⟨h.1, h.2.1, ?_, ?_⟩
  · intro hc
    rw [h.2.2, processModuleActions_owner_taken E st moduleId x y (by rw [hmode]; exact hc),
      hmode]
  · intro hc
    rw [h.2.2, processModuleActions_owner_kept E st moduleId x y (by rw [hmode]; exact hc)]

/-- C26 at an example: module 3 has mode None; with a zero delta a call for it
leaves the kinetic state of the touchpad as it is. -/
theorem C26_noneMode_witness :
    ((stateTouchpadOwner NavigationMode_Caret CaretAxis_Vertical (1 / 2)).ModuleConfigurations
        3).navigationModes
        (stateTouchpadOwner NavigationMode_Caret CaretAxis_Vertical (1 / 2)).ActiveLayer
      = NavigationMode_None ∧
    (processModuleActions exampleModuleForeign
        (stateTouchpadOwner NavigationMode_Caret CaretAxis_Vertical (1 / 2)) 3 0
        0).moduleKineticState
      = (stateTouchpadOwner NavigationMode_Caret CaretAxis_Vertical (1 / 2)).moduleKineticState :=
  ⟨rfl,
    (C26_noneMode exampleModuleForeign
      (stateTouchpadOwner NavigationMode_Caret CaretAxis_Vertical (1 / 2)) 3 0 0 rfl).2.2.2
      (fun h => h.1.elim (fun h0 => h0 rfl) (fun h0 => h0 rfl))⟩

/-- C26 (as stated) fails: the right touchpad (module 5) owns the kinetic state
in Caret mode, locked on the vertical axis with remainder 1/2, no fake key in
flight. Module 3 has mode None on the active layer. A call of
`processModuleActions` for module 3 with delta (3, 4) makes module 3 the owner
in mode None, clears the lock and the remainder and sets lastUpdate to 0. -/
theorem C26_noneMode_counterexample :
    ((stateTouchpadOwner NavigationMode_Caret CaretAxis_Vertical (1 / 2)).ModuleConfigurations
        3).navigationModes
        (stateTouchpadOwner NavigationMode_Caret CaretAxis_Vertical (1 / 2)).ActiveLayer
      = NavigationMode_None ∧
    (stateTouchpadOwner NavigationMode_Caret CaretAxis_Vertical
        (1 / 2)).moduleKineticState.currentModuleId = 5 ∧
    (stateTouchpadOwner NavigationMode_Caret CaretAxis_Vertical
        (1 / 2)).moduleKineticState.caretAxis = CaretAxis_Vertical ∧
    (stateTouchpadOwner NavigationMode_Caret CaretAxis_Vertical
        (1 / 2)).moduleKineticState.yFractionRemainder = 1 / 2 ∧
    (stateTouchpadOwner NavigationMode_Caret CaretAxis_Vertical
        (1 / 2)).moduleKineticState.lastUpdate = 1000 ∧
    (processModuleActions exampleModuleForeign
        (stateTouchpadOwner NavigationMode_Caret CaretAxis_Vertical (1 / 2)) 3 3
        4).moduleKineticState
      = { (stateTouchpadOwner NavigationMode_Caret CaretAxis_Vertical
            (1 / 2)).moduleKineticState with
          currentModuleId := 3
          currentNavigationMode := NavigationMode_None
          caretAxis := CaretAxis_None
          xFractionRemainder := 0
          yFractionRemainder := 0
          lastUpdate := 0 } ∧
    (processModuleActions exampleModuleForeign
        (stateTouchpadOwner NavigationMode_Caret CaretAxis_Vertical (1 / 2)) 3 3
        4).moduleKineticState
      ≠ (stateTouchpadOwner NavigationMode_Caret CaretAxis_Vertical
          (1 / 2)).moduleKineticState := by
  have h := processModuleActions_none exampleModuleForeign
    (stateTouchpadOwner NavigationMode_Caret CaretAxis_Vertical (1 / 2)) 3 3 4 rfl
  have ht := processModuleActions_owner_taken exampleModuleForeign
    (stateTouchpadOwner NavigationMode_Caret CaretAxis_Vertical (1 / 2)) 3 3 4
    ⟨Or.inl (by norm_num), Or.inl (by decide), rfl, rfl⟩
  refine ⟨rfl, rfl, rfl, rfl, rfl, ?_, ?_⟩
  · rw [h.2.2, ht]
    rfl
  · rw [h.2.2, ht]
    intro hc
    have e := congrArg module_kinetic_state_t.currentModuleId hc
    exact absurd e (by decide)

/-- The call of `ApplyKeyAction` writes the fake key state and the trace
only. -/
theorem ApplyKeyAction_caret_frame (E : module_foreign_t) (st : module_engine_state_t) :
    ApplyKeyAction_caret E st
      = { st with
          applied := st.applied ++
            [(st.moduleKineticState.caretFakeKeystate, st.moduleKineticState.caretAction,
              st.moduleKineticState.caretAction)]
          moduleKineticState :=
            { st.moduleKineticState with
              caretFakeKeystate :=
                E.ApplyKeyAction st st.moduleKineticState.caretAction
                  st.moduleKineticState.caretAction } } := rfl

/-- In every mode `handleNewCaretModeAction` leaves the owner, the axis, the
remainders and `lastUpdate` of the kinetic state as they are. -/
theorem handleNewCaretModeAction_kinetic (E : module_foreign_t) (st : module_engine_state_t)
    (axis resultSign : Nat) (value : Int) :
    (handleNewCaretModeAction E st axis resultSign value).moduleKineticState.caretAxis
      = st.moduleKineticState.caretAxis ∧
    (handleNewCaretModeAction E st axis resultSign value).moduleKineticState.xFractionRemainder
      = st.moduleKineticState.xFractionRemainder ∧
    (handleNewCaretModeAction E st axis resultSign value).moduleKineticState.yFractionRemainder
      = st.moduleKineticState.yFractionRemainder ∧
    (handleNewCaretModeAction E st axis resultSign value).moduleKineticState.lastUpdate
      = st.moduleKineticState.lastUpdate ∧
    (handleNewCaretModeAction E st axis resultSign value).moduleKineticState.currentModuleId
      = st.moduleKineticState.currentModuleId ∧
    (handleNewCaretModeAction E st axis resultSign value).moduleKineticState.currentNavigationMode
      = st.moduleKineticState.currentNavigationMode := by
  simp only [handleNewCaretModeAction]
  split <;> exact ⟨rfl, rfl, rfl, rfl, rfl, rfl⟩

/-- The kinetic state in which a tick on the horizontal axis calls
`handleNewCaretModeAction`. -/
theorem processAxisLocking_tick_horizontal (E : module_foreign_t) (st : module_engine_state_t)
    (yInversion : Int) :
    processAxisLocking_tick E st yInversion CaretAxis_Horizontal
      = handleNewCaretModeAction E
          { st with
            moduleKineticState :=
              { st.moduleKineticState with
                caretAxis := CaretAxis_Horizontal
                yFractionRemainder := 0
                xFractionRemainder :=
                  st.moduleKineticState.xFractionRemainder -
                    ((if (modff st.moduleKineticState.xFractionRemainder).2 > 0 then 1 else -1 :
                      Int) : ℚ) } }
          CaretAxis_Horizontal
          (uint8_of_float E
            (((if (modff st.moduleKineticState.xFractionRemainder).2 > 0 then 1 else -1 : Int) : ℚ)
              * ((1 : Int) : ℚ)))
          ((modff st.moduleKineticState.xFractionRemainder).2 * 1) := by
  simp [processAxisLocking_tick, setAxisFractionRemainder, axisFractionRemainders,
    axisIntegerParts, CaretAxis_Horizontal, CaretAxis_Vertical]

/-- The kinetic state in which a tick on the vertical axis calls
`handleNewCaretModeAction`. -/
theorem processAxisLocking_tick_vertical (E : module_foreign_t) (st : module_engine_state_t)
    (yInversion : Int) :
    processAxisLocking_tick E st yInversion CaretAxis_Vertical
      = handleNewCaretModeAction E
          { st with
            moduleKineticState :=
              { st.moduleKineticState with
                caretAxis := CaretAxis_Vertical
                xFractionRemainder := 0
                yFractionRemainder :=
                  st.moduleKineticState.yFractionRemainder -
                    ((if (modff st.moduleKineticState.yFractionRemainder).2 > 0 then 1 else -1 :
                      Int) : ℚ) } }
          CaretAxis_Vertical
          (uint8_of_float E
            (((if (modff st.moduleKineticState.yFractionRemainder).2 > 0 then 1 else -1 : Int) : ℚ)
              * (yInversion : ℚ)))
          ((modff st.moduleKineticState.yFractionRemainder).2 * yInversion) := by
  simp [processAxisLocking_tick, setAxisFractionRemainder, axisFractionRemainders,
    axisIntegerParts, CaretAxis_Horizontal, CaretAxis_Vertical]

/-- After a tick the kinetic state is locked on the axis of the tick. -/
theorem processAxisLocking_tick_caretAxis (E : module_foreign_t) (st : module_engine_state_t)
    (yInversion : Int) (axis : Nat)
    (haxis : axis = CaretAxis_Horizontal ∨ axis = CaretAxis_Vertical) :
    (processAxisLocking_tick E st yInversion axis).moduleKineticState.caretAxis = axis := by
  cases haxis with
  | inl h =>
    rw [h, processAxisLocking_tick_horizontal, (handleNewCaretModeAction_kinetic E _ _ _ _).1]
  | inr h =>
    rw [h, processAxisLocking_tick_vertical, (handleNewCaretModeAction_kinetic E _ _ _ _).1]

/-- The unlock step writes the axis, the remainders and `lastUpdate` of the
kinetic state only. -/
theorem processAxisLocking_unlock_frame (st : module_engine_state_t) (x y : ℚ) :
    (processAxisLocking_unlock st x y).moduleKineticState.caretFakeKeystate
      = st.moduleKineticState.caretFakeKeystate ∧
    (processAxisLocking_unlock st x y).moduleKineticState.caretAction
      = st.moduleKineticState.caretAction ∧
    (processAxisLocking_unlock st x y).moduleKineticState.currentModuleId
      = st.moduleKineticState.currentModuleId ∧
    (processAxisLocking_unlock st x y).moduleKineticState.currentNavigationMode
      = st.moduleKineticState.currentNavigationMode ∧
    (processAxisLocking_unlock st x y).ActiveUsbMouseReport = st.ActiveUsbMouseReport ∧
    (processAxisLocking_unlock st x y).applied = st.applied ∧
    (processAxisLocking_unlock st x y).ModuleConfigurations = st.ModuleConfigurations ∧
    (processAxisLocking_unlock st x y).CurrentTime = st.CurrentTime := by
  simp only [processAxisLocking_unlock]
  split_ifs <;> exact ⟨rfl, rfl, rfl, rfl, rfl, rfl, rfl, rfl⟩

/-- The accumulation writes the two remainders only. -/
theorem processAxisLocking_accumulate_frame (st : module_engine_state_t)
    (x y speed speedDivisor : ℚ) (moduleConfiguration : Nat) :
    processAxisLocking_accumulate st x y speed speedDivisor moduleConfiguration
      = { st with
          moduleKineticState :=
            { st.moduleKineticState with
              xFractionRemainder :=
                (processAxisLocking_accumulate st x y speed speedDivisor
                  moduleConfiguration).moduleKineticState.xFractionRemainder
              yFractionRemainder :=
                (processAxisLocking_accumulate st x y speed speedDivisor
                  moduleConfiguration).moduleKineticState.yFractionRemainder } } := rfl

/-- The function `processAxisLocking` when no fake key is in flight and the
call does not return at once: after the unlock step and the accumulation, a
tick on the axis candidate when there is one. -/
theorem processAxisLocking_idle (E : module_foreign_t) (st : module_engine_state_t)
    (x y speed : ℚ) (yInversion : Int) (speedDivisor : ℚ) (moduleConfiguration : Nat)
    (hcur : st.moduleKineticState.caretFakeKeystate.current = false)
    (hprev : st.moduleKineticState.caretFakeKeystate.previous = false)
    (hgo : ¬ (x = 0 ∧ y = 0 ∧ st.moduleKineticState.caretAxis = CaretAxis_None)) :
    processAxisLocking E st x y speed yInversion speedDivisor moduleConfiguration
      = if axisCandidate
            (processAxisLocking_accumulate (processAxisLocking_unlock st x y) x y speed
              speedDivisor moduleConfiguration).moduleKineticState < CaretAxis_Count then
          processAxisLocking_tick E
            (processAxisLocking_accumulate (processAxisLocking_unlock st x y) x y speed
              speedDivisor moduleConfiguration)
            yInversion
            (axisCandidate
              (processAxisLocking_accumulate (processAxisLocking_unlock st x y) x y speed
                speedDivisor moduleConfiguration).moduleKineticState)
        else
          processAxisLocking_accumulate (processAxisLocking_unlock st x y) x y speed
            speedDivisor moduleConfiguration := by
  have hf : (processAxisLocking_accumulate (processAxisLocking_unlock st x y) x y speed
      speedDivisor moduleConfiguration).moduleKineticState.caretFakeKeystate
      = st.moduleKineticState.caretFakeKeystate :=
    (processAxisLocking_unlock_frame st x y).1
  simp only [processAxisLocking]
  rw [if_neg hgo, hf, if_neg]
  rw [hcur, hprev]
  simp

/-- The function `processAxisLocking` while a fake key is in flight and the
call does not return at once: after the unlock step and the accumulation,
`handleRunningCaretModeAction`. -/
theorem processAxisLocking_running (E : module_foreign_t) (st : module_engine_state_t)
    (x y speed : ℚ) (yInversion : Int) (speedDivisor : ℚ) (moduleConfiguration : Nat)
    (hflight : st.moduleKineticState.caretFakeKeystate.current = true ∨
      st.moduleKineticState.caretFakeKeystate.previous = true)
    (hgo : ¬ (x = 0 ∧ y = 0 ∧ st.moduleKineticState.caretAxis = CaretAxis_None)) :
    processAxisLocking E st x y speed yInversion speedDivisor moduleConfiguration
      = handleRunningCaretModeAction E
          (processAxisLocking_accumulate (processAxisLocking_unlock st x y) x y speed
            speedDivisor moduleConfiguration) := by
  have hf : (processAxisLocking_accumulate (processAxisLocking_unlock st x y) x y speed
      speedDivisor moduleConfiguration).moduleKineticState.caretFakeKeystate
      = st.moduleKineticState.caretFakeKeystate :=
    (processAxisLocking_unlock_frame st x y).1
  simp only [processAxisLocking]
  rw [if_neg hgo, hf, if_pos hflight]

/-- The unlock step without a timeout (no motion, or the last motion at most
500 ms ago): the axis and the remainders stay. -/
theorem processAxisLocking_unlock_kept (st : module_engine_state_t) (x y : ℚ)
    (htime : (x = 0 ∧ y = 0) ∨
      UsbReportUpdater.sub32 st.CurrentTime st.moduleKineticState.lastUpdate ≤ 500) :
    (processAxisLocking_unlock st x y).moduleKineticState.caretAxis
      = st.moduleKineticState.caretAxis ∧
    (processAxisLocking_unlock st x y).moduleKineticState.xFractionRemainder
      = st.moduleKineticState.xFractionRemainder ∧
    (processAxisLocking_unlock st x y).moduleKineticState.yFractionRemainder
      = st.moduleKineticState.yFractionRemainder := by
  simp only [processAxisLocking_unlock]
  by_cases hm : x ≠ 0 ∨ y ≠ 0
  · rw [if_pos hm]
    cases htime with
    | inl h0 =>
      exact absurd h0 (fun h => hm.elim (fun hx => hx h.1) (fun hy => hy h.2))
    | inr ht =>
      rw [if_neg (fun h => absurd h.1 (Nat.not_lt.mpr ht))]
      exact ⟨rfl, rfl, rfl⟩
  · rw [if_neg hm]
    exact ⟨rfl, rfl, rfl⟩

/-- The axis candidate of a kinetic state that is locked on an axis: the locked
axis when its integral part is not 0, else the other axis when that one's is
not 0, else none. -/
theorem axisCandidate_locked (ks : module_kinetic_state_t) (axis : Nat)
    (hA : axis = CaretAxis_Horizontal ∨ axis = CaretAxis_Vertical)
    (haxis : ks.caretAxis = axis) :
    axisCandidate ks
      = if axisIntegerParts ks axis ≠ 0 then axis
        else if axisIntegerParts ks (1 - axis) ≠ 0 then 1 - axis
        else CaretAxis_None := by
  have hne : ¬ (axis = CaretAxis_Inactive) := by
    cases hA with
    | inl h => rw [h]; decide
    | inr h => rw [h]; decide
  simp only [axisCandidate, haxis, if_neg hne]

/-- The function `processAxisLocking` for a kinetic state locked on an axis,
no fake key in flight and no timeout: the lock is still there after the
accumulation, and the tick is on the locked axis when its integral part is not
0, on the other axis when only that one's is not 0, and there is no tick when
both are 0. -/
theorem processAxisLocking_locked (E : module_foreign_t) (st : module_engine_state_t)
    (x y speed : ℚ) (yInversion : Int) (speedDivisor : ℚ) (moduleConfiguration : Nat)
    (axis : Nat) (hA : axis = CaretAxis_Horizontal ∨ axis = CaretAxis_Vertical)
    (haxis : st.moduleKineticState.caretAxis = axis)
    (hcur : st.moduleKineticState.caretFakeKeystate.current = false)
    (hprev : st.moduleKineticState.caretFakeKeystate.previous = false)
    (htime : (x = 0 ∧ y = 0) ∨
      UsbReportUpdater.sub32 st.CurrentTime st.moduleKineticState.lastUpdate ≤ 500) :
    (processAxisLocking_accumulate (processAxisLocking_unlock st x y) x y speed speedDivisor
        moduleConfiguration).moduleKineticState.caretAxis = axis ∧
    processAxisLocking E st x y speed yInversion speedDivisor moduleConfiguration
      = if axisIntegerParts
            (processAxisLocking_accumulate (processAxisLocking_unlock st x y) x y speed
              speedDivisor moduleConfiguration).moduleKineticState axis ≠ 0 then
          processAxisLocking_tick E
            (processAxisLocking_accumulate (processAxisLocking_unlock st x y) x y speed
              speedDivisor moduleConfiguration) yInversion axis
        else if axisIntegerParts
            (processAxisLocking_accumulate (processAxisLocking_unlock st x y) x y speed
              speedDivisor moduleConfiguration).moduleKineticState (1 - axis) ≠ 0 then
          processAxisLocking_tick E
            (processAxisLocking_accumulate (processAxisLocking_unlock st x y) x y speed
              speedDivisor moduleConfiguration) yInversion (1 - axis)
        else
          processAxisLocking_accumulate (processAxisLocking_unlock st x y) x y speed
            speedDivisor moduleConfiguration := by
  have hne : ¬ (axis = CaretAxis_None) := by
    cases hA with
    | inl h => rw [h]; decide
    | inr h => rw [h]; decide
  have h2 : (processAxisLocking_accumulate (processAxisLocking_unlock st x y) x y speed
      speedDivisor moduleConfiguration).moduleKineticState.caretAxis = axis :=
    (processAxisLocking_unlock_kept st x y htime).1.trans haxis
  have hother : 1 - axis < CaretAxis_Count := by
    cases hA with
    | inl h => rw [h]; decide
    | inr h => rw [h]; decide
  have hlt : axis < CaretAxis_Count := by
    cases hA with
    | inl h => rw [h]; decide
    | inr h => rw [h]; decide
  refine ⟨h2, ?_⟩
  rw [processAxisLocking_idle E st x y speed yInversion speedDivisor moduleConfiguration hcur
    hprev (fun h => hne (haxis.symm.trans h.2.2)), axisCandidate_locked _ axis hA h2]
  by_cases h1 : axisIntegerParts
      (processAxisLocking_accumulate (processAxisLocking_unlock st x y) x y speed
        speedDivisor moduleConfiguration).moduleKineticState axis ≠ 0
  · simp only [if_pos h1, if_pos hlt]
  · by_cases h3 : axisIntegerParts
        (processAxisLocking_accumulate (processAxisLocking_unlock st x y) x y speed
          speedDivisor moduleConfiguration).moduleKineticState (1 - axis) ≠ 0
    · simp only [if_neg h1, if_pos h3, if_pos hother]
    · simp only [if_neg h1, if_neg h3]
      rw [if_neg]
      decide

/-- In Cursor mode `handleNewCaretModeAction` adds the value to x for a
horizontal and subtracts it from y for a vertical tick, and writes nothing
else. -/
theorem handleNewCaretModeAction_cursor (E : module_foreign_t) (st : module_engine_state_t)
    (axis resultSign : Nat) (value : Int)
    (hmode : st.moduleKineticState.currentNavigationMode = NavigationMode_Cursor) :
    handleNewCaretModeAction E st axis resultSign value
      = { st with
          ActiveUsbMouseReport :=
            { st.ActiveUsbMouseReport with
              x := st.ActiveUsbMouseReport.x + (if axis = CaretAxis_Horizontal then value else 0)
              y := st.ActiveUsbMouseReport.y - (if axis = CaretAxis_Vertical then value else 0) } } := by
  simp only [handleNewCaretModeAction, hmode]

/-- C27 (as stated) fails: the touchpad is locked on the horizontal axis in
Cursor mode with both remainders 0, no fake key in flight, and the last motion
was 10 ms ago. Motion (0, 10) with speed 1 and skew 1/2 accumulates 5 on the
vertical axis and nothing on the horizontal one, so the call emits a vertical
tick (y of the report becomes 5, x stays 0) and caretAxis is Vertical
afterwards. -/
theorem C27_axisLock_counterexample :
    (stateTouchpadOwner NavigationMode_Cursor CaretAxis_Horizontal 0).moduleKineticState.caretAxis
      = CaretAxis_Horizontal ∧
    (stateTouchpadOwner NavigationMode_Cursor CaretAxis_Horizontal
      0).moduleKineticState.caretFakeKeystate.current = false ∧
    (stateTouchpadOwner NavigationMode_Cursor CaretAxis_Horizontal
      0).moduleKineticState.caretFakeKeystate.previous = false ∧
    UsbReportUpdater.sub32
        (stateTouchpadOwner NavigationMode_Cursor CaretAxis_Horizontal 0).CurrentTime
        (stateTouchpadOwner NavigationMode_Cursor CaretAxis_Horizontal
          0).moduleKineticState.lastUpdate ≤ 500 ∧
    (stateTouchpadOwner NavigationMode_Cursor CaretAxis_Horizontal 0).ActiveUsbMouseReport.x = 0 ∧
    (stateTouchpadOwner NavigationMode_Cursor CaretAxis_Horizontal 0).ActiveUsbMouseReport.y = 0 ∧
    (processAxisLocking exampleModuleForeign
        (stateTouchpadOwner NavigationMode_Cursor CaretAxis_Horizontal 0) 0 10 1 (-1) 1
        5).moduleKineticState.caretAxis = CaretAxis_Vertical ∧
    (processAxisLocking exampleModuleForeign
        (stateTouchpadOwner NavigationMode_Cursor CaretAxis_Horizontal 0) 0 10 1 (-1) 1
        5).ActiveUsbMouseReport.x = 0 ∧
    (processAxisLocking exampleModuleForeign
        (stateTouchpadOwner NavigationMode_Cursor CaretAxis_Horizontal 0) 0 10 1 (-1) 1
        5).ActiveUsbMouseReport.y = 5 := by
  have h := (processAxisLocking_locked exampleModuleForeign
    (stateTouchpadOwner NavigationMode_Cursor CaretAxis_Horizontal 0) 0 10 1 (-1) 1 5
    CaretAxis_Horizontal (Or.inl rfl) rfl rfl rfl (Or.inr (by decide))).2
  have h1 : axisIntegerParts
      (processAxisLocking_accumulate
        (processAxisLocking_unlock
          (stateTouchpadOwner NavigationMode_Cursor CaretAxis_Horizontal 0) 0 10)
        0 10 1 1 5).moduleKineticState CaretAxis_Horizontal = 0 := by
    norm_num [axisIntegerParts, processAxisLocking_accumulate, processAxisLocking_unlock,
      stateTouchpadOwner, exampleModuleConfiguration, modff, CaretAxis_Horizontal,
      CaretAxis_None, CaretAxis_Vertical, UsbReportUpdater.sub32]
  have h2 : (modff
      (processAxisLocking_accumulate
        (processAxisLocking_unlock
          (stateTouchpadOwner NavigationMode_Cursor CaretAxis_Horizontal 0) 0 10)
        0 10 1 1 5).moduleKineticState.yFractionRemainder).2 = 5 := by
    norm_num [processAxisLocking_accumulate, processAxisLocking_unlock,
      stateTouchpadOwner, exampleModuleConfiguration, modff, CaretAxis_Horizontal,
      CaretAxis_None, CaretAxis_Vertical, UsbReportUpdater.sub32]
  have h3 : axisIntegerParts
      (processAxisLocking_accumulate
        (processAxisLocking_unlock
          (stateTouchpadOwner NavigationMode_Cursor CaretAxis_Horizontal 0) 0 10)
        0 10 1 1 5).moduleKineticState (1 - CaretAxis_Horizontal) ≠ 0 := by
    have e : axisIntegerParts
        (processAxisLocking_accumulate
          (processAxisLocking_unlock
            (stateTouchpadOwner NavigationMode_Cursor CaretAxis_Horizontal 0) 0 10)
          0 10 1 1 5).moduleKineticState (1 - CaretAxis_Horizontal) = 5 := h2
    rw [e]
    decide
  rw [if_neg (not_not.mpr h1), if_pos h3] at h
  have hv : (1 - CaretAxis_Horizontal) = CaretAxis_Vertical := rfl
  rw [hv, processAxisLocking_tick_vertical,
    handleNewCaretModeAction_cursor _ _ _ _ _ rfl] at h
  rw [h, h2]
  exact ⟨rfl, rfl, rfl, by decide, rfl, rfl, rfl, rfl, by decide⟩

/-- A tick leaves `lastUpdate` as it is. -/
theorem processAxisLocking_tick_lastUpdate (E : module_foreign_t) (st : module_engine_state_t)
    (yInversion : Int) (axis : Nat) :
    (processAxisLocking_tick E st yInversion axis).moduleKineticState.lastUpdate
      = st.moduleKineticState.lastUpdate := by
  simp only [processAxisLocking_tick, (handleNewCaretModeAction_kinetic E _ _ _ _).2.2.2.1,
    setAxisFractionRemainder]
  split_ifs <;> rfl

/-- The remainders after a tick on the horizontal axis: the horizontal one is
reduced by the sign of its integral part, the vertical one is 0. -/
theorem processAxisLocking_tick_horizontal_remainders (E : module_foreign_t)
    (st : module_engine_state_t) (yInversion : Int) :
    (processAxisLocking_tick E st yInversion CaretAxis_Horizontal).moduleKineticState.xFractionRemainder
      = st.moduleKineticState.xFractionRemainder -
          ((if (modff st.moduleKineticState.xFractionRemainder).2 > 0 then 1 else -1 : Int) : ℚ) ∧
    (processAxisLocking_tick E st yInversion CaretAxis_Horizontal).moduleKineticState.yFractionRemainder
      = 0 := by
  rw [processAxisLocking_tick_horizontal]
  exact ⟨(handleNewCaretModeAction_kinetic E _ _ _ _).2.1,
    (handleNewCaretModeAction_kinetic E _ _ _ _).2.2.1⟩

/-- The remainders after a tick on the vertical axis: the vertical one is
reduced by the sign of its integral part, the horizontal one is 0. -/
theorem processAxisLocking_tick_vertical_remainders (E : module_foreign_t)
    (st : module_engine_state_t) (yInversion : Int) :
    (processAxisLocking_tick E st yInversion CaretAxis_Vertical).moduleKineticState.yFractionRemainder
      = st.moduleKineticState.yFractionRemainder -
          ((if (modff st.moduleKineticState.yFractionRemainder).2 > 0 then 1 else -1 : Int) : ℚ) ∧
    (processAxisLocking_tick E st yInversion CaretAxis_Vertical).moduleKineticState.xFractionRemainder
      = 0 := by
  rw [processAxisLocking_tick_vertical]
  exact ⟨(handleNewCaretModeAction_kinetic E _ _ _ _).2.2.1,
    (handleNewCaretModeAction_kinetic E _ _ _ _).2.1⟩

/-- The unlock step at a timeout: with motion, a lock and more than 500 ms
since the last motion, the remainders and the lock are dropped and
`lastUpdate` is `CurrentTime`. -/
theorem processAxisLocking_unlock_timeout (st : module_engine_state_t) (x y : ℚ)
    (hmotion : x ≠ 0 ∨ y ≠ 0)
    (hlock : st.moduleKineticState.caretAxis ≠ CaretAxis_None)
    (htime : UsbReportUpdater.sub32 st.CurrentTime st.moduleKineticState.lastUpdate > 500) :
    processAxisLocking_unlock st x y
      = { st with
          moduleKineticState :=
            { st.moduleKineticState with
              xFractionRemainder := 0
              yFractionRemainder := 0
              caretAxis := CaretAxis_None
              lastUpdate := st.CurrentTime } } := by
  simp only [processAxisLocking_unlock]
  rw [if_pos hmotion, if_pos ⟨htime, hlock⟩]

/-- The unlock step with motion and without a timeout: only `lastUpdate` is
written. -/
theorem processAxisLocking_unlock_refresh (st : module_engine_state_t) (x y : ℚ)
    (hmotion : x ≠ 0 ∨ y ≠ 0)
    (htime : UsbReportUpdater.sub32 st.CurrentTime st.moduleKineticState.lastUpdate ≤ 500) :
    processAxisLocking_unlock st x y
      = { st with
          moduleKineticState := { st.moduleKineticState with lastUpdate := st.CurrentTime } } := by
  simp only [processAxisLocking_unlock]
  rw [if_pos hmotion, if_neg (fun h => absurd h.1 (Nat.not_lt.mpr htime))]

/-- The unlock step without motion writes nothing. -/
theorem processAxisLocking_unlock_still (st : module_engine_state_t) :
    processAxisLocking_unlock st 0 0 = st := by
  simp only [processAxisLocking_unlock]
  rw [if_neg (fun h => h.elim (fun h0 => h0 rfl) (fun h0 => h0 rfl))]

/-- After a call of `processAxisLocking` that does not return at once and with
no fake key in flight, `lastUpdate` is the one the unlock step leaves. -/
theorem processAxisLocking_idle_lastUpdate (E : module_foreign_t) (st : module_engine_state_t)
    (x y speed : ℚ) (yInversion : Int) (speedDivisor : ℚ) (moduleConfiguration : Nat)
    (hcur : st.moduleKineticState.caretFakeKeystate.current = false)
    (hprev : st.moduleKineticState.caretFakeKeystate.previous = false)
    (hgo : ¬ (x = 0 ∧ y = 0 ∧ st.moduleKineticState.caretAxis = CaretAxis_None)) :
    (processAxisLocking E st x y speed yInversion speedDivisor
        moduleConfiguration).moduleKineticState.lastUpdate
      = (processAxisLocking_unlock st x y).moduleKineticState.lastUpdate := by
  rw [processAxisLocking_idle E st x y speed yInversion speedDivisor moduleConfiguration hcur
    hprev hgo]
  split_ifs
  · rw [processAxisLocking_tick_lastUpdate]
    rfl
  · rfl

/-- The function `processAxisLocking` at a timeout with horizontal motion only
(`caretAxis` Vertical on entry, no fake key in flight): the tick is horizontal
when the fresh horizontal remainder has an integral part, and there is none
otherwise. -/
theorem processAxisLocking_timeout (E : module_foreign_t) (st : module_engine_state_t)
    (x speed : ℚ) (yInversion : Int) (speedDivisor : ℚ) (moduleConfiguration : Nat)
    (hx : x ≠ 0)
    (haxis : st.moduleKineticState.caretAxis = CaretAxis_Vertical)
    (hcur : st.moduleKineticState.caretFakeKeystate.current = false)
    (hprev : st.moduleKineticState.caretFakeKeystate.previous = false)
    (htime : UsbReportUpdater.sub32 st.CurrentTime st.moduleKineticState.lastUpdate > 500) :
    (processAxisLocking_accumulate (processAxisLocking_unlock st x 0) x 0 speed speedDivisor
        moduleConfiguration).moduleKineticState
      = { st.moduleKineticState with
          xFractionRemainder :=
            x * speed / speedDivisor *
              (st.ModuleConfigurations moduleConfiguration).caretLockSkewFirstTick
          yFractionRemainder := 0
          caretAxis := CaretAxis_None
          lastUpdate := st.CurrentTime } ∧
    processAxisLocking E st x 0 speed yInversion speedDivisor moduleConfiguration
      = if (modff (x * speed / speedDivisor *
            (st.ModuleConfigurations moduleConfiguration).caretLockSkewFirstTick)).2 ≠ 0 then
          processAxisLocking_tick E
            (processAxisLocking_accumulate (processAxisLocking_unlock st x 0) x 0 speed
              speedDivisor moduleConfiguration) yInversion CaretAxis_Horizontal
        else
          processAxisLocking_accumulate (processAxisLocking_unlock st x 0) x 0 speed
            speedDivisor moduleConfiguration := by
  have hlock : st.moduleKineticState.caretAxis ≠ CaretAxis_None := by
    rw [haxis]
    decide
  have hacc : (processAxisLocking_accumulate (processAxisLocking_unlock st x 0) x 0 speed
      speedDivisor moduleConfiguration).moduleKineticState
      = { st.moduleKineticState with
          xFractionRemainder :=
            x * speed / speedDivisor *
              (st.ModuleConfigurations moduleConfiguration).caretLockSkewFirstTick
          yFractionRemainder := 0
          caretAxis := CaretAxis_None
          lastUpdate := st.CurrentTime } := by
    rw [processAxisLocking_unlock_timeout st x 0 (Or.inl hx) hlock htime]
    simp [processAxisLocking_accumulate]
  refine ⟨hacc, ?_⟩
  rw [processAxisLocking_idle E st x 0 speed yInversion speedDivisor moduleConfiguration hcur
    hprev (fun h => hx h.1)]
  have hcand : axisCandidate
      (processAxisLocking_accumulate (processAxisLocking_unlock st x 0) x 0 speed
        speedDivisor moduleConfiguration).moduleKineticState
      = if (modff (x * speed / speedDivisor *
            (st.ModuleConfigurations moduleConfiguration).caretLockSkewFirstTick)).2 ≠ 0 then
          CaretAxis_Horizontal
        else CaretAxis_None := by
    rw [hacc]
    simp [axisCandidate, axisIntegerParts, CaretAxis_None, CaretAxis_Inactive,
      CaretAxis_Vertical, CaretAxis_Horizontal, modff]
  rw [hcand]
  split_ifs with h1 h2 h3
  · rfl
  · exact absurd (by decide : CaretAxis_Horizontal < CaretAxis_Count) h2
  · exact absurd h3 (by decide)
  · rfl

/-- In Caret mode `handleNewCaretModeAction` latches the action of the locked
axis, sets `current` of the fake key state and calls `ApplyKeyAction`. -/
theorem handleNewCaretModeAction_caret (E : module_foreign_t) (st : module_engine_state_t)
    (axis resultSign : Nat) (value : Int)
    (hmode : st.moduleKineticState.currentNavigationMode = NavigationMode_Caret) :
    handleNewCaretModeAction E st axis resultSign value
      = ApplyKeyAction_caret E
          { st with
            moduleKineticState :=
              { st.moduleKineticState with
                caretAction :=
                  if resultSign > 0 then
                    ((E.GetModuleCaretConfiguration st.moduleKineticState.currentModuleId
                      NavigationMode_Caret).axisActions
                        st.moduleKineticState.caretAxis).positiveAction
                  else
                    ((E.GetModuleCaretConfiguration st.moduleKineticState.currentModuleId
                      NavigationMode_Caret).axisActions
                        st.moduleKineticState.caretAxis).negativeAction
                caretFakeKeystate :=
                  { st.moduleKineticState.caretFakeKeystate with current := true } } } := by
  simp only [handleNewCaretModeAction, hmode]

/-- The conversion of -1 to `uint8_t` is out of range. -/
theorem uint8_of_float_neg_one (E : module_foreign_t) :
    uint8_of_float E (-1) = E.uint8_outOfRange (-1) := by
  simp [uint8_of_float]

/-- The conversion of 1 to `uint8_t` is 1. -/
theorem uint8_of_float_one (E : module_foreign_t) : uint8_of_float E 1 = 1 := by
  have h : (modff (1 : ℚ)).2 = 1 := by norm_num [modff]
  simp only [uint8_of_float, h]
  norm_num

/-- A call of `processAxisLocking` while a fake key is in flight, with motion,
when `ApplyKeyAction` leaves the key state as it is: the fake key state
advances (`current` becomes the negation of `previous`, `previous` the old
`current`), the latched action is applied once with that key state, and the
mouse report, the latched action and the owner stay. -/
theorem processAxisLocking_running_step (E : module_foreign_t) (st : module_engine_state_t)
    (x y speed : ℚ) (yInversion : Int) (speedDivisor : ℚ) (moduleConfiguration : Nat)
    (happly : ∀ s a b, E.ApplyKeyAction s a b = s.moduleKineticState.caretFakeKeystate)
    (hflight : st.moduleKineticState.caretFakeKeystate.current = true ∨
      st.moduleKineticState.caretFakeKeystate.previous = true)
    (hmotion : x ≠ 0 ∨ y ≠ 0) :
    (processAxisLocking E st x y speed yInversion speedDivisor
        moduleConfiguration).moduleKineticState.caretFakeKeystate
      = { st.moduleKineticState.caretFakeKeystate with
          current := !st.moduleKineticState.caretFakeKeystate.previous
          previous := st.moduleKineticState.caretFakeKeystate.current } ∧
    (processAxisLocking E st x y speed yInversion speedDivisor
        moduleConfiguration).moduleKineticState.caretAction = st.moduleKineticState.caretAction ∧
    (processAxisLocking E st x y speed yInversion speedDivisor moduleConfiguration).applied
      = st.applied ++
          [({ st.moduleKineticState.caretFakeKeystate with
                current := !st.moduleKineticState.caretFakeKeystate.previous
                previous := st.moduleKineticState.caretFakeKeystate.current },
            st.moduleKineticState.caretAction, st.moduleKineticState.caretAction)] ∧
    (processAxisLocking E st x y speed yInversion speedDivisor
        moduleConfiguration).ActiveUsbMouseReport = st.ActiveUsbMouseReport ∧
    (processAxisLocking E st x y speed yInversion speedDivisor
        moduleConfiguration).moduleKineticState.currentNavigationMode
      = st.moduleKineticState.currentNavigationMode ∧
    (processAxisLocking E st x y speed yInversion speedDivisor
        moduleConfiguration).moduleKineticState.currentModuleId
      = st.moduleKineticState.currentModuleId := by
  have hgo : ¬ (x = 0 ∧ y = 0 ∧ st.moduleKineticState.caretAxis = CaretAxis_None) :=
    fun h => hmotion.elim (fun hx => hx h.1) (fun hy => hy h.2.1)
  have hu := processAxisLocking_unlock_frame st x y
  rw [processAxisLocking_running E st x y speed yInversion speedDivisor moduleConfiguration
    hflight hgo]
  simp only [handleRunningCaretModeAction, ApplyKeyAction_caret_frame, happly]
  refine ⟨?_, ?_, ?_, ?_, ?_, ?_⟩
  · show ({ (processAxisLocking_unlock st x y).moduleKineticState.caretFakeKeystate with
        current := !(processAxisLocking_unlock st x y).moduleKineticState.caretFakeKeystate.previous
        previous := (processAxisLocking_unlock st x y).moduleKineticState.caretFakeKeystate.current } :
        UsbReportUpdater.key_state_t) = _
    rw [hu.1]
  · show (processAxisLocking_unlock st x y).moduleKineticState.caretAction = _
    rw [hu.2.1]
  · show (processAxisLocking_unlock st x y).applied ++
        [(({ (processAxisLocking_unlock st x y).moduleKineticState.caretFakeKeystate with
            current :=
              !(processAxisLocking_unlock st x y).moduleKineticState.caretFakeKeystate.previous
            previous :=
              (processAxisLocking_unlock st x y).moduleKineticState.caretFakeKeystate.current } :
            UsbReportUpdater.key_state_t),
          (processAxisLocking_unlock st x y).moduleKineticState.caretAction,
          (processAxisLocking_unlock st x y).moduleKineticState.caretAction)] = _
    rw [hu.1, hu.2.1, hu.2.2.2.2.2.1]
  · show (processAxisLocking_unlock st x y).ActiveUsbMouseReport = _
    rw [hu.2.2.2.2.1]
  · show (processAxisLocking_unlock st x y).moduleKineticState.currentNavigationMode = _
    rw [hu.2.2.2.1]
  · show (processAxisLocking_unlock st x y).moduleKineticState.currentModuleId = _
    rw [hu.2.2.1]

/-- A tick in Caret mode when `ApplyKeyAction` leaves the key state as it is:
`current` of the fake key state is set and `ApplyKeyAction` is called once,
with that key state and the latched action as both actions. -/
theorem processAxisLocking_tick_caret (E : module_foreign_t) (st : module_engine_state_t)
    (yInversion : Int) (axis : Nat)
    (haxis : axis = CaretAxis_Horizontal ∨ axis = CaretAxis_Vertical)
    (happly : ∀ s a b, E.ApplyKeyAction s a b = s.moduleKineticState.caretFakeKeystate)
    (hmode : st.moduleKineticState.currentNavigationMode = NavigationMode_Caret) :
    (processAxisLocking_tick E st yInversion axis).moduleKineticState.caretFakeKeystate
      = { st.moduleKineticState.caretFakeKeystate with current := true } ∧
    (processAxisLocking_tick E st yInversion axis).applied
      = st.applied ++
          [({ st.moduleKineticState.caretFakeKeystate with current := true },
            (processAxisLocking_tick E st yInversion axis).moduleKineticState.caretAction,
            (processAxisLocking_tick E st yInversion axis).moduleKineticState.caretAction)] := by
  cases haxis with
  | inl h =>
    rw [h, processAxisLocking_tick_horizontal]
    simp only [handleNewCaretModeAction, hmode, ApplyKeyAction_caret, happly]
    refine ⟨?_, ?_⟩ <;> trivial
  | inr h =>
    rw [h, processAxisLocking_tick_vertical]
    simp only [handleNewCaretModeAction, hmode, ApplyKeyAction_caret, happly]
    refine ⟨?_, ?_⟩ <;> trivial

/-- The first tick of scenario S5: the owner is in Caret mode with no lock and
no fake key in flight, the accumulated vertical remainder has a positive
integral part, yInversion is -1, the conversion of -1 to `uint8_t` gives 0 and
`ApplyKeyAction` leaves the key state as it is. The call locks the vertical
axis, latches the negative action of that axis, presses the fake key, applies
the action once and reduces the remainder by 1. -/
theorem processAxisLocking_firstTick (E : module_foreign_t) (st : module_engine_state_t)
    (x y speed speedDivisor : ℚ) (moduleConfiguration : Nat)
    (happly : ∀ s a b, E.ApplyKeyAction s a b = s.moduleKineticState.caretFakeKeystate)
    (hconv : E.uint8_outOfRange (-1) = 0)
    (hmode : st.moduleKineticState.currentNavigationMode = NavigationMode_Caret)
    (haxis : st.moduleKineticState.caretAxis = CaretAxis_None)
    (hcur : st.moduleKineticState.caretFakeKeystate.current = false)
    (hprev : st.moduleKineticState.caretFakeKeystate.previous = false)
    (hmotion : x ≠ 0 ∨ y ≠ 0)
    (hacc : (modff (st.moduleKineticState.yFractionRemainder +
      y * speed / speedDivisor *
        (st.ModuleConfigurations moduleConfiguration).caretLockSkewFirstTick)).2 > 0) :
    processAxisLocking E st x y speed (-1) speedDivisor moduleConfiguration
      = { st with
          applied := st.applied ++
            [({ st.moduleKineticState.caretFakeKeystate with current := true },
              ((E.GetModuleCaretConfiguration st.moduleKineticState.currentModuleId
                NavigationMode_Caret).axisActions CaretAxis_Vertical).negativeAction,
              ((E.GetModuleCaretConfiguration st.moduleKineticState.currentModuleId
                NavigationMode_Caret).axisActions CaretAxis_Vertical).negativeAction)]
          moduleKineticState :=
            { st.moduleKineticState with
              caretAxis := CaretAxis_Vertical
              caretFakeKeystate := { st.moduleKineticState.caretFakeKeystate with current := true }
              caretAction :=
                ((E.GetModuleCaretConfiguration st.moduleKineticState.currentModuleId
                  NavigationMode_Caret).axisActions CaretAxis_Vertical).negativeAction
              xFractionRemainder := 0
              yFractionRemainder :=
                st.moduleKineticState.yFractionRemainder +
                  y * speed / speedDivisor *
                    (st.ModuleConfigurations moduleConfiguration).caretLockSkewFirstTick - 1
              lastUpdate := st.CurrentTime } } := by
  have hgo : ¬ (x = 0 ∧ y = 0 ∧ st.moduleKineticState.caretAxis = CaretAxis_None) :=
    fun h => hmotion.elim (fun hx => hx h.1) (fun hy => hy h.2.1)
  have hu : processAxisLocking_unlock st x y
      = { st with
          moduleKineticState := { st.moduleKineticState with lastUpdate := st.CurrentTime } } := by
    simp only [processAxisLocking_unlock]
    rw [if_pos hmotion, if_neg (fun h => h.2 haxis)]
  have ha : processAxisLocking_accumulate (processAxisLocking_unlock st x y) x y speed
      speedDivisor moduleConfiguration
      = { st with
          moduleKineticState :=
            { st.moduleKineticState with
              lastUpdate := st.CurrentTime
              xFractionRemainder :=
                st.moduleKineticState.xFractionRemainder +
                  x * speed / speedDivisor *
                    (st.ModuleConfigurations moduleConfiguration).caretLockSkewFirstTick
              yFractionRemainder :=
                st.moduleKineticState.yFractionRemainder +
                  y * speed / speedDivisor *
                    (st.ModuleConfigurations moduleConfiguration).caretLockSkewFirstTick } } := by
    rw [hu]
    simp only [processAxisLocking_accumulate, haxis, if_true]
  have hc : axisCandidate
      (processAxisLocking_accumulate (processAxisLocking_unlock st x y) x y speed
        speedDivisor moduleConfiguration).moduleKineticState = CaretAxis_Vertical := by
    rw [ha]
    have hne : (modff (st.moduleKineticState.yFractionRemainder +
        y * speed / speedDivisor *
          (st.ModuleConfigurations moduleConfiguration).caretLockSkewFirstTick)).2 ≠ 0 :=
      ne_of_gt hacc
    simp only [axisCandidate, haxis, axisIntegerParts]
    rw [if_pos (by decide : CaretAxis_None = CaretAxis_Inactive),
      if_neg (by decide : ¬ (CaretAxis_Vertical = CaretAxis_Horizontal)),
      if_pos (rfl : CaretAxis_Vertical = CaretAxis_Vertical), if_pos hne]
  rw [processAxisLocking_idle E st x y speed (-1) speedDivisor moduleConfiguration hcur hprev
    hgo, hc, if_pos (by decide : CaretAxis_Vertical < CaretAxis_Count),
    processAxisLocking_tick_vertical, ha]
  have h1 : ((1 : ℚ) * ((-1 : Int) : ℚ)) = -1 := by norm_num
  simp only [if_pos hacc, Int.cast_one, h1, uint8_of_float_neg_one, hconv,
    handleNewCaretModeAction, hmode, ApplyKeyAction_caret, happly, gt_iff_lt, lt_self_iff_false,
    if_false]

/-- One call of `caretCall` while the fake key is in flight, with motion, when
`ApplyKeyAction` leaves the key state as it is. -/
theorem caretCall_running (E : module_foreign_t) (st : module_engine_state_t) (t : Nat)
    (x y speed speedDivisor : ℚ) (moduleConfiguration : Nat)
    (happly : ∀ s a b, E.ApplyKeyAction s a b = s.moduleKineticState.caretFakeKeystate)
    (hflight : st.moduleKineticState.caretFakeKeystate.current = true ∨
      st.moduleKineticState.caretFakeKeystate.previous = true)
    (hmotion : x ≠ 0 ∨ y ≠ 0) :
    (caretCall E st t x y speed speedDivisor moduleConfiguration).moduleKineticState.caretFakeKeystate
      = { st.moduleKineticState.caretFakeKeystate with
          current := !st.moduleKineticState.caretFakeKeystate.previous
          previous := st.moduleKineticState.caretFakeKeystate.current } ∧
    (caretCall E st t x y speed speedDivisor moduleConfiguration).moduleKineticState.caretAction
      = st.moduleKineticState.caretAction ∧
    (caretCall E st t x y speed speedDivisor moduleConfiguration).applied
      = st.applied ++
          [({ st.moduleKineticState.caretFakeKeystate with
                current := !st.moduleKineticState.caretFakeKeystate.previous
                previous := st.moduleKineticState.caretFakeKeystate.current },
            st.moduleKineticState.caretAction, st.moduleKineticState.caretAction)] ∧
    (caretCall E st t x y speed speedDivisor
        moduleConfiguration).moduleKineticState.currentNavigationMode
      = st.moduleKineticState.currentNavigationMode := by
  have h := processAxisLocking_running_step E { st with CurrentTime := t } x y speed (-1)
    speedDivisor moduleConfiguration happly hflight hmotion
  exact ⟨h.1, h.2.1, h.2.2.1, h.2.2.2.2.1⟩

/-- One call of `caretCall` in Caret mode with no fake key in flight, with
motion, when `ApplyKeyAction` leaves the key state as it is: a tick on the axis
candidate when there is one, and that tick presses the fake key and applies
the latched action once. -/
theorem caretCall_idle (E : module_foreign_t) (st : module_engine_state_t) (t : Nat)
    (x y speed speedDivisor : ℚ) (moduleConfiguration : Nat)
    (happly : ∀ s a b, E.ApplyKeyAction s a b = s.moduleKineticState.caretFakeKeystate)
    (hmode : st.moduleKineticState.currentNavigationMode = NavigationMode_Caret)
    (hcur : st.moduleKineticState.caretFakeKeystate.current = false)
    (hprev : st.moduleKineticState.caretFakeKeystate.previous = false)
    (hmotion : x ≠ 0 ∨ y ≠ 0) :
    caretCall E st t x y speed speedDivisor moduleConfiguration
      = (if axisCandidate
            (processAxisLocking_accumulate
              (processAxisLocking_unlock { st with CurrentTime := t } x y) x y speed
              speedDivisor moduleConfiguration).moduleKineticState < CaretAxis_Count then
          processAxisLocking_tick E
            (processAxisLocking_accumulate
              (processAxisLocking_unlock { st with CurrentTime := t } x y) x y speed
              speedDivisor moduleConfiguration)
            (-1)
            (axisCandidate
              (processAxisLocking_accumulate
                (processAxisLocking_unlock { st with CurrentTime := t } x y) x y speed
                speedDivisor moduleConfiguration).moduleKineticState)
        else
          processAxisLocking_accumulate
            (processAxisLocking_unlock { st with CurrentTime := t } x y) x y speed
            speedDivisor moduleConfiguration) ∧
    (axisCandidate
          (processAxisLocking_accumulate
            (processAxisLocking_unlock { st with CurrentTime := t } x y) x y speed
            speedDivisor moduleConfiguration).moduleKineticState < CaretAxis_Count →
      (caretCall E st t x y speed speedDivisor
          moduleConfiguration).moduleKineticState.caretFakeKeystate
        = { st.moduleKineticState.caretFakeKeystate with current := true } ∧
      (caretCall E st t x y speed speedDivisor moduleConfiguration).applied
        = st.applied ++
            [({ st.moduleKineticState.caretFakeKeystate with current := true },
              (caretCall E st t x y speed speedDivisor
                moduleConfiguration).moduleKineticState.caretAction,
              (caretCall E st t x y speed speedDivisor
                moduleConfiguration).moduleKineticState.caretAction)]) := by
  have hgo : ¬ (x = 0 ∧ y = 0 ∧
      ({ st with CurrentTime := t } : module_engine_state_t).moduleKineticState.caretAxis
        = CaretAxis_None) :=
    fun h => hmotion.elim (fun hx => hx h.1) (fun hy => hy h.2.1)
  have hi := processAxisLocking_idle E { st with CurrentTime := t } x y speed (-1) speedDivisor
    moduleConfiguration hcur hprev hgo
  have hu := processAxisLocking_unlock_frame { st with CurrentTime := t } x y
  refine ⟨hi, ?_⟩
  intro hc
  have hcand : axisCandidate
        (processAxisLocking_accumulate
          (processAxisLocking_unlock { st with CurrentTime := t } x y) x y speed
          speedDivisor moduleConfiguration).moduleKineticState = CaretAxis_Horizontal ∨
      axisCandidate
        (processAxisLocking_accumulate
          (processAxisLocking_unlock { st with CurrentTime := t } x y) x y speed
          speedDivisor moduleConfiguration).moduleKineticState = CaretAxis_Vertical := by
    have h2 : ∀ n : Nat, n < CaretAxis_Count → n = CaretAxis_Horizontal ∨ n = CaretAxis_Vertical := by
      intro n hn
      simp only [CaretAxis_Count, CaretAxis_Horizontal, CaretAxis_Vertical] at *
      omega
    exact h2 _ hc
  have ht := processAxisLocking_tick_caret E
    (processAxisLocking_accumulate
      (processAxisLocking_unlock { st with CurrentTime := t } x y) x y speed
      speedDivisor moduleConfiguration) (-1) _ hcand happly (hu.2.2.2.1.trans hmode)
  have e : caretCall E st t x y speed speedDivisor moduleConfiguration
      = processAxisLocking_tick E
          (processAxisLocking_accumulate
            (processAxisLocking_unlock { st with CurrentTime := t } x y) x y speed
            speedDivisor moduleConfiguration)
          (-1)
          (axisCandidate
            (processAxisLocking_accumulate
              (processAxisLocking_unlock { st with CurrentTime := t } x y) x y speed
              speedDivisor moduleConfiguration).moduleKineticState) := by
    exact hi.trans (if_pos hc)
  rw [e]
  constructor
  · rw [ht.1]
    show ({ (processAxisLocking_unlock { st with CurrentTime := t } x y).moduleKineticState.caretFakeKeystate
      with current := true } : UsbReportUpdater.key_state_t) = _
    rw [hu.1]
  · rw [ht.2]
    show (processAxisLocking_unlock { st with CurrentTime := t } x y).applied ++
      [(({ (processAxisLocking_unlock { st with CurrentTime := t }
            x y).moduleKineticState.caretFakeKeystate with current := true } :
          UsbReportUpdater.key_state_t), _, _)] = _
    rw [hu.1, hu.2.2.2.2.2.1]

/-- The life cycle of the fake key in Caret mode on the right touchpad (no lock
and no fake key in flight at the start, `ApplyKeyAction` leaving the key state
as it is, -1 converting to the `uint8_t` 0): the first call with a positive
integral part of the accumulated vertical remainder presses the fake key with
the negative action of the vertical axis, the next three calls with motion
apply that action with the key state held, released and at rest, and the
fifth call is a tick again when there is an axis candidate. -/
theorem processAxisLocking_lifecycle (E : module_foreign_t) (st : module_engine_state_t)
    (x y speed speedDivisor : ℚ) (moduleConfiguration : Nat) (t2 t3 t4 t5 : Nat)
    (happly : ∀ s a b, E.ApplyKeyAction s a b = s.moduleKineticState.caretFakeKeystate)
    (hconv : E.uint8_outOfRange (-1) = 0)
    (hmodule : st.moduleKineticState.currentModuleId = E.ModuleId_TouchpadRight)
    (hmode : st.moduleKineticState.currentNavigationMode = NavigationMode_Caret)
    (haxis : st.moduleKineticState.caretAxis = CaretAxis_None)
    (hcur : st.moduleKineticState.caretFakeKeystate.current = false)
    (hprev : st.moduleKineticState.caretFakeKeystate.previous = false)
    (hmotion : x ≠ 0 ∨ y ≠ 0)
    (hacc : (modff (st.moduleKineticState.yFractionRemainder +
      y * speed / speedDivisor *
        (st.ModuleConfigurations moduleConfiguration).caretLockSkewFirstTick)).2 > 0) :
    let negativeAction :=
      ((E.GetModuleCaretConfiguration E.ModuleId_TouchpadRight NavigationMode_Caret).axisActions
        CaretAxis_Vertical).negativeAction
    let fake := st.moduleKineticState.caretFakeKeystate
    let s1 := processAxisLocking E st x y speed (-1) speedDivisor moduleConfiguration
    let s2 := caretCall E s1 t2 x y speed speedDivisor moduleConfiguration
    let s3 := caretCall E s2 t3 x y speed speedDivisor moduleConfiguration
    let s4 := caretCall E s3 t4 x y speed speedDivisor moduleConfiguration
    let s5 := caretCall E s4 t5 x y speed speedDivisor moduleConfiguration
    yInversion E st.moduleKineticState = -1 ∧
    s1.moduleKineticState.caretAxis = CaretAxis_Vertical ∧
    s1.moduleKineticState.caretAction = negativeAction ∧
    s1.moduleKineticState.caretFakeKeystate = { fake with current := true, previous := false } ∧
    s1.applied
      = st.applied ++
          [({ fake with current := true, previous := false }, negativeAction, negativeAction)] ∧
    s1.moduleKineticState.yFractionRemainder
      = st.moduleKineticState.yFractionRemainder +
          y * speed / speedDivisor *
            (st.ModuleConfigurations moduleConfiguration).caretLockSkewFirstTick - 1 ∧
    s2.moduleKineticState.caretFakeKeystate = { fake with current := true, previous := true } ∧
    s2.applied
      = s1.applied ++
          [({ fake with current := true, previous := true }, negativeAction, negativeAction)] ∧
    s3.moduleKineticState.caretFakeKeystate = { fake with current := false, previous := true } ∧
    s3.applied
      = s2.applied ++
          [({ fake with current := false, previous := true }, negativeAction, negativeAction)] ∧
    s4.moduleKineticState.caretFakeKeystate = { fake with current := false, previous := false } ∧
    s4.applied
      = s3.applied ++
          [({ fake with current := false, previous := false }, negativeAction, negativeAction)] ∧
    (axisCandidate
          (processAxisLocking_accumulate
            (processAxisLocking_unlock { s4 with CurrentTime := t5 } x y) x y speed
            speedDivisor moduleConfiguration).moduleKineticState < CaretAxis_Count →
      s5 = processAxisLocking_tick E
            (processAxisLocking_accumulate
              (processAxisLocking_unlock { s4 with CurrentTime := t5 } x y) x y speed
              speedDivisor moduleConfiguration)
            (-1)
            (axisCandidate
              (processAxisLocking_accumulate
                (processAxisLocking_unlock { s4 with CurrentTime := t5 } x y) x y speed
                speedDivisor moduleConfiguration).moduleKineticState) ∧
      s5.moduleKineticState.caretFakeKeystate = { fake with current := true, previous := false } ∧
      s5.applied
        = s4.applied ++
            [({ fake with current := true, previous := false },
              s5.moduleKineticState.caretAction, s5.moduleKineticState.caretAction)]) := by
  intro negativeAction fake s1 s2 s3 s4 s5
  have hinv : yInversion E st.moduleKineticState = -1 := by
    simp only [yInversion, hmodule, or_true, if_true]
  have h1 := processAxisLocking_firstTick E st x y speed speedDivisor moduleConfiguration
    happly hconv hmode haxis hcur hprev hmotion hacc
  have e1 : s1.moduleKineticState.caretFakeKeystate
      = { fake with current := true, previous := false } := by
    have e : s1.moduleKineticState.caretFakeKeystate = { fake with current := true } := by
      simp only [s1, h1]
    rw [e, ← hprev]
  have a1 : s1.moduleKineticState.caretAction = negativeAction := by
    simp only [s1, h1, negativeAction, hmodule]
  have m1 : s1.moduleKineticState.currentNavigationMode = NavigationMode_Caret := by
    simp only [s1, h1]
    exact hmode
  have p1 : s1.applied
      = st.applied ++
          [({ fake with current := true, previous := false }, negativeAction, negativeAction)] := by
    have e : s1.applied
        = st.applied ++ [({ fake with current := true }, negativeAction, negativeAction)] := by
      simp only [s1, h1, negativeAction, hmodule]
    rw [e, ← hprev]
  have r2 := caretCall_running E s1 t2 x y speed speedDivisor moduleConfiguration happly
    (Or.inl (by rw [e1])) hmotion
  have e2 : s2.moduleKineticState.caretFakeKeystate
      = { fake with current := true, previous := true } := by
    show (caretCall E s1 t2 x y speed speedDivisor
      moduleConfiguration).moduleKineticState.caretFakeKeystate = _
    rw [r2.1, e1]
    rfl
  have a2 : s2.moduleKineticState.caretAction = negativeAction := r2.2.1.trans a1
  have m2 : s2.moduleKineticState.currentNavigationMode = NavigationMode_Caret :=
    r2.2.2.2.trans m1
  have p2 : s2.applied
      = s1.applied ++
          [({ fake with current := true, previous := true }, negativeAction, negativeAction)] := by
    show (caretCall E s1 t2 x y speed speedDivisor moduleConfiguration).applied = _
    rw [r2.2.2.1, e1, a1]
    rfl
  have r3 := caretCall_running E s2 t3 x y speed speedDivisor moduleConfiguration happly
    (Or.inl (by rw [e2])) hmotion
  have e3 : s3.moduleKineticState.caretFakeKeystate
      = { fake with current := false, previous := true } := by
    show (caretCall E s2 t3 x y speed speedDivisor
      moduleConfiguration).moduleKineticState.caretFakeKeystate = _
    rw [r3.1, e2]
    rfl
  have a3 : s3.moduleKineticState.caretAction = negativeAction := r3.2.1.trans a2
  have m3 : s3.moduleKineticState.currentNavigationMode = NavigationMode_Caret :=
    r3.2.2.2.trans m2
  have p3 : s3.applied
      = s2.applied ++
          [({ fake with current := false, previous := true }, negativeAction, negativeAction)] := by
    show (caretCall E s2 t3 x y speed speedDivisor moduleConfiguration).applied = _
    rw [r3.2.2.1, e2, a2]
    rfl
  have r4 := caretCall_running E s3 t4 x y speed speedDivisor moduleConfiguration happly
    (Or.inr (by rw [e3])) hmotion
  have e4 : s4.moduleKineticState.caretFakeKeystate
      = { fake with current := false, previous := false } := by
    show (caretCall E s3 t4 x y speed speedDivisor
      moduleConfiguration).moduleKineticState.caretFakeKeystate = _
    rw [r4.1, e3]
    rfl
  have m4 : s4.moduleKineticState.currentNavigationMode = NavigationMode_Caret :=
    r4.2.2.2.trans m3
  have p4 : s4.applied
      = s3.applied ++
          [({ fake with current := false, previous := false }, negativeAction, negativeAction)] := by
    show (caretCall E s3 t4 x y speed speedDivisor moduleConfiguration).applied = _
    rw [r4.2.2.1, e3, a3]
    rfl
  have r5 := caretCall_idle E s4 t5 x y speed speedDivisor moduleConfiguration happly m4
    (by rw [e4]) (by rw [e4]) hmotion
  refine ⟨hinv, ?_, a1, e1, p1, ?_, e2, p2, e3, p3, e4, p4, ?_⟩
  · simp only [s1, h1]
  · simp only [s1, h1]
  · intro hc
    refine ⟨r5.1.trans (if_pos hc), ?_, ?_⟩
    · show (caretCall E s4 t5 x y speed speedDivisor
        moduleConfiguration).moduleKineticState.caretFakeKeystate = _
      rw [(r5.2 hc).1, e4]
    · show (caretCall E s4 t5 x y speed speedDivisor moduleConfiguration).applied = _
      rw [(r5.2 hc).2, e4]

/-- C29 (amended): scenario S5, caret navigation. The right touchpad owns the
kinetic state in Caret mode, no axis is locked and no fake key is in flight;
`ApplyKeyAction` leaves the fake key state as it is and the conversion of -1
to `uint8_t` gives 0. A call with motion whose accumulated vertical remainder
has a positive integral part (3.4 in the scenario), with yInversion -1 as for
the touchpad, locks caretAxis = Vertical, latches the negative action of the
vertical axis, sets the fake key state to pressed (current = true, previous =
false), applies the action once and reduces the remainder by 1. The next call
with motion applies the latched action with the key state held (current =
true, previous = true), the call after that with the key state released
(current = false, previous = true), the fourth call with current = previous =
false, and the fifth call is the first that can emit the next tick: it does so
when an accumulated remainder has an integral part, with a new press of the
fake key. -/
theorem C29_caretLifecycle (E : module_foreign_t) (st : module_engine_state_t)
    (x y speed speedDivisor : ℚ) (moduleConfiguration : Nat) (t2 t3 t4 t5 : Nat)
    (happly : ∀ s a b, E.ApplyKeyAction s a b = s.moduleKineticState.caretFakeKeystate)
    (hconv : E.uint8_outOfRange (-1) = 0)
    (hmodule : st.moduleKineticState.currentModuleId = E.ModuleId_TouchpadRight)
    (hmode : st.moduleKineticState.currentNavigationMode = NavigationMode_Caret)
    (haxis : st.moduleKineticState.caretAxis = CaretAxis_None)
    (hcur : st.moduleKineticState.caretFakeKeystate.current = false)
    (hprev : st.moduleKineticState.caretFakeKeystate.previous = false)
    (hmotion : x ≠ 0 ∨ y ≠ 0)
    (hacc : (modff (st.moduleKineticState.yFractionRemainder +
      y * speed / speedDivisor *
        (st.ModuleConfigurations moduleConfiguration).caretLockSkewFirstTick)).2 > 0) :
    let negativeAction :=
      ((E.GetModuleCaretConfiguration E.ModuleId_TouchpadRight NavigationMode_Caret).axisActions
        CaretAxis_Vertical).negativeAction
    let fake := st.moduleKineticState.caretFakeKeystate
    let s1 := processAxisLocking E st x y speed (-1) speedDivisor moduleConfiguration
    let s2 := caretCall E s1 t2 x y speed speedDivisor moduleConfiguration
    let s3 := caretCall E s2 t3 x y speed speedDivisor moduleConfiguration
    let s4 := caretCall E s3 t4 x y speed speedDivisor moduleConfiguration
    let s5 := caretCall E s4 t5 x y speed speedDivisor moduleConfiguration
    yInversion E st.moduleKineticState = -1 ∧
    s1.moduleKineticState.caretAxis = CaretAxis_Vertical ∧
    s1.moduleKineticState.caretAction = negativeAction ∧
    s1.moduleKineticState.caretFakeKeystate = { fake with current := true, previous := false } ∧
    s1.applied
      = st.applied ++
          [({ fake with current := true, previous := false }, negativeAction, negativeAction)] ∧
    s1.moduleKineticState.yFractionRemainder
      = st.moduleKineticState.yFractionRemainder +
          y * speed / speedDivisor *
            (st.ModuleConfigurations moduleConfiguration).caretLockSkewFirstTick - 1 ∧
    s2.moduleKineticState.caretFakeKeystate = { fake with current := true, previous := true } ∧
    s2.applied
      = s1.applied ++
          [({ fake with current := true, previous := true }, negativeAction, negativeAction)] ∧
    s3.moduleKineticState.caretFakeKeystate = { fake with current := false, previous := true } ∧
    s3.applied
      = s2.applied ++
          [({ fake with current := false, previous := true }, negativeAction, negativeAction)] ∧
    s4.moduleKineticState.caretFakeKeystate = { fake with current := false, previous := false } ∧
    s4.applied
      = s3.applied ++
          [({ fake with current := false, previous := false }, negativeAction, negativeAction)] ∧
    (axisCandidate
          (processAxisLocking_accumulate
            (processAxisLocking_unlock { s4 with CurrentTime := t5 } x y) x y speed
            speedDivisor moduleConfiguration).moduleKineticState < CaretAxis_Count →
      s5 = processAxisLocking_tick E
            (processAxisLocking_accumulate
              (processAxisLocking_unlock { s4 with CurrentTime := t5 } x y) x y speed
              speedDivisor moduleConfiguration)
            (-1)
            (axisCandidate
              (processAxisLocking_accumulate
                (processAxisLocking_unlock { s4 with CurrentTime := t5 } x y) x y speed
                speedDivisor moduleConfiguration).moduleKineticState) ∧
      s5.moduleKineticState.caretFakeKeystate = { fake with current := true, previous := false } ∧
      s5.applied
        = s4.applied ++
            [({ fake with current := true, previous := false },
              s5.moduleKineticState.caretAction, s5.moduleKineticState.caretAction)]) :=
  processAxisLocking_lifecycle E st x y speed speedDivisor moduleConfiguration t2 t3 t4 t5 happly
    hconv hmodule hmode haxis hcur hprev hmotion hacc

/-- C29 at an example: the touchpad in Caret mode with no lock, motion (0, 10)
with speed 1 and first-tick skew 17/50 accumulates 3.4 on the vertical axis;
the call locks the vertical axis and presses the fake key. -/
theorem C29_caretLifecycle_witness :
    (∀ s a b, exampleModuleForeign.ApplyKeyAction s a b
      = s.moduleKineticState.caretFakeKeystate) ∧
    exampleModuleForeign.uint8_outOfRange (-1) = 0 ∧
    (stateTouchpadOwner NavigationMode_Caret CaretAxis_None 0).moduleKineticState.currentModuleId
      = exampleModuleForeign.ModuleId_TouchpadRight ∧
    (stateTouchpadOwner NavigationMode_Caret CaretAxis_None
      0).moduleKineticState.currentNavigationMode = NavigationMode_Caret ∧
    (stateTouchpadOwner NavigationMode_Caret CaretAxis_None 0).moduleKineticState.caretAxis
      = CaretAxis_None ∧
    (stateTouchpadOwner NavigationMode_Caret CaretAxis_None
      0).moduleKineticState.caretFakeKeystate.current = false ∧
    (stateTouchpadOwner NavigationMode_Caret CaretAxis_None
      0).moduleKineticState.caretFakeKeystate.previous = false ∧
    ((0 : ℚ) ≠ 0 ∨ (10 : ℚ) ≠ 0) ∧
    (modff ((stateTouchpadOwner NavigationMode_Caret CaretAxis_None
        0).moduleKineticState.yFractionRemainder +
      10 * 1 / 1 *
        ((stateTouchpadOwner NavigationMode_Caret CaretAxis_None 0).ModuleConfigurations
          5).caretLockSkewFirstTick)).2 > 0 ∧
    (processAxisLocking exampleModuleForeign
        (stateTouchpadOwner NavigationMode_Caret CaretAxis_None 0) 0 10 1 (-1) 1
        5).moduleKineticState.caretAxis = CaretAxis_Vertical :=
  ⟨fun _ _ _ => rfl, rfl, rfl, rfl, rfl, rfl, rfl, Or.inr (by norm_num),
    by norm_num [stateTouchpadOwner, exampleModuleConfiguration, modff],
    (C29_caretLifecycle exampleModuleForeign
      (stateTouchpadOwner NavigationMode_Caret CaretAxis_None 0) 0 10 1 1 5 1020 1030 1040 1050
      (fun _ _ _ => rfl) rfl rfl rfl rfl rfl rfl (Or.inr (by norm_num))
      (by norm_num [stateTouchpadOwner, exampleModuleConfiguration, modff])).2.1⟩

/-- C29 (as stated) fails: in scenario S5 (the touchpad in Caret mode, no lock,
no fake key in flight, motion (0, 10) accumulating 3.4 on the vertical axis,
`ApplyKeyAction` leaving the key state as it is) the first call presses the
fake key and leaves the remainder 2.4; the next call applies the action with
the fake key state held (current = true, previous = true), not released; the
release (current = false, previous = true) is the third call, which emits no
tick: it applies the same latched action once more. -/
theorem C29_caretLifecycle_counterexample :
    (processAxisLocking exampleModuleForeign
        (stateTouchpadOwner NavigationMode_Caret CaretAxis_None 0) 0 10 1 (-1) 1
        5).moduleKineticState.caretFakeKeystate
      = { UsbReportUpdater.idleKeyState with current := true, previous := false } ∧
    (processAxisLocking exampleModuleForeign
        (stateTouchpadOwner NavigationMode_Caret CaretAxis_None 0) 0 10 1 (-1) 1
        5).moduleKineticState.yFractionRemainder = 12 / 5 ∧
    (caretCall exampleModuleForeign
        (processAxisLocking exampleModuleForeign
          (stateTouchpadOwner NavigationMode_Caret CaretAxis_None 0) 0 10 1 (-1) 1 5)
        1020 0 10 1 1 5).moduleKineticState.caretFakeKeystate
      = { UsbReportUpdater.idleKeyState with current := true, previous := true } ∧
    UsbReportUpdater.KeyState_DeactivatedNow
        (caretCall exampleModuleForeign
          (processAxisLocking exampleModuleForeign
            (stateTouchpadOwner NavigationMode_Caret CaretAxis_None 0) 0 10 1 (-1) 1 5)
          1020 0 10 1 1 5).moduleKineticState.caretFakeKeystate = false ∧
    (caretCall exampleModuleForeign
        (caretCall exampleModuleForeign
          (processAxisLocking exampleModuleForeign
            (stateTouchpadOwner NavigationMode_Caret CaretAxis_None 0) 0 10 1 (-1) 1 5)
          1020 0 10 1 1 5)
        1030 0 10 1 1 5).moduleKineticState.caretFakeKeystate
      = { UsbReportUpdater.idleKeyState with current := false, previous := true } ∧
    (caretCall exampleModuleForeign
        (caretCall exampleModuleForeign
          (processAxisLocking exampleModuleForeign
            (stateTouchpadOwner NavigationMode_Caret CaretAxis_None 0) 0 10 1 (-1) 1 5)
          1020 0 10 1 1 5)
        1030 0 10 1 1 5).applied
      = [({ UsbReportUpdater.idleKeyState with current := true, previous := false },
          scancodeAction 81, scancodeAction 81),
        ({ UsbReportUpdater.idleKeyState with current := true, previous := true },
          scancodeAction 81, scancodeAction 81),
        ({ UsbReportUpdater.idleKeyState with current := false, previous := true },
          scancodeAction 81, scancodeAction 81)] := by
  have h := processAxisLocking_lifecycle exampleModuleForeign
    (stateTouchpadOwner NavigationMode_Caret CaretAxis_None 0) 0 10 1 1 5 1020 1030 1040 1050
    (fun _ _ _ => rfl) rfl rfl rfl rfl rfl rfl (Or.inr (by norm_num))
    (by norm_num [stateTouchpadOwner, exampleModuleConfiguration, modff])
  obtain ⟨-, -, -, e1, p1, y1, e2, p2, e3, p3, -⟩ := h
  refine ⟨e1, ?_, e2, ?_, e3, ?_⟩
  · rw [y1]
    norm_num [stateTouchpadOwner, exampleModuleConfiguration]
  · rw [e2]
    rfl
  · rw [p3, p2, p1]
    rfl

/-- The speed stage of `processModuleKineticState` writes no member of a
module configuration other than `currentSpeed`. -/
theorem processModuleKineticState_speed_config (E : module_foreign_t)
    (st : module_engine_state_t) (x y : ℚ) (i : Nat) :
    ((processModuleKineticState_speed E st x y).1.ModuleConfigurations i).cursorAxisLock
      = (st.ModuleConfigurations i).cursorAxisLock ∧
    ((processModuleKineticState_speed E st x y).1.ModuleConfigurations i).scrollAxisLock
      = (st.ModuleConfigurations i).scrollAxisLock ∧
    ((processModuleKineticState_speed E st x y).1.ModuleConfigurations i).scrollSpeedDivisor
      = (st.ModuleConfigurations i).scrollSpeedDivisor ∧
    ((processModuleKineticState_speed E st x y).1.ModuleConfigurations i).caretSpeedDivisor
      = (st.ModuleConfigurations i).caretSpeedDivisor := by
  simp only [processModuleKineticState_speed, computeModuleSpeed]
  by_cases h1 : st.moduleKineticState.currentModuleId = E.ModuleId_KeyClusterLeft
  · rw [if_pos h1]
    exact ⟨rfl, rfl, rfl, rfl⟩
  · rw [if_neg h1]
    by_cases h2 : x ≠ 0 ∨ y ≠ 0
    · rw [if_pos h2]
      by_cases h3 : i = st.moduleKineticState.currentModuleId
      · simp only [if_pos h3]
        rw [h3]
        exact ⟨rfl, rfl, rfl, rfl⟩
      · simp only [if_neg h3]
        exact ⟨trivial, trivial, trivial, trivial⟩
    · rw [if_neg h2]
      exact ⟨rfl, rfl, rfl, rfl⟩

/-- In Cursor mode without axis lock `processModuleKineticState` is the
unlocked cursor step after the speed stage. -/
theorem processModuleKineticState_cursor_eq (E : module_foreign_t) (st : module_engine_state_t)
    (x y : ℚ) (moduleConfiguration : Nat)
    (hmode : st.moduleKineticState.currentNavigationMode = NavigationMode_Cursor)
    (hlock : (st.ModuleConfigurations moduleConfiguration).cursorAxisLock = false) :
    processModuleKineticState E st x y moduleConfiguration
      = processModuleKineticState_cursor (processModuleKineticState_speed E st x y).1 x y
          (processModuleKineticState_speed E st x y).2 (yInversion E st.moduleKineticState) := by
  have hk := (processModuleKineticState_speed_frame E st x y).1
  have hc := (processModuleKineticState_speed_config E st x y moduleConfiguration).1
  simp only [processModuleKineticState, hk, hmode, hc, hlock, if_true]

/-- In Scroll mode without axis lock `processModuleKineticState` is the
unlocked scroll step after the speed stage. -/
theorem processModuleKineticState_scroll_eq (E : module_foreign_t) (st : module_engine_state_t)
    (x y : ℚ) (moduleConfiguration : Nat)
    (hmode : st.moduleKineticState.currentNavigationMode = NavigationMode_Scroll)
    (hlock : (st.ModuleConfigurations moduleConfiguration).scrollAxisLock = false) :
    processModuleKineticState E st x y moduleConfiguration
      = processModuleKineticState_scroll (processModuleKineticState_speed E st x y).1 x y
          (processModuleKineticState_speed E st x y).2 (yInversion E st.moduleKineticState)
          moduleConfiguration := by
  have hk := (processModuleKineticState_speed_frame E st x y).1
  have hc := (processModuleKineticState_speed_config E st x y moduleConfiguration).2.1
  simp only [processModuleKineticState, hk, hmode, hc, hlock, if_true]

/-- C32: module motion without axis lock. With speed the speed of the call
(5 in Cursor mode and 1 otherwise for KeyClusterLeft, the computed speed for
any other module) and inv the yInversion of the owner (-1 for KeyClusterLeft
and TouchpadRight, 1 otherwise): in Cursor mode with cursorAxisLock off the
call adds trunc(xRem + dx * speed) to x and subtracts inv * trunc(yRem + dy *
speed) from y of the mouse report; in Scroll mode with scrollAxisLock off it
adds trunc(xRem + dx * speed / scrollSpeedDivisor) to wheelX and inv *
trunc(yRem + dy * speed / scrollSpeedDivisor) to wheelY (the divisor not
being 0); each remainder
afterwards is below 1 in absolute value and adds up with the integer part to
the sum. -/
theorem C32_unlockedMotion (E : module_foreign_t) (st : module_engine_state_t) (x y : ℚ)
    (moduleConfiguration : Nat) :
    (st.moduleKineticState.currentNavigationMode = NavigationMode_Cursor →
      (st.ModuleConfigurations moduleConfiguration).cursorAxisLock = false →
      (processModuleKineticState E st x y moduleConfiguration).ActiveUsbMouseReport.x
        = st.ActiveUsbMouseReport.x +
            truncTowardZero (st.moduleKineticState.xFractionRemainder +
              x * (processModuleKineticState_speed E st x y).2) ∧
      (processModuleKineticState E st x y moduleConfiguration).ActiveUsbMouseReport.y
        = st.ActiveUsbMouseReport.y -
            yInversion E st.moduleKineticState *
              truncTowardZero (st.moduleKineticState.yFractionRemainder +
                y * (processModuleKineticState_speed E st x y).2) ∧
      (processModuleKineticState E st x y moduleConfiguration).ActiveUsbMouseReport.wheelX
        = st.ActiveUsbMouseReport.wheelX ∧
      (processModuleKineticState E st x y moduleConfiguration).ActiveUsbMouseReport.wheelY
        = st.ActiveUsbMouseReport.wheelY ∧
      |(processModuleKineticState E st x y
          moduleConfiguration).moduleKineticState.xFractionRemainder| < 1 ∧
      (truncTowardZero (st.moduleKineticState.xFractionRemainder +
            x * (processModuleKineticState_speed E st x y).2) : ℚ) +
          (processModuleKineticState E st x y
            moduleConfiguration).moduleKineticState.xFractionRemainder
        = st.moduleKineticState.xFractionRemainder +
            x * (processModuleKineticState_speed E st x y).2 ∧
      |(processModuleKineticState E st x y
          moduleConfiguration).moduleKineticState.yFractionRemainder| < 1 ∧
      (truncTowardZero (st.moduleKineticState.yFractionRemainder +
            y * (processModuleKineticState_speed E st x y).2) : ℚ) +
          (processModuleKineticState E st x y
            moduleConfiguration).moduleKineticState.yFractionRemainder
        = st.moduleKineticState.yFractionRemainder +
            y * (processModuleKineticState_speed E st x y).2) ∧
    (st.moduleKineticState.currentNavigationMode = NavigationMode_Scroll →
      (st.ModuleConfigurations moduleConfiguration).scrollAxisLock = false →
      (st.ModuleConfigurations moduleConfiguration).scrollSpeedDivisor ≠ 0 →
      (processModuleKineticState E st x y moduleConfiguration).ActiveUsbMouseReport.wheelX
        = st.ActiveUsbMouseReport.wheelX +
            truncTowardZero (st.moduleKineticState.xFractionRemainder +
              x * (processModuleKineticState_speed E st x y).2 /
                (st.ModuleConfigurations moduleConfiguration).scrollSpeedDivisor) ∧
      (processModuleKineticState E st x y moduleConfiguration).ActiveUsbMouseReport.wheelY
        = st.ActiveUsbMouseReport.wheelY +
            yInversion E st.moduleKineticState *
              truncTowardZero (st.moduleKineticState.yFractionRemainder +
                y * (processModuleKineticState_speed E st x y).2 /
                  (st.ModuleConfigurations moduleConfiguration).scrollSpeedDivisor) ∧
      (processModuleKineticState E st x y moduleConfiguration).ActiveUsbMouseReport.x
        = st.ActiveUsbMouseReport.x ∧
      (processModuleKineticState E st x y moduleConfiguration).ActiveUsbMouseReport.y
        = st.ActiveUsbMouseReport.y ∧
      |(processModuleKineticState E st x y
          moduleConfiguration).moduleKineticState.xFractionRemainder| < 1 ∧
      (truncTowardZero (st.moduleKineticState.xFractionRemainder +
            x * (processModuleKineticState_speed E st x y).2 /
              (st.ModuleConfigurations moduleConfiguration).scrollSpeedDivisor) : ℚ) +
          (processModuleKineticState E st x y
            moduleConfiguration).moduleKineticState.xFractionRemainder
        = st.moduleKineticState.xFractionRemainder +
            x * (processModuleKineticState_speed E st x y).2 /
              (st.ModuleConfigurations moduleConfiguration).scrollSpeedDivisor ∧
      |(processModuleKineticState E st x y
          moduleConfiguration).moduleKineticState.yFractionRemainder| < 1 ∧
      (truncTowardZero (st.moduleKineticState.yFractionRemainder +
            y * (processModuleKineticState_speed E st x y).2 /
              (st.ModuleConfigurations moduleConfiguration).scrollSpeedDivisor) : ℚ) +
          (processModuleKineticState E st x y
            moduleConfiguration).moduleKineticState.yFractionRemainder
        = st.moduleKineticState.yFractionRemainder +
            y * (processModuleKineticState_speed E st x y).2 /
              (st.ModuleConfigurations moduleConfiguration).scrollSpeedDivisor) ∧
    (st.moduleKineticState.currentModuleId = E.ModuleId_KeyClusterLeft →
      (st.moduleKineticState.currentNavigationMode = NavigationMode_Cursor →
        (processModuleKineticState_speed E st x y).2 = 5) ∧
      (st.moduleKineticState.currentNavigationMode ≠ NavigationMode_Cursor →
        (processModuleKineticState_speed E st x y).2 = 1)) ∧
    (st.moduleKineticState.currentModuleId ≠ E.ModuleId_KeyClusterLeft →
      (processModuleKineticState_speed E st x y).2
        = (computeModuleSpeed E st x y st.moduleKineticState.currentModuleId).2) ∧
    (st.moduleKineticState.currentModuleId = E.ModuleId_KeyClusterLeft ∨
        st.moduleKineticState.currentModuleId = E.ModuleId_TouchpadRight →
      yInversion E st.moduleKineticState = -1) ∧
    (st.moduleKineticState.currentModuleId ≠ E.ModuleId_KeyClusterLeft →
      st.moduleKineticState.currentModuleId ≠ E.ModuleId_TouchpadRight →
      yInversion E st.moduleKineticState = 1) := by
  have hk := (processModuleKineticState_speed_frame E st x y).1
  have hr := (processModuleKineticState_speed_frame E st x y).2.1
  have hd := (processModuleKineticState_speed_config E st x y moduleConfiguration).2.2.1
  refine ⟨?_, ?_, ?_, ?_, ?_, ?_⟩
  · intro hmode hlock
    rw [processModuleKineticState_cursor_eq E st x y moduleConfiguration hmode hlock]
    simp only [processModuleKineticState_cursor, hk, hr, ← modff_int_eq_trunc]
    exact ⟨trivial, trivial, trivial, trivial, modff_frac_abs_lt_one _, modff_add _,
      modff_frac_abs_lt_one _, modff_add _⟩
  · intro hmode hlock _
    rw [processModuleKineticState_scroll_eq E st x y moduleConfiguration hmode hlock]
    simp only [processModuleKineticState_scroll, hk, hr, hd, ← modff_int_eq_trunc]
    exact ⟨trivial, trivial, trivial, trivial, modff_frac_abs_lt_one _, modff_add _,
      modff_frac_abs_lt_one _, modff_add _⟩
  · intro hid
    simp only [processModuleKineticState_speed, hid, if_true]
    exact ⟨fun h => if_pos h, fun h => if_neg h⟩
  · intro hid
    simp only [processModuleKineticState_speed, if_neg hid]
  · intro hid
    simp only [yInversion, if_pos hid]
  · intro h1 h2
    simp only [yInversion]
    exact if_neg (fun h => h.elim h1 h2)

/-- C32 at an example: the right touchpad (yInversion -1, computed speed 1) in
Cursor mode without axis lock, y remainder 1/4 and motion (3/2, 5/2): x of the
report grows by trunc(3/2) = 1, y by trunc(11/4) = 2 (the inverted sign), and
the remainders become 1/2 and 3/4. -/
theorem C32_unlockedMotion_witness :
    (processModuleKineticState exampleModuleForeign
        (stateTouchpadOwner NavigationMode_Cursor CaretAxis_None (1 / 4)) (3 / 2) (5 / 2)
        5).ActiveUsbMouseReport.x = 1 ∧
    (processModuleKineticState exampleModuleForeign
        (stateTouchpadOwner NavigationMode_Cursor CaretAxis_None (1 / 4)) (3 / 2) (5 / 2)
        5).ActiveUsbMouseReport.y = 2 ∧
    (processModuleKineticState exampleModuleForeign
        (stateTouchpadOwner NavigationMode_Cursor CaretAxis_None (1 / 4)) (3 / 2) (5 / 2)
        5).moduleKineticState.xFractionRemainder = 1 / 2 ∧
    (processModuleKineticState exampleModuleForeign
        (stateTouchpadOwner NavigationMode_Cursor CaretAxis_None (1 / 4)) (3 / 2) (5 / 2)
        5).moduleKineticState.yFractionRemainder = 3 / 4 := by
  have h := (C32_unlockedMotion exampleModuleForeign
    (stateTouchpadOwner NavigationMode_Cursor CaretAxis_None (1 / 4)) (3 / 2) (5 / 2) 5).1
    rfl rfl
  have hs : (processModuleKineticState_speed exampleModuleForeign
      (stateTouchpadOwner NavigationMode_Cursor CaretAxis_None (1 / 4)) (3 / 2) (5 / 2)).2
      = 1 := by
    norm_num [processModuleKineticState_speed, computeModuleSpeed, stateTouchpadOwner,
      exampleModuleForeign, exampleModuleConfiguration]
  have hi : yInversion exampleModuleForeign
      (stateTouchpadOwner NavigationMode_Cursor CaretAxis_None (1 / 4)).moduleKineticState
      = -1 := by
    decide
  have hx : truncTowardZero ((0 : ℚ) + 3 / 2 * 1) = 1 := by
    have e : ⌊((0 : ℚ) + 3 / 2 * 1)⌋ = 1 := by
      rw [Int.floor_eq_iff]
      norm_num
    rw [truncTowardZero, if_pos (by norm_num), e]
  have hy : truncTowardZero ((1 / 4 : ℚ) + 5 / 2 * 1) = 2 := by
    have e : ⌊((1 / 4 : ℚ) + 5 / 2 * 1)⌋ = 2 := by
      rw [Int.floor_eq_iff]
      norm_num
    rw [truncTowardZero, if_pos (by norm_num), e]
  rw [hs] at h
  have hx0 : (stateTouchpadOwner NavigationMode_Cursor CaretAxis_None
      (1 / 4)).moduleKineticState.xFractionRemainder = 0 := rfl
  have hy0 : (stateTouchpadOwner NavigationMode_Cursor CaretAxis_None
      (1 / 4)).moduleKineticState.yFractionRemainder = 1 / 4 := rfl
  rw [hx0, hy0, hx, hy, hi] at h
  refine ⟨?_, ?_, ?_, ?_⟩
  · rw [h.1]
    rfl
  · rw [h.2.1]
    rfl
  · have e := h.2.2.2.2.2.1
    norm_num at e
    linarith
  · have e := h.2.2.2.2.2.2.2
    norm_num at e
    linarith

/-- In Scroll mode `handleNewCaretModeAction` adds the value to wheelX for a
horizontal and to wheelY for a vertical tick, and writes nothing else. -/
theorem handleNewCaretModeAction_scroll (E : module_foreign_t) (st : module_engine_state_t)
    (axis resultSign : Nat) (value : Int)
    (hmode : st.moduleKineticState.currentNavigationMode = NavigationMode_Scroll) :
    handleNewCaretModeAction E st axis resultSign value
      = { st with
          ActiveUsbMouseReport :=
            { st.ActiveUsbMouseReport with
              wheelX :=
                st.ActiveUsbMouseReport.wheelX + (if axis = CaretAxis_Horizontal then value else 0)
              wheelY :=
                st.ActiveUsbMouseReport.wheelY +
                  (if axis = CaretAxis_Vertical then value else 0) } } := by
  simp only [handleNewCaretModeAction, hmode]

/-- A tick in Cursor mode: a horizontal tick adds the integral part of the x
remainder to x, a vertical tick subtracts the integral part of the y remainder
times yInversion from y; nothing else of the report, and neither the fake key
state nor the trace, is written. -/
theorem processAxisLocking_tick_cursor (E : module_foreign_t) (st : module_engine_state_t)
    (yInversion : Int)
    (hmode : st.moduleKineticState.currentNavigationMode = NavigationMode_Cursor) :
    ((processAxisLocking_tick E st yInversion CaretAxis_Horizontal).ActiveUsbMouseReport
        = { st.ActiveUsbMouseReport with
            x := st.ActiveUsbMouseReport.x + (modff st.moduleKineticState.xFractionRemainder).2 } ∧
      (processAxisLocking_tick E st yInversion CaretAxis_Horizontal).moduleKineticState.caretFakeKeystate
        = st.moduleKineticState.caretFakeKeystate ∧
      (processAxisLocking_tick E st yInversion CaretAxis_Horizontal).applied = st.applied) ∧
    ((processAxisLocking_tick E st yInversion CaretAxis_Vertical).ActiveUsbMouseReport
        = { st.ActiveUsbMouseReport with
            y := st.ActiveUsbMouseReport.y -
              (modff st.moduleKineticState.yFractionRemainder).2 * yInversion } ∧
      (processAxisLocking_tick E st yInversion CaretAxis_Vertical).moduleKineticState.caretFakeKeystate
        = st.moduleKineticState.caretFakeKeystate ∧
      (processAxisLocking_tick E st yInversion CaretAxis_Vertical).applied = st.applied) := by
  rw [processAxisLocking_tick_horizontal, processAxisLocking_tick_vertical]
  simp only [handleNewCaretModeAction, hmode]
  simp [CaretAxis_Horizontal, CaretAxis_Vertical]

/-- A tick in Scroll mode: a horizontal tick adds the integral part of the x
remainder to wheelX, a vertical tick adds the integral part of the y remainder
times yInversion to wheelY; nothing else of the report, and neither the fake
key state nor the trace, is written. -/
theorem processAxisLocking_tick_scroll (E : module_foreign_t) (st : module_engine_state_t)
    (yInversion : Int)
    (hmode : st.moduleKineticState.currentNavigationMode = NavigationMode_Scroll) :
    ((processAxisLocking_tick E st yInversion CaretAxis_Horizontal).ActiveUsbMouseReport
        = { st.ActiveUsbMouseReport with
            wheelX :=
              st.ActiveUsbMouseReport.wheelX +
                (modff st.moduleKineticState.xFractionRemainder).2 } ∧
      (processAxisLocking_tick E st yInversion CaretAxis_Horizontal).moduleKineticState.caretFakeKeystate
        = st.moduleKineticState.caretFakeKeystate ∧
      (processAxisLocking_tick E st yInversion CaretAxis_Horizontal).applied = st.applied) ∧
    ((processAxisLocking_tick E st yInversion CaretAxis_Vertical).ActiveUsbMouseReport
        = { st.ActiveUsbMouseReport with
            wheelY := st.ActiveUsbMouseReport.wheelY +
              (modff st.moduleKineticState.yFractionRemainder).2 * yInversion } ∧
      (processAxisLocking_tick E st yInversion CaretAxis_Vertical).moduleKineticState.caretFakeKeystate
        = st.moduleKineticState.caretFakeKeystate ∧
      (processAxisLocking_tick E st yInversion CaretAxis_Vertical).applied = st.applied) := by
  rw [processAxisLocking_tick_horizontal, processAxisLocking_tick_vertical]
  simp only [handleNewCaretModeAction, hmode]
  simp [CaretAxis_Horizontal, CaretAxis_Vertical]

/-- The axis candidate is an axis only when the integral part of its
remainder is not 0. -/
theorem axisCandidate_intPart (ks : module_kinetic_state_t)
    (h : axisCandidate ks < CaretAxis_Count) :
    axisIntegerParts ks (axisCandidate ks) ≠ 0 := by
  simp only [axisCandidate] at h ⊢
  split_ifs at h ⊢ with h1 h2 h3 h4 h5
  · exact h2
  · exact h3
  · exact absurd h (by decide)
  · exact h4
  · exact h5
  · exact absurd h (by decide)

/-- In Cursor mode with the axis lock `processModuleKineticState` is
`processAxisLocking` with speed divisor 1 after the speed stage. -/
theorem processModuleKineticState_cursor_locked (E : module_foreign_t)
    (st : module_engine_state_t) (x y : ℚ) (moduleConfiguration : Nat)
    (hmode : st.moduleKineticState.currentNavigationMode = NavigationMode_Cursor)
    (hlock : (st.ModuleConfigurations moduleConfiguration).cursorAxisLock = true) :
    processModuleKineticState E st x y moduleConfiguration
      = processAxisLocking E (processModuleKineticState_speed E st x y).1 x y
          (processModuleKineticState_speed E st x y).2 (yInversion E st.moduleKineticState) 1
          moduleConfiguration := by
  have hk := (processModuleKineticState_speed_frame E st x y).1
  have hc := (processModuleKineticState_speed_config E st x y moduleConfiguration).1
  simp only [processModuleKineticState, hk, hmode, hc, hlock]
  rfl

/-- Without motion the speed stage writes nothing. -/
theorem processModuleKineticState_speed_still (E : module_foreign_t)
    (st : module_engine_state_t) :
    (processModuleKineticState_speed E st 0 0).1 = st := by
  have h0 : ¬ ((0 : ℚ) ≠ 0 ∨ (0 : ℚ) ≠ 0) := fun h => h.elim (fun a => a rfl) (fun a => a rfl)
  simp only [processModuleKineticState_speed, computeModuleSpeed]
  by_cases h1 : st.moduleKineticState.currentModuleId = E.ModuleId_KeyClusterLeft
  · rw [if_pos h1]
  · rw [if_neg h1, if_neg h0]

/-- C33 (amended): axis-locked tick in Cursor mode. For a call of
`processAxisLocking` in Cursor mode with no fake key in flight that does not
return at once, with `st2` the state after the accumulation: a tick on the
horizontal axis adds the integral part of the x remainder to x of the report
and leaves y, sets the y remainder to 0 and reduces the x remainder by the
sign of the integral part; a tick on the vertical axis subtracts the integral
part of the y remainder times yInversion from y (it subtracts the integral
part for yInversion 1 and adds it for yInversion -1) and leaves x, sets the x
remainder to 0 and reduces the y remainder by the sign of the integral part;
the integral part of a tick is not 0. -/
theorem C33_cursorTick (E : module_foreign_t) (st st2 : module_engine_state_t)
    (x y speed : ℚ) (yInversion : Int) (speedDivisor : ℚ) (moduleConfiguration : Nat)
    (hst2 : st2 = processAxisLocking_accumulate (processAxisLocking_unlock st x y) x y speed
      speedDivisor moduleConfiguration)
    (hmode : st.moduleKineticState.currentNavigationMode = NavigationMode_Cursor)
    (hcur : st.moduleKineticState.caretFakeKeystate.current = false)
    (hprev : st.moduleKineticState.caretFakeKeystate.previous = false)
    (hgo : ¬ (x = 0 ∧ y = 0 ∧ st.moduleKineticState.caretAxis = CaretAxis_None)) :
    (axisCandidate st2.moduleKineticState = CaretAxis_Horizontal →
      (modff st2.moduleKineticState.xFractionRemainder).2 ≠ 0 ∧
      (processAxisLocking E st x y speed yInversion speedDivisor
          moduleConfiguration).ActiveUsbMouseReport.x
        = st.ActiveUsbMouseReport.x + (modff st2.moduleKineticState.xFractionRemainder).2 ∧
      (processAxisLocking E st x y speed yInversion speedDivisor
          moduleConfiguration).ActiveUsbMouseReport.y = st.ActiveUsbMouseReport.y ∧
      (processAxisLocking E st x y speed yInversion speedDivisor
          moduleConfiguration).moduleKineticState.yFractionRemainder = 0 ∧
      (processAxisLocking E st x y speed yInversion speedDivisor
          moduleConfiguration).moduleKineticState.xFractionRemainder
        = st2.moduleKineticState.xFractionRemainder -
            ((if (modff st2.moduleKineticState.xFractionRemainder).2 > 0 then 1 else -1 :
              Int) : ℚ)) ∧
    (axisCandidate st2.moduleKineticState = CaretAxis_Vertical →
      (modff st2.moduleKineticState.yFractionRemainder).2 ≠ 0 ∧
      (processAxisLocking E st x y speed yInversion speedDivisor
          moduleConfiguration).ActiveUsbMouseReport.y
        = st.ActiveUsbMouseReport.y -
            (modff st2.moduleKineticState.yFractionRemainder).2 * yInversion ∧
      (yInversion = 1 →
        (processAxisLocking E st x y speed yInversion speedDivisor
            moduleConfiguration).ActiveUsbMouseReport.y
          = st.ActiveUsbMouseReport.y - (modff st2.moduleKineticState.yFractionRemainder).2) ∧
      (yInversion = -1 →
        (processAxisLocking E st x y speed yInversion speedDivisor
            moduleConfiguration).ActiveUsbMouseReport.y
          = st.ActiveUsbMouseReport.y + (modff st2.moduleKineticState.yFractionRemainder).2) ∧
      (processAxisLocking E st x y speed yInversion speedDivisor
          moduleConfiguration).ActiveUsbMouseReport.x = st.ActiveUsbMouseReport.x ∧
      (processAxisLocking E st x y speed yInversion speedDivisor
          moduleConfiguration).moduleKineticState.xFractionRemainder = 0 ∧
      (processAxisLocking E st x y speed yInversion speedDivisor
          moduleConfiguration).moduleKineticState.yFractionRemainder
        = st2.moduleKineticState.yFractionRemainder -
            ((if (modff st2.moduleKineticState.yFractionRemainder).2 > 0 then 1 else -1 :
              Int) : ℚ)) := by
  have hidle := processAxisLocking_idle E st x y speed yInversion speedDivisor
    moduleConfiguration hcur hprev hgo
  rw [← hst2] at hidle
  have hm2 : st2.moduleKineticState.currentNavigationMode = NavigationMode_Cursor := by
    rw [hst2]
    exact ((processAxisLocking_unlock_frame st x y).2.2.2.1).trans hmode
  have hr2 : st2.ActiveUsbMouseReport = st.ActiveUsbMouseReport := by
    rw [hst2]
    exact (processAxisLocking_unlock_frame st x y).2.2.2.2.1
  have ht := processAxisLocking_tick_cursor E st2 yInversion hm2
  refine ⟨?_, ?_⟩
  · intro hc
    have hne := axisCandidate_intPart st2.moduleKineticState
      (by rw [hc]; decide)
    rw [hc] at hne
    have hne2 : (modff st2.moduleKineticState.xFractionRemainder).2 ≠ 0 := hne
    rw [hidle, hc, if_pos (by decide : CaretAxis_Horizontal < CaretAxis_Count)]
    have hrem := processAxisLocking_tick_horizontal_remainders E st2 yInversion
    rw [ht.1.1, hr2]
    exact ⟨hne2, rfl, rfl, hrem.2, hrem.1⟩
  · intro hc
    have hne := axisCandidate_intPart st2.moduleKineticState
      (by rw [hc]; decide)
    rw [hc] at hne
    have hne2 : (modff st2.moduleKineticState.yFractionRemainder).2 ≠ 0 := hne
    rw [hidle, hc, if_pos (by decide : CaretAxis_Vertical < CaretAxis_Count)]
    have hrem := processAxisLocking_tick_vertical_remainders E st2 yInversion
    rw [ht.2.1, hr2]
    refine ⟨hne2, rfl, ?_, ?_, rfl, hrem.2, hrem.1⟩
    · intro h1
      show st.ActiveUsbMouseReport.y - _ * yInversion = _
      rw [h1, mul_one]
    · intro h1
      show st.ActiveUsbMouseReport.y - _ * yInversion = _
      rw [h1]
      ring

/-- C33 at an example: the touchpad (yInversion -1) locked on the vertical axis
in Cursor mode with y remainder 5 and no motion: the call emits a vertical
tick, y of the report becomes 0 + 5 and the remainder 4. -/
theorem C33_cursorTick_witness :
    (stateTouchpadLocked NavigationMode_Cursor CaretAxis_Vertical 0 5).moduleKineticState.currentNavigationMode
      = NavigationMode_Cursor ∧
    axisCandidate
        (processAxisLocking_accumulate
          (processAxisLocking_unlock
            (stateTouchpadLocked NavigationMode_Cursor CaretAxis_Vertical 0 5) 0 0)
          0 0 1 1 5).moduleKineticState = CaretAxis_Vertical ∧
    (processAxisLocking exampleModuleForeign
        (stateTouchpadLocked NavigationMode_Cursor CaretAxis_Vertical 0 5) 0 0 1 (-1) 1
        5).ActiveUsbMouseReport.y
      = (stateTouchpadLocked NavigationMode_Cursor CaretAxis_Vertical 0 5).ActiveUsbMouseReport.y +
          (modff
            (processAxisLocking_accumulate
              (processAxisLocking_unlock
                (stateTouchpadLocked NavigationMode_Cursor CaretAxis_Vertical 0 5) 0 0)
              0 0 1 1 5).moduleKineticState.yFractionRemainder).2 := by
  have hc : axisCandidate
      (processAxisLocking_accumulate
        (processAxisLocking_unlock
          (stateTouchpadLocked NavigationMode_Cursor CaretAxis_Vertical 0 5) 0 0)
        0 0 1 1 5).moduleKineticState = CaretAxis_Vertical := by
    norm_num [axisCandidate, axisIntegerParts, processAxisLocking_accumulate,
      processAxisLocking_unlock, stateTouchpadLocked, stateTouchpadOwner,
      exampleModuleConfiguration, modff, CaretAxis_Horizontal, CaretAxis_None,
      CaretAxis_Vertical, CaretAxis_Inactive]
  exact ⟨rfl, hc,
    ((C33_cursorTick exampleModuleForeign
      (stateTouchpadLocked NavigationMode_Cursor CaretAxis_Vertical 0 5) _ 0 0 1 (-1) 1 5 rfl
      rfl rfl rfl (fun h => absurd h.2.2 (by decide))).2 hc).2.2.2.1 rfl⟩

/-- C33 (as stated) fails: the right touchpad (module 5, yInversion -1) owns
the kinetic state in Cursor mode with the axis lock on, locked on the vertical
axis with y remainder 5 (integral part 5) and x remainder 0, no fake key in
flight, y of the report 0. A call of `processModuleKineticState` without
motion emits a vertical tick (the remainder becomes 4) and y of the report
becomes 5: the integral part is added to y, not subtracted. -/
theorem C33_cursorTick_counterexample :
    (stateTouchpadLocked NavigationMode_Cursor CaretAxis_Vertical 0 5).moduleKineticState.currentNavigationMode
      = NavigationMode_Cursor ∧
    ((stateTouchpadLocked NavigationMode_Cursor CaretAxis_Vertical 0 5).ModuleConfigurations
      5).cursorAxisLock = true ∧
    yInversion exampleModuleForeign
      (stateTouchpadLocked NavigationMode_Cursor CaretAxis_Vertical 0 5).moduleKineticState
      = -1 ∧
    (modff (stateTouchpadLocked NavigationMode_Cursor CaretAxis_Vertical 0
      5).moduleKineticState.yFractionRemainder).2 = 5 ∧
    (stateTouchpadLocked NavigationMode_Cursor CaretAxis_Vertical 0 5).ActiveUsbMouseReport.y
      = 0 ∧
    (processModuleKineticState exampleModuleForeign
        (stateTouchpadLocked NavigationMode_Cursor CaretAxis_Vertical 0 5) 0 0
        5).moduleKineticState.yFractionRemainder = 4 ∧
    (processModuleKineticState exampleModuleForeign
        (stateTouchpadLocked NavigationMode_Cursor CaretAxis_Vertical 0 5) 0 0
        5).ActiveUsbMouseReport.x = 0 ∧
    (processModuleKineticState exampleModuleForeign
        (stateTouchpadLocked NavigationMode_Cursor CaretAxis_Vertical 0 5) 0 0
        5).ActiveUsbMouseReport.y = 5 ∧
    (processModuleKineticState exampleModuleForeign
        (stateTouchpadLocked NavigationMode_Cursor CaretAxis_Vertical 0 5) 0 0
        5).ActiveUsbMouseReport.y
      ≠ (stateTouchpadLocked NavigationMode_Cursor CaretAxis_Vertical 0
          5).ActiveUsbMouseReport.y - 5 := by
  have hi : yInversion exampleModuleForeign
      (stateTouchpadLocked NavigationMode_Cursor CaretAxis_Vertical 0 5).moduleKineticState
      = -1 := by
    decide
  have h5 : (modff (stateTouchpadLocked NavigationMode_Cursor CaretAxis_Vertical 0
      5).moduleKineticState.yFractionRemainder).2 = 5 := by
    norm_num [stateTouchpadLocked, stateTouchpadOwner, modff]
  have hacc : processAxisLocking_accumulate
      (processAxisLocking_unlock
        (stateTouchpadLocked NavigationMode_Cursor CaretAxis_Vertical 0 5) 0 0)
      0 0
      (processModuleKineticState_speed exampleModuleForeign
        (stateTouchpadLocked NavigationMode_Cursor CaretAxis_Vertical 0 5) 0 0).2 1 5
      = stateTouchpadLocked NavigationMode_Cursor CaretAxis_Vertical 0 5 := by
    simp [processAxisLocking_accumulate, processAxisLocking_unlock, stateTouchpadLocked,
      stateTouchpadOwner]
  have hc : axisCandidate
      (stateTouchpadLocked NavigationMode_Cursor CaretAxis_Vertical 0
        5).moduleKineticState = CaretAxis_Vertical := by
    norm_num [axisCandidate, axisIntegerParts, stateTouchpadLocked, stateTouchpadOwner, modff,
      CaretAxis_Horizontal, CaretAxis_None, CaretAxis_Vertical, CaretAxis_Inactive]
  have h := processModuleKineticState_cursor_locked exampleModuleForeign
    (stateTouchpadLocked NavigationMode_Cursor CaretAxis_Vertical 0 5) 0 0 5 rfl rfl
  rw [processModuleKineticState_speed_still,
    processAxisLocking_idle exampleModuleForeign _ 0 0 _ _ 1 5 rfl rfl
      (fun h => absurd h.2.2 (by decide)), hacc, hc,
    if_pos (by decide : CaretAxis_Vertical < CaretAxis_Count)] at h
  have ht := (processAxisLocking_tick_cursor exampleModuleForeign
    (stateTouchpadLocked NavigationMode_Cursor CaretAxis_Vertical 0 5)
    (yInversion exampleModuleForeign
      (stateTouchpadLocked NavigationMode_Cursor CaretAxis_Vertical 0 5).moduleKineticState)
    rfl).2.1
  have hrem := (processAxisLocking_tick_vertical_remainders exampleModuleForeign
    (stateTouchpadLocked NavigationMode_Cursor CaretAxis_Vertical 0 5)
    (yInversion exampleModuleForeign
      (stateTouchpadLocked NavigationMode_Cursor CaretAxis_Vertical 0
        5).moduleKineticState)).1
  rw [h5] at ht hrem
  rw [hi] at ht hrem h
  rw [h, ht, hrem]
  refine ⟨rfl, rfl, rfl, h5, rfl, ?_, rfl, by decide, by decide⟩
  norm_num [stateTouchpadLocked, stateTouchpadOwner]

/-- In Caret and in Media mode `handleNewCaretModeAction` latches the action of
the locked axis by the sign parameter, sets `current` of the fake key state
and calls `ApplyKeyAction`. -/
theorem handleNewCaretModeAction_keys (E : module_foreign_t) (st : module_engine_state_t)
    (axis resultSign : Nat) (value : Int)
    (hmode : st.moduleKineticState.currentNavigationMode = NavigationMode_Caret ∨
      st.moduleKineticState.currentNavigationMode = NavigationMode_Media) :
    handleNewCaretModeAction E st axis resultSign value
      = ApplyKeyAction_caret E
          { st with
            moduleKineticState :=
              { st.moduleKineticState with
                caretAction :=
                  if resultSign > 0 then
                    ((E.GetModuleCaretConfiguration st.moduleKineticState.currentModuleId
                      st.moduleKineticState.currentNavigationMode).axisActions
                        st.moduleKineticState.caretAxis).positiveAction
                  else
                    ((E.GetModuleCaretConfiguration st.moduleKineticState.currentModuleId
                      st.moduleKineticState.currentNavigationMode).axisActions
                        st.moduleKineticState.caretAxis).negativeAction
                caretFakeKeystate :=
                  { st.moduleKineticState.caretFakeKeystate with current := true } } } := by
  cases hmode with
  | inl h => simp only [handleNewCaretModeAction, h]
  | inr h => simp only [handleNewCaretModeAction, h]

/-- The sign parameter of `handleNewCaretModeAction`: for a sign and an
inversion that are 1 or -1, the product converted to `uint8_t` is above 0
exactly when the product is, provided that the conversion of -1 gives 0. -/
theorem uint8_of_float_sign (E : module_foreign_t) (hconv : E.uint8_outOfRange (-1) = 0)
    (sgn inv : Int) (hs : sgn = 1 ∨ sgn = -1) (hi : inv = 1 ∨ inv = -1) :
    (sgn * inv > 0 → uint8_of_float E ((sgn : ℚ) * (inv : ℚ)) = 1) ∧
    (sgn * inv < 0 → uint8_of_float E ((sgn : ℚ) * (inv : ℚ)) = 0) := by
  have h1 : ((1 : ℚ) * ((-1 : Int) : ℚ)) = -1 := by norm_num
  have h2 : (((-1 : Int) : ℚ) * (1 : ℚ)) = -1 := by norm_num
  have h3 : (((-1 : Int) : ℚ) * ((-1 : Int) : ℚ)) = 1 := by norm_num
  rcases hs with hs | hs <;> rcases hi with hi | hi <;> subst hs <;> subst hi
  · refine ⟨fun _ => ?_, fun h => absurd h (by decide)⟩
    simp only [Int.cast_one, mul_one, uint8_of_float_one]
  · refine ⟨fun h => absurd h (by decide), fun _ => ?_⟩
    simp only [Int.cast_one, h1, uint8_of_float_neg_one, hconv]
  · refine ⟨fun h => absurd h (by decide), fun _ => ?_⟩
    simp only [Int.cast_one, h2, uint8_of_float_neg_one, hconv]
  · refine ⟨fun _ => ?_, fun h => absurd h (by decide)⟩
    simp only [h3, uint8_of_float_one]

/-- A tick in Caret or Media mode: the latched action is chosen by the sign
parameter, the action is applied once with `current` of the fake key state
set, and the fake key state afterwards is what `ApplyKeyAction` leaves. -/
theorem processAxisLocking_tick_keys (E : module_foreign_t) (st : module_engine_state_t)
    (yInversion : Int) (axis : Nat)
    (haxis : axis = CaretAxis_Horizontal ∨ axis = CaretAxis_Vertical)
    (hmode : st.moduleKineticState.currentNavigationMode = NavigationMode_Caret ∨
      st.moduleKineticState.currentNavigationMode = NavigationMode_Media) :
    (processAxisLocking_tick E st yInversion axis).moduleKineticState.caretAction
      = (if uint8_of_float E
            (((if axisIntegerParts st.moduleKineticState axis > 0 then 1 else -1 : Int) : ℚ) *
              ((if axis = CaretAxis_Vertical then yInversion else 1 : Int) : ℚ)) > 0 then
          ((E.GetModuleCaretConfiguration st.moduleKineticState.currentModuleId
            st.moduleKineticState.currentNavigationMode).axisActions axis).positiveAction
        else
          ((E.GetModuleCaretConfiguration st.moduleKineticState.currentModuleId
            st.moduleKineticState.currentNavigationMode).axisActions axis).negativeAction) ∧
    (processAxisLocking_tick E st yInversion axis).applied
      = st.applied ++
          [({ st.moduleKineticState.caretFakeKeystate with current := true },
            (processAxisLocking_tick E st yInversion axis).moduleKineticState.caretAction,
            (processAxisLocking_tick E st yInversion axis).moduleKineticState.caretAction)] ∧
    (∃ s : module_engine_state_t,
      s.moduleKineticState.caretFakeKeystate
        = { st.moduleKineticState.caretFakeKeystate with current := true } ∧
      (processAxisLocking_tick E st yInversion axis).moduleKineticState.caretFakeKeystate
        = E.ApplyKeyAction s
            (processAxisLocking_tick E st yInversion axis).moduleKineticState.caretAction
            (processAxisLocking_tick E st yInversion axis).moduleKineticState.caretAction) ∧
    (processAxisLocking_tick E st yInversion axis).ActiveUsbMouseReport
      = st.ActiveUsbMouseReport := by
  cases haxis with
  | inl h =>
    subst h
    rw [processAxisLocking_tick_horizontal,
      handleNewCaretModeAction_keys E _ _ _ _ (by exact hmode)]
    exact ⟨rfl, rfl, ⟨_, rfl, rfl⟩, rfl⟩
  | inr h =>
    subst h
    rw [processAxisLocking_tick_vertical,
      handleNewCaretModeAction_keys E _ _ _ _ (by exact hmode)]
    exact ⟨rfl, rfl, ⟨_, rfl, rfl⟩, rfl⟩

/-- The integral part of a number that is not above 0 is its ceiling. -/
theorem modff_int_of_nonpos {x : ℚ} (hx : x ≤ 0) : (modff x).2 = ⌈x⌉ := by
  rcases lt_or_eq_of_le hx with h | h
  · exact modff_int_of_neg h
  · rw [h]
    simp [modff]

/-- The integral part after `k` reductions by the sign: from a remainder with
integral part sgn * n, sgn being 1 or -1, the remainder reduced by sgn * k has
the integral part sgn * (n - k), for k up to n. -/
theorem modff_int_sub_sign (r : ℚ) (sgn : Int) (n k : Nat) (hs : sgn = 1 ∨ sgn = -1)
    (hk : k ≤ n) (hn : 1 ≤ n) (h : (modff r).2 = sgn * (n : Int)) :
    (modff (r - (sgn : ℚ) * (k : ℚ))).2 = sgn * ((n : Int) - (k : Int)) := by
  have hn0 : (0 : Int) < (n : Int) := by exact_mod_cast hn
  have hkn : (k : Int) ≤ (n : Int) := by exact_mod_cast hk
  rcases hs with hs | hs
  · subst hs
    have hr : 0 ≤ r := by
      by_contra hneg
      have hlt : r < 0 := not_le.mp hneg
      rw [modff_int_of_neg hlt] at h
      have : ⌈r⌉ ≤ 0 := Int.ceil_le.mpr (by exact_mod_cast hlt.le)
      omega
    rw [modff_int_of_nonneg hr] at h
    have hfl : (n : ℚ) ≤ r := by
      have := Int.floor_le r
      rw [h] at this
      simpa using this
    have hk' : (k : ℚ) ≤ (n : ℚ) := by exact_mod_cast hk
    have hr2 : 0 ≤ r - ((1 : Int) : ℚ) * (k : ℚ) := by
      simp only [Int.cast_one, one_mul]
      linarith
    rw [modff_int_of_nonneg hr2]
    simp only [Int.cast_one, one_mul]
    rw [Int.floor_sub_nat, h]
    ring
  · subst hs
    have hr : r < 0 := by
      by_contra hnn
      have hge : 0 ≤ r := not_lt.mp hnn
      rw [modff_int_of_nonneg hge] at h
      have : 0 ≤ ⌊r⌋ := Int.floor_nonneg.mpr hge
      omega
    rw [modff_int_of_neg hr] at h
    have hce : r ≤ -(n : ℚ) := by
      have := Int.le_ceil r
      rw [h] at this
      simpa using this
    have hk' : (k : ℚ) ≤ (n : ℚ) := by exact_mod_cast hk
    have hr2 : r - ((-1 : Int) : ℚ) * (k : ℚ) ≤ 0 := by
      simp only [Int.cast_neg, Int.cast_one, neg_mul, one_mul, sub_neg_eq_add]
      linarith
    rw [modff_int_of_nonpos hr2]
    simp only [Int.cast_neg, Int.cast_one, neg_mul, one_mul, sub_neg_eq_add]
    rw [Int.ceil_add_nat, h]
    ring

/-- The array of the integral parts holds the integral parts of the
remainders read through the pointer array. -/
theorem axisIntegerParts_eq (ks : module_kinetic_state_t) (axis : Nat)
    (hA : axis = CaretAxis_Horizontal ∨ axis = CaretAxis_Vertical) :
    axisIntegerParts ks axis = (modff (axisFractionRemainders ks axis)).2 := by
  cases hA with
  | inl h =>
    subst h
    simp only [axisIntegerParts, axisFractionRemainders, if_true]
  | inr h =>
    subst h
    simp only [axisIntegerParts, axisFractionRemainders, if_true,
      if_neg (by decide : ¬ (CaretAxis_Vertical = CaretAxis_Horizontal))]

/-- Without motion the unlock step and the accumulation write nothing. -/
theorem processAxisLocking_accumulate_still (st : module_engine_state_t)
    (speed speedDivisor : ℚ) (moduleConfiguration : Nat) :
    processAxisLocking_accumulate (processAxisLocking_unlock st 0 0) 0 0 speed speedDivisor
      moduleConfiguration = st := by
  have h0 : ¬ ((0 : ℚ) ≠ 0 ∨ (0 : ℚ) ≠ 0) := fun h => h.elim (fun a => a rfl) (fun a => a rfl)
  simp only [processAxisLocking_unlock, if_neg h0, processAxisLocking_accumulate, zero_mul,
    zero_div, add_zero]

/-- The remainders after a tick on an axis: the one of the axis is reduced by
the sign of its integral part, the other one is 0. -/
theorem processAxisLocking_tick_remainders (E : module_foreign_t) (st : module_engine_state_t)
    (yInversion : Int) (axis : Nat)
    (hA : axis = CaretAxis_Horizontal ∨ axis = CaretAxis_Vertical) :
    axisFractionRemainders (processAxisLocking_tick E st yInversion axis).moduleKineticState axis
      = axisFractionRemainders st.moduleKineticState axis -
          ((if axisIntegerParts st.moduleKineticState axis > 0 then 1 else -1 : Int) : ℚ) ∧
    axisFractionRemainders (processAxisLocking_tick E st yInversion axis).moduleKineticState
      (1 - axis) = 0 := by
  cases hA with
  | inl h =>
    subst h
    have hr := processAxisLocking_tick_horizontal_remainders E st yInversion
    have h1 : 1 - CaretAxis_Horizontal = CaretAxis_Vertical := rfl
    rw [h1]
    simp only [axisFractionRemainders, axisIntegerParts, if_true,
      if_neg (by decide : ¬ (CaretAxis_Vertical = CaretAxis_Horizontal))]
    exact ⟨hr.1, hr.2⟩
  | inr h =>
    subst h
    have hr := processAxisLocking_tick_vertical_remainders E st yInversion
    have h1 : 1 - CaretAxis_Vertical = CaretAxis_Horizontal := rfl
    rw [h1]
    simp only [axisFractionRemainders, axisIntegerParts, if_true,
      if_neg (by decide : ¬ (CaretAxis_Vertical = CaretAxis_Horizontal))]
    exact ⟨hr.1, hr.2⟩

/-- A tick in Cursor or Scroll mode leaves the owner, the mode, the fake key
state and the trace as they are. -/
theorem processAxisLocking_tick_motion_frame (E : module_foreign_t)
    (st : module_engine_state_t) (yInversion : Int) (axis : Nat)
    (hA : axis = CaretAxis_Horizontal ∨ axis = CaretAxis_Vertical)
    (hmode : st.moduleKineticState.currentNavigationMode = NavigationMode_Cursor ∨
      st.moduleKineticState.currentNavigationMode = NavigationMode_Scroll) :
    (processAxisLocking_tick E st yInversion axis).moduleKineticState.caretFakeKeystate
      = st.moduleKineticState.caretFakeKeystate ∧
    (processAxisLocking_tick E st yInversion axis).moduleKineticState.currentNavigationMode
      = st.moduleKineticState.currentNavigationMode ∧
    (processAxisLocking_tick E st yInversion axis).applied = st.applied := by
  have hm : (processAxisLocking_tick E st yInversion axis).moduleKineticState.currentNavigationMode
      = st.moduleKineticState.currentNavigationMode := by
    simp only [processAxisLocking_tick, (handleNewCaretModeAction_kinetic E _ _ _ _).2.2.2.2.2,
      setAxisFractionRemainder]
    split_ifs <;> rfl
  rcases hmode with hc | hc
  · have ht := processAxisLocking_tick_cursor E st yInversion hc
    rcases hA with h | h
    · subst h
      exact ⟨ht.1.2.1, hm, ht.1.2.2⟩
    · subst h
      exact ⟨ht.2.2.1, hm, ht.2.2.2⟩
  · have ht := processAxisLocking_tick_scroll E st yInversion hc
    rcases hA with h | h
    · subst h
      exact ⟨ht.1.2.1, hm, ht.1.2.2⟩
    · subst h
      exact ⟨ht.2.2.1, hm, ht.2.2.2⟩

/-- The report after a tick on an axis in Cursor and in Scroll mode, with the
integral part of the axis: Cursor adds it to x (horizontal) or subtracts it
times yInversion from y (vertical); Scroll adds it to wheelX (horizontal) or
adds it times yInversion to wheelY (vertical). -/
theorem processAxisLocking_tick_report (E : module_foreign_t) (st : module_engine_state_t)
    (yInversion : Int) (axis : Nat)
    (hA : axis = CaretAxis_Horizontal ∨ axis = CaretAxis_Vertical) :
    (st.moduleKineticState.currentNavigationMode = NavigationMode_Cursor →
      (processAxisLocking_tick E st yInversion axis).ActiveUsbMouseReport.x
        = st.ActiveUsbMouseReport.x +
            (if axis = CaretAxis_Horizontal then axisIntegerParts st.moduleKineticState axis
              else 0) ∧
      (processAxisLocking_tick E st yInversion axis).ActiveUsbMouseReport.y
        = st.ActiveUsbMouseReport.y -
            (if axis = CaretAxis_Vertical then
              axisIntegerParts st.moduleKineticState axis * yInversion else 0) ∧
      (processAxisLocking_tick E st yInversion axis).ActiveUsbMouseReport.wheelX
        = st.ActiveUsbMouseReport.wheelX ∧
      (processAxisLocking_tick E st yInversion axis).ActiveUsbMouseReport.wheelY
        = st.ActiveUsbMouseReport.wheelY) ∧
    (st.moduleKineticState.currentNavigationMode = NavigationMode_Scroll →
      (processAxisLocking_tick E st yInversion axis).ActiveUsbMouseReport.wheelX
        = st.ActiveUsbMouseReport.wheelX +
            (if axis = CaretAxis_Horizontal then axisIntegerParts st.moduleKineticState axis
              else 0) ∧
      (processAxisLocking_tick E st yInversion axis).ActiveUsbMouseReport.wheelY
        = st.ActiveUsbMouseReport.wheelY +
            (if axis = CaretAxis_Vertical then
              axisIntegerParts st.moduleKineticState axis * yInversion else 0) ∧
      (processAxisLocking_tick E st yInversion axis).ActiveUsbMouseReport.x
        = st.ActiveUsbMouseReport.x ∧
      (processAxisLocking_tick E st yInversion axis).ActiveUsbMouseReport.y
        = st.ActiveUsbMouseReport.y) := by
  have hvh : ¬ (CaretAxis_Vertical = CaretAxis_Horizontal) := by decide
  have hhv : ¬ (CaretAxis_Horizontal = CaretAxis_Vertical) := by decide
  refine ⟨fun hc => ?_, fun hc => ?_⟩
  · have ht := processAxisLocking_tick_cursor E st yInversion hc
    rcases hA with h | h
    · subst h
      rw [ht.1.1]
      simp only [axisIntegerParts, if_true, if_neg hhv, sub_zero]
      exact ⟨trivial, trivial, trivial, trivial⟩
    · subst h
      rw [ht.2.1]
      simp only [axisIntegerParts, if_true, if_neg hvh, add_zero]
      exact ⟨trivial, trivial, trivial, trivial⟩
  · have ht := processAxisLocking_tick_scroll E st yInversion hc
    rcases hA with h | h
    · subst h
      rw [ht.1.1]
      simp only [axisIntegerParts, if_true, if_neg hhv, add_zero]
      exact ⟨trivial, trivial, trivial, trivial⟩
    · subst h
      rw [ht.2.1]
      simp only [axisIntegerParts, if_true, if_neg hvh, add_zero]
      exact ⟨trivial, trivial, trivial, trivial⟩

/-- The sum of the first `k` terms of n, n - 1, n - 2, ...: twice the sum is
k * (2 n - k + 1). -/
theorem sum_descending (n k : Nat) :
    2 * Finset.sum (Finset.range k) (fun j => (n : Int) - (j : Int))
      = (k : Int) * (2 * (n : Int) - (k : Int) + 1) := by
  induction k with
  | zero => simp
  | succ k ih =>
    rw [Finset.sum_range_succ, mul_add, ih]
    push_cast
    ring

/-- The sign that a tick takes from an integral part sgn * m with m above 0 is
sgn. -/
theorem sign_of_intPart (sgn m : Int) (hs : sgn = 1 ∨ sgn = -1) (hm : 0 < m) :
    (if sgn * m > 0 then (1 : Int) else -1) = sgn := by
  rcases hs with hs | hs
  · subst hs
    rw [if_pos (by omega)]
  · subst hs
    rw [if_neg (by omega)]

/-- One call of `processAxisLocking` without motion for a kinetic state that is
locked on an axis, with no fake key in flight: a tick on the locked axis when
its integral part is not 0, and nothing when its integral part is 0 and the
other remainder is 0. -/
theorem processAxisLocking_still (E : module_foreign_t) (st : module_engine_state_t)
    (speed : ℚ) (yInversion : Int) (speedDivisor : ℚ) (moduleConfiguration : Nat) (axis : Nat)
    (hA : axis = CaretAxis_Horizontal ∨ axis = CaretAxis_Vertical)
    (haxis : st.moduleKineticState.caretAxis = axis)
    (hcur : st.moduleKineticState.caretFakeKeystate.current = false)
    (hprev : st.moduleKineticState.caretFakeKeystate.previous = false)
    (hother : axisFractionRemainders st.moduleKineticState (1 - axis) = 0) :
    (axisIntegerParts st.moduleKineticState axis ≠ 0 →
      processAxisLocking E st 0 0 speed yInversion speedDivisor moduleConfiguration
        = processAxisLocking_tick E st yInversion axis) ∧
    (axisIntegerParts st.moduleKineticState axis = 0 →
      processAxisLocking E st 0 0 speed yInversion speedDivisor moduleConfiguration = st) := by
  have h := (processAxisLocking_locked E st 0 0 speed yInversion speedDivisor
    moduleConfiguration axis hA haxis hcur hprev (Or.inl ⟨rfl, rfl⟩)).2
  rw [processAxisLocking_accumulate_still] at h
  have hA2 : 1 - axis = CaretAxis_Horizontal ∨ 1 - axis = CaretAxis_Vertical := by
    cases hA with
    | inl h => rw [h]; exact Or.inr (by decide)
    | inr h => rw [h]; exact Or.inl (by decide)
  have h0 : axisIntegerParts st.moduleKineticState (1 - axis) = 0 := by
    rw [axisIntegerParts_eq _ _ hA2, hother]
    simp [modff]
  refine ⟨fun h1 => ?_, fun h1 => ?_⟩
  · rw [h, if_pos h1]
  · rw [h, if_neg (not_not.mpr h1), if_neg (not_not.mpr h0)]

/-- The calls of `processAxisLocking` without motion from a kinetic state
locked on an axis in Cursor or Scroll mode whose remainder of that axis has
the integral part sgn * n (sgn 1 or -1, n at least 1) and whose other
remainder is 0, no fake key in flight: after k calls, k up to n, the remainder
of the axis is reduced by sgn * k, and the report has moved by sgn times the
sum of the first k terms of n, n - 1, ... on the coordinate of the axis. -/
theorem processAxisLocking_still_run (E : module_foreign_t) (st : module_engine_state_t)
    (speed : ℚ) (yInversion : Int) (speedDivisor : ℚ) (moduleConfiguration : Nat) (axis : Nat)
    (sgn : Int) (n : Nat)
    (hA : axis = CaretAxis_Horizontal ∨ axis = CaretAxis_Vertical)
    (hmode : st.moduleKineticState.currentNavigationMode = NavigationMode_Cursor ∨
      st.moduleKineticState.currentNavigationMode = NavigationMode_Scroll)
    (haxis : st.moduleKineticState.caretAxis = axis)
    (hcur : st.moduleKineticState.caretFakeKeystate.current = false)
    (hprev : st.moduleKineticState.caretFakeKeystate.previous = false)
    (hother : axisFractionRemainders st.moduleKineticState (1 - axis) = 0)
    (hs : sgn = 1 ∨ sgn = -1) (hn : 1 ≤ n)
    (hint : axisIntegerParts st.moduleKineticState axis = sgn * (n : Int)) :
    ∀ (k : Nat) (s : module_engine_state_t), k ≤ n →
      s = (fun s => processAxisLocking E s 0 0 speed yInversion speedDivisor
        moduleConfiguration)^[k] st →
      (s.moduleKineticState.caretAxis = axis ∧
        s.moduleKineticState.caretFakeKeystate = st.moduleKineticState.caretFakeKeystate ∧
        s.moduleKineticState.currentNavigationMode
          = st.moduleKineticState.currentNavigationMode ∧
        s.applied = st.applied ∧
        axisFractionRemainders s.moduleKineticState (1 - axis) = 0) ∧
      axisFractionRemainders s.moduleKineticState axis
        = axisFractionRemainders st.moduleKineticState axis - (sgn : ℚ) * (k : ℚ) ∧
      axisIntegerParts s.moduleKineticState axis = sgn * ((n : Int) - (k : Int)) ∧
      (st.moduleKineticState.currentNavigationMode = NavigationMode_Cursor →
        s.ActiveUsbMouseReport.x
          = st.ActiveUsbMouseReport.x +
              (if axis = CaretAxis_Horizontal then
                sgn * Finset.sum (Finset.range k) (fun j => (n : Int) - (j : Int)) else 0) ∧
        s.ActiveUsbMouseReport.y
          = st.ActiveUsbMouseReport.y -
              (if axis = CaretAxis_Vertical then
                sgn * Finset.sum (Finset.range k) (fun j => (n : Int) - (j : Int)) * yInversion
                else 0) ∧
        s.ActiveUsbMouseReport.wheelX = st.ActiveUsbMouseReport.wheelX ∧
        s.ActiveUsbMouseReport.wheelY = st.ActiveUsbMouseReport.wheelY) ∧
      (st.moduleKineticState.currentNavigationMode = NavigationMode_Scroll →
        s.ActiveUsbMouseReport.wheelX
          = st.ActiveUsbMouseReport.wheelX +
              (if axis = CaretAxis_Horizontal then
                sgn * Finset.sum (Finset.range k) (fun j => (n : Int) - (j : Int)) else 0) ∧
        s.ActiveUsbMouseReport.wheelY
          = st.ActiveUsbMouseReport.wheelY +
              (if axis = CaretAxis_Vertical then
                sgn * Finset.sum (Finset.range k) (fun j => (n : Int) - (j : Int)) * yInversion
                else 0) ∧
        s.ActiveUsbMouseReport.x = st.ActiveUsbMouseReport.x ∧
        s.ActiveUsbMouseReport.y = st.ActiveUsbMouseReport.y) := by
  have hr : (modff (axisFractionRemainders st.moduleKineticState axis)).2 = sgn * (n : Int) := by
    rw [← axisIntegerParts_eq _ _ hA]
    exact hint
  intro k
  induction k with
  | zero =>
    intro s _ hs0
    have e : s = st := hs0
    subst e
    refine ⟨⟨haxis, rfl, rfl, rfl, hother⟩, by simp, by simpa using hint, fun _ => ?_,
      fun _ => ?_⟩ <;> simp
  | succ k ih =>
    intro s hk hs1
    have hk1 : k ≤ n := Nat.le_of_succ_le hk
    have hlt : k < n := hk
    obtain ⟨hfr, hrem, hip, hcu, hsc⟩ := ih _ hk1 rfl
    rw [Function.iterate_succ_apply'] at hs1
    generalize (fun s => processAxisLocking E s 0 0 speed yInversion speedDivisor
      moduleConfiguration)^[k] st = sk at hs1 hfr hrem hip hcu hsc
    have hpos : (0 : Int) < (n : Int) - (k : Int) := by
      have : (k : Int) < (n : Int) := by exact_mod_cast hlt
      omega
    have hne : axisIntegerParts sk.moduleKineticState axis ≠ 0 := by
      rw [hip]
      rcases hs with h | h <;> subst h <;> omega
    have hstep := (processAxisLocking_still E sk speed yInversion speedDivisor
      moduleConfiguration axis hA hfr.1 (by rw [hfr.2.1]; exact hcur)
      (by rw [hfr.2.1]; exact hprev) hfr.2.2.2.2).1 hne
    have hs2 : s = processAxisLocking_tick E sk yInversion axis := hs1.trans hstep
    have hmk : sk.moduleKineticState.currentNavigationMode = NavigationMode_Cursor ∨
        sk.moduleKineticState.currentNavigationMode = NavigationMode_Scroll := by
      rw [hfr.2.2.1]
      exact hmode
    have hfrm := processAxisLocking_tick_motion_frame E sk yInversion axis hA hmk
    have hrm := processAxisLocking_tick_remainders E sk yInversion axis hA
    have hrep := processAxisLocking_tick_report E sk yInversion axis hA
    have hsg := sign_of_intPart sgn ((n : Int) - (k : Int)) hs hpos
    rw [← hip] at hsg
    rw [hsg, hrem] at hrm
    rw [← hs2] at hfrm hrm hrep
    have hremS : axisFractionRemainders s.moduleKineticState axis
        = axisFractionRemainders st.moduleKineticState axis -
            (sgn : ℚ) * ((k + 1 : Nat) : ℚ) := by
      rw [hrm.1]
      push_cast
      ring
    have hipS : axisIntegerParts s.moduleKineticState axis
        = sgn * ((n : Int) - ((k + 1 : Nat) : Int)) := by
      rw [axisIntegerParts_eq _ _ hA, hremS]
      exact modff_int_sub_sign _ sgn n (k + 1) hs hk hn hr
    have hcax : s.moduleKineticState.caretAxis = axis := by
      rw [hs2]
      exact processAxisLocking_tick_caretAxis E sk yInversion axis hA
    refine ⟨⟨hcax, hfrm.1.trans hfr.2.1, hfrm.2.1.trans hfr.2.2.1,
      hfrm.2.2.trans hfr.2.2.2.1, hrm.2⟩, hremS, hipS, fun hc => ?_, fun hc => ?_⟩
    · have h1 := hrep.1 (hfr.2.2.1.trans hc)
      have h2 := hcu hc
      rw [h1.1, h1.2.1, h1.2.2.1, h1.2.2.2, h2.1, h2.2.1, h2.2.2.1, h2.2.2.2, hip,
        Finset.sum_range_succ]
      refine ⟨?_, ?_, rfl, rfl⟩
      · split_ifs <;> ring
      · split_ifs <;> ring
    · have h1 := hrep.2 (hfr.2.2.1.trans hc)
      have h2 := hsc hc
      rw [h1.1, h1.2.1, h1.2.2.1, h1.2.2.2, h2.1, h2.2.1, h2.2.2.1, h2.2.2.2, hip,
        Finset.sum_range_succ]
      refine ⟨?_, ?_, rfl, rfl⟩
      · split_ifs <;> ring
      · split_ifs <;> ring

/-- C37: axis-locked ticks in Cursor and Scroll mode do not conserve motion.
From a kinetic state locked on the axis A in Cursor or Scroll mode, no fake
key in flight, whose remainder r of A has the integral part sgn * n (sgn 1 or
-1, n at least 1) and whose other remainder is 0, calls of
`processAxisLocking` without motion: each of the first n calls is a tick; the
call after k earlier ones emits the whole integral part sgn * (n - k) and
reduces the remainder by sgn only, so after k calls the remainder is
r - sgn * k and the coordinate of A in the report has moved by sgn times the
sum of the first k terms of n, n - 1, ... (times yInversion with the sign of
the mode on the vertical axis); the n calls together emit sgn * n (n + 1) / 2;
the remainder is then below 1 in absolute value and further calls write
nothing. -/
theorem C37_lockedTicksNotConserved (E : module_foreign_t) (st : module_engine_state_t)
    (speed : ℚ) (yInversion : Int) (speedDivisor : ℚ) (moduleConfiguration : Nat) (axis : Nat)
    (sgn : Int) (n : Nat)
    (hA : axis = CaretAxis_Horizontal ∨ axis = CaretAxis_Vertical)
    (hmode : st.moduleKineticState.currentNavigationMode = NavigationMode_Cursor ∨
      st.moduleKineticState.currentNavigationMode = NavigationMode_Scroll)
    (haxis : st.moduleKineticState.caretAxis = axis)
    (hcur : st.moduleKineticState.caretFakeKeystate.current = false)
    (hprev : st.moduleKineticState.caretFakeKeystate.previous = false)
    (hother : axisFractionRemainders st.moduleKineticState (1 - axis) = 0)
    (hs : sgn = 1 ∨ sgn = -1) (hn : 1 ≤ n)
    (hint : axisIntegerParts st.moduleKineticState axis = sgn * (n : Int)) :
    (∀ k : Nat, k ≤ n →
      axisFractionRemainders
          ((fun s => processAxisLocking E s 0 0 speed yInversion speedDivisor
            moduleConfiguration)^[k] st).moduleKineticState axis
        = axisFractionRemainders st.moduleKineticState axis - (sgn : ℚ) * (k : ℚ) ∧
      axisIntegerParts
          ((fun s => processAxisLocking E s 0 0 speed yInversion speedDivisor
            moduleConfiguration)^[k] st).moduleKineticState axis
        = sgn * ((n : Int) - (k : Int)) ∧
      (st.moduleKineticState.currentNavigationMode = NavigationMode_Cursor →
        ((fun s => processAxisLocking E s 0 0 speed yInversion speedDivisor
            moduleConfiguration)^[k] st).ActiveUsbMouseReport.x
          = st.ActiveUsbMouseReport.x +
              (if axis = CaretAxis_Horizontal then
                sgn * Finset.sum (Finset.range k) (fun j => (n : Int) - (j : Int)) else 0) ∧
        ((fun s => processAxisLocking E s 0 0 speed yInversion speedDivisor
            moduleConfiguration)^[k] st).ActiveUsbMouseReport.y
          = st.ActiveUsbMouseReport.y -
              (if axis = CaretAxis_Vertical then
                sgn * Finset.sum (Finset.range k) (fun j => (n : Int) - (j : Int)) * yInversion
                else 0)) ∧
      (st.moduleKineticState.currentNavigationMode = NavigationMode_Scroll →
        ((fun s => processAxisLocking E s 0 0 speed yInversion speedDivisor
            moduleConfiguration)^[k] st).ActiveUsbMouseReport.wheelX
          = st.ActiveUsbMouseReport.wheelX +
              (if axis = CaretAxis_Horizontal then
                sgn * Finset.sum (Finset.range k) (fun j => (n : Int) - (j : Int)) else 0) ∧
        ((fun s => processAxisLocking E s 0 0 speed yInversion speedDivisor
            moduleConfiguration)^[k] st).ActiveUsbMouseReport.wheelY
          = st.ActiveUsbMouseReport.wheelY +
              (if axis = CaretAxis_Vertical then
                sgn * Finset.sum (Finset.range k) (fun j => (n : Int) - (j : Int)) * yInversion
                else 0))) ∧
    (∀ k : Nat, k < n →
      (fun s => processAxisLocking E s 0 0 speed yInversion speedDivisor
          moduleConfiguration)^[k + 1] st
        = processAxisLocking_tick E
            ((fun s => processAxisLocking E s 0 0 speed yInversion speedDivisor
              moduleConfiguration)^[k] st) yInversion axis) ∧
    2 * Finset.sum (Finset.range n) (fun j => (n : Int) - (j : Int))
      = (n : Int) * ((n : Int) + 1) ∧
    |axisFractionRemainders
        ((fun s => processAxisLocking E s 0 0 speed yInversion speedDivisor
          moduleConfiguration)^[n] st).moduleKineticState axis| < 1 ∧
    (∀ m : Nat,
      (fun s => processAxisLocking E s 0 0 speed yInversion speedDivisor
          moduleConfiguration)^[n + m] st
        = (fun s => processAxisLocking E s 0 0 speed yInversion speedDivisor
            moduleConfiguration)^[n] st) := by
  have hrun := processAxisLocking_still_run E st speed yInversion speedDivisor
    moduleConfiguration axis sgn n hA hmode haxis hcur hprev hother hs hn hint
  have hr : (modff (axisFractionRemainders st.moduleKineticState axis)).2 = sgn * (n : Int) := by
    rw [← axisIntegerParts_eq _ _ hA]
    exact hint
  have hidle : processAxisLocking E
      ((fun s => processAxisLocking E s 0 0 speed yInversion speedDivisor
        moduleConfiguration)^[n] st) 0 0 speed yInversion speedDivisor moduleConfiguration
      = (fun s => processAxisLocking E s 0 0 speed yInversion speedDivisor
          moduleConfiguration)^[n] st := by
    obtain ⟨hfr, _, hip, _, _⟩ := hrun n _ (le_refl n) rfl
    exact (processAxisLocking_still E _ speed yInversion speedDivisor moduleConfiguration axis
      hA hfr.1 (by rw [hfr.2.1]; exact hcur) (by rw [hfr.2.1]; exact hprev) hfr.2.2.2.2).2
      (by rw [hip]; simp)
  refine ⟨fun k hk => ?_, fun k hk => ?_, ?_, ?_, fun m => ?_⟩
  · obtain ⟨_, hrem, hip, hcu, hsc⟩ := hrun k _ hk rfl
    exact ⟨hrem, hip, fun hc => ⟨(hcu hc).1, (hcu hc).2.1⟩,
      fun hc => ⟨(hsc hc).1, (hsc hc).2.1⟩⟩
  · obtain ⟨hfr, _, hip, _, _⟩ := hrun k _ (Nat.le_of_lt hk) rfl
    rw [Function.iterate_succ_apply']
    have hpos : (0 : Int) < (n : Int) - (k : Int) := by
      have : (k : Int) < (n : Int) := by exact_mod_cast hk
      omega
    exact (processAxisLocking_still E _ speed yInversion speedDivisor moduleConfiguration axis
      hA hfr.1 (by rw [hfr.2.1]; exact hcur) (by rw [hfr.2.1]; exact hprev) hfr.2.2.2.2).1
      (by
        rw [hip]
        rcases hs with h | h <;> subst h <;> omega)
  · rw [sum_descending]
    ring
  · obtain ⟨_, hrem, _, _, _⟩ := hrun n _ (le_refl n) rfl
    rw [hrem]
    have e : axisFractionRemainders st.moduleKineticState axis - (sgn : ℚ) * (n : ℚ)
        = (modff (axisFractionRemainders st.moduleKineticState axis)).1 := by
      rw [modff_frac, hr]
      push_cast
      ring
    rw [e]
    exact modff_frac_abs_lt_one _
  · induction m with
    | zero => rfl
    | succ m ih =>
      rw [← Nat.add_assoc, Function.iterate_succ_apply', ih]
      exact hidle

/-- C37 at an example: the touchpad locked on the horizontal axis in Cursor
mode with x remainder 7/2 (integral part 3) and no motion: the three calls
move x of the report by 3 + 2 + 1 = 6 and leave the remainder 1/2. -/
theorem C37_lockedTicksNotConserved_witness :
    axisIntegerParts
        (stateTouchpadLocked NavigationMode_Cursor CaretAxis_Horizontal (7 / 2)
          0).moduleKineticState CaretAxis_Horizontal = 1 * ((3 : Nat) : Int) ∧
    ((fun s => processAxisLocking exampleModuleForeign s 0 0 1 (-1) 1 5)^[3]
        (stateTouchpadLocked NavigationMode_Cursor CaretAxis_Horizontal (7 / 2)
          0)).ActiveUsbMouseReport.x = 6 ∧
    axisFractionRemainders
        ((fun s => processAxisLocking exampleModuleForeign s 0 0 1 (-1) 1 5)^[3]
          (stateTouchpadLocked NavigationMode_Cursor CaretAxis_Horizontal (7 / 2)
            0)).moduleKineticState CaretAxis_Horizontal = 1 / 2 := by
  have hfl : (modff (7 / 2 : ℚ)).2 = 3 := by
    have e : ⌊(7 / 2 : ℚ)⌋ = 3 := by
      rw [Int.floor_eq_iff]
      norm_num
    rw [modff_int_of_nonneg (by norm_num), e]
  have hint : axisIntegerParts
      (stateTouchpadLocked NavigationMode_Cursor CaretAxis_Horizontal (7 / 2)
        0).moduleKineticState CaretAxis_Horizontal = 1 * ((3 : Nat) : Int) := by
    have e : axisIntegerParts
        (stateTouchpadLocked NavigationMode_Cursor CaretAxis_Horizontal (7 / 2)
          0).moduleKineticState CaretAxis_Horizontal = (modff (7 / 2 : ℚ)).2 := rfl
    rw [e, hfl]
    rfl
  have h := (C37_lockedTicksNotConserved exampleModuleForeign
    (stateTouchpadLocked NavigationMode_Cursor CaretAxis_Horizontal (7 / 2) 0) 1 (-1) 1 5
    CaretAxis_Horizontal 1 3 (Or.inl rfl) (Or.inl rfl) rfl rfl rfl rfl (Or.inl rfl)
    (by decide) hint).1 3 (le_refl 3)
  refine ⟨hint, ?_, ?_⟩
  · rw [(h.2.2.1 rfl).1]
    decide
  · rw [h.1]
    have e : axisFractionRemainders
        (stateTouchpadLocked NavigationMode_Cursor CaretAxis_Horizontal (7 / 2)
          0).moduleKineticState CaretAxis_Horizontal = 7 / 2 := rfl
    rw [e]
    norm_num

/-- A tick in navigation mode None writes neither the report nor the trace. -/
theorem processAxisLocking_tick_none (E : module_foreign_t) (st : module_engine_state_t)
    (yInversion : Int) (axis : Nat)
    (hA : axis = CaretAxis_Horizontal ∨ axis = CaretAxis_Vertical)
    (hmode : st.moduleKineticState.currentNavigationMode = NavigationMode_None) :
    (processAxisLocking_tick E st yInversion axis).ActiveUsbMouseReport
      = st.ActiveUsbMouseReport ∧
    (processAxisLocking_tick E st yInversion axis).applied = st.applied := by
  rcases hA with h | h
  · subst h
    rw [processAxisLocking_tick_horizontal]
    simp only [handleNewCaretModeAction, hmode]
    exact ⟨trivial, trivial⟩
  · subst h
    rw [processAxisLocking_tick_vertical]
    simp only [handleNewCaretModeAction, hmode]
    exact ⟨trivial, trivial⟩

/-- What a tick on an axis emits, by navigation mode, for the state `s` after
the accumulation: in Cursor and Scroll mode the integral part of the remainder
of the axis goes into the report (x or wheelX on the horizontal axis; y, with
the sign -yInversion, or wheelY, with the sign yInversion, on the vertical
one) and the trace stays; in Caret and Media mode the action of the axis is
latched by the sign parameter and `ApplyKeyAction` is called once with
`current` of the fake key state set, the report stays; in mode None nothing
is emitted. The remainder of the axis is reduced by the sign of its integral
part and the other remainder is 0. -/
theorem processAxisLocking_tick_emits (E : module_foreign_t) (s : module_engine_state_t)
    (yInversion : Int) (axis : Nat)
    (hA : axis = CaretAxis_Horizontal ∨ axis = CaretAxis_Vertical) :
    axisFractionRemainders (processAxisLocking_tick E s yInversion axis).moduleKineticState axis
      = axisFractionRemainders s.moduleKineticState axis -
          ((if axisIntegerParts s.moduleKineticState axis > 0 then 1 else -1 : Int) : ℚ) ∧
    axisFractionRemainders (processAxisLocking_tick E s yInversion axis).moduleKineticState
      (1 - axis) = 0 ∧
    (s.moduleKineticState.currentNavigationMode = NavigationMode_Cursor →
      (processAxisLocking_tick E s yInversion axis).ActiveUsbMouseReport.x
        = s.ActiveUsbMouseReport.x +
            (if axis = CaretAxis_Horizontal then axisIntegerParts s.moduleKineticState axis
              else 0) ∧
      (processAxisLocking_tick E s yInversion axis).ActiveUsbMouseReport.y
        = s.ActiveUsbMouseReport.y -
            (if axis = CaretAxis_Vertical then
              axisIntegerParts s.moduleKineticState axis * yInversion else 0) ∧
      (processAxisLocking_tick E s yInversion axis).ActiveUsbMouseReport.wheelX
        = s.ActiveUsbMouseReport.wheelX ∧
      (processAxisLocking_tick E s yInversion axis).ActiveUsbMouseReport.wheelY
        = s.ActiveUsbMouseReport.wheelY ∧
      (processAxisLocking_tick E s yInversion axis).applied = s.applied) ∧
    (s.moduleKineticState.currentNavigationMode = NavigationMode_Scroll →
      (processAxisLocking_tick E s yInversion axis).ActiveUsbMouseReport.wheelX
        = s.ActiveUsbMouseReport.wheelX +
            (if axis = CaretAxis_Horizontal then axisIntegerParts s.moduleKineticState axis
              else 0) ∧
      (processAxisLocking_tick E s yInversion axis).ActiveUsbMouseReport.wheelY
        = s.ActiveUsbMouseReport.wheelY +
            (if axis = CaretAxis_Vertical then
              axisIntegerParts s.moduleKineticState axis * yInversion else 0) ∧
      (processAxisLocking_tick E s yInversion axis).ActiveUsbMouseReport.x
        = s.ActiveUsbMouseReport.x ∧
      (processAxisLocking_tick E s yInversion axis).ActiveUsbMouseReport.y
        = s.ActiveUsbMouseReport.y ∧
      (processAxisLocking_tick E s yInversion axis).applied = s.applied) ∧
    (s.moduleKineticState.currentNavigationMode = NavigationMode_Caret ∨
        s.moduleKineticState.currentNavigationMode = NavigationMode_Media →
      (processAxisLocking_tick E s yInversion axis).moduleKineticState.caretAction
        = (if uint8_of_float E
              (((if axisIntegerParts s.moduleKineticState axis > 0 then 1 else -1 : Int) : ℚ) *
                ((if axis = CaretAxis_Vertical then yInversion else 1 : Int) : ℚ)) > 0 then
            ((E.GetModuleCaretConfiguration s.moduleKineticState.currentModuleId
              s.moduleKineticState.currentNavigationMode).axisActions axis).positiveAction
          else
            ((E.GetModuleCaretConfiguration s.moduleKineticState.currentModuleId
              s.moduleKineticState.currentNavigationMode).axisActions axis).negativeAction) ∧
      (processAxisLocking_tick E s yInversion axis).applied
        = s.applied ++
            [({ s.moduleKineticState.caretFakeKeystate with current := true },
              (processAxisLocking_tick E s yInversion axis).moduleKineticState.caretAction,
              (processAxisLocking_tick E s yInversion axis).moduleKineticState.caretAction)] ∧
      (processAxisLocking_tick E s yInversion axis).ActiveUsbMouseReport
        = s.ActiveUsbMouseReport) ∧
    (s.moduleKineticState.currentNavigationMode = NavigationMode_None →
      (processAxisLocking_tick E s yInversion axis).ActiveUsbMouseReport
        = s.ActiveUsbMouseReport ∧
      (processAxisLocking_tick E s yInversion axis).applied = s.applied) := by
  have hrem := processAxisLocking_tick_remainders E s yInversion axis hA
  have hrep := processAxisLocking_tick_report E s yInversion axis hA
  refine ⟨hrem.1, hrem.2, fun hc => ?_, fun hc => ?_, fun hc => ?_, fun hc => ?_⟩
  · have h := hrep.1 hc
    exact ⟨h.1, h.2.1, h.2.2.1, h.2.2.2,
      (processAxisLocking_tick_motion_frame E s yInversion axis hA (Or.inl hc)).2.2⟩
  · have h := hrep.2 hc
    exact ⟨h.1, h.2.1, h.2.2.1, h.2.2.2,
      (processAxisLocking_tick_motion_frame E s yInversion axis hA (Or.inr hc)).2.2⟩
  · have h := processAxisLocking_tick_keys E s yInversion axis hA hc
    exact ⟨h.1, h.2.1, h.2.2.2⟩
  · exact processAxisLocking_tick_none E s yInversion axis hA hc

/-- C27 (amended): axis lock. For a call of `processAxisLocking` entered with
caretAxis = A in {Horizontal, Vertical}, no fake key in flight, and no motion
or the last motion at most 500 ms ago: the lock is still A after the
accumulation; when the integral part of the accumulated remainder of axis A is
not 0 the call emits a tick on axis A and caretAxis is A afterwards; when it is
0 and the integral part of the other axis is not 0 the call emits a tick on
the other axis and caretAxis is the other axis afterwards; when both are 0
there is no tick. A tick on an axis, with `st2` the state after the
accumulation: the remainder of the axis is reduced by the sign of its integral
part and the other remainder is 0; in Cursor mode the integral part is added
to x (horizontal) or, times yInversion, subtracted from y (vertical); in
Scroll mode it is added to wheelX or, times yInversion, to wheelY; in Caret
and Media mode the action of the axis is latched by the sign parameter and
`ApplyKeyAction` is called once with `current` of the fake key state set; in
mode None nothing is emitted. -/
theorem C27_axisLock (E : module_foreign_t) (st : module_engine_state_t)
    (x y speed : ℚ) (yInversion : Int) (speedDivisor : ℚ) (moduleConfiguration : Nat)
    (axis : Nat) (hA : axis = CaretAxis_Horizontal ∨ axis = CaretAxis_Vertical)
    (haxis : st.moduleKineticState.caretAxis = axis)
    (hcur : st.moduleKineticState.caretFakeKeystate.current = false)
    (hprev : st.moduleKineticState.caretFakeKeystate.previous = false)
    (htime : (x = 0 ∧ y = 0) ∨
      UsbReportUpdater.sub32 st.CurrentTime st.moduleKineticState.lastUpdate ≤ 500) :
    (processAxisLocking_accumulate (processAxisLocking_unlock st x y) x y speed speedDivisor
        moduleConfiguration).moduleKineticState.caretAxis = axis ∧
    (axisIntegerParts
          (processAxisLocking_accumulate (processAxisLocking_unlock st x y) x y speed
            speedDivisor moduleConfiguration).moduleKineticState axis ≠ 0 →
      processAxisLocking E st x y speed yInversion speedDivisor moduleConfiguration
        = processAxisLocking_tick E
            (processAxisLocking_accumulate (processAxisLocking_unlock st x y) x y speed
              speedDivisor moduleConfiguration) yInversion axis ∧
      (processAxisLocking E st x y speed yInversion speedDivisor
        moduleConfiguration).moduleKineticState.caretAxis = axis) ∧
    (axisIntegerParts
          (processAxisLocking_accumulate (processAxisLocking_unlock st x y) x y speed
            speedDivisor moduleConfiguration).moduleKineticState axis = 0 →
      axisIntegerParts
          (processAxisLocking_accumulate (processAxisLocking_unlock st x y) x y speed
            speedDivisor moduleConfiguration).moduleKineticState (1 - axis) ≠ 0 →
      processAxisLocking E st x y speed yInversion speedDivisor moduleConfiguration
        = processAxisLocking_tick E
            (processAxisLocking_accumulate (processAxisLocking_unlock st x y) x y speed
              speedDivisor moduleConfiguration) yInversion (1 - axis) ∧
      (processAxisLocking E st x y speed yInversion speedDivisor
        moduleConfiguration).moduleKineticState.caretAxis = 1 - axis) ∧
    (axisIntegerParts
          (processAxisLocking_accumulate (processAxisLocking_unlock st x y) x y speed
            speedDivisor moduleConfiguration).moduleKineticState axis = 0 →
      axisIntegerParts
          (processAxisLocking_accumulate (processAxisLocking_unlock st x y) x y speed
            speedDivisor moduleConfiguration).moduleKineticState (1 - axis) = 0 →
      processAxisLocking E st x y speed yInversion speedDivisor moduleConfiguration
        = processAxisLocking_accumulate (processAxisLocking_unlock st x y) x y speed
            speedDivisor moduleConfiguration) ∧
    (∀ (st2 : module_engine_state_t) (tick : Nat),
      st2 = processAxisLocking_accumulate (processAxisLocking_unlock st x y) x y speed
        speedDivisor moduleConfiguration →
      tick = CaretAxis_Horizontal ∨ tick = CaretAxis_Vertical →
      processAxisLocking E st x y speed yInversion speedDivisor moduleConfiguration
        = processAxisLocking_tick E st2 yInversion tick →
      axisFractionRemainders (processAxisLocking E st x y speed yInversion speedDivisor moduleConfiguration).moduleKineticState tick
        = axisFractionRemainders st2.moduleKineticState tick -
            ((if axisIntegerParts st2.moduleKineticState tick > 0 then 1 else -1 : Int) : ℚ) ∧
      axisFractionRemainders (processAxisLocking E st x y speed yInversion speedDivisor moduleConfiguration).moduleKineticState (1 - tick) = 0 ∧
      (st.moduleKineticState.currentNavigationMode = NavigationMode_Cursor →
        (processAxisLocking E st x y speed yInversion speedDivisor moduleConfiguration).ActiveUsbMouseReport.x
          = st.ActiveUsbMouseReport.x +
              (if tick = CaretAxis_Horizontal then axisIntegerParts st2.moduleKineticState tick
                else 0) ∧
        (processAxisLocking E st x y speed yInversion speedDivisor moduleConfiguration).ActiveUsbMouseReport.y
          = st.ActiveUsbMouseReport.y -
              (if tick = CaretAxis_Vertical then
                axisIntegerParts st2.moduleKineticState tick * yInversion else 0) ∧
        (processAxisLocking E st x y speed yInversion speedDivisor moduleConfiguration).ActiveUsbMouseReport.wheelX = st.ActiveUsbMouseReport.wheelX ∧
        (processAxisLocking E st x y speed yInversion speedDivisor moduleConfiguration).ActiveUsbMouseReport.wheelY = st.ActiveUsbMouseReport.wheelY ∧
        (processAxisLocking E st x y speed yInversion speedDivisor moduleConfiguration).applied = st.applied) ∧
      (st.moduleKineticState.currentNavigationMode = NavigationMode_Scroll →
        (processAxisLocking E st x y speed yInversion speedDivisor moduleConfiguration).ActiveUsbMouseReport.wheelX
          = st.ActiveUsbMouseReport.wheelX +
              (if tick = CaretAxis_Horizontal then axisIntegerParts st2.moduleKineticState tick
                else 0) ∧
        (processAxisLocking E st x y speed yInversion speedDivisor moduleConfiguration).ActiveUsbMouseReport.wheelY
          = st.ActiveUsbMouseReport.wheelY +
              (if tick = CaretAxis_Vertical then
                axisIntegerParts st2.moduleKineticState tick * yInversion else 0) ∧
        (processAxisLocking E st x y speed yInversion speedDivisor moduleConfiguration).ActiveUsbMouseReport.x = st.ActiveUsbMouseReport.x ∧
        (processAxisLocking E st x y speed yInversion speedDivisor moduleConfiguration).ActiveUsbMouseReport.y = st.ActiveUsbMouseReport.y ∧
        (processAxisLocking E st x y speed yInversion speedDivisor moduleConfiguration).applied = st.applied) ∧
      (st.moduleKineticState.currentNavigationMode = NavigationMode_Caret ∨
          st.moduleKineticState.currentNavigationMode = NavigationMode_Media →
        (processAxisLocking E st x y speed yInversion speedDivisor moduleConfiguration).moduleKineticState.caretAction
          = (if uint8_of_float E
                (((if axisIntegerParts st2.moduleKineticState tick > 0 then 1 else -1 : Int) : ℚ) *
                  ((if tick = CaretAxis_Vertical then yInversion else 1 : Int) : ℚ)) > 0 then
              ((E.GetModuleCaretConfiguration st.moduleKineticState.currentModuleId
                st.moduleKineticState.currentNavigationMode).axisActions tick).positiveAction
            else
              ((E.GetModuleCaretConfiguration st.moduleKineticState.currentModuleId
                st.moduleKineticState.currentNavigationMode).axisActions tick).negativeAction) ∧
        (processAxisLocking E st x y speed yInversion speedDivisor moduleConfiguration).applied
          = st.applied ++
              [({ st.moduleKineticState.caretFakeKeystate with current := true },
                (processAxisLocking E st x y speed yInversion speedDivisor moduleConfiguration).moduleKineticState.caretAction,
                (processAxisLocking E st x y speed yInversion speedDivisor moduleConfiguration).moduleKineticState.caretAction)] ∧
        (processAxisLocking E st x y speed yInversion speedDivisor moduleConfiguration).ActiveUsbMouseReport = st.ActiveUsbMouseReport) ∧
      (st.moduleKineticState.currentNavigationMode = NavigationMode_None →
        (processAxisLocking E st x y speed yInversion speedDivisor moduleConfiguration).ActiveUsbMouseReport = st.ActiveUsbMouseReport ∧
        (processAxisLocking E st x y speed yInversion speedDivisor moduleConfiguration).applied = st.applied)) := by
  have h := processAxisLocking_locked E st x y speed yInversion speedDivisor moduleConfiguration
    axis hA haxis hcur hprev htime
  have hother : 1 - axis = CaretAxis_Horizontal ∨ 1 - axis = CaretAxis_Vertical := by
    cases hA with
    | inl h => rw [h]; exact Or.inr (by decide)
    | inr h => rw [h]; exact Or.inl (by decide)
  refine ⟨h.1, ?_, ?_, ?_, ?_⟩
  · intro h1
    rw [h.2, if_pos h1]
    exact ⟨rfl, processAxisLocking_tick_caretAxis E _ yInversion axis hA⟩
  · intro h1 h3
    rw [h.2, if_neg (not_not.mpr h1), if_pos h3]
    exact ⟨rfl, processAxisLocking_tick_caretAxis E _ yInversion (1 - axis) hother⟩
  · intro h1 h3
    rw [h.2, if_neg (not_not.mpr h1), if_neg (not_not.mpr h3)]
  · intro st2 tick hst2 htick heq
    have hf := processAxisLocking_unlock_frame st x y
    have hk2 : st2.moduleKineticState.caretFakeKeystate
        = st.moduleKineticState.caretFakeKeystate := by
      rw [hst2]
      exact hf.1
    have hid2 : st2.moduleKineticState.currentModuleId
        = st.moduleKineticState.currentModuleId := by
      rw [hst2]
      exact hf.2.2.1
    have hmd2 : st2.moduleKineticState.currentNavigationMode
        = st.moduleKineticState.currentNavigationMode := by
      rw [hst2]
      exact hf.2.2.2.1
    have hr2 : st2.ActiveUsbMouseReport = st.ActiveUsbMouseReport := by
      rw [hst2]
      exact hf.2.2.2.2.1
    have ha2 : st2.applied = st.applied := by
      rw [hst2]
      exact hf.2.2.2.2.2.1
    have he := processAxisLocking_tick_emits E st2 yInversion tick htick
    rw [← heq, hk2, hid2, hmd2, hr2, ha2] at he
    exact he

/-- C27 at an example: the touchpad is locked on the horizontal axis in Cursor
mode; motion (10, 0) 10 ms after the last one gives a horizontal tick, the
lock stays and x of the report becomes 10. -/
theorem C27_axisLock_witness :
    (CaretAxis_Horizontal = CaretAxis_Horizontal ∨ CaretAxis_Horizontal = CaretAxis_Vertical) ∧
    (stateTouchpadOwner NavigationMode_Cursor CaretAxis_Horizontal 0).moduleKineticState.caretAxis
      = CaretAxis_Horizontal ∧
    (stateTouchpadOwner NavigationMode_Cursor CaretAxis_Horizontal
      0).moduleKineticState.caretFakeKeystate.current = false ∧
    (stateTouchpadOwner NavigationMode_Cursor CaretAxis_Horizontal
      0).moduleKineticState.caretFakeKeystate.previous = false ∧
    UsbReportUpdater.sub32
        (stateTouchpadOwner NavigationMode_Cursor CaretAxis_Horizontal 0).CurrentTime
        (stateTouchpadOwner NavigationMode_Cursor CaretAxis_Horizontal
          0).moduleKineticState.lastUpdate ≤ 500 ∧
    (processAxisLocking exampleModuleForeign
        (stateTouchpadOwner NavigationMode_Cursor CaretAxis_Horizontal 0) 10 0 1 (-1) 1
        5).moduleKineticState.caretAxis = CaretAxis_Horizontal ∧
    (processAxisLocking exampleModuleForeign
        (stateTouchpadOwner NavigationMode_Cursor CaretAxis_Horizontal 0) 10 0 1 (-1) 1
        5).ActiveUsbMouseReport.x = 10 := by
  have hip : axisIntegerParts
      (processAxisLocking_accumulate
        (processAxisLocking_unlock
          (stateTouchpadOwner NavigationMode_Cursor CaretAxis_Horizontal 0) 10 0)
        10 0 1 1 5).moduleKineticState CaretAxis_Horizontal = 10 := by
    norm_num [axisIntegerParts, processAxisLocking_accumulate, processAxisLocking_unlock,
      stateTouchpadOwner, exampleModuleConfiguration, modff, CaretAxis_Horizontal,
      CaretAxis_None, CaretAxis_Vertical, UsbReportUpdater.sub32]
  have h := C27_axisLock exampleModuleForeign
    (stateTouchpadOwner NavigationMode_Cursor CaretAxis_Horizontal 0) 10 0 1 (-1) 1 5
    CaretAxis_Horizontal (Or.inl rfl) rfl rfl rfl (Or.inr (by decide))
  have h1 := h.2.1 (by rw [hip]; decide)
  have h2 := (h.2.2.2.2 _ CaretAxis_Horizontal rfl (Or.inl rfl) h1.1).2.2.1 rfl
  refine ⟨Or.inl rfl, rfl, rfl, rfl, by decide, h1.2, ?_⟩
  rw [h2.1, hip]
  rfl

/-- C28: axis-lock timeout (scenario S6). For a call of `processAxisLocking`
with caretAxis = Vertical, no fake key in flight and input (dx, 0), dx not 0:
when more than 500 ms have passed since lastUpdate, the unlock step drops both
remainders and the lock and sets lastUpdate to CurrentTime; after the call
lastUpdate is CurrentTime and the vertical remainder is 0; when the fresh
horizontal remainder dx * speed / speedDivisor * caretLockSkewFirstTick has an
integral part that is not 0, the call emits one horizontal tick, caretAxis is
Horizontal and the horizontal remainder is the fresh one reduced by the sign
of its integral part; the tick adds the integral part to x in Cursor mode and
to wheelX in Scroll mode, latches the action of the horizontal axis by the
sign parameter and calls `ApplyKeyAction` once with `current` of the fake key
state set in Caret and Media mode, and emits nothing in mode None; otherwise
there is no tick and caretAxis is None. When at most 500 ms have passed, the
unlock step only refreshes lastUpdate. With zero input the unlock step writes
nothing and lastUpdate is as before after the call. -/
theorem C28_lockTimeout (E : module_foreign_t) (st : module_engine_state_t)
    (x speed : ℚ) (yInversion : Int) (speedDivisor : ℚ) (moduleConfiguration : Nat)
    (hx : x ≠ 0)
    (haxis : st.moduleKineticState.caretAxis = CaretAxis_Vertical)
    (hcur : st.moduleKineticState.caretFakeKeystate.current = false)
    (hprev : st.moduleKineticState.caretFakeKeystate.previous = false) :
    (UsbReportUpdater.sub32 st.CurrentTime st.moduleKineticState.lastUpdate > 500 →
      processAxisLocking_unlock st x 0
        = { st with
            moduleKineticState :=
              { st.moduleKineticState with
                xFractionRemainder := 0
                yFractionRemainder := 0
                caretAxis := CaretAxis_None
                lastUpdate := st.CurrentTime } } ∧
      (processAxisLocking E st x 0 speed yInversion speedDivisor
        moduleConfiguration).moduleKineticState.lastUpdate = st.CurrentTime ∧
      (processAxisLocking E st x 0 speed yInversion speedDivisor
        moduleConfiguration).moduleKineticState.yFractionRemainder = 0 ∧
      ((modff (x * speed / speedDivisor *
            (st.ModuleConfigurations moduleConfiguration).caretLockSkewFirstTick)).2 ≠ 0 →
        processAxisLocking E st x 0 speed yInversion speedDivisor moduleConfiguration
          = processAxisLocking_tick E
              (processAxisLocking_accumulate (processAxisLocking_unlock st x 0) x 0 speed
                speedDivisor moduleConfiguration) yInversion CaretAxis_Horizontal ∧
        (processAxisLocking E st x 0 speed yInversion speedDivisor
          moduleConfiguration).moduleKineticState.caretAxis = CaretAxis_Horizontal ∧
        (processAxisLocking E st x 0 speed yInversion speedDivisor
          moduleConfiguration).moduleKineticState.xFractionRemainder
          = x * speed / speedDivisor *
                (st.ModuleConfigurations moduleConfiguration).caretLockSkewFirstTick -
              ((if (modff (x * speed / speedDivisor *
                  (st.ModuleConfigurations moduleConfiguration).caretLockSkewFirstTick)).2 > 0
                then 1 else -1 : Int) : ℚ) ∧
        (st.moduleKineticState.currentNavigationMode = NavigationMode_Cursor →
          (processAxisLocking E st x 0 speed yInversion speedDivisor
            moduleConfiguration).ActiveUsbMouseReport.x
            = st.ActiveUsbMouseReport.x + (modff (x * speed / speedDivisor *
                (st.ModuleConfigurations moduleConfiguration).caretLockSkewFirstTick)).2 ∧
          (processAxisLocking E st x 0 speed yInversion speedDivisor
            moduleConfiguration).ActiveUsbMouseReport.y = st.ActiveUsbMouseReport.y ∧
          (processAxisLocking E st x 0 speed yInversion speedDivisor
            moduleConfiguration).ActiveUsbMouseReport.wheelX = st.ActiveUsbMouseReport.wheelX ∧
          (processAxisLocking E st x 0 speed yInversion speedDivisor
            moduleConfiguration).ActiveUsbMouseReport.wheelY = st.ActiveUsbMouseReport.wheelY ∧
          (processAxisLocking E st x 0 speed yInversion speedDivisor
            moduleConfiguration).applied = st.applied) ∧
        (st.moduleKineticState.currentNavigationMode = NavigationMode_Scroll →
          (processAxisLocking E st x 0 speed yInversion speedDivisor
            moduleConfiguration).ActiveUsbMouseReport.wheelX
            = st.ActiveUsbMouseReport.wheelX + (modff (x * speed / speedDivisor *
                (st.ModuleConfigurations moduleConfiguration).caretLockSkewFirstTick)).2 ∧
          (processAxisLocking E st x 0 speed yInversion speedDivisor
            moduleConfiguration).ActiveUsbMouseReport.wheelY = st.ActiveUsbMouseReport.wheelY ∧
          (processAxisLocking E st x 0 speed yInversion speedDivisor
            moduleConfiguration).ActiveUsbMouseReport.x = st.ActiveUsbMouseReport.x ∧
          (processAxisLocking E st x 0 speed yInversion speedDivisor
            moduleConfiguration).ActiveUsbMouseReport.y = st.ActiveUsbMouseReport.y ∧
          (processAxisLocking E st x 0 speed yInversion speedDivisor
            moduleConfiguration).applied = st.applied) ∧
        (st.moduleKineticState.currentNavigationMode = NavigationMode_Caret ∨
            st.moduleKineticState.currentNavigationMode = NavigationMode_Media →
          (processAxisLocking E st x 0 speed yInversion speedDivisor
            moduleConfiguration).moduleKineticState.caretAction
            = (if uint8_of_float E
                  (((if (modff (x * speed / speedDivisor *
                (st.ModuleConfigurations moduleConfiguration).caretLockSkewFirstTick)).2 > 0 then 1 else -1 : Int) : ℚ) * ((1 : Int) : ℚ)) > 0 then
                ((E.GetModuleCaretConfiguration st.moduleKineticState.currentModuleId
                  st.moduleKineticState.currentNavigationMode).axisActions
                    CaretAxis_Horizontal).positiveAction
              else
                ((E.GetModuleCaretConfiguration st.moduleKineticState.currentModuleId
                  st.moduleKineticState.currentNavigationMode).axisActions
                    CaretAxis_Horizontal).negativeAction) ∧
          (processAxisLocking E st x 0 speed yInversion speedDivisor
            moduleConfiguration).applied
            = st.applied ++
                [({ st.moduleKineticState.caretFakeKeystate with current := true },
                  (processAxisLocking E st x 0 speed yInversion speedDivisor
            moduleConfiguration).moduleKineticState.caretAction,
                  (processAxisLocking E st x 0 speed yInversion speedDivisor
            moduleConfiguration).moduleKineticState.caretAction)] ∧
          (processAxisLocking E st x 0 speed yInversion speedDivisor
            moduleConfiguration).ActiveUsbMouseReport = st.ActiveUsbMouseReport) ∧
        (st.moduleKineticState.currentNavigationMode = NavigationMode_None →
          (processAxisLocking E st x 0 speed yInversion speedDivisor
            moduleConfiguration).ActiveUsbMouseReport = st.ActiveUsbMouseReport ∧
          (processAxisLocking E st x 0 speed yInversion speedDivisor
            moduleConfiguration).applied = st.applied)) ∧
      ((modff (x * speed / speedDivisor *
            (st.ModuleConfigurations moduleConfiguration).caretLockSkewFirstTick)).2 = 0 →
        (processAxisLocking E st x 0 speed yInversion speedDivisor
          moduleConfiguration).moduleKineticState.caretAxis = CaretAxis_None ∧
        (processAxisLocking E st x 0 speed yInversion speedDivisor
          moduleConfiguration).applied = st.applied ∧
        (processAxisLocking E st x 0 speed yInversion speedDivisor
          moduleConfiguration).ActiveUsbMouseReport = st.ActiveUsbMouseReport)) ∧
    (UsbReportUpdater.sub32 st.CurrentTime st.moduleKineticState.lastUpdate ≤ 500 →
      processAxisLocking_unlock st x 0
        = { st with
            moduleKineticState :=
              { st.moduleKineticState with lastUpdate := st.CurrentTime } }) ∧
    processAxisLocking_unlock st 0 0 = st ∧
    (processAxisLocking E st 0 0 speed yInversion speedDivisor
      moduleConfiguration).moduleKineticState.lastUpdate = st.moduleKineticState.lastUpdate := by
  have hlock : st.moduleKineticState.caretAxis ≠ CaretAxis_None := by
    rw [haxis]
    decide
  refine ⟨?_, ?_, processAxisLocking_unlock_still st, ?_⟩
  · intro htime
    have hu := processAxisLocking_unlock_timeout st x 0 (Or.inl hx) hlock htime
    have ht := processAxisLocking_timeout E st x speed yInversion speedDivisor
      moduleConfiguration hx haxis hcur hprev htime
    have hl := processAxisLocking_idle_lastUpdate E st x 0 speed yInversion speedDivisor
      moduleConfiguration hcur hprev (fun h => hx h.1)
    refine ⟨hu, ?_, ?_, ?_, ?_⟩
    · rw [hl, hu]
    · rw [ht.2]
      split_ifs
      · exact (processAxisLocking_tick_horizontal_remainders E _ yInversion).2
      · rw [ht.1]
    · intro h1
      have hf := processAxisLocking_unlock_frame st x 0
      have hip : axisIntegerParts
          (processAxisLocking_accumulate (processAxisLocking_unlock st x 0) x 0 speed
            speedDivisor moduleConfiguration).moduleKineticState CaretAxis_Horizontal
          = (modff (x * speed / speedDivisor *
              (st.ModuleConfigurations moduleConfiguration).caretLockSkewFirstTick)).2 := by
        simp only [axisIntegerParts, if_true]
        rw [ht.1]
      have he := processAxisLocking_tick_emits E
        (processAxisLocking_accumulate (processAxisLocking_unlock st x 0) x 0 speed
          speedDivisor moduleConfiguration) yInversion CaretAxis_Horizontal (Or.inl rfl)
      have hk2 : (processAxisLocking_accumulate (processAxisLocking_unlock st x 0) x 0 speed
          speedDivisor moduleConfiguration).moduleKineticState.caretFakeKeystate
          = st.moduleKineticState.caretFakeKeystate := hf.1
      have hid2 : (processAxisLocking_accumulate (processAxisLocking_unlock st x 0) x 0 speed
          speedDivisor moduleConfiguration).moduleKineticState.currentModuleId
          = st.moduleKineticState.currentModuleId := hf.2.2.1
      have hmd2 : (processAxisLocking_accumulate (processAxisLocking_unlock st x 0) x 0 speed
          speedDivisor moduleConfiguration).moduleKineticState.currentNavigationMode
          = st.moduleKineticState.currentNavigationMode := hf.2.2.2.1
      have hr2 : (processAxisLocking_accumulate (processAxisLocking_unlock st x 0) x 0 speed
          speedDivisor moduleConfiguration).ActiveUsbMouseReport
          = st.ActiveUsbMouseReport := hf.2.2.2.2.1
      have ha2 : (processAxisLocking_accumulate (processAxisLocking_unlock st x 0) x 0 speed
          speedDivisor moduleConfiguration).applied = st.applied := hf.2.2.2.2.2.1
      rw [hip, hk2, hid2, hmd2, hr2, ha2] at he
      simp only [if_true, if_neg (by decide : ¬ (CaretAxis_Horizontal = CaretAxis_Vertical)),
        sub_zero, add_zero] at he
      rw [ht.2, if_pos h1]
      refine ⟨rfl, processAxisLocking_tick_caretAxis E _ yInversion CaretAxis_Horizontal
        (Or.inl rfl), ?_, he.2.2.1, he.2.2.2.1, he.2.2.2.2.1, he.2.2.2.2.2⟩
      rw [(processAxisLocking_tick_horizontal_remainders E _ yInversion).1, ht.1]
    · intro h1
      rw [ht.2, if_neg (not_not.mpr h1)]
      refine ⟨?_, ?_, ?_⟩
      · rw [ht.1]
      · exact (processAxisLocking_unlock_frame st x 0).2.2.2.2.2.1
      · exact (processAxisLocking_unlock_frame st x 0).2.2.2.2.1
  · intro htime
    exact processAxisLocking_unlock_refresh st x 0 (Or.inl hx) htime
  · rw [processAxisLocking_idle_lastUpdate E st 0 0 speed yInversion speedDivisor
      moduleConfiguration hcur hprev (fun h => hlock h.2.2), processAxisLocking_unlock_still]

/-- C28 at an example: the touchpad is locked on the vertical axis in Caret
mode with remainder 1/2, the last motion was 1000 ms ago; after a call with
motion (10, 0) `lastUpdate` is the current time, the vertical remainder is 0,
the fresh horizontal remainder 17/5 gives a horizontal tick, caretAxis is
Horizontal and the latched action is the positive action of the horizontal
axis (scancode 79). -/
theorem C28_lockTimeout_witness :
    (10 : ℚ) ≠ 0 ∧
    ({ stateTouchpadOwner NavigationMode_Caret CaretAxis_Vertical (1 / 2) with
        CurrentTime := 2000 } : module_engine_state_t).moduleKineticState.caretAxis
      = CaretAxis_Vertical ∧
    ({ stateTouchpadOwner NavigationMode_Caret CaretAxis_Vertical (1 / 2) with
        CurrentTime := 2000 } :
      module_engine_state_t).moduleKineticState.caretFakeKeystate.current = false ∧
    ({ stateTouchpadOwner NavigationMode_Caret CaretAxis_Vertical (1 / 2) with
        CurrentTime := 2000 } :
      module_engine_state_t).moduleKineticState.caretFakeKeystate.previous = false ∧
    UsbReportUpdater.sub32
        ({ stateTouchpadOwner NavigationMode_Caret CaretAxis_Vertical (1 / 2) with
            CurrentTime := 2000 } : module_engine_state_t).CurrentTime
        ({ stateTouchpadOwner NavigationMode_Caret CaretAxis_Vertical (1 / 2) with
            CurrentTime := 2000 } : module_engine_state_t).moduleKineticState.lastUpdate
      > 500 ∧
    (processAxisLocking exampleModuleForeign
        { stateTouchpadOwner NavigationMode_Caret CaretAxis_Vertical (1 / 2) with
          CurrentTime := 2000 }
        10 0 1 (-1) 1 5).moduleKineticState.lastUpdate
      = ({ stateTouchpadOwner NavigationMode_Caret CaretAxis_Vertical (1 / 2) with
          CurrentTime := 2000 } : module_engine_state_t).CurrentTime ∧
    (processAxisLocking exampleModuleForeign
        { stateTouchpadOwner NavigationMode_Caret CaretAxis_Vertical (1 / 2) with
          CurrentTime := 2000 }
        10 0 1 (-1) 1 5).moduleKineticState.yFractionRemainder = 0 ∧
    (processAxisLocking exampleModuleForeign
        { stateTouchpadOwner NavigationMode_Caret CaretAxis_Vertical (1 / 2) with
          CurrentTime := 2000 }
        10 0 1 (-1) 1 5).moduleKineticState.caretAxis = CaretAxis_Horizontal ∧
    (processAxisLocking exampleModuleForeign
        { stateTouchpadOwner NavigationMode_Caret CaretAxis_Vertical (1 / 2) with
          CurrentTime := 2000 }
        10 0 1 (-1) 1 5).moduleKineticState.caretAction = scancodeAction 79 := by
  have hfl : (modff (10 * 1 / 1 *
      (({ stateTouchpadOwner NavigationMode_Caret CaretAxis_Vertical (1 / 2) with
          CurrentTime := 2000 } : module_engine_state_t).ModuleConfigurations
        5).caretLockSkewFirstTick)).2 = 3 := by
    have e : (10 * 1 / 1 *
        (({ stateTouchpadOwner NavigationMode_Caret CaretAxis_Vertical (1 / 2) with
            CurrentTime := 2000 } : module_engine_state_t).ModuleConfigurations
          5).caretLockSkewFirstTick) = (17 / 5 : ℚ) := by
      norm_num [stateTouchpadOwner, exampleModuleConfiguration]
    have e2 : ⌊(17 / 5 : ℚ)⌋ = 3 := by
      rw [Int.floor_eq_iff]
      norm_num
    rw [e, modff_int_of_nonneg (by norm_num), e2]
  have h := (C28_lockTimeout exampleModuleForeign
    { stateTouchpadOwner NavigationMode_Caret CaretAxis_Vertical (1 / 2) with
      CurrentTime := 2000 }
    10 1 (-1) 1 5 (by norm_num) rfl rfl rfl).1 (by decide)
  have ht := h.2.2.2.1 (by rw [hfl]; decide)
  have hk := (ht.2.2.2.2.2.1 (Or.inl rfl)).1
  rw [hfl] at hk
  have hu : uint8_of_float exampleModuleForeign
      (((if (3 : Int) > 0 then 1 else -1 : Int) : ℚ) * ((1 : Int) : ℚ)) = 1 := by
    have e : (((if (3 : Int) > 0 then 1 else -1 : Int) : ℚ) * ((1 : Int) : ℚ)) = 1 := by
      norm_num
    rw [e]
    exact uint8_of_float_one exampleModuleForeign
  rw [hu] at hk
  refine ⟨by norm_num, rfl, rfl, rfl, by decide, h.2.1, h.2.2.1, ht.2.1, ?_⟩
  rw [hk]
  rfl

end MouseController

namespace UsbReportUpdater

open key_action_type_t keystroke_type_t switch_layer_mode_t secondary_role_state_t
open foreign_call_t

/-! ## Theorems about `usb_report_updater.c` -/

/-! ### Debouncing -/

/-- Reading a key state that was just written. -/
theorem setKeyState_same (st : updater_state_t) (slotId keyId : Nat) (s : key_state_t) :
    (setKeyState st slotId keyId s).KeyStates slotId keyId = s := by
  simp [setKeyState]

/-- Reading another key state than the one written. -/
theorem setKeyState_other (st : updater_state_t) (slotId keyId a b : Nat) (s : key_state_t)
    (h : ¬ (a = slotId ∧ b = keyId)) :
    (setKeyState st slotId keyId s).KeyStates a b = st.KeyStates a b := by
  simp [setKeyState, h]

/-- The gate clears an open debounce window exactly when the 8-bit difference
exceeds the 8-bit threshold. -/
theorem debouncingAfterGate_eq_false (C : updater_config_t) (CurrentTime : Nat)
    (s : key_state_t) (hdeb : s.debouncing = true) :
    debouncingAfterGate C CurrentTime s = false ↔
      sub32 CurrentTime s.timestamp % 256 > debounceTime C s := by
  by_cases h : sub32 CurrentTime s.timestamp % 256 > debounceTime C s
  · simp [debouncingAfterGate, hdeb, h]
  · simp [debouncingAfterGate, hdeb, h]

/-- The key state after `preprocessKeyState` when no new edge is pending: only
`debouncing` may have changed, to the value left by the gate. -/
theorem preprocessKeyState_noEdge (E : foreign_t) (C : updater_config_t) (st : updater_state_t)
    (slotId keyId : Nat)
    (h : ¬ (debouncingAfterGate C st.CurrentTime (st.KeyStates slotId keyId) = false ∧
      (st.KeyStates slotId keyId).debouncedSwitchState
        ≠ (st.KeyStates slotId keyId).hardwareSwitchState)) :
    preprocessKeyState E C st slotId keyId
      = setKeyState st slotId keyId
          { st.KeyStates slotId keyId with
            debouncing := debouncingAfterGate C st.CurrentTime (st.KeyStates slotId keyId) } := by
  simp only [preprocessKeyState]
  rw [if_neg h]

/-- The state after `preprocessKeyState` when a new edge is pending: one
`commitKeyState` of the new debounced value on the stamped key state. -/
theorem preprocessKeyState_edge (E : foreign_t) (C : updater_config_t) (st : updater_state_t)
    (slotId keyId : Nat)
    (h : debouncingAfterGate C st.CurrentTime (st.KeyStates slotId keyId) = false ∧
      (st.KeyStates slotId keyId).debouncedSwitchState
        ≠ (st.KeyStates slotId keyId).hardwareSwitchState) :
    preprocessKeyState E C st slotId keyId
      = commitKeyState E
          (setKeyState st slotId keyId
            { st.KeyStates slotId keyId with
              timestamp := st.CurrentTime
              debouncing := true
              debouncedSwitchState := (st.KeyStates slotId keyId).hardwareSwitchState })
          slotId keyId (st.KeyStates slotId keyId).hardwareSwitchState := by
  simp only [preprocessKeyState]
  rw [if_pos h]

/-- C13 (amended): the gate of `preprocessKeyState` compares the low 8 bits of
the 32-bit difference `CurrentTime - timestamp` with the threshold (as a
`uint8_t`). For a key with `debouncing` set: the gate clears `debouncing` if and
only if the difference modulo 256 is greater than the applicable threshold
(`DebounceTimePress` when `previous` is set, `DebounceTimeRelease` otherwise);
when no new edge is pending that is the value of `debouncing` after the run; and
for a difference below 256 and thresholds below 256 the gate clears `debouncing`
if and only if the difference is greater than the threshold. -/
theorem C13_debounceGate (E : foreign_t) (C : updater_config_t) (st : updater_state_t)
    (slotId keyId : Nat) (hdeb : (st.KeyStates slotId keyId).debouncing = true) :
    (debouncingAfterGate C st.CurrentTime (st.KeyStates slotId keyId) = false ↔
      sub32 st.CurrentTime (st.KeyStates slotId keyId).timestamp % 256
        > (if (st.KeyStates slotId keyId).previous = true then C.DebounceTimePress
            else C.DebounceTimeRelease) % 256) ∧
    ((st.KeyStates slotId keyId).debouncedSwitchState
        = (st.KeyStates slotId keyId).hardwareSwitchState →
      ((preprocessKeyState E C st slotId keyId).KeyStates slotId keyId).debouncing
        = debouncingAfterGate C st.CurrentTime (st.KeyStates slotId keyId)) ∧
    (sub32 st.CurrentTime (st.KeyStates slotId keyId).timestamp < 256 →
      C.DebounceTimePress < 256 → C.DebounceTimeRelease < 256 →
      (debouncingAfterGate C st.CurrentTime (st.KeyStates slotId keyId) = false ↔
        sub32 st.CurrentTime (st.KeyStates slotId keyId).timestamp
          > (if (st.KeyStates slotId keyId).previous = true then C.DebounceTimePress
              else C.DebounceTimeRelease))) := by
  have hg := debouncingAfterGate_eq_false C st.CurrentTime (st.KeyStates slotId keyId) hdeb
  refine ⟨hg, ?_, ?_⟩
  · intro hsame
    rw [preprocessKeyState_noEdge E C st slotId keyId (by
      rintro ⟨-, hne⟩
      exact hne hsame), setKeyState_same]
  · intro hd hp hr
    rw [hg, debounceTime, Nat.mod_eq_of_lt hd]
    have hlt : (if (st.KeyStates slotId keyId).previous = true then C.DebounceTimePress
        else C.DebounceTimeRelease) < 256 := by
      split_ifs
      · exact hp
      · exact hr
    rw [Nat.mod_eq_of_lt hlt]

/-- C13 at a concrete input: 60 ms after the edge, with a release threshold of
50 ms, the gate clears `debouncing`. -/
theorem C13_debounceGate_witness :
    (stateDebouncingAt60.KeyStates 0 0).debouncing = true ∧
    (debouncingAfterGate exampleConfig stateDebouncingAt60.CurrentTime
        (stateDebouncingAt60.KeyStates 0 0) = false ↔
      sub32 stateDebouncingAt60.CurrentTime (stateDebouncingAt60.KeyStates 0 0).timestamp % 256
        > (if (stateDebouncingAt60.KeyStates 0 0).previous = true
            then exampleConfig.DebounceTimePress
            else exampleConfig.DebounceTimeRelease) % 256) :=
  ⟨rfl, (C13_debounceGate exampleForeign exampleConfig stateDebouncingAt60 0 0 rfl).1⟩

/-- C13 (as stated) fails: 256 ms after the edge the 32-bit difference (256) is
greater than the release threshold (50), yet one run of `preprocessKeyState`
leaves `debouncing` set, because the difference is reduced to 8 bits (0). -/
theorem C13_wrap_counterexample :
    (stateDebouncingAt256.KeyStates 0 0).debouncing = true ∧
    (stateDebouncingAt256.KeyStates 0 0).previous = false ∧
    sub32 stateDebouncingAt256.CurrentTime (stateDebouncingAt256.KeyStates 0 0).timestamp
      > exampleConfig.DebounceTimeRelease ∧
    ((preprocessKeyState exampleForeign exampleConfig stateDebouncingAt256 0 0).KeyStates
      0 0).debouncing = true := by
  refine ⟨rfl, rfl, by decide, ?_⟩
  rw [preprocessKeyState_noEdge exampleForeign exampleConfig stateDebouncingAt256 0 0 (by
    rintro ⟨-, hne⟩
    exact hne rfl), setKeyState_same]
  decide

/-- The effect of `commitKeyState`: with the postponer inactive the key's
`current` becomes the committed value and no call is made; with the postponer
active exactly one `PostponerCore_TrackKeyEvent(key, value)` is recorded and no
key state is written. -/
theorem commitKeyState_effect (E : foreign_t) (st : updater_state_t) (slotId keyId : Nat)
    (active : Bool) :
    (E.PostponerCore_IsActive st = false →
      commitKeyState E st slotId keyId active
        = setKeyState st slotId keyId { st.KeyStates slotId keyId with current := active }) ∧
    (E.PostponerCore_IsActive st = true →
      commitKeyState E st slotId keyId active
        = recordCall st (PostponerCore_TrackKeyEvent slotId keyId active)) := by
  constructor
  · intro h
    simp [commitKeyState, h]
  · intro h
    simp [commitKeyState, h]

/-- C14: one run of `preprocessKeyState` commits at most once, and exactly when
after the gate `debouncing` is false and `debouncedSwitchState` differs from
`hardwareSwitchState`. In that case the run is one `commitKeyState` of the new
debounced value on the key state with `timestamp = CurrentTime`,
`debouncing = true`, `debouncedSwitchState = hardwareSwitchState`; with the
postponer inactive `current` becomes that value and no call is made, with the
postponer active exactly one `PostponerCore_TrackKeyEvent(key, value)` is
recorded and `current` is unchanged. Otherwise (in particular while `debouncing`
stays set) `debouncedSwitchState`, `timestamp` and `current` are unchanged and no
call is made, whatever `hardwareSwitchState` is. No other key state is written. -/
theorem C14_commitOnce (E : foreign_t) (C : updater_config_t) (st : updater_state_t)
    (slotId keyId : Nat) :
    ((debouncingAfterGate C st.CurrentTime (st.KeyStates slotId keyId) = false ∧
        (st.KeyStates slotId keyId).debouncedSwitchState
          ≠ (st.KeyStates slotId keyId).hardwareSwitchState) →
      preprocessKeyState E C st slotId keyId
        = commitKeyState E
            (setKeyState st slotId keyId
              { st.KeyStates slotId keyId with
                timestamp := st.CurrentTime
                debouncing := true
                debouncedSwitchState := (st.KeyStates slotId keyId).hardwareSwitchState })
            slotId keyId (st.KeyStates slotId keyId).hardwareSwitchState ∧
      ((preprocessKeyState E C st slotId keyId).KeyStates slotId keyId).timestamp
        = st.CurrentTime ∧
      ((preprocessKeyState E C st slotId keyId).KeyStates slotId keyId).debouncing = true ∧
      ((preprocessKeyState E C st slotId keyId).KeyStates slotId keyId).debouncedSwitchState
        = (st.KeyStates slotId keyId).hardwareSwitchState ∧
      (E.PostponerCore_IsActive
          (setKeyState st slotId keyId
            { st.KeyStates slotId keyId with
              timestamp := st.CurrentTime
              debouncing := true
              debouncedSwitchState := (st.KeyStates slotId keyId).hardwareSwitchState })
          = false →
        ((preprocessKeyState E C st slotId keyId).KeyStates slotId keyId).current
          = (st.KeyStates slotId keyId).hardwareSwitchState ∧
        (preprocessKeyState E C st slotId keyId).calls = st.calls) ∧
      (E.PostponerCore_IsActive
          (setKeyState st slotId keyId
            { st.KeyStates slotId keyId with
              timestamp := st.CurrentTime
              debouncing := true
              debouncedSwitchState := (st.KeyStates slotId keyId).hardwareSwitchState })
          = true →
        ((preprocessKeyState E C st slotId keyId).KeyStates slotId keyId).current
          = (st.KeyStates slotId keyId).current ∧
        (preprocessKeyState E C st slotId keyId).calls
          = st.calls ++ [PostponerCore_TrackKeyEvent slotId keyId
              (st.KeyStates slotId keyId).hardwareSwitchState])) ∧
    (¬ (debouncingAfterGate C st.CurrentTime (st.KeyStates slotId keyId) = false ∧
        (st.KeyStates slotId keyId).debouncedSwitchState
          ≠ (st.KeyStates slotId keyId).hardwareSwitchState) →
      preprocessKeyState E C st slotId keyId
        = setKeyState st slotId keyId
            { st.KeyStates slotId keyId with
              debouncing := debouncingAfterGate C st.CurrentTime (st.KeyStates slotId keyId) } ∧
      ((preprocessKeyState E C st slotId keyId).KeyStates slotId keyId).debouncedSwitchState
        = (st.KeyStates slotId keyId).debouncedSwitchState ∧
      ((preprocessKeyState E C st slotId keyId).KeyStates slotId keyId).timestamp
        = (st.KeyStates slotId keyId).timestamp ∧
      ((preprocessKeyState E C st slotId keyId).KeyStates slotId keyId).current
        = (st.KeyStates slotId keyId).current ∧
      (preprocessKeyState E C st slotId keyId).calls = st.calls) ∧
    (debouncingAfterGate C st.CurrentTime (st.KeyStates slotId keyId) = true →
      ((preprocessKeyState E C st slotId keyId).KeyStates slotId keyId).debouncing = true ∧
      ((preprocessKeyState E C st slotId keyId).KeyStates slotId keyId).debouncedSwitchState
        = (st.KeyStates slotId keyId).debouncedSwitchState ∧
      ((preprocessKeyState E C st slotId keyId).KeyStates slotId keyId).timestamp
        = (st.KeyStates slotId keyId).timestamp ∧
      ((preprocessKeyState E C st slotId keyId).KeyStates slotId keyId).current
        = (st.KeyStates slotId keyId).current ∧
      (preprocessKeyState E C st slotId keyId).calls = st.calls) ∧
    (∀ a b : Nat, ¬ (a = slotId ∧ b = keyId) →
      (preprocessKeyState E C st slotId keyId).KeyStates a b = st.KeyStates a b) := by
  have hno : ¬ (debouncingAfterGate C st.CurrentTime (st.KeyStates slotId keyId) = false ∧
        (st.KeyStates slotId keyId).debouncedSwitchState
          ≠ (st.KeyStates slotId keyId).hardwareSwitchState) →
      preprocessKeyState E C st slotId keyId
        = setKeyState st slotId keyId
            { st.KeyStates slotId keyId with
              debouncing := debouncingAfterGate C st.CurrentTime (st.KeyStates slotId keyId) } ∧
      ((preprocessKeyState E C st slotId keyId).KeyStates slotId keyId).debouncedSwitchState
        = (st.KeyStates slotId keyId).debouncedSwitchState ∧
      ((preprocessKeyState E C st slotId keyId).KeyStates slotId keyId).timestamp
        = (st.KeyStates slotId keyId).timestamp ∧
      ((preprocessKeyState E C st slotId keyId).KeyStates slotId keyId).current
        = (st.KeyStates slotId keyId).current ∧
      (preprocessKeyState E C st slotId keyId).calls = st.calls := by
    intro h
    have he := preprocessKeyState_noEdge E C st slotId keyId h
    refine ⟨he, ?_, ?_, ?_, ?_⟩ <;> rw [he] <;> simp [setKeyState]
  refine ⟨?_, hno, ?_, ?_⟩
  · intro h
    have he := preprocessKeyState_edge E C st slotId keyId h
    obtain ⟨hin, hact⟩ := commitKeyState_effect E
      (setKeyState st slotId keyId
        { st.KeyStates slotId keyId with
          timestamp := st.CurrentTime
          debouncing := true
          debouncedSwitchState := (st.KeyStates slotId keyId).hardwareSwitchState })
      slotId keyId (st.KeyStates slotId keyId).hardwareSwitchState
    refine ⟨he, ?_, ?_, ?_, ?_, ?_⟩
    · rw [he]
      cases hp : E.PostponerCore_IsActive (setKeyState st slotId keyId
        { st.KeyStates slotId keyId with
          timestamp := st.CurrentTime
          debouncing := true
          debouncedSwitchState := (st.KeyStates slotId keyId).hardwareSwitchState })
      · rw [hin hp]; simp [setKeyState]
      · rw [hact hp]; simp [setKeyState, recordCall]
    · rw [he]
      cases hp : E.PostponerCore_IsActive (setKeyState st slotId keyId
        { st.KeyStates slotId keyId with
          timestamp := st.CurrentTime
          debouncing := true
          debouncedSwitchState := (st.KeyStates slotId keyId).hardwareSwitchState })
      · rw [hin hp]; simp [setKeyState]
      · rw [hact hp]; simp [setKeyState, recordCall]
    · rw [he]
      cases hp : E.PostponerCore_IsActive (setKeyState st slotId keyId
        { st.KeyStates slotId keyId with
          timestamp := st.CurrentTime
          debouncing := true
          debouncedSwitchState := (st.KeyStates slotId keyId).hardwareSwitchState })
      · rw [hin hp]; simp [setKeyState]
      · rw [hact hp]; simp [setKeyState, recordCall]
    · intro hp
      rw [he, hin hp]
      simp [setKeyState]
    · intro hp
      rw [he, hact hp]
      simp [setKeyState, recordCall]
  · intro hg
    have h : ¬ (debouncingAfterGate C st.CurrentTime (st.KeyStates slotId keyId) = false ∧
        (st.KeyStates slotId keyId).debouncedSwitchState
          ≠ (st.KeyStates slotId keyId).hardwareSwitchState) := by
      rintro ⟨hf, -⟩
      rw [hg] at hf
      exact Bool.noConfusion hf
    obtain ⟨he, h2, h3, h4, h5⟩ := hno h
    refine ⟨?_, h2, h3, h4, h5⟩
    rw [he, setKeyState_same]
    exact hg
  · intro a b hab
    by_cases h : debouncingAfterGate C st.CurrentTime (st.KeyStates slotId keyId) = false ∧
        (st.KeyStates slotId keyId).debouncedSwitchState
          ≠ (st.KeyStates slotId keyId).hardwareSwitchState
    · rw [preprocessKeyState_edge E C st slotId keyId h]
      cases hp : E.PostponerCore_IsActive (setKeyState st slotId keyId
        { st.KeyStates slotId keyId with
          timestamp := st.CurrentTime
          debouncing := true
          debouncedSwitchState := (st.KeyStates slotId keyId).hardwareSwitchState })
      · rw [(commitKeyState_effect E _ slotId keyId _).1 hp]
        simp [setKeyState, hab]
      · rw [(commitKeyState_effect E _ slotId keyId _).2 hp]
        simp [setKeyState, recordCall, hab]
    · rw [preprocessKeyState_noEdge E C st slotId keyId h]
      simp [setKeyState, hab]

/-! ### Sticky modifiers -/

/-- Appending a scancode leaves the sticky-modifier variables, the modifiers of
the basic report, the key states, the cache and the calls alone. -/
theorem appendScancode_frame (C : updater_config_t) (st : updater_state_t)
    (action : key_action_t) :
    (appendScancode C st action).stickyModifiers = st.stickyModifiers ∧
    (appendScancode C st action).stickyModifierKey = st.stickyModifierKey ∧
    (appendScancode C st action).stickyModifierShouldStick = st.stickyModifierShouldStick ∧
    (appendScancode C st action).ActiveUsbBasicKeyboardReport.modifiers
      = st.ActiveUsbBasicKeyboardReport.modifiers ∧
    (appendScancode C st action).KeyStates = st.KeyStates ∧
    (appendScancode C st action).actionCache = st.actionCache ∧
    (appendScancode C st action).calls = st.calls := by
  simp only [appendScancode]
  cases action.keystroke.keystrokeType <;> simp only <;> split_ifs <;>
    exact ⟨rfl, rfl, rfl, rfl, rfl, rfl, rfl⟩

/-- The sticky-modifier variables after `applyKeystrokePrimary` in the
activation cycle of a keystroke with a scancode. -/
theorem applyKeystrokePrimary_activation_sticky (C : updater_config_t) (st : updater_state_t)
    (slotId keyId : Nat) (action : key_action_t)
    (hact : KeyState_ActivatedNow (st.KeyStates slotId keyId) = true)
    (hsc : action.keystroke.scancode ≠ 0) :
    (applyKeystrokePrimary C st slotId keyId action).stickyModifiers
      = action.keystroke.modifiers ∧
    (applyKeystrokePrimary C st slotId keyId action).stickyModifierKey
      = some (slotId, keyId) ∧
    (applyKeystrokePrimary C st slotId keyId action).stickyModifierShouldStick
      = (st.ActiveLayerHeld && isStickyShortcut action) := by
  have hcur : KeyState_Active (st.KeyStates slotId keyId) = true := by
    simp only [KeyState_ActivatedNow, Bool.and_eq_true] at hact
    exact hact.2
  obtain ⟨f1, f2, f3, -⟩ := appendScancode_frame C (activateStickyMods st slotId keyId action)
    action
  simp only [applyKeystrokePrimary, hcur, if_true, hsc, ne_eq, not_false_eq_true, hact]
  split_ifs
  · rw [f1, f2, f3]
    exact ⟨rfl, rfl, rfl⟩
  · exact ⟨rfl, rfl, rfl⟩

/-- The set of modifier bits that make a shortcut sticky: Alt, GUI and Ctrl of
either side. -/
theorem stickyMask_eq :
    (HID_KEYBOARD_MODIFIER_LEFTALT ||| HID_KEYBOARD_MODIFIER_RIGHTALT |||
      (HID_KEYBOARD_MODIFIER_LEFTGUI ||| HID_KEYBOARD_MODIFIER_RIGHTGUI) |||
      (HID_KEYBOARD_MODIFIER_LEFTCTRL ||| HID_KEYBOARD_MODIFIER_RIGHTCTRL)) = 221 := by
  decide

/-- C17: `isStickyShortcut(action)` is true if and only if the action is a
Keystroke of type Basic whose scancode is one of Tab, Left Arrow, Right Arrow,
Up Arrow, Down Arrow and whose modifiers have a bit in common with {LeftAlt,
RightAlt, LeftGui, RightGui, LeftCtrl, RightCtrl}; and on activation of a
primary keystroke with non-zero scancode `stickyModifierShouldStick` is set to
`ActiveLayerHeld && isStickyShortcut(action)`. -/
theorem C17_isStickyShortcut (C : updater_config_t) (st : updater_state_t)
    (slotId keyId : Nat) (action : key_action_t) :
    (isStickyShortcut action = true ↔
      (action.type = KeyActionType_Keystroke ∧
        action.keystroke.keystrokeType = KeystrokeType_Basic ∧
        (action.keystroke.scancode = HID_KEYBOARD_SC_TAB ∨
          action.keystroke.scancode = HID_KEYBOARD_SC_LEFT_ARROW ∨
          action.keystroke.scancode = HID_KEYBOARD_SC_RIGHT_ARROW ∨
          action.keystroke.scancode = HID_KEYBOARD_SC_UP_ARROW ∨
          action.keystroke.scancode = HID_KEYBOARD_SC_DOWN_ARROW) ∧
        action.keystroke.modifiers &&&
          (HID_KEYBOARD_MODIFIER_LEFTALT ||| HID_KEYBOARD_MODIFIER_RIGHTALT |||
            HID_KEYBOARD_MODIFIER_LEFTGUI ||| HID_KEYBOARD_MODIFIER_RIGHTGUI |||
            HID_KEYBOARD_MODIFIER_LEFTCTRL ||| HID_KEYBOARD_MODIFIER_RIGHTCTRL) ≠ 0)) ∧
    (KeyState_ActivatedNow (st.KeyStates slotId keyId) = true →
      action.keystroke.scancode ≠ 0 →
      (applyKeystrokePrimary C st slotId keyId action).stickyModifierShouldStick
        = (st.ActiveLayerHeld && isStickyShortcut action)) := by
  constructor
  · have hmask : (HID_KEYBOARD_MODIFIER_LEFTALT ||| HID_KEYBOARD_MODIFIER_RIGHTALT |||
        HID_KEYBOARD_MODIFIER_LEFTGUI ||| HID_KEYBOARD_MODIFIER_RIGHTGUI |||
        HID_KEYBOARD_MODIFIER_LEFTCTRL ||| HID_KEYBOARD_MODIFIER_RIGHTCTRL) = 221 := by decide
    rw [hmask]
    simp only [isStickyShortcut, stickyMask_eq]
    constructor
    · intro h
      split_ifs at h with h1 h2
      · simp only [not_or, not_not] at h1
        exact ⟨h1.2.1, h1.2.2, h2, by simpa using h⟩
    · rintro ⟨ht, hk, hs, hm⟩
      have hm0 : action.keystroke.modifiers ≠ 0 := by
        intro h0
        rw [h0] at hm
        exact hm (Nat.zero_and _)
      have h1 : ¬ (action.keystroke.modifiers = 0 ∨ action.type ≠ KeyActionType_Keystroke ∨
          action.keystroke.keystrokeType ≠ KeystrokeType_Basic) := by
        rintro (h | h | h)
        · exact hm0 h
        · exact h ht
        · exact h hk
      rw [if_neg h1, if_pos hs]
      simpa using hm
  · intro hact hsc
    exact (applyKeystrokePrimary_activation_sticky C st slotId keyId action hact hsc).2.2

/-! ### Scancodes -/

/-- What appending a scancode does to the three scancode arrays and their write
indices, by keystroke type. -/
theorem appendScancode_effect (C : updater_config_t) (st : updater_state_t)
    (action : key_action_t) :
    (action.keystroke.keystrokeType = KeystrokeType_Basic →
      (st.basicScancodeIndex < USB_BASIC_KEYBOARD_MAX_KEYS ∧ action.keystroke.scancode ≠ 0 →
        (appendScancode C st action).ActiveUsbBasicKeyboardReport.scancodes
          = st.ActiveUsbBasicKeyboardReport.scancodes.set st.basicScancodeIndex
              (action.keystroke.scancode % 256) ∧
        (appendScancode C st action).basicScancodeIndex = st.basicScancodeIndex + 1) ∧
      (¬ (st.basicScancodeIndex < USB_BASIC_KEYBOARD_MAX_KEYS ∧
          action.keystroke.scancode ≠ 0) →
        appendScancode C st action = st) ∧
      (appendScancode C st action).ActiveUsbMediaKeyboardReport
        = st.ActiveUsbMediaKeyboardReport ∧
      (appendScancode C st action).mediaScancodeIndex = st.mediaScancodeIndex ∧
      (appendScancode C st action).ActiveUsbSystemKeyboardReport
        = st.ActiveUsbSystemKeyboardReport ∧
      (appendScancode C st action).systemScancodeIndex = st.systemScancodeIndex) ∧
    (action.keystroke.keystrokeType = KeystrokeType_Media →
      (st.mediaScancodeIndex < C.USB_MEDIA_KEYBOARD_MAX_KEYS →
        (appendScancode C st action).ActiveUsbMediaKeyboardReport.scancodes
          = st.ActiveUsbMediaKeyboardReport.scancodes.set st.mediaScancodeIndex
              action.keystroke.scancode ∧
        (appendScancode C st action).mediaScancodeIndex = st.mediaScancodeIndex + 1) ∧
      (¬ st.mediaScancodeIndex < C.USB_MEDIA_KEYBOARD_MAX_KEYS →
        appendScancode C st action = st) ∧
      (appendScancode C st action).ActiveUsbBasicKeyboardReport
        = st.ActiveUsbBasicKeyboardReport ∧
      (appendScancode C st action).basicScancodeIndex = st.basicScancodeIndex ∧
      (appendScancode C st action).ActiveUsbSystemKeyboardReport
        = st.ActiveUsbSystemKeyboardReport ∧
      (appendScancode C st action).systemScancodeIndex = st.systemScancodeIndex) ∧
    (action.keystroke.keystrokeType = KeystrokeType_System →
      (st.systemScancodeIndex < C.USB_SYSTEM_KEYBOARD_MAX_KEYS →
        (appendScancode C st action).ActiveUsbSystemKeyboardReport.scancodes
          = st.ActiveUsbSystemKeyboardReport.scancodes.set st.systemScancodeIndex
              action.keystroke.scancode ∧
        (appendScancode C st action).systemScancodeIndex = st.systemScancodeIndex + 1) ∧
      (¬ st.systemScancodeIndex < C.USB_SYSTEM_KEYBOARD_MAX_KEYS →
        appendScancode C st action = st) ∧
      (appendScancode C st action).ActiveUsbBasicKeyboardReport
        = st.ActiveUsbBasicKeyboardReport ∧
      (appendScancode C st action).basicScancodeIndex = st.basicScancodeIndex ∧
      (appendScancode C st action).ActiveUsbMediaKeyboardReport
        = st.ActiveUsbMediaKeyboardReport ∧
      (appendScancode C st action).mediaScancodeIndex = st.mediaScancodeIndex) := by
  refine ⟨fun ht => ?_, fun ht => ?_, fun ht => ?_⟩
  · simp only [appendScancode, ht]
    refine ⟨fun h => ?_, fun h => ?_, ?_, ?_, ?_, ?_⟩
    · have h' : ¬ (st.basicScancodeIndex ≥ USB_BASIC_KEYBOARD_MAX_KEYS ∨
          action.keystroke.scancode = 0) := by
        rintro (h1 | h1)
        · exact absurd h.1 (not_lt.mpr h1)
        · exact h.2 h1
      rw [if_neg h']
      exact ⟨rfl, rfl⟩
    · have h' : st.basicScancodeIndex ≥ USB_BASIC_KEYBOARD_MAX_KEYS ∨
          action.keystroke.scancode = 0 := by
        by_cases h1 : st.basicScancodeIndex < USB_BASIC_KEYBOARD_MAX_KEYS
        · right
          by_contra h2
          exact h ⟨h1, h2⟩
        · left
          exact not_lt.mp h1
      rw [if_pos h']
    all_goals split_ifs <;> rfl
  · simp only [appendScancode, ht]
    refine ⟨fun h => ?_, fun h => ?_, ?_, ?_, ?_, ?_⟩
    · rw [if_neg (not_le.mpr h)]; exact ⟨rfl, rfl⟩
    · rw [if_pos (not_lt.mp h)]
    all_goals split_ifs <;> rfl
  · simp only [appendScancode, ht]
    refine ⟨fun h => ?_, fun h => ?_, ?_, ?_, ?_, ?_⟩
    · rw [if_neg (not_le.mpr h)]; exact ⟨rfl, rfl⟩
    · rw [if_pos (not_lt.mp h)]
    all_goals split_ifs <;> rfl

/-- The state after `applyKeystrokePrimary` in the activation cycle of a
keystroke with a scancode: the sticky modifiers are activated, and the scancode
switch runs exactly when the modifiers equal the old sticky modifiers. -/
theorem applyKeystrokePrimary_activation (C : updater_config_t) (st : updater_state_t)
    (slotId keyId : Nat) (action : key_action_t)
    (hact : KeyState_ActivatedNow (st.KeyStates slotId keyId) = true)
    (hsc : action.keystroke.scancode ≠ 0) :
    (action.keystroke.modifiers = st.stickyModifiers →
      applyKeystrokePrimary C st slotId keyId action
        = appendScancode C (activateStickyMods st slotId keyId action) action) ∧
    (action.keystroke.modifiers ≠ st.stickyModifiers →
      applyKeystrokePrimary C st slotId keyId action
        = activateStickyMods st slotId keyId action) := by
  have hcur : KeyState_Active (st.KeyStates slotId keyId) = true := by
    simp only [KeyState_ActivatedNow, Bool.and_eq_true] at hact
    exact hact.2
  have hearlier : KeyState_ActivatedEarlier (st.KeyStates slotId keyId) = false := by
    simp only [KeyState_ActivatedNow, Bool.and_eq_true, Bool.not_eq_true'] at hact
    simp [KeyState_ActivatedEarlier, hact.1]
  constructor
  · intro hm
    simp [applyKeystrokePrimary, hcur, hsc, hact, stickyModifiersChanged, hm]
  · intro hm
    simp [applyKeystrokePrimary, hcur, hsc, hact, stickyModifiersChanged, hm, hearlier]

/-- The state after `applyKeystrokePrimary` for a key that is active and was
active in the previous cycle: the scancode switch runs, nothing else. -/
theorem applyKeystrokePrimary_held (C : updater_config_t) (st : updater_state_t)
    (slotId keyId : Nat) (action : key_action_t)
    (hcur : (st.KeyStates slotId keyId).current = true)
    (hprev : (st.KeyStates slotId keyId).previous = true)
    (hsc : action.keystroke.scancode ≠ 0) :
    applyKeystrokePrimary C st slotId keyId action = appendScancode C st action := by
  simp [applyKeystrokePrimary, KeyState_Active, KeyState_ActivatedNow, hcur, hprev, hsc,
    stickyModifiersChanged]

/-- The state after `applyKeystrokePrimary` for an active key whose keystroke
has no scancode: the modifiers are OR-ed into the basic report, then the
scancode switch runs. -/
theorem applyKeystrokePrimary_noScancode (C : updater_config_t) (st : updater_state_t)
    (slotId keyId : Nat) (action : key_action_t)
    (hcur : (st.KeyStates slotId keyId).current = true)
    (hsc : action.keystroke.scancode = 0) :
    applyKeystrokePrimary C st slotId keyId action
      = appendScancode C
          { st with
            ActiveUsbBasicKeyboardReport :=
              { st.ActiveUsbBasicKeyboardReport with
                modifiers := st.ActiveUsbBasicKeyboardReport.modifiers |||
                  action.keystroke.modifiers } }
          action := by
  simp [applyKeystrokePrimary, KeyState_Active, hcur, hsc, stickyModifiersChanged]

/-- The scancode switch appends the scancode exactly when the matching array
has a free slot (and, for the basic report, the scancode is not 0); otherwise
it leaves the state as it is. -/
theorem appendScancode_appended (C : updater_config_t) (st : updater_state_t)
    (action : key_action_t) :
    (hasFreeSlot C st action →
      (action.keystroke.keystrokeType = KeystrokeType_Basic → action.keystroke.scancode ≠ 0) →
      scancodeAppended st (appendScancode C st action) action) ∧
    (¬ hasFreeSlot C st action → appendScancode C st action = st) := by
  obtain ⟨hb, hm, hs⟩ := appendScancode_effect C st action
  cases ht : action.keystroke.keystrokeType
  · obtain ⟨b1, b2, b3, b4, b5, b6⟩ := hb ht
    simp only [hasFreeSlot, scancodeAppended, ht]
    exact ⟨fun hf hsc => ⟨(b1 ⟨hf, hsc trivial⟩).1, (b1 ⟨hf, hsc trivial⟩).2, b3, b4, b5, b6⟩,
      fun hf => b2 (fun h => hf h.1)⟩
  · obtain ⟨b1, b2, b3, b4, b5, b6⟩ := hm ht
    simp only [hasFreeSlot, scancodeAppended, ht]
    exact ⟨fun hf _ => ⟨(b1 hf).1, (b1 hf).2, by rw [b3], b4, b5, b6⟩, fun hf => b2 hf⟩
  · obtain ⟨b1, b2, b3, b4, b5, b6⟩ := hs ht
    simp only [hasFreeSlot, scancodeAppended, ht]
    exact ⟨fun hf _ => ⟨(b1 hf).1, (b1 hf).2, by rw [b3], b4, b5, b6⟩, fun hf => b2 hf⟩

/-- An appended scancode advances a write index, so it is a change. -/
theorem scancodeAppended_ne (st st1 : updater_state_t) (action : key_action_t)
    (h : scancodeAppended st st1 action) : ¬ scancodesUnchanged st st1 := by
  intro hu
  obtain ⟨-, u2, -, u4, -, u6⟩ := hu
  cases ht : action.keystroke.keystrokeType <;> simp only [scancodeAppended, ht] at h
  · omega
  · omega
  · omega

/-- C18 (amended): mod-then-scancode sequencing of `applyKeystrokePrimary`. For
a primary keystroke with a non-zero scancode, in its activation cycle
(ActivatedNow) `stickyModifiers` becomes `action.modifiers` and
`stickyModifierKey` becomes this key, and the scancode is appended to its
report if and only if `action.modifiers` equals the value `stickyModifiers` had
before the activation and the report has a free slot (otherwise no scancode
array changes); in a later cycle in which the key is still active the scancode
is appended if and only if the report has a free slot. A primary keystroke with
zero scancode, in a cycle in which the key is active, leaves the sticky-modifier
variables as they are and ORs its modifiers into the modifiers of the basic
report. -/
theorem C18_modThenScancode (C : updater_config_t) (st : updater_state_t)
    (slotId keyId : Nat) (action : key_action_t) :
    (KeyState_ActivatedNow (st.KeyStates slotId keyId) = true →
      action.keystroke.scancode ≠ 0 →
      (applyKeystrokePrimary C st slotId keyId action).stickyModifiers
        = action.keystroke.modifiers ∧
      (applyKeystrokePrimary C st slotId keyId action).stickyModifierKey
        = some (slotId, keyId) ∧
      (scancodeAppended st (applyKeystrokePrimary C st slotId keyId action) action ↔
        (action.keystroke.modifiers = st.stickyModifiers ∧ hasFreeSlot C st action)) ∧
      (¬ (action.keystroke.modifiers = st.stickyModifiers ∧ hasFreeSlot C st action) →
        scancodesUnchanged st (applyKeystrokePrimary C st slotId keyId action))) ∧
    ((st.KeyStates slotId keyId).current = true →
      (st.KeyStates slotId keyId).previous = true →
      action.keystroke.scancode ≠ 0 →
      (scancodeAppended st (applyKeystrokePrimary C st slotId keyId action) action ↔
        hasFreeSlot C st action) ∧
      (¬ hasFreeSlot C st action → applyKeystrokePrimary C st slotId keyId action = st) ∧
      (applyKeystrokePrimary C st slotId keyId action).stickyModifiers = st.stickyModifiers) ∧
    ((st.KeyStates slotId keyId).current = true →
      action.keystroke.scancode = 0 →
      (applyKeystrokePrimary C st slotId keyId action).stickyModifiers = st.stickyModifiers ∧
      (applyKeystrokePrimary C st slotId keyId action).stickyModifierKey
        = st.stickyModifierKey ∧
      (applyKeystrokePrimary C st slotId keyId action).stickyModifierShouldStick
        = st.stickyModifierShouldStick ∧
      (applyKeystrokePrimary C st slotId keyId action).ActiveUsbBasicKeyboardReport.modifiers
        = st.ActiveUsbBasicKeyboardReport.modifiers ||| action.keystroke.modifiers) := by
  refine ⟨fun hact hsc => ?_, fun hcur hprev hsc => ?_, fun hcur hsc => ?_⟩
  · obtain ⟨s1, s2, -⟩ := applyKeystrokePrimary_activation_sticky C st slotId keyId action
      hact hsc
    obtain ⟨heq, hne⟩ := applyKeystrokePrimary_activation C st slotId keyId action hact hsc
    have hun : ¬ (action.keystroke.modifiers = st.stickyModifiers ∧ hasFreeSlot C st action) →
        scancodesUnchanged st (applyKeystrokePrimary C st slotId keyId action) := by
      intro hn
      by_cases hm : action.keystroke.modifiers = st.stickyModifiers
      · have hf : ¬ hasFreeSlot C (activateStickyMods st slotId keyId action) action :=
          fun h => hn ⟨hm, h⟩
        rw [heq hm, (appendScancode_appended C _ action).2 hf]
        exact ⟨rfl, rfl, rfl, rfl, rfl, rfl⟩
      · rw [hne hm]
        exact ⟨rfl, rfl, rfl, rfl, rfl, rfl⟩
    refine ⟨s1, s2, ⟨fun happ => ?_, fun hc => ?_⟩, hun⟩
    · by_contra hn
      exact scancodeAppended_ne st _ action happ (hun hn)
    · rw [heq hc.1]
      have hf : hasFreeSlot C (activateStickyMods st slotId keyId action) action := hc.2
      have := (appendScancode_appended C (activateStickyMods st slotId keyId action) action).1
        hf (fun _ => hsc)
      exact this
  · have he := applyKeystrokePrimary_held C st slotId keyId action hcur hprev hsc
    rw [he]
    refine ⟨⟨fun happ => ?_, fun hf => ?_⟩, (appendScancode_appended C st action).2,
      (appendScancode_frame C st action).1⟩
    · by_contra hn
      rw [(appendScancode_appended C st action).2 hn] at happ
      exact scancodeAppended_ne st st action happ ⟨rfl, rfl, rfl, rfl, rfl, rfl⟩
    · exact (appendScancode_appended C st action).1 hf (fun _ => hsc)
  · rw [applyKeystrokePrimary_noScancode C st slotId keyId action hcur hsc]
    obtain ⟨f1, f2, f3, f4, -⟩ := appendScancode_frame C
      { st with
        ActiveUsbBasicKeyboardReport :=
          { st.ActiveUsbBasicKeyboardReport with
            modifiers := st.ActiveUsbBasicKeyboardReport.modifiers |||
              action.keystroke.modifiers } } action
    exact ⟨f1, f2, f3, f4⟩

/-- C18 (as stated) fails when the report is full: key 0 of slot 0 is activated
with a Basic keystroke (scancode 4, no modifiers) while `stickyModifiers` is 0,
so the modifiers equal the old sticky modifiers, yet the scancode is not
appended, because six scancodes are already in the basic report. -/
theorem C18_full_counterexample :
    KeyState_ActivatedNow (stateBasicReportFull.KeyStates 0 0) = true ∧
    (keystrokeAction KeystrokeType_Basic 4 0).keystroke.modifiers
      = stateBasicReportFull.stickyModifiers ∧
    (applyKeystrokePrimary exampleConfig stateBasicReportFull 0 0
      (keystrokeAction KeystrokeType_Basic 4 0)).basicScancodeIndex = 6 ∧
    (applyKeystrokePrimary exampleConfig stateBasicReportFull 0 0
      (keystrokeAction KeystrokeType_Basic 4 0)).ActiveUsbBasicKeyboardReport.scancodes
      = [10, 11, 12, 13, 14, 15] ∧
    ¬ scancodeAppended stateBasicReportFull
      (applyKeystrokePrimary exampleConfig stateBasicReportFull 0 0
        (keystrokeAction KeystrokeType_Basic 4 0))
      (keystrokeAction KeystrokeType_Basic 4 0) := by
  have he : applyKeystrokePrimary exampleConfig stateBasicReportFull 0 0
      (keystrokeAction KeystrokeType_Basic 4 0)
      = appendScancode exampleConfig
          (activateStickyMods stateBasicReportFull 0 0 (keystrokeAction KeystrokeType_Basic 4 0))
          (keystrokeAction KeystrokeType_Basic 4 0) :=
    (applyKeystrokePrimary_activation exampleConfig stateBasicReportFull 0 0
      (keystrokeAction KeystrokeType_Basic 4 0) rfl (by decide)).1 rfl
  have hfull : appendScancode exampleConfig
      (activateStickyMods stateBasicReportFull 0 0 (keystrokeAction KeystrokeType_Basic 4 0))
      (keystrokeAction KeystrokeType_Basic 4 0)
      = activateStickyMods stateBasicReportFull 0 0 (keystrokeAction KeystrokeType_Basic 4 0) :=
    (appendScancode_appended exampleConfig _ _).2 (by
      show ¬ ((6 : Nat) < 6)
      decide)
  rw [he, hfull]
  refine ⟨rfl, rfl, rfl, rfl, ?_⟩
  intro h
  have h2 : (6 : Nat) = 6 + 1 := h.2.1
  omega

/-- The scancode switch keeps every write index within the capacity of its
array, and the basic index moves only for a non-zero scancode. -/
theorem appendScancode_index_bound (C : updater_config_t) (st : updater_state_t)
    (action : key_action_t) :
    (st.basicScancodeIndex ≤ USB_BASIC_KEYBOARD_MAX_KEYS →
      (appendScancode C st action).basicScancodeIndex ≤ USB_BASIC_KEYBOARD_MAX_KEYS) ∧
    (st.mediaScancodeIndex ≤ C.USB_MEDIA_KEYBOARD_MAX_KEYS →
      (appendScancode C st action).mediaScancodeIndex ≤ C.USB_MEDIA_KEYBOARD_MAX_KEYS) ∧
    (st.systemScancodeIndex ≤ C.USB_SYSTEM_KEYBOARD_MAX_KEYS →
      (appendScancode C st action).systemScancodeIndex ≤ C.USB_SYSTEM_KEYBOARD_MAX_KEYS) ∧
    (action.keystroke.keystrokeType = KeystrokeType_Basic → action.keystroke.scancode = 0 →
      appendScancode C st action = st) := by
  obtain ⟨hb, hm, hs⟩ := appendScancode_effect C st action
  refine ⟨fun h => ?_, fun h => ?_, fun h => ?_, fun ht h0 => ?_⟩
  · cases ht : action.keystroke.keystrokeType
    · by_cases hf : st.basicScancodeIndex < USB_BASIC_KEYBOARD_MAX_KEYS ∧
          action.keystroke.scancode ≠ 0
      · rw [((hb ht).1 hf).2]; exact hf.1
      · rw [(hb ht).2.1 hf]; exact h
    · rw [(hm ht).2.2.2.1]; exact h
    · rw [(hs ht).2.2.2.1]; exact h
  · cases ht : action.keystroke.keystrokeType
    · rw [(hb ht).2.2.2.1]; exact h
    · by_cases hf : st.mediaScancodeIndex < C.USB_MEDIA_KEYBOARD_MAX_KEYS
      · rw [((hm ht).1 hf).2]; exact hf
      · rw [(hm ht).2.1 hf]; exact h
    · rw [(hs ht).2.2.2.2.2]; exact h
  · cases ht : action.keystroke.keystrokeType
    · rw [(hb ht).2.2.2.2.2]; exact h
    · rw [(hm ht).2.2.2.2.2]; exact h
    · by_cases hf : st.systemScancodeIndex < C.USB_SYSTEM_KEYBOARD_MAX_KEYS
      · rw [((hs ht).1 hf).2]; exact hf
      · rw [(hs ht).2.1 hf]; exact h
  · exact (hb ht).2.1 (fun hf => hf.2 h0)

/-- C20 (the code at the failing input): key 0 of slot 0 is held and its action
is a keystroke with scancode 0. As a Media keystroke it consumes slot 0 of the
media array (the write index goes from 0 to 1), as a System keystroke it
consumes slot 0 of the system array; only as a Basic keystroke it consumes no
slot, because only the Basic case of the switch tests for a zero scancode. -/
theorem C20_zeroScancode_consumesSlot :
    (keystrokeAction KeystrokeType_Media 0 0).keystroke.scancode = 0 ∧
    stateKeyHeld.mediaScancodeIndex = 0 ∧
    (applyKeystrokePrimary exampleConfig stateKeyHeld 0 0
      (keystrokeAction KeystrokeType_Media 0 0)).mediaScancodeIndex = 1 ∧
    stateKeyHeld.systemScancodeIndex = 0 ∧
    (applyKeystrokePrimary exampleConfig stateKeyHeld 0 0
      (keystrokeAction KeystrokeType_System 0 0)).systemScancodeIndex = 1 ∧
    (applyKeystrokePrimary exampleConfig stateKeyHeld 0 0
      (keystrokeAction KeystrokeType_Basic 0 0)).basicScancodeIndex = 0 := by
  refine ⟨rfl, rfl, ?_, rfl, ?_, ?_⟩
  · rw [applyKeystrokePrimary_noScancode exampleConfig stateKeyHeld 0 0 _ rfl rfl]
    rfl
  · rw [applyKeystrokePrimary_noScancode exampleConfig stateKeyHeld 0 0 _ rfl rfl]
    rfl
  · rw [applyKeystrokePrimary_noScancode exampleConfig stateKeyHeld 0 0 _ rfl rfl]
    rfl

/-! ### The key loop -/

/-- A property kept by every step of a left fold holds at its end. -/
theorem foldl_invariant {σ ι : Type} (f : σ → ι → σ) (P : σ → Prop) (l : List ι)
    (h : ∀ s i, i ∈ l → P s → P (f s i)) (s : σ) (hs : P s) : P (l.foldl f s) := by
  induction l generalizing s with
  | nil => exact hs
  | cons i t ih =>
    simp only [List.foldl_cons]
    exact ih (fun s' j hj hp => h s' j (List.mem_cons_of_mem i hj) hp) (f s i)
      (h s i (List.mem_cons_self i t) hs)

/-- A left fold over a list without repetition in which one step takes `P` to
`Q` and every other step keeps `P` and keeps `Q` takes `P` to `Q`. -/
theorem foldl_single {σ ι : Type} (f : σ → ι → σ) (P Q : σ → Prop) (l : List ι) (i0 : ι)
    (hnodup : l.Nodup) (hmem : i0 ∈ l)
    (hP : ∀ s i, i ∈ l → i ≠ i0 → P s → P (f s i))
    (hQ : ∀ s i, i ∈ l → i ≠ i0 → Q s → Q (f s i))
    (hPQ : ∀ s, P s → Q (f s i0)) (s : σ) (hs : P s) : Q (l.foldl f s) := by
  induction l generalizing s with
  | nil => exact absurd hmem (List.not_mem_nil i0)
  | cons i t ih =>
    simp only [List.foldl_cons]
    have hnd := List.nodup_cons.mp hnodup
    by_cases hi : i = i0
    · subst hi
      apply foldl_invariant f Q t _ (f s i) (hPQ s hs)
      intro s' j hj hq
      have hne : j ≠ i := by
        intro hji
        rw [hji] at hj
        exact hnd.1 hj
      exact hQ s' j (List.mem_cons_of_mem i hj) hne hq
    · have hmem' : i0 ∈ t := by
        rcases List.mem_cons.mp hmem with h | h
        · exact absurd h.symm hi
        · exact h
      exact ih hnd.2 hmem'
        (fun s' j hj hne hp => hP s' j (List.mem_cons_of_mem i hj) hne hp)
        (fun s' j hj hne hq => hQ s' j (List.mem_cons_of_mem i hj) hne hq)
        (f s i) (hP s i (List.mem_cons_self i t) hi hs)

/-- A property kept by the loop body for every key of the loop holds after the
key loop. -/
theorem keys_invariant (E : foreign_t) (C : updater_config_t) (P : updater_state_t → Prop)
    (h : ∀ st a b, a < C.SLOT_COUNT → b < C.MAX_KEY_COUNT_PER_MODULE →
      P st → P (updateActiveUsbReports_key E C st a b))
    (st : updater_state_t) (hs : P st) : P (updateActiveUsbReports_keys E C st) := by
  unfold updateActiveUsbReports_keys
  apply foldl_invariant _ P _ _ st hs
  intro s a ha hp
  apply foldl_invariant _ P _ _ s hp
  intro s' b hb hp'
  exact h s' a b (List.mem_range.mp ha) (List.mem_range.mp hb) hp'

/-- The key loop with one distinguished key: when the loop body takes `P` to `Q`
at that key and keeps `P` and keeps `Q` at every other key, the key loop takes
`P` to `Q`. -/
theorem keys_single (E : foreign_t) (C : updater_config_t) (P Q : updater_state_t → Prop)
    (s0 k0 : Nat) (hs0 : s0 < C.SLOT_COUNT) (hk0 : k0 < C.MAX_KEY_COUNT_PER_MODULE)
    (hP : ∀ st a b, ¬ (a = s0 ∧ b = k0) → P st → P (updateActiveUsbReports_key E C st a b))
    (hQ : ∀ st a b, ¬ (a = s0 ∧ b = k0) → Q st → Q (updateActiveUsbReports_key E C st a b))
    (hPQ : ∀ st, P st → Q (updateActiveUsbReports_key E C st s0 k0))
    (st : updater_state_t) (hs : P st) : Q (updateActiveUsbReports_keys E C st) := by
  unfold updateActiveUsbReports_keys
  apply foldl_single _ P Q _ s0 (List.nodup_range _) (List.mem_range.mpr hs0) _ _ _ st hs
  · intro s a _ hne hp
    apply foldl_invariant _ P _ _ s hp
    intro s' b _ hp'
    exact hP s' a b (fun h => hne h.1) hp'
  · intro s a _ hne hq
    apply foldl_invariant _ Q _ _ s hq
    intro s' b _ hq'
    exact hQ s' a b (fun h => hne h.1) hq'
  · intro s hp
    apply foldl_single _ P Q _ k0 (List.nodup_range _) (List.mem_range.mpr hk0) _ _ _ s hp
    · intro s' b _ hne hp'
      exact hP s' s0 b (fun h => hne h.2) hp'
    · intro s' b _ hne hq'
      exact hQ s' s0 b (fun h => hne h.2) hq'
    · intro s' hp'
      exact hPQ s' hp'

/-- The loop body at a key at rest only runs the debounce gate of that key. -/
theorem key_atRest (E : foreign_t) (C : updater_config_t) (st : updater_state_t)
    (slotId keyId : Nat) (h : keyAtRest (st.KeyStates slotId keyId)) :
    updateActiveUsbReports_key E C st slotId keyId
      = setKeyState st slotId keyId
          { st.KeyStates slotId keyId with
            debouncing := debouncingAfterGate C st.CurrentTime (st.KeyStates slotId keyId) } := by
  obtain ⟨h1, h2, h3, h4⟩ := h
  have he := preprocessKeyState_noEdge E C st slotId keyId (by
    rintro ⟨-, hne⟩
    rw [h1, h2] at hne
    exact hne rfl)
  simp only [updateActiveUsbReports_key]
  rw [he, setKeyState_same]
  simp [KeyState_NonZero, h3, h4]

/-- A key at rest stays at rest when only its `debouncing` changes. -/
theorem keyAtRest_debouncing (s : key_state_t) (d : Bool) (h : keyAtRest s) :
    keyAtRest { s with debouncing := d } := h

/-- After the loop body at a key at rest, every key that was at rest is at rest
and every other key state is as before. -/
theorem key_atRest_keys (E : foreign_t) (C : updater_config_t) (st : updater_state_t)
    (slotId keyId : Nat) (h : keyAtRest (st.KeyStates slotId keyId)) (a b : Nat) :
    (keyAtRest (st.KeyStates a b) →
      keyAtRest ((updateActiveUsbReports_key E C st slotId keyId).KeyStates a b)) ∧
    (¬ (a = slotId ∧ b = keyId) →
      (updateActiveUsbReports_key E C st slotId keyId).KeyStates a b = st.KeyStates a b) := by
  rw [key_atRest E C st slotId keyId h]
  constructor
  · intro hab
    by_cases hk : a = slotId ∧ b = keyId
    · obtain ⟨ha, hb⟩ := hk
      subst ha
      subst hb
      rw [setKeyState_same]
      exact h
    · rw [setKeyState_other st slotId keyId a b _ hk]
      exact hab
  · intro hk
    exact setKeyState_other st slotId keyId a b _ hk

/-! ### The start and the finish of a cycle -/

/-- The start of a cycle with the USB test mode off and the postponer inactive. -/
theorem start_facts (E : foreign_t) (C : updater_config_t) (st : updater_state_t)
    (htest : st.TestUsbStack = false) (hpost : ∀ s, E.PostponerCore_IsActive s = false) :
    startFacts E st (updateActiveUsbReports_start E C st) := by
  have hstart : updateActiveUsbReports_start E C st
      = recordCall
          (recordCall
            (handleLayerChanges E
              { st with
                activeMouseStates := fun _ => false
                basicScancodeIndex := 0
                mediaScancodeIndex := 0
                systemScancodeIndex := 0 })
            (LedDisplay_SetLayer
              (handleLayerChanges E
                { st with
                  activeMouseStates := fun _ => false
                  basicScancodeIndex := 0
                  mediaScancodeIndex := 0
                  systemScancodeIndex := 0 }).ActiveLayer))
          (LedDisplay_SetIcon_Agent
            (decide (sub32 st.CurrentTime st.LastUsbGetKeyboardStateRequestTimestamp < 1000))) := by
    have ht : ∀ s : updater_state_t, s.TestUsbStack = false → handleUsbStackTestMode C s = s := by
      intro s hs
      simp [handleUsbStackTestMode, hs]
    have hT : (recordCall
          (recordCall
            (handleLayerChanges E
              { st with
                activeMouseStates := fun _ => false
                basicScancodeIndex := 0
                mediaScancodeIndex := 0
                systemScancodeIndex := 0 })
            (LedDisplay_SetLayer
              (handleLayerChanges E
                { st with
                  activeMouseStates := fun _ => false
                  basicScancodeIndex := 0
                  mediaScancodeIndex := 0
                  systemScancodeIndex := 0 }).ActiveLayer))
          (LedDisplay_SetIcon_Agent
            (decide (sub32
              (recordCall
                (handleLayerChanges E
                  { st with
                    activeMouseStates := fun _ => false
                    basicScancodeIndex := 0
                    mediaScancodeIndex := 0
                    systemScancodeIndex := 0 })
                (LedDisplay_SetLayer
                  (handleLayerChanges E
                    { st with
                      activeMouseStates := fun _ => false
                      basicScancodeIndex := 0
                      mediaScancodeIndex := 0
                      systemScancodeIndex := 0 }).ActiveLayer)).CurrentTime
              (recordCall
                (handleLayerChanges E
                  { st with
                    activeMouseStates := fun _ => false
                    basicScancodeIndex := 0
                    mediaScancodeIndex := 0
                    systemScancodeIndex := 0 })
                (LedDisplay_SetLayer
                  (handleLayerChanges E
                    { st with
                      activeMouseStates := fun _ => false
                      basicScancodeIndex := 0
                      mediaScancodeIndex := 0
                      systemScancodeIndex := 0 }).ActiveLayer)).LastUsbGetKeyboardStateRequestTimestamp
              < 1000)))).TestUsbStack = false := by
      simp only [recordCall, handleLayerChanges]
      split_ifs <;> exact htest
    have hc : (handleLayerChanges E
        { st with
          activeMouseStates := fun _ => false
          basicScancodeIndex := 0
          mediaScancodeIndex := 0
          systemScancodeIndex := 0 }).CurrentTime = st.CurrentTime ∧
      (handleLayerChanges E
        { st with
          activeMouseStates := fun _ => false
          basicScancodeIndex := 0
          mediaScancodeIndex := 0
          systemScancodeIndex := 0 }).LastUsbGetKeyboardStateRequestTimestamp
        = st.LastUsbGetKeyboardStateRequestTimestamp := by
      simp only [recordCall, handleLayerChanges]
      split_ifs <;> exact ⟨rfl, rfl⟩
    simp only [updateActiveUsbReports_start]
    rw [ht _ hT, if_neg (by rw [hpost]; exact Bool.false_ne_true)]
    simp only [recordCall, hc.1, hc.2]
  rw [hstart]
  by_cases hl : (E.LayerSwitcher_UpdateActiveLayer (layerQueryState st)).1 = st.previousLayer
  · simp only [layerQueryState, recordCall] at hl
    constructor <;>
      simp [recordCall, handleLayerChanges, layerQueryState, hl]
  · simp only [layerQueryState, recordCall] at hl
    constructor <;>
      simp [recordCall, handleLayerChanges, layerQueryState, hl]

/-- The module loop of `processMouseActions` writes the mouse report and the
module states only. -/
theorem modules_frame (C : updater_config_t) (st : updater_state_t) (l : List Nat) :
    mouseFrame st (List.foldl (processMouseActions_module C) st l) := by
  apply foldl_invariant (processMouseActions_module C) (fun s => mouseFrame st s) l _ st
  · constructor <;> rfl
  · intro s i _ hs
    simp only [processMouseActions_module]
    split_ifs <;>
      first
      | exact hs
      | exact ⟨hs.1, hs.2, hs.3, hs.4, hs.5, hs.6, hs.7, hs.8, hs.9, hs.10, hs.11, hs.12,
          hs.13, hs.14, hs.15, hs.16⟩

/-- The variables that `processMouseActions` leaves alone. -/
theorem processMouseActions_frame (C : updater_config_t) (st : updater_state_t) :
    mouseFrame st (processMouseActions C st) := by
  have hm := modules_frame C
    { st with
      mouseElapsedTime := sub32 st.CurrentTime st.mouseUsbReportUpdateTime
      mouseUsbReportUpdateTime := st.CurrentTime
      MouseMoveState :=
        { processMouseKineticState st.activeMouseStates
            (sub32 st.CurrentTime st.mouseUsbReportUpdateTime) st.MouseMoveState with
          xOut := 0, yOut := 0 }
      MouseScrollState :=
        { processMouseKineticState st.activeMouseStates
            (sub32 st.CurrentTime st.mouseUsbReportUpdateTime) st.MouseScrollState with
          xOut := 0, yOut := 0 }
      ActiveUsbMouseReport :=
        { st.ActiveUsbMouseReport with
          x := (processMouseKineticState st.activeMouseStates
              (sub32 st.CurrentTime st.mouseUsbReportUpdateTime) st.MouseMoveState).xOut
            + st.TouchpadUsbMouseReport.x
          y := (processMouseKineticState st.activeMouseStates
              (sub32 st.CurrentTime st.mouseUsbReportUpdateTime) st.MouseMoveState).yOut
            + st.TouchpadUsbMouseReport.y
          wheelX := (processMouseKineticState st.activeMouseStates
              (sub32 st.CurrentTime st.mouseUsbReportUpdateTime) st.MouseScrollState).xOut
          wheelY := (processMouseKineticState st.activeMouseStates
              (sub32 st.CurrentTime st.mouseUsbReportUpdateTime) st.MouseScrollState).yOut }
      TouchpadUsbMouseReport := { st.TouchpadUsbMouseReport with x := 0, y := 0 } }
    (List.range UHK_MODULE_MAX_COUNT)
  simp only [processMouseActions]
  exact ⟨hm.1, hm.2, hm.3, hm.4, hm.5, hm.6, hm.7, hm.8, hm.9, hm.10, hm.11, hm.12,
    hm.13, hm.14, hm.15, hm.16⟩

/-- The finish of a cycle, outside the mouse variables. -/
theorem finish_facts (C : updater_config_t) (st : updater_state_t) :
    finishFacts st (updateActiveUsbReports_finish C st) := by
  have hm := processMouseActions_frame C st
  constructor <;>
    simp only [updateActiveUsbReports_finish, recordCall, hm.1, hm.2, hm.3, hm.4, hm.5, hm.6,
      hm.7, hm.8, hm.9, hm.10, hm.11, hm.12, hm.13, hm.14, hm.16]

/-! ### The idle cycle -/

/-- When every key is at rest the key loop writes key states only, and every
key is at rest after it. -/
theorem keys_allAtRest (E : foreign_t) (C : updater_config_t) (st : updater_state_t)
    (h : ∀ a b, keyAtRest (st.KeyStates a b)) :
    { updateActiveUsbReports_keys E C st with KeyStates := st.KeyStates } = st ∧
    ∀ a b, keyAtRest ((updateActiveUsbReports_keys E C st).KeyStates a b) := by
  apply keys_invariant E C
    (fun s => { s with KeyStates := st.KeyStates } = st ∧ ∀ a b, keyAtRest (s.KeyStates a b))
    _ st ⟨rfl, h⟩
  intro s a b _ _ hs
  constructor
  · rw [key_atRest E C s a b (hs.2 a b)]
    exact hs.1
  · intro a' b'
    exact (key_atRest_keys E C s a b (hs.2 a b) a' b').1 (hs.2 a' b')

/-- Without an active mouse action `processMouseKineticState` leaves `xOut` and
`yOut` as they are. -/
theorem processMouseKineticState_idle
    (t : Nat) (ks : MouseController.mouse_kinetic_state_t) :
    (processMouseKineticState (fun _ => false) t ks).xOut = ks.xOut ∧
    (processMouseKineticState (fun _ => false) t ks).yOut = ks.yOut := by
  simp only [processMouseKineticState, isMoveAction, stepSnapSpeed, stepSelectTarget,
    stepResetSpeed, mouseSpeed]
  constructor <;> simp <;> split_ifs <;> rfl

/-- The module loop adds nothing to the mouse report when no module has a
pending pointer delta. -/
theorem modules_idle (C : updater_config_t) (st : updater_state_t) (l : List Nat)
    (hl : ∀ i, i ∈ l → i < UHK_MODULE_MAX_COUNT)
    (hmod : ∀ i, i < UHK_MODULE_MAX_COUNT →
      (st.UhkModuleStates i).pointerDelta = { x := 0, y := 0 }) :
    (List.foldl (processMouseActions_module C) st l).ActiveUsbMouseReport
      = st.ActiveUsbMouseReport := by
  have key := foldl_invariant (processMouseActions_module C)
    (fun s => s.ActiveUsbMouseReport = st.ActiveUsbMouseReport ∧
      ∀ i, i < UHK_MODULE_MAX_COUNT →
        (s.UhkModuleStates i).pointerDelta = { x := 0, y := 0 }) l
    (by
      intro s i hi hs
      have hd := hs.2 i (hl i hi)
      simp only [processMouseActions_module]
      split_ifs <;>
        first
        | exact hs
        | (refine ⟨?_, ?_⟩
           · simp only [hd, add_zero, sub_zero]
             exact hs.1
           · intro j hj
             simp only []
             split_ifs
             · rfl
             · exact hs.2 j hj)) st ⟨rfl, hmod⟩
  exact key.1

/-- Without mouse input `processMouseActions` leaves a zero mouse report zero:
no mouse action active, nothing left in `xOut` and `yOut`, no touchpad movement
and no module pointer delta. -/
theorem processMouseActions_idle (C : updater_config_t) (st : updater_state_t)
    (hact : st.activeMouseStates = fun _ => false)
    (hmove : st.MouseMoveState.xOut = 0 ∧ st.MouseMoveState.yOut = 0)
    (hscroll : st.MouseScrollState.xOut = 0 ∧ st.MouseScrollState.yOut = 0)
    (htouch : st.TouchpadUsbMouseReport.x = 0 ∧ st.TouchpadUsbMouseReport.y = 0)
    (hmod : ∀ i, i < UHK_MODULE_MAX_COUNT →
      (st.UhkModuleStates i).pointerDelta = { x := 0, y := 0 })
    (hzero : st.ActiveUsbMouseReport = zeroMouseReport) :
    (processMouseActions C st).ActiveUsbMouseReport = zeroMouseReport := by
  have hfr := modules_frame C
    { st with
      mouseElapsedTime := sub32 st.CurrentTime st.mouseUsbReportUpdateTime
      mouseUsbReportUpdateTime := st.CurrentTime
      MouseMoveState :=
        { processMouseKineticState st.activeMouseStates
            (sub32 st.CurrentTime st.mouseUsbReportUpdateTime) st.MouseMoveState with
          xOut := 0, yOut := 0 }
      MouseScrollState :=
        { processMouseKineticState st.activeMouseStates
            (sub32 st.CurrentTime st.mouseUsbReportUpdateTime) st.MouseScrollState with
          xOut := 0, yOut := 0 }
      ActiveUsbMouseReport :=
        { st.ActiveUsbMouseReport with
          x := (processMouseKineticState st.activeMouseStates
              (sub32 st.CurrentTime st.mouseUsbReportUpdateTime) st.MouseMoveState).xOut
            + st.TouchpadUsbMouseReport.x
          y := (processMouseKineticState st.activeMouseStates
              (sub32 st.CurrentTime st.mouseUsbReportUpdateTime) st.MouseMoveState).yOut
            + st.TouchpadUsbMouseReport.y
          wheelX := (processMouseKineticState st.activeMouseStates
              (sub32 st.CurrentTime st.mouseUsbReportUpdateTime) st.MouseScrollState).xOut
          wheelY := (processMouseKineticState st.activeMouseStates
              (sub32 st.CurrentTime st.mouseUsbReportUpdateTime) st.MouseScrollState).yOut }
      TouchpadUsbMouseReport := { st.TouchpadUsbMouseReport with x := 0, y := 0 } }
    (List.range UHK_MODULE_MAX_COUNT)
  have hid := modules_idle C
    { st with
      mouseElapsedTime := sub32 st.CurrentTime st.mouseUsbReportUpdateTime
      mouseUsbReportUpdateTime := st.CurrentTime
      MouseMoveState :=
        { processMouseKineticState st.activeMouseStates
            (sub32 st.CurrentTime st.mouseUsbReportUpdateTime) st.MouseMoveState with
          xOut := 0, yOut := 0 }
      MouseScrollState :=
        { processMouseKineticState st.activeMouseStates
            (sub32 st.CurrentTime st.mouseUsbReportUpdateTime) st.MouseScrollState with
          xOut := 0, yOut := 0 }
      ActiveUsbMouseReport :=
        { st.ActiveUsbMouseReport with
          x := (processMouseKineticState st.activeMouseStates
              (sub32 st.CurrentTime st.mouseUsbReportUpdateTime) st.MouseMoveState).xOut
            + st.TouchpadUsbMouseReport.x
          y := (processMouseKineticState st.activeMouseStates
              (sub32 st.CurrentTime st.mouseUsbReportUpdateTime) st.MouseMoveState).yOut
            + st.TouchpadUsbMouseReport.y
          wheelX := (processMouseKineticState st.activeMouseStates
              (sub32 st.CurrentTime st.mouseUsbReportUpdateTime) st.MouseScrollState).xOut
          wheelY := (processMouseKineticState st.activeMouseStates
              (sub32 st.CurrentTime st.mouseUsbReportUpdateTime) st.MouseScrollState).yOut }
      TouchpadUsbMouseReport := { st.TouchpadUsbMouseReport with x := 0, y := 0 } }
    (List.range UHK_MODULE_MAX_COUNT) (fun i hi => List.mem_range.mp hi) hmod
  have hactF := hfr.activeMouseStates
  simp only at hactF
  simp only [processMouseActions]
  rw [hid, hactF, hact]
  simp only [(processMouseKineticState_idle _ _).1, (processMouseKineticState_idle _ _).2,
    hmove.1, hmove.2, hscroll.1, hscroll.2, htouch.1, htouch.2, hzero, zeroMouseReport,
    add_zero, mouseButtons]
  rfl

/-- The mouse report after the finish of a cycle is the one that
`processMouseActions` leaves. -/
theorem finish_mouse (C : updater_config_t) (st : updater_state_t) :
    (updateActiveUsbReports_finish C st).ActiveUsbMouseReport
      = (processMouseActions C st).ActiveUsbMouseReport := rfl

/-- A cycle of `updateActiveUsbReports` in which every key is at rest, with no
macro playing, the USB test mode off and the postponer inactive. -/
theorem cycle_allAtRest (E : foreign_t) (C : updater_config_t) (st : updater_state_t)
    (hmac : st.MacroPlaying = false) (htest : st.TestUsbStack = false)
    (hpost : ∀ s, E.PostponerCore_IsActive s = false)
    (hkeys : ∀ a b, keyAtRest (st.KeyStates a b)) :
    restCycleFacts E st (updateActiveUsbReports E C st) := by
  have hS := start_facts E C st htest hpost
  have hK := keys_allAtRest E C (updateActiveUsbReports_start E C st) (by
    rw [hS.KeyStates]
    exact hkeys)
  have hF := finish_facts C
    (updateActiveUsbReports_keys E C (updateActiveUsbReports_start E C st))
  have hMo := finish_mouse C
    (updateActiveUsbReports_keys E C (updateActiveUsbReports_start E C st))
  have hI := processMouseActions_idle C
    (updateActiveUsbReports_keys E C (updateActiveUsbReports_start E C st))
  have hu : updateActiveUsbReports E C st
      = updateActiveUsbReports_finish C
          (updateActiveUsbReports_keys E C (updateActiveUsbReports_start E C st)) := by
    simp only [updateActiveUsbReports, hmac]
    rfl
  rw [hu]
  generalize updateActiveUsbReports_start E C st = s1 at *
  generalize updateActiveUsbReports_keys E C s1 = sK at *
  generalize updateActiveUsbReports_finish C sK = sF at *
  obtain ⟨hK1, hK2⟩ := hK
  have kBasic : sK.ActiveUsbBasicKeyboardReport = s1.ActiveUsbBasicKeyboardReport := by
    have e := congrArg updater_state_t.ActiveUsbBasicKeyboardReport hK1
    exact e
  have kMedia : sK.ActiveUsbMediaKeyboardReport = s1.ActiveUsbMediaKeyboardReport := by
    have e := congrArg updater_state_t.ActiveUsbMediaKeyboardReport hK1
    exact e
  have kSystem : sK.ActiveUsbSystemKeyboardReport = s1.ActiveUsbSystemKeyboardReport := by
    have e := congrArg updater_state_t.ActiveUsbSystemKeyboardReport hK1
    exact e
  have kMouse : sK.ActiveUsbMouseReport = s1.ActiveUsbMouseReport := by
    have e := congrArg updater_state_t.ActiveUsbMouseReport hK1
    exact e
  have kIB : sK.InactiveUsbBasicKeyboardReport = s1.InactiveUsbBasicKeyboardReport := by
    have e := congrArg updater_state_t.InactiveUsbBasicKeyboardReport hK1
    exact e
  have kIM : sK.InactiveUsbMediaKeyboardReport = s1.InactiveUsbMediaKeyboardReport := by
    have e := congrArg updater_state_t.InactiveUsbMediaKeyboardReport hK1
    exact e
  have kIS : sK.InactiveUsbSystemKeyboardReport = s1.InactiveUsbSystemKeyboardReport := by
    have e := congrArg updater_state_t.InactiveUsbSystemKeyboardReport hK1
    exact e
  have kIMo : sK.InactiveUsbMouseReport = s1.InactiveUsbMouseReport := by
    have e := congrArg updater_state_t.InactiveUsbMouseReport hK1
    exact e
  have kSem : sK.UsbReportUpdateSemaphore = s1.UsbReportUpdateSemaphore := by
    have e := congrArg updater_state_t.UsbReportUpdateSemaphore hK1
    exact e
  have kSt : sK.stickyModifiers = s1.stickyModifiers := by
    have e := congrArg updater_state_t.stickyModifiers hK1
    exact e
  have kStK : sK.stickyModifierKey = s1.stickyModifierKey := by
    have e := congrArg updater_state_t.stickyModifierKey hK1
    exact e
  have kStS : sK.stickyModifierShouldStick = s1.stickyModifierShouldStick := by
    have e := congrArg updater_state_t.stickyModifierShouldStick hK1
    exact e
  have kCache : sK.actionCache = s1.actionCache := by
    have e := congrArg updater_state_t.actionCache hK1
    exact e
  have kCalls : sK.calls = s1.calls := by
    have e := congrArg updater_state_t.calls hK1
    exact e
  have kAct : sK.activeMouseStates = s1.activeMouseStates := by
    have e := congrArg updater_state_t.activeMouseStates hK1
    exact e
  have kMove : sK.MouseMoveState = s1.MouseMoveState := by
    have e := congrArg updater_state_t.MouseMoveState hK1
    exact e
  have kScroll : sK.MouseScrollState = s1.MouseScrollState := by
    have e := congrArg updater_state_t.MouseScrollState hK1
    exact e
  have kTouch : sK.TouchpadUsbMouseReport = s1.TouchpadUsbMouseReport := by
    have e := congrArg updater_state_t.TouchpadUsbMouseReport hK1
    exact e
  have kMod : sK.UhkModuleStates = s1.UhkModuleStates := by
    have e := congrArg updater_state_t.UhkModuleStates hK1
    exact e
  constructor
  · rw [hF.basic, kBasic, kSt, hS.basic, hS.stickyModifiers]
  · rw [hF.media, kMedia, hS.media]
  · rw [hF.system, kSystem, hS.system]
  · intro h1 h2 h3 h4 h5
    rw [hMo]
    apply hI
    · rw [kAct, hS.activeMouseStates]
    · rw [kMove, hS.MouseMoveState]
      exact h1
    · rw [kScroll, hS.MouseScrollState]
      exact h2
    · rw [kTouch, hS.Touchpad]
      exact h3
    · rw [kMod, hS.Modules]
      exact h4
    · rw [kMouse, hS.mouse]
      exact h5
  · rw [hF.inactiveBasic, kIB, hS.inactiveBasic]
  · rw [hF.inactiveMedia, kIM, hS.inactiveMedia]
  · rw [hF.inactiveSystem, kIS, hS.inactiveSystem]
  · rw [hF.inactiveMouse, kIMo, hS.inactiveMouse]
  · rw [hF.semaphore, kSem, hS.semaphore]
  · rw [hF.stickyModifiers, kSt, hS.stickyModifiers]
  · rw [hF.stickyModifierKey, kStK, hS.stickyModifierKey]
  · rw [hF.stickyModifierShouldStick, kStS, hS.stickyModifierShouldStick]
  · rw [hF.actionCache, kCache, hS.actionCache]
  · intro a b
    rw [hF.KeyStates]
    exact hK2 a b
  · rw [hF.calls, kCalls, hS.calls]
    simp

/-- A send block whose report has not changed does nothing. -/
theorem sendReport_unchanged (st : updater_state_t) (index : Nat) (c : foreign_call_t)
    (action : updater_state_t → Bool) : sendReport st false index c action = st := rfl

/-- A send block writes the semaphore and the trace only: the four active
reports are as before. -/
theorem sendReport_reports (st : updater_state_t) (changed : Bool) (index : Nat)
    (c : foreign_call_t) (action : updater_state_t → Bool) :
    (sendReport st changed index c action).ActiveUsbBasicKeyboardReport
      = st.ActiveUsbBasicKeyboardReport ∧
    (sendReport st changed index c action).ActiveUsbMediaKeyboardReport
      = st.ActiveUsbMediaKeyboardReport ∧
    (sendReport st changed index c action).ActiveUsbSystemKeyboardReport
      = st.ActiveUsbSystemKeyboardReport ∧
    (sendReport st changed index c action).ActiveUsbMouseReport = st.ActiveUsbMouseReport := by
  simp only [sendReport, recordCall]
  split_ifs <;> exact ⟨rfl, rfl, rfl, rfl⟩

/-- C12 (amended): idle cycle. If every key has hardwareSwitchState =
debouncedSwitchState = current = previous = false, the right key matrix (sampled
into hardwareSwitchState at the top of `UpdateUsbReports`) shows no pressed key,
no macro is playing, the postponer is inactive, USB test mode is off,
stickyModifiers = 0, both kinetic states have xOut = yOut = 0, no touchpad or
module pointer delta is pending, and UsbReportUpdateSemaphore is 0 on entry,
then after `UpdateUsbReports` all four active reports are all-zero; and if the
four inactive reports are also all-zero, the calls of the cycle are those of
the layer update, the two LED display updates and the postponer's end of cycle
(no USB send action), and UsbReportUpdateSemaphore is still 0. -/
theorem C12_idleCycle (E : foreign_t) (C : updater_config_t) (st : updater_state_t)
    (hkeys : ∀ slotId keyId, keyAtRest (st.KeyStates slotId keyId))
    (hmatrix : ∀ keyId, keyId < C.RIGHT_KEY_MATRIX_KEY_COUNT →
      st.RightKeyMatrix_keyStates keyId = false)
    (hmac : st.MacroPlaying = false)
    (hpost : ∀ s, E.PostponerCore_IsActive s = false)
    (htest : st.TestUsbStack = false)
    (hsticky : st.stickyModifiers = 0)
    (hmove : st.MouseMoveState.xOut = 0 ∧ st.MouseMoveState.yOut = 0)
    (hscroll : st.MouseScrollState.xOut = 0 ∧ st.MouseScrollState.yOut = 0)
    (htouch : st.TouchpadUsbMouseReport.x = 0 ∧ st.TouchpadUsbMouseReport.y = 0)
    (hmod : ∀ i, i < UHK_MODULE_MAX_COUNT →
      (st.UhkModuleStates i).pointerDelta = { x := 0, y := 0 })
    (hsem : st.UsbReportUpdateSemaphore = 0) :
    ((UpdateUsbReports E C st).ActiveUsbBasicKeyboardReport = zeroBasicKeyboardReport ∧
      (UpdateUsbReports E C st).ActiveUsbMediaKeyboardReport = zeroMediaKeyboardReport C ∧
      (UpdateUsbReports E C st).ActiveUsbSystemKeyboardReport = zeroSystemKeyboardReport C ∧
      (UpdateUsbReports E C st).ActiveUsbMouseReport = zeroMouseReport) ∧
    (st.InactiveUsbBasicKeyboardReport = zeroBasicKeyboardReport →
      st.InactiveUsbMediaKeyboardReport = zeroMediaKeyboardReport C →
      st.InactiveUsbSystemKeyboardReport = zeroSystemKeyboardReport C →
      st.InactiveUsbMouseReport = zeroMouseReport →
      (∃ layer agent, (UpdateUsbReports E C st).calls = st.calls ++
        [LayerSwitcher_UpdateActiveLayer, LedDisplay_SetLayer layer,
          LedDisplay_SetIcon_Agent agent, PostponerCore_FinishCycle]) ∧
      (UpdateUsbReports E C st).UsbReportUpdateSemaphore = 0) := by
  have hC := cycle_allAtRest E C
    { st with
      KeyStates := fun slotId keyId =>
        if slotId = C.SlotId_RightKeyboardHalf ∧ keyId < C.RIGHT_KEY_MATRIX_KEY_COUNT then
          { st.KeyStates slotId keyId with
            hardwareSwitchState := st.RightKeyMatrix_keyStates keyId }
        else st.KeyStates slotId keyId
      lastUpdateTime := st.CurrentTime
      UsbReportUpdateCounter := (st.UsbReportUpdateCounter + 1) % 2 ^ 32
      ActiveUsbBasicKeyboardReport := zeroBasicKeyboardReport
      ActiveUsbMediaKeyboardReport := zeroMediaKeyboardReport C
      ActiveUsbSystemKeyboardReport := zeroSystemKeyboardReport C
      ActiveUsbMouseReport := zeroMouseReport }
    hmac htest hpost (by
      intro a b
      simp only []
      split_ifs with hab
      · exact ⟨hmatrix b hab.2, (hkeys a b).2.1, (hkeys a b).2.2.1, (hkeys a b).2.2.2⟩
      · exact hkeys a b)
  have hu : UpdateUsbReports E C st = UpdateUsbReports_run E C
      { st with
        KeyStates := fun slotId keyId =>
          if slotId = C.SlotId_RightKeyboardHalf ∧ keyId < C.RIGHT_KEY_MATRIX_KEY_COUNT then
            { st.KeyStates slotId keyId with
              hardwareSwitchState := st.RightKeyMatrix_keyStates keyId }
          else st.KeyStates slotId keyId } := by
    simp only [UpdateUsbReports, hsem, ne_eq, not_true_eq_false, false_and, if_false]
  have hb := hC.basic
  have hme := hC.media
  have hsy := hC.system
  have hmo := hC.mouse hmove hscroll htouch hmod rfl
  have hib := hC.inactiveBasic
  have him := hC.inactiveMedia
  have his := hC.inactiveSystem
  have himo := hC.inactiveMouse
  have hse := hC.semaphore
  have hca := hC.calls
  rw [hu]
  simp only [UpdateUsbReports_run]
  generalize updateActiveUsbReports E C _ = s2 at *
  simp only [hsticky, ite_self, Nat.or_zero] at hb
  simp only [hsem] at hse
  have hzb : s2.ActiveUsbBasicKeyboardReport = zeroBasicKeyboardReport := hb
  refine ⟨?_, ?_⟩
  · simp only [(sendReport_reports _ _ _ _ _).1, (sendReport_reports _ _ _ _ _).2.1,
      (sendReport_reports _ _ _ _ _).2.2.1, (sendReport_reports _ _ _ _ _).2.2.2]
    exact ⟨hzb, hme, hsy, hmo⟩
  · intro h1 h2 h3 h4
    rw [h1] at hib
    rw [h2] at him
    rw [h3] at his
    rw [h4] at himo
    simp only [hzb, hme, hsy, hmo, hib, him, his, himo, ne_eq, not_true_eq_false,
      decide_False, sendReport_unchanged, zeroMouseReport, Bool.or_self]
    exact ⟨⟨_, _, hca⟩, hse⟩

/-- C12 at a concrete input: from the boot state, with the other modules
behaving as in `exampleForeign`, a cycle leaves all four active reports zero,
makes no USB send and leaves the semaphore 0. -/
theorem C12_idleCycle_witness :
    (∀ slotId keyId, keyAtRest ((initialUpdaterState exampleConfig).KeyStates slotId keyId)) ∧
    (initialUpdaterState exampleConfig).UsbReportUpdateSemaphore = 0 ∧
    (((UpdateUsbReports exampleForeign exampleConfig
          (initialUpdaterState exampleConfig)).ActiveUsbBasicKeyboardReport
        = zeroBasicKeyboardReport ∧
      (UpdateUsbReports exampleForeign exampleConfig
          (initialUpdaterState exampleConfig)).ActiveUsbMediaKeyboardReport
        = zeroMediaKeyboardReport exampleConfig ∧
      (UpdateUsbReports exampleForeign exampleConfig
          (initialUpdaterState exampleConfig)).ActiveUsbSystemKeyboardReport
        = zeroSystemKeyboardReport exampleConfig ∧
      (UpdateUsbReports exampleForeign exampleConfig
          (initialUpdaterState exampleConfig)).ActiveUsbMouseReport = zeroMouseReport) ∧
    ((initialUpdaterState exampleConfig).InactiveUsbBasicKeyboardReport
        = zeroBasicKeyboardReport →
      (initialUpdaterState exampleConfig).InactiveUsbMediaKeyboardReport
        = zeroMediaKeyboardReport exampleConfig →
      (initialUpdaterState exampleConfig).InactiveUsbSystemKeyboardReport
        = zeroSystemKeyboardReport exampleConfig →
      (initialUpdaterState exampleConfig).InactiveUsbMouseReport = zeroMouseReport →
      (∃ layer agent,
        (UpdateUsbReports exampleForeign exampleConfig
            (initialUpdaterState exampleConfig)).calls
          = (initialUpdaterState exampleConfig).calls ++
            [LayerSwitcher_UpdateActiveLayer, LedDisplay_SetLayer layer,
              LedDisplay_SetIcon_Agent agent, PostponerCore_FinishCycle]) ∧
      (UpdateUsbReports exampleForeign exampleConfig
          (initialUpdaterState exampleConfig)).UsbReportUpdateSemaphore = 0)) :=
  ⟨fun _ _ => ⟨rfl, rfl, rfl, rfl⟩, rfl,
    C12_idleCycle exampleForeign exampleConfig (initialUpdaterState exampleConfig)
      (fun _ _ => ⟨rfl, rfl, rfl, rfl⟩) (fun _ _ => rfl) rfl (fun _ => rfl) rfl rfl
      ⟨rfl, rfl⟩ ⟨rfl, rfl⟩ ⟨rfl, rfl⟩ (fun _ _ => rfl) rfl⟩

/-- C12 (as stated) fails: with every key at rest, no macro, test mode off,
stickyModifiers 0 and no mouse input, but a basic keyboard report still in
flight (semaphore bit set, less than the timeout since the last update),
`UpdateUsbReports` returns before it resets the reports, and the active basic
report keeps its LeftAlt. -/
theorem C12_busy_counterexample :
    (∀ slotId keyId, keyAtRest (stateSemaphoreBusy.KeyStates slotId keyId)) ∧
    stateSemaphoreBusy.MacroPlaying = false ∧
    (∀ s, exampleForeign.PostponerCore_IsActive s = false) ∧
    stateSemaphoreBusy.TestUsbStack = false ∧
    stateSemaphoreBusy.stickyModifiers = 0 ∧
    (stateSemaphoreBusy.MouseMoveState.xOut = 0 ∧ stateSemaphoreBusy.MouseMoveState.yOut = 0) ∧
    (stateSemaphoreBusy.MouseScrollState.xOut = 0 ∧
      stateSemaphoreBusy.MouseScrollState.yOut = 0) ∧
    (stateSemaphoreBusy.TouchpadUsbMouseReport.x = 0 ∧
      stateSemaphoreBusy.TouchpadUsbMouseReport.y = 0) ∧
    (∀ i, (stateSemaphoreBusy.UhkModuleStates i).pointerDelta = { x := 0, y := 0 }) ∧
    (UpdateUsbReports exampleForeign exampleConfig
        stateSemaphoreBusy).ActiveUsbBasicKeyboardReport.modifiers
      = HID_KEYBOARD_MODIFIER_LEFTALT ∧
    (UpdateUsbReports exampleForeign exampleConfig
        stateSemaphoreBusy).ActiveUsbBasicKeyboardReport ≠ zeroBasicKeyboardReport := by
  refine ⟨fun _ _ => ⟨rfl, rfl, rfl, rfl⟩, rfl, fun _ => rfl, rfl, rfl, ⟨rfl, rfl⟩,
    ⟨rfl, rfl⟩, ⟨rfl, rfl⟩, fun _ => rfl, ?_, ?_⟩
  · decide
  · decide

/-! ### The action cache -/

/-- The function `preprocessKeyState` writes key states and the trace, nothing
else. -/
theorem preprocessKeyState_writes (E : foreign_t) (C : updater_config_t) (st : updater_state_t)
    (slotId keyId : Nat) :
    ∃ ks c, preprocessKeyState E C st slotId keyId = { st with KeyStates := ks, calls := c } := by
  simp only [preprocessKeyState, commitKeyState, setKeyState, recordCall]
  split_ifs <;> exact ⟨_, _, rfl⟩

/-- The function `handleEventInterrupts` writes the trace, nothing else. -/
theorem handleEventInterrupts_writes (st : updater_state_t) (slotId keyId : Nat) :
    ∃ c, handleEventInterrupts st slotId keyId = { st with calls := c } := by
  simp only [handleEventInterrupts, recordCall]
  split_ifs <;> exact ⟨_, rfl⟩

/-- The function `applyLayerHolds` writes the trace, nothing else. -/
theorem applyLayerHolds_writes (C : updater_config_t) (st : updater_state_t)
    (slotId keyId : Nat) (action : key_action_t) :
    ∃ c, applyLayerHolds C st slotId keyId action = { st with calls := c } := by
  simp only [applyLayerHolds, recordCall]
  cases action.switchLayer.mode <;> simp only <;> split_ifs <;> exact ⟨_, rfl⟩

/-- The function `applyKeystrokePrimary` writes neither the action cache nor a
key state. -/
theorem applyKeystrokePrimary_frame (C : updater_config_t) (st : updater_state_t)
    (slotId keyId : Nat) (action : key_action_t) :
    (applyKeystrokePrimary C st slotId keyId action).actionCache = st.actionCache ∧
    (applyKeystrokePrimary C st slotId keyId action).KeyStates = st.KeyStates := by
  simp only [applyKeystrokePrimary, activateStickyMods]
  split_ifs <;> first
    | exact ⟨rfl, rfl⟩
    | exact ⟨(appendScancode_frame C _ action).2.2.2.2.2.1,
        (appendScancode_frame C _ action).2.2.2.2.1⟩

/-- The function `applyKeystroke` writes neither the action cache nor a key
state. -/
theorem applyKeystroke_frame (E : foreign_t) (C : updater_config_t)
    (st : updater_state_t) (slotId keyId : Nat) (action actionBase : key_action_t) :
    (applyKeystroke E C st slotId keyId action actionBase).actionCache = st.actionCache ∧
    (applyKeystroke E C st slotId keyId action actionBase).KeyStates = st.KeyStates := by
  simp only [applyKeystroke]
  split_ifs
  · cases E.SecondaryRoles_ResolveState st slotId keyId <;> simp only <;> first
      | exact applyKeystrokePrimary_frame C st slotId keyId action
      | exact ⟨rfl, rfl⟩
      | (simp only [applyKeystrokeSecondary, recordCall]
         split_ifs <;> exact ⟨rfl, rfl⟩)
  · exact applyKeystrokePrimary_frame C st slotId keyId action

/-- The function `applyKeyAction` writes neither the action cache nor a key
state. -/
theorem applyKeyAction_frame (E : foreign_t) (C : updater_config_t)
    (st : updater_state_t) (slotId keyId : Nat) (action actionBase : key_action_t) :
    (applyKeyAction E C st slotId keyId action actionBase).actionCache = st.actionCache ∧
    (applyKeyAction E C st slotId keyId action actionBase).KeyStates = st.KeyStates := by
  simp only [applyKeyAction]
  cases action.type
  · exact ⟨rfl, rfl⟩
  · simp only
    split_ifs
    · exact applyKeystroke_frame E C st slotId keyId action actionBase
    · exact ⟨rfl, rfl⟩
  · simp only [activateDirectionSigns]
    split_ifs <;> first
      | exact ⟨rfl, rfl⟩
      | (cases action.mouseAction <;> exact ⟨rfl, rfl⟩)
  · simp only [applyToggleLayerAction, recordCall]
    cases action.switchLayer.mode <;> simp only <;> split_ifs <;> exact ⟨rfl, rfl⟩
  · simp only [recordCall]
    split_ifs <;> exact ⟨rfl, rfl⟩
  · simp only [recordCall]
    split_ifs <;> exact ⟨rfl, rfl⟩

/-- The function `preprocessKeyState` writes no key state but that of its key. -/
theorem preprocessKeyState_otherKeys (E : foreign_t) (C : updater_config_t)
    (st : updater_state_t) (slotId keyId a b : Nat) (h : ¬ (a = slotId ∧ b = keyId)) :
    (preprocessKeyState E C st slotId keyId).KeyStates a b = st.KeyStates a b := by
  simp only [preprocessKeyState, commitKeyState, setKeyState, recordCall]
  split_ifs <;> simp only [h, if_false]

/-- The function `applyLayerHolds` does not write the action cache. -/
theorem applyLayerHolds_actionCache (C : updater_config_t) (st : updater_state_t)
    (slotId keyId : Nat) (action : key_action_t) :
    (applyLayerHolds C st slotId keyId action).actionCache = st.actionCache := by
  obtain ⟨c, h⟩ := applyLayerHolds_writes C st slotId keyId action
  rw [h]

/-- The function `handleEventInterrupts` does not write the action cache. -/
theorem handleEventInterrupts_actionCache (st : updater_state_t) (slotId keyId : Nat) :
    (handleEventInterrupts st slotId keyId).actionCache = st.actionCache := by
  obtain ⟨c, h⟩ := handleEventInterrupts_writes st slotId keyId
  rw [h]

/-- The action cache after the loop body at a key: only the key's own entry can
change, and it does exactly when the key is ActivatedNow after
`preprocessKeyState`, to the action of the active layer. -/
theorem key_actionCache (E : foreign_t) (C : updater_config_t) (st : updater_state_t)
    (slotId keyId : Nat) :
    (updateActiveUsbReports_key E C st slotId keyId).actionCache
      = fun a b =>
          if (a = slotId ∧ b = keyId) ∧
              KeyState_ActivatedNow
                ((preprocessKeyState E C st slotId keyId).KeyStates slotId keyId) = true then
            st.CurrentKeymap st.ActiveLayer slotId keyId
          else st.actionCache a b := by
  obtain ⟨ks, c, h1⟩ := preprocessKeyState_writes E C st slotId keyId
  simp only [updateActiveUsbReports_key]
  rw [h1]
  simp only []
  by_cases hnz : KeyState_NonZero (ks slotId keyId) = true
  · rw [if_pos hnz]
    show (applyKeyAction E C _ slotId keyId _ _).actionCache = _
    rw [(applyKeyAction_frame E C _ slotId keyId _ _).1, applyLayerHolds_actionCache]
    by_cases hact : KeyState_ActivatedNow (ks slotId keyId) = true
    · rw [if_pos hact, handleEventInterrupts_actionCache]
      funext a b
      simp only [hact, and_true]
      split_ifs <;> rfl
    · rw [if_neg hact]
      funext a b
      simp [hact]
  · rw [if_neg hnz]
    have hact : KeyState_ActivatedNow (ks slotId keyId) = false := by
      simp only [KeyState_NonZero, Bool.or_eq_true, not_or, Bool.not_eq_true] at hnz
      simp [KeyState_ActivatedNow, hnz.1]
    funext a b
    simp [hact]

/-- The function `applyLayerHolds` writes no key state. -/
theorem applyLayerHolds_KeyStates (C : updater_config_t) (st : updater_state_t)
    (slotId keyId : Nat) (action : key_action_t) :
    (applyLayerHolds C st slotId keyId action).KeyStates = st.KeyStates := by
  obtain ⟨c, h⟩ := applyLayerHolds_writes C st slotId keyId action
  rw [h]

/-- The function `handleEventInterrupts` writes no key state. -/
theorem handleEventInterrupts_KeyStates (st : updater_state_t) (slotId keyId : Nat) :
    (handleEventInterrupts st slotId keyId).KeyStates = st.KeyStates := by
  obtain ⟨c, h⟩ := handleEventInterrupts_writes st slotId keyId
  rw [h]

/-- The loop body at a key writes no key state but that of its key. -/
theorem key_otherKeys (E : foreign_t) (C : updater_config_t) (st : updater_state_t)
    (slotId keyId a b : Nat) (h : ¬ (a = slotId ∧ b = keyId)) :
    (updateActiveUsbReports_key E C st slotId keyId).KeyStates a b = st.KeyStates a b := by
  have hp := preprocessKeyState_otherKeys E C st slotId keyId a b h
  obtain ⟨ks, c, h1⟩ := preprocessKeyState_writes E C st slotId keyId
  simp only [updateActiveUsbReports_key]
  rw [h1] at hp ⊢
  simp only [] at hp ⊢
  by_cases hnz : KeyState_NonZero (ks slotId keyId) = true
  · rw [if_pos hnz, setKeyState_other _ slotId keyId a b _ h,
      (applyKeyAction_frame E C _ slotId keyId _ _).2, applyLayerHolds_KeyStates]
    by_cases hact : KeyState_ActivatedNow (ks slotId keyId) = true
    · rw [if_pos hact, handleEventInterrupts_KeyStates]
      simp only []
      split_ifs <;> exact hp
    · rw [if_neg hact]
      exact hp
  · rw [if_neg hnz]
    exact hp

/-- The function `preprocessKeyState` leaves `previous` of its key, the action
cache, the keymap and the active layer as they are. -/
theorem preprocessKeyState_reads (E : foreign_t) (C : updater_config_t) (st : updater_state_t)
    (slotId keyId : Nat) :
    ((preprocessKeyState E C st slotId keyId).KeyStates slotId keyId).previous
      = (st.KeyStates slotId keyId).previous ∧
    (preprocessKeyState E C st slotId keyId).actionCache = st.actionCache ∧
    (preprocessKeyState E C st slotId keyId).CurrentKeymap = st.CurrentKeymap ∧
    (preprocessKeyState E C st slotId keyId).ActiveLayer = st.ActiveLayer := by
  simp only [preprocessKeyState, commitKeyState, setKeyState, recordCall]
  split_ifs <;> simp

/-- The function `handleLayerChanges` writes neither the action cache nor a key
state. -/
theorem handleLayerChanges_frame (E : foreign_t) (st : updater_state_t) :
    (handleLayerChanges E st).actionCache = st.actionCache ∧
    (handleLayerChanges E st).KeyStates = st.KeyStates := by
  simp only [handleLayerChanges, recordCall]
  split_ifs <;> exact ⟨rfl, rfl⟩

/-- The function `handleUsbStackTestMode` writes neither the action cache nor a
key state. -/
theorem handleUsbStackTestMode_frame (C : updater_config_t) (st : updater_state_t) :
    (handleUsbStackTestMode C st).actionCache = st.actionCache ∧
    (handleUsbStackTestMode C st).KeyStates = st.KeyStates := by
  simp only [handleUsbStackTestMode]
  split_ifs <;> exact ⟨rfl, rfl⟩

/-- The start of a cycle does not write the action cache, and with the postponer
inactive it writes no key state. -/
theorem start_frame (E : foreign_t) (C : updater_config_t) (st : updater_state_t) :
    (updateActiveUsbReports_start E C st).actionCache = st.actionCache ∧
    ((∀ s, E.PostponerCore_IsActive s = false) →
      (updateActiveUsbReports_start E C st).KeyStates = st.KeyStates) := by
  constructor
  · simp only [updateActiveUsbReports_start]
    split_ifs
    · show (handleUsbStackTestMode C _).actionCache = _
      rw [(handleUsbStackTestMode_frame C _).1]
      show (handleLayerChanges E _).actionCache = _
      rw [(handleLayerChanges_frame E _).1]
    · rw [(handleUsbStackTestMode_frame C _).1]
      show (handleLayerChanges E _).actionCache = _
      rw [(handleLayerChanges_frame E _).1]
  · intro hpost
    simp only [updateActiveUsbReports_start, hpost, Bool.false_eq_true, if_false,
      (handleUsbStackTestMode_frame C _).2, recordCall, (handleLayerChanges_frame E _).2]

/-- The cache entry of a key whose `previous` is set at the start of a cycle is
not written in that cycle (postponer inactive). -/
theorem cycle_actionCache_held (E : foreign_t) (C : updater_config_t) (st : updater_state_t)
    (slotId keyId : Nat) (hpost : ∀ s, E.PostponerCore_IsActive s = false)
    (hprev : (st.KeyStates slotId keyId).previous = true) :
    (updateActiveUsbReports E C st).actionCache slotId keyId = st.actionCache slotId keyId := by
  by_cases hm : st.MacroPlaying = true
  · simp only [updateActiveUsbReports, hm, if_true, recordCall]
  · have hu : updateActiveUsbReports E C st
        = updateActiveUsbReports_finish C
            (updateActiveUsbReports_keys E C (updateActiveUsbReports_start E C st)) := by
      simp only [updateActiveUsbReports, hm]
      rfl
    rw [hu, (finish_facts C _).actionCache]
    have hother : ∀ (s : updater_state_t) (a b : Nat), ¬ (a = slotId ∧ b = keyId) →
        (updateActiveUsbReports_key E C s a b).actionCache slotId keyId
          = s.actionCache slotId keyId := by
      intro s a b hne
      rw [key_actionCache]
      have hne2 : ¬ (slotId = a ∧ keyId = b) := fun h => hne ⟨h.1.symm, h.2.symm⟩
      simp only [hne2, false_and, if_false]
    have hstart : ((updateActiveUsbReports_start E C st).KeyStates slotId keyId).previous = true ∧
        (updateActiveUsbReports_start E C st).actionCache slotId keyId
          = st.actionCache slotId keyId := by
      rw [(start_frame E C st).1, (start_frame E C st).2 hpost]
      exact ⟨hprev, rfl⟩
    by_cases hr : slotId < C.SLOT_COUNT ∧ keyId < C.MAX_KEY_COUNT_PER_MODULE
    · apply keys_single E C
        (fun s => (s.KeyStates slotId keyId).previous = true ∧
          s.actionCache slotId keyId = st.actionCache slotId keyId)
        (fun s => s.actionCache slotId keyId = st.actionCache slotId keyId)
        slotId keyId hr.1 hr.2 _ _ _ _ hstart
      · intro s a b hne hp
        have hne2 : ¬ (slotId = a ∧ keyId = b) := fun h => hne ⟨h.1.symm, h.2.symm⟩
        exact ⟨by rw [key_otherKeys E C s a b slotId keyId hne2]; exact hp.1,
          by rw [hother s a b hne]; exact hp.2⟩
      · intro s a b hne hq
        show (updateActiveUsbReports_key E C s a b).actionCache slotId keyId = _
        rw [hother s a b hne]
        exact hq
      · intro s hp
        show (updateActiveUsbReports_key E C s slotId keyId).actionCache slotId keyId = _
        rw [key_actionCache]
        have hnot : KeyState_ActivatedNow
            ((preprocessKeyState E C s slotId keyId).KeyStates slotId keyId) = false := by
          simp only [KeyState_ActivatedNow, (preprocessKeyState_reads E C s slotId keyId).1, hp.1,
            Bool.not_true, Bool.false_and]
        simp only [hnot, Bool.false_eq_true, and_false, if_false]
        exact hp.2
    · apply keys_invariant E C
        (fun s => s.actionCache slotId keyId = st.actionCache slotId keyId) _ _ hstart.2
      intro s a b ha hb hq
      show (updateActiveUsbReports_key E C s a b).actionCache slotId keyId = _
      rw [hother s a b (fun h => hr ⟨h.1 ▸ ha, h.2 ▸ hb⟩)]
      exact hq

/-- C15: the action cache in `updateActiveUsbReports`. The loop body at a key
writes no cache entry but that key's, and writes it exactly when the key is
ActivatedNow (after `preprocessKeyState`), to CurrentKeymap[ActiveLayer][slot][key]
as of that moment; the start and the finish of a cycle and the macro branch do
not write the cache. In a cycle in which the key is active or was active and is
not ActivatedNow, the action passed to `applyKeyAction` is the cached value,
whatever ActiveLayer and CurrentKeymap are, and the base action passed to
`applyLayerHolds` and `applyKeyAction` is CurrentKeymap[Base][slot][key] as it
is in that cycle; in the activation cycle the action passed is the one just
cached. With the postponer inactive, a whole cycle that starts with `previous`
set for the key (every cycle of a press after its activation cycle, the release
cycle included) leaves the key's cache entry as it is. -/
theorem C15_actionCache (E : foreign_t) (C : updater_config_t) (st : updater_state_t)
    (slotId keyId : Nat) :
    (∀ a b, ¬ (a = slotId ∧ b = keyId) →
      (updateActiveUsbReports_key E C st slotId keyId).actionCache a b = st.actionCache a b) ∧
    ((updateActiveUsbReports_key E C st slotId keyId).actionCache slotId keyId
      = if KeyState_ActivatedNow
            ((preprocessKeyState E C st slotId keyId).KeyStates slotId keyId) = true then
          st.CurrentKeymap st.ActiveLayer slotId keyId
        else st.actionCache slotId keyId) ∧
    (updateActiveUsbReports_start E C st).actionCache = st.actionCache ∧
    (updateActiveUsbReports_finish C st).actionCache = st.actionCache ∧
    (st.MacroPlaying = true → (updateActiveUsbReports E C st).actionCache = st.actionCache) ∧
    (KeyState_NonZero ((preprocessKeyState E C st slotId keyId).KeyStates slotId keyId) = true →
      KeyState_ActivatedNow
        ((preprocessKeyState E C st slotId keyId).KeyStates slotId keyId) = false →
      updateActiveUsbReports_key E C st slotId keyId
        = (fun st4 : updater_state_t =>
            setKeyState st4 slotId keyId
              { st4.KeyStates slotId keyId with
                previous := (st4.KeyStates slotId keyId).current })
          (applyKeyAction E C
            (applyLayerHolds C (preprocessKeyState E C st slotId keyId) slotId keyId
              (st.CurrentKeymap LayerId_Base slotId keyId))
            slotId keyId (st.actionCache slotId keyId)
            (st.CurrentKeymap LayerId_Base slotId keyId))) ∧
    (KeyState_ActivatedNow
        ((preprocessKeyState E C st slotId keyId).KeyStates slotId keyId) = true →
      ∃ st2 : updater_state_t, st2.CurrentKeymap = st.CurrentKeymap ∧
        st2.actionCache slotId keyId = st.CurrentKeymap st.ActiveLayer slotId keyId ∧
        updateActiveUsbReports_key E C st slotId keyId
          = (fun st4 : updater_state_t =>
              setKeyState st4 slotId keyId
                { st4.KeyStates slotId keyId with
                  previous := (st4.KeyStates slotId keyId).current })
            (applyKeyAction E C
              (applyLayerHolds C st2 slotId keyId (st.CurrentKeymap LayerId_Base slotId keyId))
              slotId keyId (st.CurrentKeymap st.ActiveLayer slotId keyId)
              (st.CurrentKeymap LayerId_Base slotId keyId))) ∧
    (KeyState_NonZero ((preprocessKeyState E C st slotId keyId).KeyStates slotId keyId) = false →
      updateActiveUsbReports_key E C st slotId keyId = preprocessKeyState E C st slotId keyId) ∧
    ((∀ s, E.PostponerCore_IsActive s = false) →
      (st.KeyStates slotId keyId).previous = true →
      (updateActiveUsbReports E C st).actionCache slotId keyId
        = st.actionCache slotId keyId) := by
  obtain ⟨-, r2, r3, r4⟩ := preprocessKeyState_reads E C st slotId keyId
  refine ⟨?_, ?_, (start_frame E C st).1, (finish_facts C st).actionCache, ?_, ?_, ?_, ?_,
    cycle_actionCache_held E C st slotId keyId⟩
  · intro a b hne
    rw [key_actionCache]
    simp only [hne, false_and, if_false]
  · rw [key_actionCache]
    simp only [true_and, and_self]
  · intro hm
    simp only [updateActiveUsbReports, hm, if_true, recordCall]
  · intro hnz hact
    simp only [updateActiveUsbReports_key, hnz, hact, if_true, Bool.false_eq_true, if_false,
      r2, r3]
  · intro hact
    have hnz : KeyState_NonZero
        ((preprocessKeyState E C st slotId keyId).KeyStates slotId keyId) = true := by
      simp only [KeyState_ActivatedNow, Bool.and_eq_true] at hact
      simp [KeyState_NonZero, hact.2]
    simp only [updateActiveUsbReports_key]
    generalize preprocessKeyState E C st slotId keyId = st1 at *
    have hw : ∃ c, (if st1.SleepModeActive = true then recordCall st1 WakeUpHost else st1)
        = { st1 with calls := c } := by
      simp only [recordCall]
      split_ifs <;> exact ⟨_, rfl⟩
    obtain ⟨cw, hw⟩ := hw
    obtain ⟨ch, hh⟩ := handleEventInterrupts_writes
      { st1 with
        calls := cw
        actionCache := fun a b =>
          if a = slotId ∧ b = keyId then st1.CurrentKeymap st1.ActiveLayer slotId keyId
          else st1.actionCache a b }
      slotId keyId
    refine ⟨handleEventInterrupts
      { st1 with
        calls := cw
        actionCache := fun a b =>
          if a = slotId ∧ b = keyId then st1.CurrentKeymap st1.ActiveLayer slotId keyId
          else st1.actionCache a b }
      slotId keyId, ?_, ?_, ?_⟩
    · rw [hh]
      exact r3
    · rw [hh]
      simp only [and_self, if_true, r3, r4]
    · rw [if_pos hnz, if_pos hact, hw]
      simp only []
      rw [hh]
      simp only [and_self, if_true, r3, r4]
  · intro hnz
    simp only [updateActiveUsbReports_key, hnz, Bool.false_eq_true, if_false]

/-! ### One keystroke key in the key loop -/

/-- A keystroke without secondary role on a key that is active or was active goes
to `applyKeystrokePrimary`. -/
theorem applyKeyAction_keystroke (E : foreign_t) (C : updater_config_t) (st : updater_state_t)
    (slotId keyId : Nat) (action actionBase : key_action_t)
    (htype : action.type = KeyActionType_Keystroke)
    (hrole : action.keystroke.secondaryRole = 0)
    (hnz : KeyState_NonZero (st.KeyStates slotId keyId) = true) :
    applyKeyAction E C st slotId keyId action actionBase
      = applyKeystrokePrimary C st slotId keyId action := by
  simp only [applyKeyAction, htype, hnz, if_true, applyKeystroke, hrole, ne_eq,
    not_true_eq_false, if_false]

/-- The loop body at a keystroke key without secondary role that stays active
or is released: `preprocessKeyState`, then (with some calls recorded in
between) `applyKeystrokePrimary` with the cached action, then the copy of
`current` into `previous`. -/
theorem key_keystroke_continued (E : foreign_t) (C : updater_config_t) (st : updater_state_t)
    (slotId keyId : Nat)
    (hnz : KeyState_NonZero
      ((preprocessKeyState E C st slotId keyId).KeyStates slotId keyId) = true)
    (hact : KeyState_ActivatedNow
      ((preprocessKeyState E C st slotId keyId).KeyStates slotId keyId) = false)
    (htype : (st.actionCache slotId keyId).type = KeyActionType_Keystroke)
    (hrole : (st.actionCache slotId keyId).keystroke.secondaryRole = 0) :
    ∃ c, updateActiveUsbReports_key E C st slotId keyId
      = (fun st4 : updater_state_t =>
          setKeyState st4 slotId keyId
            { st4.KeyStates slotId keyId with
              previous := (st4.KeyStates slotId keyId).current })
        (applyKeystrokePrimary C { preprocessKeyState E C st slotId keyId with calls := c }
          slotId keyId (st.actionCache slotId keyId)) := by
  obtain ⟨ks, c1, h1⟩ := preprocessKeyState_writes E C st slotId keyId
  simp only [updateActiveUsbReports_key]
  rw [h1] at hnz hact ⊢
  simp only [] at hnz hact ⊢
  rw [if_pos hnz, if_neg (by rw [hact]; simp)]
  obtain ⟨c2, h2⟩ := applyLayerHolds_writes C { st with KeyStates := ks, calls := c1 }
    slotId keyId (st.CurrentKeymap LayerId_Base slotId keyId)
  have hk := applyKeyAction_keystroke E C { st with KeyStates := ks, calls := c2 } slotId keyId
    (st.actionCache slotId keyId) (st.CurrentKeymap LayerId_Base slotId keyId) htype hrole hnz
  rw [h2, hk]
  refine ⟨c2, ?_⟩
  rfl

/-- The loop body at a keystroke key without secondary role in its activation
cycle: `preprocessKeyState`, then (with some calls recorded in between) the
write of the cache entry, then `applyKeystrokePrimary` with the action of the
active layer, then the copy of `current` into `previous`. -/
theorem key_keystroke_activated (E : foreign_t) (C : updater_config_t) (st : updater_state_t)
    (slotId keyId : Nat)
    (hact : KeyState_ActivatedNow
      ((preprocessKeyState E C st slotId keyId).KeyStates slotId keyId) = true)
    (htype : (st.CurrentKeymap st.ActiveLayer slotId keyId).type = KeyActionType_Keystroke)
    (hrole : (st.CurrentKeymap st.ActiveLayer slotId keyId).keystroke.secondaryRole = 0) :
    ∃ c, updateActiveUsbReports_key E C st slotId keyId
      = (fun st4 : updater_state_t =>
          setKeyState st4 slotId keyId
            { st4.KeyStates slotId keyId with
              previous := (st4.KeyStates slotId keyId).current })
        (applyKeystrokePrimary C
          { preprocessKeyState E C st slotId keyId with
            calls := c
            actionCache := fun a b =>
              if a = slotId ∧ b = keyId then st.CurrentKeymap st.ActiveLayer slotId keyId
              else st.actionCache a b }
          slotId keyId (st.CurrentKeymap st.ActiveLayer slotId keyId)) := by
  obtain ⟨ks, c1, h1⟩ := preprocessKeyState_writes E C st slotId keyId
  simp only [updateActiveUsbReports_key]
  rw [h1] at hact ⊢
  simp only [] at hact ⊢
  have hnz : KeyState_NonZero (ks slotId keyId) = true := by
    simp only [KeyState_ActivatedNow, Bool.and_eq_true] at hact
    simp [KeyState_NonZero, hact.2]
  have hw : ∃ c, (if st.SleepModeActive = true then
        recordCall { st with KeyStates := ks, calls := c1 } WakeUpHost
      else { st with KeyStates := ks, calls := c1 })
      = { st with KeyStates := ks, calls := c } := by
    simp only [recordCall]
    split_ifs <;> exact ⟨_, rfl⟩
  obtain ⟨cw, hw⟩ := hw
  obtain ⟨ch, hh⟩ := handleEventInterrupts_writes
    { st with
      KeyStates := ks
      calls := cw
      actionCache := fun a b =>
        if a = slotId ∧ b = keyId then st.CurrentKeymap st.ActiveLayer slotId keyId
        else st.actionCache a b }
    slotId keyId
  rw [if_pos hnz, if_pos hact, hw]
  simp only []
  rw [hh]
  simp only [and_self, if_true]
  obtain ⟨c2, h2⟩ := applyLayerHolds_writes C
    { st with
      KeyStates := ks
      calls := ch
      actionCache := fun a b =>
        if a = slotId ∧ b = keyId then st.CurrentKeymap st.ActiveLayer slotId keyId
        else st.actionCache a b }
    slotId keyId (st.CurrentKeymap LayerId_Base slotId keyId)
  have hk := applyKeyAction_keystroke E C
    { st with
      KeyStates := ks
      calls := c2
      actionCache := fun a b =>
        if a = slotId ∧ b = keyId then st.CurrentKeymap st.ActiveLayer slotId keyId
        else st.actionCache a b }
    slotId keyId (st.CurrentKeymap st.ActiveLayer slotId keyId)
    (st.CurrentKeymap LayerId_Base slotId keyId) htype hrole hnz
  rw [h2, hk]
  refine ⟨c2, ?_⟩
  rfl

/-- The view of a key is not changed by a write to another key's state. -/
theorem keyView_setKeyState_other (st : updater_state_t) (slotId keyId a b : Nat)
    (s : key_state_t) (h : ¬ (slotId = a ∧ keyId = b)) :
    keyView (setKeyState st a b s) slotId keyId = keyView st slotId keyId := by
  simp only [keyView, setKeyState, h, if_false]

/-- A keystroke key without secondary role that is held (active in the previous
cycle and now, no edge pending) with a basic scancode and a free slot: the loop
body appends the scancode and runs the debounce gate of the key. -/
theorem key_held_view (E : foreign_t) (C : updater_config_t) (st : updater_state_t)
    (slotId keyId : Nat)
    (hcur : (st.KeyStates slotId keyId).current = true)
    (hprev : (st.KeyStates slotId keyId).previous = true)
    (hdeb : (st.KeyStates slotId keyId).debouncedSwitchState
      = (st.KeyStates slotId keyId).hardwareSwitchState)
    (htype : (st.actionCache slotId keyId).type = KeyActionType_Keystroke)
    (hrole : (st.actionCache slotId keyId).keystroke.secondaryRole = 0)
    (hbasic : (st.actionCache slotId keyId).keystroke.keystrokeType = KeystrokeType_Basic)
    (hsc : (st.actionCache slotId keyId).keystroke.scancode ≠ 0)
    (hfree : st.basicScancodeIndex < USB_BASIC_KEYBOARD_MAX_KEYS) :
    keyView (updateActiveUsbReports_key E C st slotId keyId) slotId keyId
      = { keyView st slotId keyId with
          report :=
            { st.ActiveUsbBasicKeyboardReport with
              scancodes := st.ActiveUsbBasicKeyboardReport.scancodes.set st.basicScancodeIndex
                ((st.actionCache slotId keyId).keystroke.scancode % 256) }
          basicScancodeIndex := st.basicScancodeIndex + 1
          key :=
            { st.KeyStates slotId keyId with
              debouncing :=
                debouncingAfterGate C st.CurrentTime (st.KeyStates slotId keyId) } } := by
  have hpre := preprocessKeyState_noEdge E C st slotId keyId (by
    rintro ⟨-, hne⟩
    exact hne hdeb)
  have hnz : KeyState_NonZero
      ((preprocessKeyState E C st slotId keyId).KeyStates slotId keyId) = true := by
    rw [hpre, setKeyState_same]
    simp [KeyState_NonZero, hcur]
  have hact : KeyState_ActivatedNow
      ((preprocessKeyState E C st slotId keyId).KeyStates slotId keyId) = false := by
    rw [hpre, setKeyState_same]
    simp [KeyState_ActivatedNow, hprev]
  obtain ⟨c, hbody⟩ := key_keystroke_continued E C st slotId keyId hnz hact htype hrole
  rw [hbody, hpre]
  simp [keyView, setKeyState, applyKeystrokePrimary, KeyState_Active, KeyState_ActivatedNow,
    KeyState_ActivatedEarlier, stickyModifiersChanged, appendScancode, hcur, hprev, hsc, hbasic,
    Nat.not_le.mpr hfree]

/-- A keystroke key without secondary role whose release is committed in this
cycle (held so far, switch open, debounce window over, postponer inactive): the
loop body ORs the sticky modifiers into the basic report and clears them when
the key owns them and they are not to stick, and otherwise writes nothing but
the key state. -/
theorem key_release_view (E : foreign_t) (C : updater_config_t) (st : updater_state_t)
    (slotId keyId : Nat) (hpost : ∀ s, E.PostponerCore_IsActive s = false)
    (hcur : (st.KeyStates slotId keyId).current = true)
    (hprev : (st.KeyStates slotId keyId).previous = true)
    (hdeb : (st.KeyStates slotId keyId).debouncedSwitchState = true)
    (hhw : (st.KeyStates slotId keyId).hardwareSwitchState = false)
    (hgate : debouncingAfterGate C st.CurrentTime (st.KeyStates slotId keyId) = false)
    (htype : (st.actionCache slotId keyId).type = KeyActionType_Keystroke)
    (hrole : (st.actionCache slotId keyId).keystroke.secondaryRole = 0) :
    keyView (updateActiveUsbReports_key E C st slotId keyId) slotId keyId
      = { keyView st slotId keyId with
          report :=
            if st.stickyModifierKey = some (slotId, keyId) ∧
                st.stickyModifierShouldStick = false then
              { st.ActiveUsbBasicKeyboardReport with
                modifiers := st.ActiveUsbBasicKeyboardReport.modifiers ||| st.stickyModifiers }
            else st.ActiveUsbBasicKeyboardReport
          stickyModifiers :=
            if st.stickyModifierKey = some (slotId, keyId) ∧
                st.stickyModifierShouldStick = false then 0
            else st.stickyModifiers
          key :=
            { hardwareSwitchState := false, debouncedSwitchState := false, debouncing := true,
              timestamp := st.CurrentTime, current := false, previous := false } } := by
  have hpre := preprocessKeyState_edge E C st slotId keyId ⟨hgate, by rw [hdeb, hhw]; simp⟩
  rw [(commitKeyState_effect E _ slotId keyId _).1 (hpost _), setKeyState_same] at hpre
  have hnz : KeyState_NonZero
      ((preprocessKeyState E C st slotId keyId).KeyStates slotId keyId) = true := by
    rw [hpre, setKeyState_same]
    simp [KeyState_NonZero, hprev]
  have hact : KeyState_ActivatedNow
      ((preprocessKeyState E C st slotId keyId).KeyStates slotId keyId) = false := by
    rw [hpre, setKeyState_same]
    simp [KeyState_ActivatedNow, hprev]
  obtain ⟨c, hbody⟩ := key_keystroke_continued E C st slotId keyId hnz hact htype hrole
  rw [hbody, hpre]
  by_cases hown : st.stickyModifierKey = some (slotId, keyId) ∧
      st.stickyModifierShouldStick = false
  · simp [keyView, setKeyState, applyKeystrokePrimary, KeyState_Active, KeyState_DeactivatedNow,
      hcur, hprev, hhw, hown.1, hown.2]
  · simp only [not_and, Bool.not_eq_false] at hown
    by_cases hk : st.stickyModifierKey = some (slotId, keyId)
    · simp [keyView, setKeyState, applyKeystrokePrimary, KeyState_Active,
        KeyState_DeactivatedNow, hcur, hprev, hhw, hk, hown hk]
    · simp [keyView, setKeyState, applyKeystrokePrimary, KeyState_Active,
        KeyState_DeactivatedNow, hcur, hprev, hhw, hk]

/-- A keystroke key without secondary role whose press is committed in this
cycle (at rest so far, switch closed, debounce window over, postponer
inactive), with a scancode and modifiers other than the sticky modifiers: the
loop body caches the action of the active layer, activates the sticky modifiers
and appends no scancode. -/
theorem key_activation_view (E : foreign_t) (C : updater_config_t) (st : updater_state_t)
    (slotId keyId : Nat) (hpost : ∀ s, E.PostponerCore_IsActive s = false)
    (hcur : (st.KeyStates slotId keyId).current = false)
    (hprev : (st.KeyStates slotId keyId).previous = false)
    (hdeb : (st.KeyStates slotId keyId).debouncedSwitchState = false)
    (hhw : (st.KeyStates slotId keyId).hardwareSwitchState = true)
    (hgate : debouncingAfterGate C st.CurrentTime (st.KeyStates slotId keyId) = false)
    (htype : (st.CurrentKeymap st.ActiveLayer slotId keyId).type = KeyActionType_Keystroke)
    (hrole : (st.CurrentKeymap st.ActiveLayer slotId keyId).keystroke.secondaryRole = 0)
    (hsc : (st.CurrentKeymap st.ActiveLayer slotId keyId).keystroke.scancode ≠ 0)
    (hmod : (st.CurrentKeymap st.ActiveLayer slotId keyId).keystroke.modifiers
      ≠ st.stickyModifiers) :
    keyView (updateActiveUsbReports_key E C st slotId keyId) slotId keyId
      = { keyView st slotId keyId with
          stickyModifiers := (st.CurrentKeymap st.ActiveLayer slotId keyId).keystroke.modifiers
          stickyModifierKey := some (slotId, keyId)
          stickyModifierShouldStick :=
            st.ActiveLayerHeld && isStickyShortcut (st.CurrentKeymap st.ActiveLayer slotId keyId)
          cached := st.CurrentKeymap st.ActiveLayer slotId keyId
          key :=
            { hardwareSwitchState := true, debouncedSwitchState := true, debouncing := true,
              timestamp := st.CurrentTime, current := true, previous := true } } := by
  have hpre := preprocessKeyState_edge E C st slotId keyId ⟨hgate, by rw [hdeb, hhw]; simp⟩
  rw [(commitKeyState_effect E _ slotId keyId _).1 (hpost _), setKeyState_same] at hpre
  have hact : KeyState_ActivatedNow
      ((preprocessKeyState E C st slotId keyId).KeyStates slotId keyId) = true := by
    rw [hpre, setKeyState_same]
    simp [KeyState_ActivatedNow, hprev, hhw]
  obtain ⟨c, hbody⟩ := key_keystroke_activated E C st slotId keyId hact htype hrole
  rw [hbody, hpre]
  simp [keyView, setKeyState, applyKeystrokePrimary, KeyState_Active, KeyState_ActivatedNow,
    KeyState_ActivatedEarlier, stickyModifiersChanged, activateStickyMods, shouldStickAction,
    hcur, hprev, hhw, hsc, hmod]

/-- The key loop with every key but `(slotId, keyId)` at rest: what the loop body
does to the view of that key is what the loop does to it, and the other keys
stay at rest. -/
theorem keys_view (E : foreign_t) (C : updater_config_t) (slotId keyId : Nat)
    (hs : slotId < C.SLOT_COUNT) (hk : keyId < C.MAX_KEY_COUNT_PER_MODULE)
    (v w : key_view_t)
    (hbody : ∀ s, keyView s slotId keyId = v →
      keyView (updateActiveUsbReports_key E C s slotId keyId) slotId keyId = w)
    (st : updater_state_t) (hv : keyView st slotId keyId = v)
    (hrest : othersAtRest st slotId keyId) :
    keyView (updateActiveUsbReports_keys E C st) slotId keyId = w ∧
    othersAtRest (updateActiveUsbReports_keys E C st) slotId keyId := by
  have hother : ∀ (u : key_view_t) (s : updater_state_t) (a b : Nat),
      ¬ (a = slotId ∧ b = keyId) →
      keyView s slotId keyId = u ∧ othersAtRest s slotId keyId →
      keyView (updateActiveUsbReports_key E C s a b) slotId keyId = u ∧
        othersAtRest (updateActiveUsbReports_key E C s a b) slotId keyId := by
    intro u s a b hne hp
    have hne2 : ¬ (slotId = a ∧ keyId = b) := fun h => hne ⟨h.1.symm, h.2.symm⟩
    refine ⟨?_, ?_⟩
    · rw [key_atRest E C s a b (hp.2 a b hne), keyView_setKeyState_other _ _ _ _ _ _ hne2]
      exact hp.1
    · intro a' b' hne'
      exact (key_atRest_keys E C s a b (hp.2 a b hne) a' b').1 (hp.2 a' b' hne')
  apply keys_single E C
    (fun s => keyView s slotId keyId = v ∧ othersAtRest s slotId keyId)
    (fun s => keyView s slotId keyId = w ∧ othersAtRest s slotId keyId)
    slotId keyId hs hk (hother v) (hother w) _ st ⟨hv, hrest⟩
  intro s hp
  refine ⟨hbody s hp.1, ?_⟩
  intro a b hne
  rw [key_otherKeys E C s slotId keyId a b hne]
  exact hp.2 a b hne

/-- The view of a key at the start of the key loop. -/
theorem start_view (E : foreign_t) (C : updater_config_t) (st : updater_state_t)
    (slotId keyId : Nat) (htest : st.TestUsbStack = false)
    (hpost : ∀ s, E.PostponerCore_IsActive s = false) :
    keyView (updateActiveUsbReports_start E C st) slotId keyId
      = cycleStartView E st slotId keyId := by
  have h := start_facts E C st htest hpost
  simp only [keyView, cycleStartView, h.basic, h.basicIndex, h.stickyModifiers,
    h.stickyModifierKey, h.stickyModifierShouldStick, h.actionCache, h.KeyStates,
    h.CurrentKeymap, h.ActiveLayer, h.ActiveLayerHeld, h.CurrentTime, h.previousLayer]

/-- A cycle of `updateActiveUsbReports` with every key but `(slotId, keyId)` at
rest, no macro playing, test mode off and the postponer inactive: when the loop
body takes the view of the key from its value at the start of the loop to `w`,
the cycle leaves the basic report of `w` with the sticky modifiers of `w` OR-ed
in, and the other variables of `w`. -/
theorem cycle_view (E : foreign_t) (C : updater_config_t) (st : updater_state_t)
    (slotId keyId : Nat) (hs : slotId < C.SLOT_COUNT)
    (hk : keyId < C.MAX_KEY_COUNT_PER_MODULE)
    (hmac : st.MacroPlaying = false) (htest : st.TestUsbStack = false)
    (hpost : ∀ s, E.PostponerCore_IsActive s = false)
    (hrest : othersAtRest st slotId keyId)
    (w : key_view_t)
    (hbody : ∀ s, keyView s slotId keyId = cycleStartView E st slotId keyId →
      keyView (updateActiveUsbReports_key E C s slotId keyId) slotId keyId = w) :
    (updateActiveUsbReports E C st).ActiveUsbBasicKeyboardReport
      = { w.report with modifiers := w.report.modifiers ||| w.stickyModifiers } ∧
    (updateActiveUsbReports E C st).stickyModifiers = w.stickyModifiers ∧
    (updateActiveUsbReports E C st).stickyModifierKey = w.stickyModifierKey ∧
    (updateActiveUsbReports E C st).stickyModifierShouldStick = w.stickyModifierShouldStick ∧
    (updateActiveUsbReports E C st).actionCache slotId keyId = w.cached ∧
    (updateActiveUsbReports E C st).KeyStates slotId keyId = w.key ∧
    (updateActiveUsbReports E C st).previousLayer = w.previousLayer ∧
    othersAtRest (updateActiveUsbReports E C st) slotId keyId := by
  have hS := start_facts E C st htest hpost
  have hK := keys_view E C slotId keyId hs hk (cycleStartView E st slotId keyId) w hbody
    (updateActiveUsbReports_start E C st) (start_view E C st slotId keyId htest hpost) (by
      intro a b hne
      rw [hS.KeyStates]
      exact hrest a b hne)
  have hF := finish_facts C
    (updateActiveUsbReports_keys E C (updateActiveUsbReports_start E C st))
  have hu : updateActiveUsbReports E C st
      = updateActiveUsbReports_finish C
          (updateActiveUsbReports_keys E C (updateActiveUsbReports_start E C st)) := by
    simp only [updateActiveUsbReports, hmac]
    rfl
  rw [hu]
  generalize updateActiveUsbReports_start E C st = s1 at *
  generalize updateActiveUsbReports_keys E C s1 = sK at *
  generalize updateActiveUsbReports_finish C sK = sF at *
  obtain ⟨hK1, hK2⟩ := hK
  have k1 : sK.ActiveUsbBasicKeyboardReport = w.report := by
    have e := congrArg key_view_t.report hK1
    exact e
  have k2 : sK.stickyModifiers = w.stickyModifiers := by
    have e := congrArg key_view_t.stickyModifiers hK1
    exact e
  have k3 : sK.stickyModifierKey = w.stickyModifierKey := by
    have e := congrArg key_view_t.stickyModifierKey hK1
    exact e
  have k4 : sK.stickyModifierShouldStick = w.stickyModifierShouldStick := by
    have e := congrArg key_view_t.stickyModifierShouldStick hK1
    exact e
  have k5 : sK.actionCache slotId keyId = w.cached := by
    have e := congrArg key_view_t.cached hK1
    exact e
  have k6 : sK.KeyStates slotId keyId = w.key := by
    have e := congrArg key_view_t.key hK1
    exact e
  have k7 : sK.previousLayer = w.previousLayer := by
    have e := congrArg key_view_t.previousLayer hK1
    exact e
  refine ⟨?_, ?_, ?_, ?_, ?_, ?_, ?_, ?_⟩
  · rw [hF.basic, k1, k2]
  · rw [hF.stickyModifiers, k2]
  · rw [hF.stickyModifierKey, k3]
  · rw [hF.stickyModifierShouldStick, k4]
  · rw [hF.actionCache, k5]
  · rw [hF.KeyStates, k6]
  · rw [hF.previousLayer, k7]
  · intro a b hne
    rw [hF.KeyStates]
    exact hK2 a b hne

/-- The variables of a state whose view of a key is `v`. -/
theorem keyView_fields (st : updater_state_t) (slotId keyId : Nat) (v : key_view_t)
    (h : keyView st slotId keyId = v) :
    st.ActiveUsbBasicKeyboardReport = v.report ∧
    st.basicScancodeIndex = v.basicScancodeIndex ∧
    st.stickyModifiers = v.stickyModifiers ∧
    st.stickyModifierKey = v.stickyModifierKey ∧
    st.stickyModifierShouldStick = v.stickyModifierShouldStick ∧
    st.actionCache slotId keyId = v.cached ∧
    st.KeyStates slotId keyId = v.key ∧
    st.CurrentKeymap st.ActiveLayer slotId keyId = v.mapped ∧
    st.ActiveLayerHeld = v.ActiveLayerHeld ∧
    st.CurrentTime = v.CurrentTime ∧
    st.previousLayer = v.previousLayer := by
  subst h
  exact ⟨rfl, rfl, rfl, rfl, rfl, rfl, rfl, rfl, rfl, rfl, rfl⟩

/-- The release branch of `applyKeystrokePrimary`: for a key that is
DeactivatedNow, the sticky modifiers are OR-ed into the basic report and
cleared when the key owns them and they are not to stick; otherwise the state
is as before. -/
theorem applyKeystrokePrimary_release (C : updater_config_t) (st : updater_state_t)
    (slotId keyId : Nat) (action : key_action_t)
    (hrel : KeyState_DeactivatedNow (st.KeyStates slotId keyId) = true) :
    (st.stickyModifierKey = some (slotId, keyId) ∧ st.stickyModifierShouldStick = false →
      applyKeystrokePrimary C st slotId keyId action
        = { st with
            ActiveUsbBasicKeyboardReport :=
              { st.ActiveUsbBasicKeyboardReport with
                modifiers := st.ActiveUsbBasicKeyboardReport.modifiers ||| st.stickyModifiers }
            stickyModifiers := 0 }) ∧
    (¬ (st.stickyModifierKey = some (slotId, keyId) ∧ st.stickyModifierShouldStick = false) →
      applyKeystrokePrimary C st slotId keyId action = st) := by
  have hcur : KeyState_Active (st.KeyStates slotId keyId) = false := by
    simp only [KeyState_DeactivatedNow, Bool.and_eq_true, Bool.not_eq_true'] at hrel
    simp [KeyState_Active, hrel.2]
  constructor
  · intro h
    simp only [applyKeystrokePrimary, hcur, Bool.false_eq_true, if_false, hrel, if_true, h,
      and_self]
  · intro h
    simp only [applyKeystrokePrimary, hcur, Bool.false_eq_true, if_false, hrel, if_true, h]

/-- C19: sticky modifiers after release. In a cycle of `updateActiveUsbReports`
in which the release of a primary keystroke key is committed (no other key
active, the active layer unchanged, the basic report reset before the cycle):
when the key owns the sticky modifiers and `stickyModifierShouldStick` is false,
the basic report of the cycle has the sticky modifiers as its modifiers and no
scancode, `stickyModifiers` is 0 afterwards, every key is at rest, and the basic
report of a next cycle with every key at rest is all-zero; when
`stickyModifierShouldStick` is true, or the key does not own the sticky
modifiers, `stickyModifiers` is as before and the report is the one of a cycle
without the release (the sticky modifiers, no scancode). At the level of
`applyKeystrokePrimary`, the release of a key ORs the sticky modifiers into the
report and clears them in the first case and changes nothing in the second. -/
theorem C19_stickyRelease (E : foreign_t) (C : updater_config_t) (st : updater_state_t)
    (slotId keyId : Nat) (hs : slotId < C.SLOT_COUNT)
    (hk : keyId < C.MAX_KEY_COUNT_PER_MODULE)
    (hmac : st.MacroPlaying = false) (htest : st.TestUsbStack = false)
    (hpost : ∀ s, E.PostponerCore_IsActive s = false)
    (hrest : othersAtRest st slotId keyId)
    (hcur : (st.KeyStates slotId keyId).current = true)
    (hprev : (st.KeyStates slotId keyId).previous = true)
    (hdeb : (st.KeyStates slotId keyId).debouncedSwitchState = true)
    (hhw : (st.KeyStates slotId keyId).hardwareSwitchState = false)
    (hgate : debouncingAfterGate C st.CurrentTime (st.KeyStates slotId keyId) = false)
    (htype : (st.actionCache slotId keyId).type = KeyActionType_Keystroke)
    (hrole : (st.actionCache slotId keyId).keystroke.secondaryRole = 0)
    (hlayer : (E.LayerSwitcher_UpdateActiveLayer (layerQueryState st)).1 = st.previousLayer)
    (hzero : st.ActiveUsbBasicKeyboardReport = zeroBasicKeyboardReport) :
    (st.stickyModifierKey = some (slotId, keyId) ∧ st.stickyModifierShouldStick = false →
      (updateActiveUsbReports E C st).ActiveUsbBasicKeyboardReport
        = { zeroBasicKeyboardReport with modifiers := st.stickyModifiers } ∧
      (updateActiveUsbReports E C st).stickyModifiers = 0 ∧
      (∀ a b, keyAtRest ((updateActiveUsbReports E C st).KeyStates a b)) ∧
      ∀ stN : updater_state_t, stN.MacroPlaying = false → stN.TestUsbStack = false →
        (∀ a b, keyAtRest (stN.KeyStates a b)) →
        stN.stickyModifiers = (updateActiveUsbReports E C st).stickyModifiers →
        stN.ActiveUsbBasicKeyboardReport = zeroBasicKeyboardReport →
        (updateActiveUsbReports E C stN).ActiveUsbBasicKeyboardReport
          = zeroBasicKeyboardReport) ∧
    (¬ (st.stickyModifierKey = some (slotId, keyId) ∧ st.stickyModifierShouldStick = false) →
      (updateActiveUsbReports E C st).ActiveUsbBasicKeyboardReport
        = { zeroBasicKeyboardReport with modifiers := st.stickyModifiers } ∧
      (updateActiveUsbReports E C st).stickyModifiers = st.stickyModifiers) ∧
    (∀ (s : updater_state_t) (action : key_action_t),
      KeyState_DeactivatedNow (s.KeyStates slotId keyId) = true →
      (s.stickyModifierKey = some (slotId, keyId) ∧ s.stickyModifierShouldStick = false →
        applyKeystrokePrimary C s slotId keyId action
          = { s with
              ActiveUsbBasicKeyboardReport :=
                { s.ActiveUsbBasicKeyboardReport with
                  modifiers := s.ActiveUsbBasicKeyboardReport.modifiers ||| s.stickyModifiers }
              stickyModifiers := 0 }) ∧
      (¬ (s.stickyModifierKey = some (slotId, keyId) ∧ s.stickyModifierShouldStick = false) →
        applyKeystrokePrimary C s slotId keyId action = s)) := by
  have hc := cycle_view E C st slotId keyId hs hk hmac htest hpost hrest _ (by
    intro s hv
    obtain ⟨f1, f2, f3, f4, f5, f6, f7, f8, f9, f10, f11⟩ :=
      keyView_fields s slotId keyId _ hv
    have e1 : s.KeyStates slotId keyId = st.KeyStates slotId keyId := f7
    have e2 : s.actionCache slotId keyId = st.actionCache slotId keyId := f6
    have e3 : s.CurrentTime = st.CurrentTime := f10
    rw [key_release_view E C s slotId keyId hpost (by rw [e1]; exact hcur)
      (by rw [e1]; exact hprev) (by rw [e1]; exact hdeb) (by rw [e1]; exact hhw)
      (by rw [e1, e3]; exact hgate) (by rw [e2]; exact htype) (by rw [e2]; exact hrole), hv,
      f1, f3, f4, f5, f10])
  obtain ⟨c1, c2, c3, c4, c5, c6, c7, c8⟩ := hc
  simp only [cycleStartView, hlayer, ne_eq, not_true_eq_false, if_false, hzero] at c1 c2 c6
  have hkeys : ∀ a b, keyAtRest ((updateActiveUsbReports E C st).KeyStates a b) := by
    intro a b
    by_cases hab : a = slotId ∧ b = keyId
    · rw [hab.1, hab.2, c6]
      exact ⟨rfl, rfl, rfl, rfl⟩
    · exact c8 a b hab
  refine ⟨?_, ?_, fun s action hrel => applyKeystrokePrimary_release C s slotId keyId action hrel⟩
  · intro hown
    simp only [hown, and_self, if_true] at c1 c2
    refine ⟨?_, c2, hkeys, ?_⟩
    · rw [c1]
      simp [zeroBasicKeyboardReport]
    · intro stN hm ht hr hst hz
      have hN := (cycle_allAtRest E C stN hm ht hpost hr).basic
      rw [hN, hst, c2, hz]
      simp [zeroBasicKeyboardReport]
  · intro hown
    simp only [hown, if_false] at c1 c2
    refine ⟨?_, c2⟩
    rw [c1]
    simp [zeroBasicKeyboardReport]

/-- C19 at a concrete input: key 0 of slot 0, which owns the sticky modifier
LeftAlt with nothing to stick, is released; the basic report of the cycle
carries LeftAlt and no scancode, and `stickyModifiers` is 0 afterwards. -/
theorem C19_stickyRelease_witness :
    (stateKeyReleased.KeyStates 0 0).current = true ∧
    (stateKeyReleased.KeyStates 0 0).hardwareSwitchState = false ∧
    stateKeyReleased.stickyModifierKey = some (0, 0) ∧
    stateKeyReleased.stickyModifierShouldStick = false ∧
    (updateActiveUsbReports exampleForeign exampleConfig
        stateKeyReleased).ActiveUsbBasicKeyboardReport
      = { zeroBasicKeyboardReport with modifiers := HID_KEYBOARD_MODIFIER_LEFTALT } ∧
    (updateActiveUsbReports exampleForeign exampleConfig stateKeyReleased).stickyModifiers = 0 :=
  ⟨rfl, rfl, rfl, rfl,
    ((C19_stickyRelease exampleForeign exampleConfig stateKeyReleased 0 0 (by decide)
      (by decide) rfl rfl (fun _ => rfl)
      (fun a b hne => by
        simp only [stateKeyReleased, hne, if_false]
        exact ⟨rfl, rfl, rfl, rfl⟩)
      rfl rfl rfl rfl (by decide) rfl rfl rfl rfl).1 ⟨rfl, rfl⟩).1,
    ((C19_stickyRelease exampleForeign exampleConfig stateKeyReleased 0 0 (by decide)
      (by decide) rfl rfl (fun _ => rfl)
      (fun a b hne => by
        simp only [stateKeyReleased, hne, if_false]
        exact ⟨rfl, rfl, rfl, rfl⟩)
      rfl rfl rfl rfl (by decide) rfl rfl rfl rfl).1 ⟨rfl, rfl⟩).2.1⟩

/-! ### Cycles with one keystroke key -/

/-- The gate of `preprocessKeyState` leaves `debouncing` clear when, for a key
with `debouncing` set, the low 8 bits of the time since the stamp exceed the
threshold. -/
theorem debouncingAfterGate_of_time (C : updater_config_t) (t : Nat) (s : key_state_t)
    (h : sub32 t s.timestamp % 256 > debounceTime C s) : debouncingAfterGate C t s = false := by
  simp only [debouncingAfterGate]
  cases hd : s.debouncing
  · simp
  · simp [h]

/-- The activation cycle of a keystroke key without secondary role, with a
scancode and modifiers other than the sticky modifiers, every other key at
rest: the basic report gains the modifiers and no scancode, the sticky
modifiers are activated and the action of the active layer is cached. -/
theorem cycle_activation (E : foreign_t) (C : updater_config_t) (st : updater_state_t)
    (slotId keyId : Nat) (hs : slotId < C.SLOT_COUNT)
    (hk : keyId < C.MAX_KEY_COUNT_PER_MODULE)
    (hmac : st.MacroPlaying = false) (htest : st.TestUsbStack = false)
    (hpost : ∀ s, E.PostponerCore_IsActive s = false)
    (hrest : othersAtRest st slotId keyId)
    (hcur : (st.KeyStates slotId keyId).current = false)
    (hprev : (st.KeyStates slotId keyId).previous = false)
    (hdeb : (st.KeyStates slotId keyId).debouncedSwitchState = false)
    (hhw : (st.KeyStates slotId keyId).hardwareSwitchState = true)
    (hgate : debouncingAfterGate C st.CurrentTime (st.KeyStates slotId keyId) = false)
    (action : key_action_t)
    (hmap : st.CurrentKeymap (E.LayerSwitcher_UpdateActiveLayer (layerQueryState st)).1
      slotId keyId = action)
    (htype : action.type = KeyActionType_Keystroke)
    (hrole : action.keystroke.secondaryRole = 0)
    (hsc : action.keystroke.scancode ≠ 0)
    (hmod : action.keystroke.modifiers
      ≠ (if (E.LayerSwitcher_UpdateActiveLayer (layerQueryState st)).1 ≠ st.previousLayer then 0
          else st.stickyModifiers)) :
    (updateActiveUsbReports E C st).ActiveUsbBasicKeyboardReport
      = { st.ActiveUsbBasicKeyboardReport with
          modifiers := st.ActiveUsbBasicKeyboardReport.modifiers |||
            action.keystroke.modifiers } ∧
    (updateActiveUsbReports E C st).stickyModifiers = action.keystroke.modifiers ∧
    (updateActiveUsbReports E C st).stickyModifierKey = some (slotId, keyId) ∧
    (updateActiveUsbReports E C st).stickyModifierShouldStick
      = ((E.LayerSwitcher_UpdateActiveLayer (layerQueryState st)).2 &&
          isStickyShortcut action) ∧
    (updateActiveUsbReports E C st).actionCache slotId keyId = action ∧
    (updateActiveUsbReports E C st).KeyStates slotId keyId
      = { hardwareSwitchState := true, debouncedSwitchState := true, debouncing := true,
          timestamp := st.CurrentTime, current := true, previous := true } ∧
    (updateActiveUsbReports E C st).previousLayer
      = (E.LayerSwitcher_UpdateActiveLayer (layerQueryState st)).1 ∧
    othersAtRest (updateActiveUsbReports E C st) slotId keyId := by
  have hc := cycle_view E C st slotId keyId hs hk hmac htest hpost hrest _ (by
    intro s hv
    obtain ⟨f1, f2, f3, f4, f5, f6, f7, f8, f9, f10, f11⟩ :=
      keyView_fields s slotId keyId _ hv
    have e1 : s.KeyStates slotId keyId = st.KeyStates slotId keyId := f7
    have e3 : s.CurrentTime = st.CurrentTime := f10
    have e8 : s.CurrentKeymap s.ActiveLayer slotId keyId = action := by
      rw [f8]
      exact hmap
    have e4 : s.stickyModifiers
        = (if (E.LayerSwitcher_UpdateActiveLayer (layerQueryState st)).1 ≠ st.previousLayer
            then 0 else st.stickyModifiers) := f3
    rw [key_activation_view E C s slotId keyId hpost (by rw [e1]; exact hcur)
      (by rw [e1]; exact hprev) (by rw [e1]; exact hdeb) (by rw [e1]; exact hhw)
      (by rw [e1, e3]; exact hgate) (by rw [e8]; exact htype) (by rw [e8]; exact hrole)
      (by rw [e8]; exact hsc) (by rw [e8, e4]; exact hmod), hv, e8, f9, f10])
  simpa only [cycleStartView] using hc

/-- A cycle in which a keystroke key without secondary role stays held (basic
scancode, no edge pending), every other key at rest: the basic report gains the
scancode in its first slot and the sticky modifiers that outlive the layer
check. -/
theorem cycle_held (E : foreign_t) (C : updater_config_t) (st : updater_state_t)
    (slotId keyId : Nat) (hs : slotId < C.SLOT_COUNT)
    (hk : keyId < C.MAX_KEY_COUNT_PER_MODULE)
    (hmac : st.MacroPlaying = false) (htest : st.TestUsbStack = false)
    (hpost : ∀ s, E.PostponerCore_IsActive s = false)
    (hrest : othersAtRest st slotId keyId)
    (hcur : (st.KeyStates slotId keyId).current = true)
    (hprev : (st.KeyStates slotId keyId).previous = true)
    (hdeb : (st.KeyStates slotId keyId).debouncedSwitchState
      = (st.KeyStates slotId keyId).hardwareSwitchState)
    (htype : (st.actionCache slotId keyId).type = KeyActionType_Keystroke)
    (hrole : (st.actionCache slotId keyId).keystroke.secondaryRole = 0)
    (hbasic : (st.actionCache slotId keyId).keystroke.keystrokeType = KeystrokeType_Basic)
    (hsc : (st.actionCache slotId keyId).keystroke.scancode ≠ 0) :
    (updateActiveUsbReports E C st).ActiveUsbBasicKeyboardReport
      = { modifiers := st.ActiveUsbBasicKeyboardReport.modifiers |||
            (if (E.LayerSwitcher_UpdateActiveLayer (layerQueryState st)).1 ≠ st.previousLayer
              then 0 else st.stickyModifiers)
          reserved := st.ActiveUsbBasicKeyboardReport.reserved
          scancodes := st.ActiveUsbBasicKeyboardReport.scancodes.set 0
            ((st.actionCache slotId keyId).keystroke.scancode % 256) } ∧
    (updateActiveUsbReports E C st).stickyModifiers
      = (if (E.LayerSwitcher_UpdateActiveLayer (layerQueryState st)).1 ≠ st.previousLayer then 0
          else st.stickyModifiers) ∧
    (updateActiveUsbReports E C st).stickyModifierKey = st.stickyModifierKey ∧
    (updateActiveUsbReports E C st).stickyModifierShouldStick = st.stickyModifierShouldStick ∧
    (updateActiveUsbReports E C st).actionCache slotId keyId = st.actionCache slotId keyId ∧
    (updateActiveUsbReports E C st).KeyStates slotId keyId
      = { st.KeyStates slotId keyId with
          debouncing := debouncingAfterGate C st.CurrentTime (st.KeyStates slotId keyId) } ∧
    (updateActiveUsbReports E C st).previousLayer
      = (E.LayerSwitcher_UpdateActiveLayer (layerQueryState st)).1 ∧
    othersAtRest (updateActiveUsbReports E C st) slotId keyId := by
  have hc := cycle_view E C st slotId keyId hs hk hmac htest hpost hrest _ (by
    intro s hv
    obtain ⟨f1, f2, f3, f4, f5, f6, f7, f8, f9, f10, f11⟩ :=
      keyView_fields s slotId keyId _ hv
    have e1 : s.KeyStates slotId keyId = st.KeyStates slotId keyId := f7
    have e2 : s.actionCache slotId keyId = st.actionCache slotId keyId := f6
    have e5 : s.basicScancodeIndex = 0 := f2
    rw [key_held_view E C s slotId keyId (by rw [e1]; exact hcur)
      (by rw [e1]; exact hprev) (by rw [e1]; exact hdeb) (by rw [e2]; exact htype)
      (by rw [e2]; exact hrole) (by rw [e2]; exact hbasic) (by rw [e2]; exact hsc)
      (by rw [e5]; decide), hv, f1, f2, f6, f7, f10])
  simpa only [cycleStartView] using hc

/-- A cycle in which the release of a keystroke key without secondary role is
committed, every other key at rest: the basic report gains the sticky modifiers
that outlive the layer check and no scancode; they are cleared afterwards when
the key owns them and they are not to stick. -/
theorem cycle_release (E : foreign_t) (C : updater_config_t) (st : updater_state_t)
    (slotId keyId : Nat) (hs : slotId < C.SLOT_COUNT)
    (hk : keyId < C.MAX_KEY_COUNT_PER_MODULE)
    (hmac : st.MacroPlaying = false) (htest : st.TestUsbStack = false)
    (hpost : ∀ s, E.PostponerCore_IsActive s = false)
    (hrest : othersAtRest st slotId keyId)
    (hcur : (st.KeyStates slotId keyId).current = true)
    (hprev : (st.KeyStates slotId keyId).previous = true)
    (hdeb : (st.KeyStates slotId keyId).debouncedSwitchState = true)
    (hhw : (st.KeyStates slotId keyId).hardwareSwitchState = false)
    (hgate : debouncingAfterGate C st.CurrentTime (st.KeyStates slotId keyId) = false)
    (htype : (st.actionCache slotId keyId).type = KeyActionType_Keystroke)
    (hrole : (st.actionCache slotId keyId).keystroke.secondaryRole = 0) :
    (updateActiveUsbReports E C st).ActiveUsbBasicKeyboardReport
      = { st.ActiveUsbBasicKeyboardReport with
          modifiers := st.ActiveUsbBasicKeyboardReport.modifiers |||
            (if (E.LayerSwitcher_UpdateActiveLayer (layerQueryState st)).1 ≠ st.previousLayer
              then 0 else st.stickyModifiers) } ∧
    (updateActiveUsbReports E C st).stickyModifiers
      = (if st.stickyModifierKey = some (slotId, keyId) ∧
            st.stickyModifierShouldStick = false then 0
          else if (E.LayerSwitcher_UpdateActiveLayer (layerQueryState st)).1 ≠ st.previousLayer
            then 0 else st.stickyModifiers) ∧
    (∀ a b, keyAtRest ((updateActiveUsbReports E C st).KeyStates a b)) := by
  have hc := cycle_view E C st slotId keyId hs hk hmac htest hpost hrest _ (by
    intro s hv
    obtain ⟨f1, f2, f3, f4, f5, f6, f7, f8, f9, f10, f11⟩ :=
      keyView_fields s slotId keyId _ hv
    have e1 : s.KeyStates slotId keyId = st.KeyStates slotId keyId := f7
    have e2 : s.actionCache slotId keyId = st.actionCache slotId keyId := f6
    have e3 : s.CurrentTime = st.CurrentTime := f10
    rw [key_release_view E C s slotId keyId hpost (by rw [e1]; exact hcur)
      (by rw [e1]; exact hprev) (by rw [e1]; exact hdeb) (by rw [e1]; exact hhw)
      (by rw [e1, e3]; exact hgate) (by rw [e2]; exact htype) (by rw [e2]; exact hrole), hv,
      f1, f3, f4, f5, f10])
  obtain ⟨c1, c2, c3, c4, c5, c6, c7, c8⟩ := hc
  simp only [cycleStartView] at c1 c2 c6
  refine ⟨?_, ?_, ?_⟩
  · rw [c1]
    split_ifs <;> simp [Nat.or_assoc]
  · rw [c2]
  · intro a b
    by_cases hab : a = slotId ∧ b = keyId
    · rw [hab.1, hab.2, c6]
      exact ⟨rfl, rfl, rfl, rfl⟩
    · exact c8 a b hab

/-- Alt+Tab is a sticky shortcut, its scancode is not 0 and its modifier is not
0. -/
theorem altTab_facts (action : key_action_t)
    (htype : action.type = KeyActionType_Keystroke)
    (hks : action.keystroke
      = { keystrokeType := KeystrokeType_Basic, scancode := HID_KEYBOARD_SC_TAB,
          modifiers := HID_KEYBOARD_MODIFIER_LEFTALT, secondaryRole := 0 }) :
    isStickyShortcut action = true ∧ action.keystroke.scancode ≠ 0 ∧
    action.keystroke.modifiers ≠ 0 ∧ action.keystroke.secondaryRole = 0 ∧
    action.keystroke.keystrokeType = KeystrokeType_Basic ∧
    action.keystroke.modifiers = HID_KEYBOARD_MODIFIER_LEFTALT ∧
    action.keystroke.scancode % 256 = HID_KEYBOARD_SC_TAB := by
  refine ⟨?_, ?_, ?_, ?_, ?_, ?_, ?_⟩
  · simp only [isStickyShortcut, htype, hks]
    decide
  · rw [hks]
    decide
  · rw [hks]
    decide
  · rw [hks]
  · rw [hks]
  · rw [hks]
  · rw [hks]
    decide

/-- A cycle in which every key is at rest, after a cycle that left every key at
rest: the basic report is the sticky modifiers that outlive the layer check,
and they and the rest of the keys are left as they are. -/
theorem cycle_afterRest (E : foreign_t) (C : updater_config_t) (s st : updater_state_t)
    (hpost : ∀ s, E.PostponerCore_IsActive s = false)
    (hprev : ∀ a b, keyAtRest (s.KeyStates a b))
    (hnext : nextCycleStart s st)
    (hhw : ∀ a b, (st.KeyStates a b).hardwareSwitchState = false) :
    (updateActiveUsbReports E C st).ActiveUsbBasicKeyboardReport
      = { zeroBasicKeyboardReport with
          modifiers :=
            if (E.LayerSwitcher_UpdateActiveLayer (layerQueryState st)).1 ≠ st.previousLayer
              then 0 else s.stickyModifiers } ∧
    (updateActiveUsbReports E C st).stickyModifiers
      = (if (E.LayerSwitcher_UpdateActiveLayer (layerQueryState st)).1 ≠ st.previousLayer
          then 0 else s.stickyModifiers) ∧
    (∀ a b, keyAtRest ((updateActiveUsbReports E C st).KeyStates a b)) := by
  obtain ⟨n1, n2, n3, n4, n5, n6, n7, n8, n9⟩ := hnext
  have hrest : ∀ a b, keyAtRest (st.KeyStates a b) := by
    intro a b
    obtain ⟨-, p2, p3, p4⟩ := hprev a b
    obtain ⟨q1, -, -, q4, q5⟩ := n1 a b
    exact ⟨hhw a b, by rw [q1]; exact p2, by rw [q4]; exact p3, by rw [q5]; exact p4⟩
  have h := cycle_allAtRest E C st n8 n9 hpost hrest
  refine ⟨?_, ?_, h.keys⟩
  · rw [h.basic, n7, n3]
    simp [zeroBasicKeyboardReport]
  · rw [h.stickyModifiers, n3]

/-! ### Secondary roles and layer holds -/

/-- C21: secondary-role resolution. For a keystroke with a secondary role,
`applyKeystroke` (which `applyKeyAction` runs for a Keystroke action on a NonZero
key) does the following: when `SecondaryRoles_ResolveState` returns DontKnowYet
it records exactly one `PostponerCore_PostponeNCycles(1)` and changes nothing
else; when it returns Primary the result is that of `applyKeystrokePrimary`;
when it returns Secondary and the role is a modifier role (and not a
layer-switcher role) the only change is that the role's HID modifier is OR-ed
into the modifiers of the basic report. -/
theorem C21_secondaryRoleResolution (E : foreign_t) (C : updater_config_t)
    (st : updater_state_t) (slotId keyId : Nat) (action actionBase : key_action_t)
    (hrole : action.keystroke.secondaryRole ≠ 0) :
    (action.type = KeyActionType_Keystroke →
      KeyState_NonZero (st.KeyStates slotId keyId) = true →
      applyKeyAction E C st slotId keyId action actionBase
        = applyKeystroke E C st slotId keyId action actionBase) ∧
    (E.SecondaryRoles_ResolveState st slotId keyId = SecondaryRoleState_DontKnowYet →
      applyKeystroke E C st slotId keyId action actionBase
        = { st with calls := st.calls ++ [PostponerCore_PostponeNCycles 1] }) ∧
    (E.SecondaryRoles_ResolveState st slotId keyId = SecondaryRoleState_Primary →
      applyKeystroke E C st slotId keyId action actionBase
        = applyKeystrokePrimary C st slotId keyId action) ∧
    (E.SecondaryRoles_ResolveState st slotId keyId = SecondaryRoleState_Secondary →
      C.IS_SECONDARY_ROLE_LAYER_SWITCHER action.keystroke.secondaryRole = false →
      C.IS_SECONDARY_ROLE_MODIFIER action.keystroke.secondaryRole = true →
      applyKeystroke E C st slotId keyId action actionBase
        = { st with
            ActiveUsbBasicKeyboardReport :=
              { st.ActiveUsbBasicKeyboardReport with
                modifiers := st.ActiveUsbBasicKeyboardReport.modifiers |||
                  C.SECONDARY_ROLE_MODIFIER_TO_HID_MODIFIER action.keystroke.secondaryRole } }) := by
  refine ⟨?_, ?_, ?_, ?_⟩
  · intro htype hnz
    simp only [applyKeyAction, htype, hnz, if_true]
  · intro h
    simp only [applyKeystroke, hrole, ne_eq, not_false_eq_true, if_true, h, recordCall]
  · intro h
    simp only [applyKeystroke, hrole, ne_eq, not_false_eq_true, if_true, h]
  · intro h hl hm
    simp only [applyKeystroke, hrole, ne_eq, not_false_eq_true, if_true, h,
      applyKeystrokeSecondary, hl, Bool.false_eq_true, if_false, hm]

/-- C21 at a concrete input: with `exampleForeign`, which resolves every key to
Primary, a keystroke with secondary role 1 on a key of the boot state goes to
`applyKeystrokePrimary`. -/
theorem C21_secondaryRoleResolution_witness :
    (secondaryRoleAction 4 1).keystroke.secondaryRole ≠ 0 ∧
    applyKeystroke exampleForeign exampleConfig stateKeyHeld 0 0 (secondaryRoleAction 4 1)
        noAction
      = applyKeystrokePrimary exampleConfig stateKeyHeld 0 0 (secondaryRoleAction 4 1) :=
  ⟨by decide,
    (C21_secondaryRoleResolution exampleForeign exampleConfig stateKeyHeld 0 0
      (secondaryRoleAction 4 1) noAction (by decide)).2.2.1 rfl⟩

/-- C22: keymap mismatch mid-press. A keystroke with a secondary role that
resolves to Secondary goes to `applyKeystrokeSecondary`; for a layer-switcher
role that function records `LayerSwitcher_HoldLayer` of the role's layer (and
changes nothing else) when the type and the secondary role of the cached action
equal those of the base action, and leaves the state as it is when either
differs. -/
theorem C22_keymapMismatch (E : foreign_t) (C : updater_config_t) (st : updater_state_t)
    (slotId keyId : Nat) (action actionBase : key_action_t)
    (hlayer : C.IS_SECONDARY_ROLE_LAYER_SWITCHER action.keystroke.secondaryRole = true) :
    (action.keystroke.secondaryRole ≠ 0 →
      E.SecondaryRoles_ResolveState st slotId keyId = SecondaryRoleState_Secondary →
      applyKeystroke E C st slotId keyId action actionBase
        = applyKeystrokeSecondary C st action actionBase) ∧
    (action.type = actionBase.type ∧
        action.keystroke.secondaryRole = actionBase.keystroke.secondaryRole →
      applyKeystrokeSecondary C st action actionBase
        = { st with
            calls := st.calls ++
              [LayerSwitcher_HoldLayer
                (C.SECONDARY_ROLE_LAYER_TO_LAYER_ID action.keystroke.secondaryRole)] }) ∧
    (¬ (action.type = actionBase.type ∧
        action.keystroke.secondaryRole = actionBase.keystroke.secondaryRole) →
      applyKeystrokeSecondary C st action actionBase = st) := by
  refine ⟨?_, ?_, ?_⟩
  · intro hrole h
    simp only [applyKeystroke, hrole, ne_eq, not_false_eq_true, if_true, h]
  · intro h
    simp only [applyKeystrokeSecondary, recordCall]
    rw [if_pos hlayer, if_pos h]
  · intro h
    simp only [applyKeystrokeSecondary]
    rw [if_pos hlayer, if_neg h]

/-- C22 at a concrete input: role 9 is a layer-switcher role of `exampleConfig`;
against a base action without secondary role nothing happens. -/
theorem C22_keymapMismatch_witness :
    exampleConfig.IS_SECONDARY_ROLE_LAYER_SWITCHER
      (secondaryRoleAction 4 9).keystroke.secondaryRole = true ∧
    applyKeystrokeSecondary exampleConfig stateKeyHeld (secondaryRoleAction 4 9) noAction
      = stateKeyHeld :=
  ⟨by decide,
    (C22_keymapMismatch exampleForeign exampleConfig stateKeyHeld 0 0 (secondaryRoleAction 4 9)
      noAction (by decide)).2.2 (by decide)⟩

/-- C30: layer holds from the base action. `applyLayerHolds` writes nothing
but the trace. It records `LayerSwitcher_HoldLayer(layer)` exactly when the
action is a SwitchLayer action, the key is active and the mode is not Toggle;
then it records `LayerSwitcher_HoldLayer` of the layer of the secondary role
exactly when ActiveLayer is not Base, the action is a Keystroke, its secondary
role is not 0 and is a layer-switcher role, and the key is active. With the key
not active it records nothing. -/
theorem C30_layerHolds (C : updater_config_t) (st : updater_state_t) (slotId keyId : Nat)
    (action : key_action_t) :
    { applyLayerHolds C st slotId keyId action with calls := st.calls } = st ∧
    (applyLayerHolds C st slotId keyId action).calls
      = st.calls ++
        (if action.type = KeyActionType_SwitchLayer ∧
            (st.KeyStates slotId keyId).current = true ∧
            action.switchLayer.mode ≠ SwitchLayerMode_Toggle then
          [LayerSwitcher_HoldLayer action.switchLayer.layer]
        else []) ++
        (if st.ActiveLayer ≠ LayerId_Base ∧ action.type = KeyActionType_Keystroke ∧
            action.keystroke.secondaryRole ≠ 0 ∧
            C.IS_SECONDARY_ROLE_LAYER_SWITCHER action.keystroke.secondaryRole = true ∧
            (st.KeyStates slotId keyId).current = true then
          [LayerSwitcher_HoldLayer
            (C.SECONDARY_ROLE_LAYER_TO_LAYER_ID action.keystroke.secondaryRole)]
        else []) ∧
    ((st.KeyStates slotId keyId).current = false →
      applyLayerHolds C st slotId keyId action = st) := by
  refine ⟨?_, ?_, ?_⟩
  · obtain ⟨c, h⟩ := applyLayerHolds_writes C st slotId keyId action
    rw [h]
  · simp only [applyLayerHolds, recordCall, KeyState_Active]
    cases hm : action.switchLayer.mode <;> cases ht : action.type <;>
      by_cases hc : (st.KeyStates slotId keyId).current = true <;>
      by_cases hl : st.ActiveLayer = LayerId_Base <;>
      by_cases hr : action.keystroke.secondaryRole = 0 <;>
      by_cases hs : C.IS_SECONDARY_ROLE_LAYER_SWITCHER action.keystroke.secondaryRole = true <;>
      simp [hc, hl, hr, hs]
  · intro hc
    simp [applyLayerHolds, KeyState_Active, hc]

/-! ### The semaphore and the sends -/

/-- The function `applyKeystrokePrimary` does not write the variables of
`sendVars`. -/
theorem applyKeystrokePrimary_sendVars (C : updater_config_t) (st : updater_state_t)
    (slotId keyId : Nat) (action : key_action_t) :
    sendVars (applyKeystrokePrimary C st slotId keyId action) = sendVars st := by
  simp only [applyKeystrokePrimary, activateStickyMods, appendScancode]
  cases action.keystroke.keystrokeType <;> simp only <;> split_ifs <;> rfl

/-- The function `applyKeyAction` does not write the variables of `sendVars`. -/
theorem applyKeyAction_sendVars (E : foreign_t) (C : updater_config_t)
    (st : updater_state_t) (slotId keyId : Nat) (action actionBase : key_action_t) :
    sendVars (applyKeyAction E C st slotId keyId action actionBase) = sendVars st := by
  simp only [applyKeyAction]
  cases action.type
  · rfl
  · simp only [applyKeystroke]
    split_ifs
    · cases E.SecondaryRoles_ResolveState st slotId keyId <;> simp only <;> first
        | exact applyKeystrokePrimary_sendVars C st slotId keyId action
        | rfl
        | (simp only [applyKeystrokeSecondary, recordCall]
           split_ifs <;> rfl)
    · exact applyKeystrokePrimary_sendVars C st slotId keyId action
    · rfl
  · simp only [activateDirectionSigns]
    split_ifs <;> first
      | rfl
      | (cases action.mouseAction <;> rfl)
  · simp only [applyToggleLayerAction, recordCall]
    cases action.switchLayer.mode <;> simp only <;> split_ifs <;> rfl
  · simp only [recordCall]
    split_ifs <;> rfl
  · simp only [recordCall]
    split_ifs <;> rfl

/-- The loop body at a key does not write the variables of `sendVars`. -/
theorem key_sendVars (E : foreign_t) (C : updater_config_t) (st : updater_state_t)
    (slotId keyId : Nat) :
    sendVars (updateActiveUsbReports_key E C st slotId keyId) = sendVars st := by
  obtain ⟨ks, c, h1⟩ := preprocessKeyState_writes E C st slotId keyId
  simp only [updateActiveUsbReports_key]
  rw [h1]
  simp only []
  by_cases hnz : KeyState_NonZero (ks slotId keyId) = true
  · rw [if_pos hnz]
    show sendVars (applyKeyAction E C _ slotId keyId _ _) = _
    rw [applyKeyAction_sendVars]
    obtain ⟨c2, h2⟩ := applyLayerHolds_writes C
      (if KeyState_ActivatedNow (ks slotId keyId) = true then
        handleEventInterrupts
          { (if st.SleepModeActive = true then
              recordCall { st with KeyStates := ks, calls := c } WakeUpHost
            else { st with KeyStates := ks, calls := c }) with
            actionCache := fun a b =>
              if a = slotId ∧ b = keyId then
                (if st.SleepModeActive = true then
                  recordCall { st with KeyStates := ks, calls := c } WakeUpHost
                else { st with KeyStates := ks, calls := c }).CurrentKeymap
                  (if st.SleepModeActive = true then
                    recordCall { st with KeyStates := ks, calls := c } WakeUpHost
                  else { st with KeyStates := ks, calls := c }).ActiveLayer slotId keyId
              else
                (if st.SleepModeActive = true then
                  recordCall { st with KeyStates := ks, calls := c } WakeUpHost
                else { st with KeyStates := ks, calls := c }).actionCache a b }
          slotId keyId
      else { st with KeyStates := ks, calls := c })
      slotId keyId
      ((if KeyState_ActivatedNow (ks slotId keyId) = true then
        handleEventInterrupts
          { (if st.SleepModeActive = true then
              recordCall { st with KeyStates := ks, calls := c } WakeUpHost
            else { st with KeyStates := ks, calls := c }) with
            actionCache := fun a b =>
              if a = slotId ∧ b = keyId then
                (if st.SleepModeActive = true then
                  recordCall { st with KeyStates := ks, calls := c } WakeUpHost
                else { st with KeyStates := ks, calls := c }).CurrentKeymap
                  (if st.SleepModeActive = true then
                    recordCall { st with KeyStates := ks, calls := c } WakeUpHost
                  else { st with KeyStates := ks, calls := c }).ActiveLayer slotId keyId
              else
                (if st.SleepModeActive = true then
                  recordCall { st with KeyStates := ks, calls := c } WakeUpHost
                else { st with KeyStates := ks, calls := c }).actionCache a b }
          slotId keyId
      else { st with KeyStates := ks, calls := c }).CurrentKeymap LayerId_Base slotId keyId)
    rw [h2]
    by_cases hact : KeyState_ActivatedNow (ks slotId keyId) = true
    · rw [if_pos hact]
      obtain ⟨c3, h3⟩ := handleEventInterrupts_writes
        { (if st.SleepModeActive = true then
            recordCall { st with KeyStates := ks, calls := c } WakeUpHost
          else { st with KeyStates := ks, calls := c }) with
          actionCache := fun a b =>
            if a = slotId ∧ b = keyId then
              (if st.SleepModeActive = true then
                recordCall { st with KeyStates := ks, calls := c } WakeUpHost
              else { st with KeyStates := ks, calls := c }).CurrentKeymap
                (if st.SleepModeActive = true then
                  recordCall { st with KeyStates := ks, calls := c } WakeUpHost
                else { st with KeyStates := ks, calls := c }).ActiveLayer slotId keyId
            else
              (if st.SleepModeActive = true then
                recordCall { st with KeyStates := ks, calls := c } WakeUpHost
              else { st with KeyStates := ks, calls := c }).actionCache a b }
        slotId keyId
      rw [h3]
      simp only [sendVars, recordCall]
      split_ifs <;> rfl
    · rw [if_neg hact]
      rfl
  · rw [if_neg hnz]
    rfl

/-- Two states with the same semaphore, `lastUpdateTime` and
`UsbReportUpdateCounter` have the same `sendVars`. -/
theorem sendVars_eq (a b : updater_state_t)
    (h1 : a.UsbReportUpdateSemaphore = b.UsbReportUpdateSemaphore)
    (h2 : a.lastUpdateTime = b.lastUpdateTime)
    (h3 : a.UsbReportUpdateCounter = b.UsbReportUpdateCounter) : sendVars a = sendVars b := by
  simp only [sendVars, h1, h2, h3]

/-- The functions called at the start of a cycle do not write the variables of
`sendVars`. -/
theorem start_sendVars (E : foreign_t) (C : updater_config_t) (st : updater_state_t) :
    sendVars (updateActiveUsbReports_start E C st) = sendVars st := by
  have hl : ∀ s, sendVars (handleLayerChanges E s) = sendVars s := by
    intro s
    simp only [handleLayerChanges, recordCall]
    split_ifs <;> rfl
  have ht : ∀ s, sendVars (handleUsbStackTestMode C s) = sendVars s := by
    intro s
    simp only [handleUsbStackTestMode]
    split_ifs <;> rfl
  have hrec : ∀ (s : updater_state_t) (c : foreign_call_t),
      sendVars (recordCall s c) = sendVars s := fun _ _ => rfl
  have hks : ∀ (s : updater_state_t) (k : Nat → Nat → key_state_t),
      sendVars { s with KeyStates := k } = sendVars s := fun _ _ => rfl
  simp only [updateActiveUsbReports_start]
  split_ifs
  · rw [hks, hrec, ht, hrec, hrec, hl]
    rfl
  · rw [ht, hrec, hrec, hl]
    rfl

/-- The key loop does not write the variables of `sendVars`. -/
theorem keys_sendVars (E : foreign_t) (C : updater_config_t) (st : updater_state_t) :
    sendVars (updateActiveUsbReports_keys E C st) = sendVars st := by
  apply keys_invariant E C (fun s => sendVars s = sendVars st) _ st rfl
  intro s a b _ _ hs
  rw [key_sendVars]
  exact hs

/-- The module loop of `processMouseActions` does not write the variables of
`sendVars`. -/
theorem modules_sendVars (C : updater_config_t) (st : updater_state_t) (l : List Nat) :
    (List.foldl (processMouseActions_module C) st l).UsbReportUpdateSemaphore
      = st.UsbReportUpdateSemaphore ∧
    (List.foldl (processMouseActions_module C) st l).lastUpdateTime = st.lastUpdateTime ∧
    (List.foldl (processMouseActions_module C) st l).UsbReportUpdateCounter
      = st.UsbReportUpdateCounter := by
  apply foldl_invariant (processMouseActions_module C)
    (fun s => s.UsbReportUpdateSemaphore = st.UsbReportUpdateSemaphore ∧
      s.lastUpdateTime = st.lastUpdateTime ∧
      s.UsbReportUpdateCounter = st.UsbReportUpdateCounter) l _ st
  · exact ⟨rfl, rfl, rfl⟩
  · intro s i _ hs
    simp only [processMouseActions_module]
    split_ifs <;> exact hs

/-- The finish of a cycle does not write the variables of `sendVars`. -/
theorem finish_sendVars (C : updater_config_t) (st : updater_state_t) :
    sendVars (updateActiveUsbReports_finish C st) = sendVars st := by
  have hm := modules_sendVars C
    { st with
      mouseElapsedTime := sub32 st.CurrentTime st.mouseUsbReportUpdateTime
      mouseUsbReportUpdateTime := st.CurrentTime
      MouseMoveState :=
        { processMouseKineticState st.activeMouseStates
            (sub32 st.CurrentTime st.mouseUsbReportUpdateTime) st.MouseMoveState with
          xOut := 0, yOut := 0 }
      MouseScrollState :=
        { processMouseKineticState st.activeMouseStates
            (sub32 st.CurrentTime st.mouseUsbReportUpdateTime) st.MouseScrollState with
          xOut := 0, yOut := 0 }
      ActiveUsbMouseReport :=
        { st.ActiveUsbMouseReport with
          x := (processMouseKineticState st.activeMouseStates
              (sub32 st.CurrentTime st.mouseUsbReportUpdateTime) st.MouseMoveState).xOut
            + st.TouchpadUsbMouseReport.x
          y := (processMouseKineticState st.activeMouseStates
              (sub32 st.CurrentTime st.mouseUsbReportUpdateTime) st.MouseMoveState).yOut
            + st.TouchpadUsbMouseReport.y
          wheelX := (processMouseKineticState st.activeMouseStates
              (sub32 st.CurrentTime st.mouseUsbReportUpdateTime) st.MouseScrollState).xOut
          wheelY := (processMouseKineticState st.activeMouseStates
              (sub32 st.CurrentTime st.mouseUsbReportUpdateTime) st.MouseScrollState).yOut }
      TouchpadUsbMouseReport := { st.TouchpadUsbMouseReport with x := 0, y := 0 } }
    (List.range UHK_MODULE_MAX_COUNT)
  have hp : (processMouseActions C st).UsbReportUpdateSemaphore = st.UsbReportUpdateSemaphore ∧
      (processMouseActions C st).lastUpdateTime = st.lastUpdateTime ∧
      (processMouseActions C st).UsbReportUpdateCounter = st.UsbReportUpdateCounter := by
    simp only [processMouseActions]
    exact ⟨hm.1, hm.2.1, hm.2.2⟩
  apply sendVars_eq <;>
    simp only [updateActiveUsbReports_finish, recordCall, hp.1, hp.2.1, hp.2.2]

/-- A cycle of `updateActiveUsbReports` writes neither the semaphore nor
`lastUpdateTime` nor `UsbReportUpdateCounter`. -/
theorem cycle_sendVars (E : foreign_t) (C : updater_config_t) (st : updater_state_t) :
    sendVars (updateActiveUsbReports E C st) = sendVars st := by
  simp only [updateActiveUsbReports]
  split_ifs
  · rfl
  · rw [finish_sendVars, keys_sendVars, start_sendVars]

/-- Bit `j` of the semaphore after bit `i` has been set. -/
theorem semaphoreSet_testBit (s i j : Nat) (hj : j < 8) :
    (semaphoreSet s i).testBit j = (s.testBit j || decide (i = j)) := by
  have h256 : (256 : Nat) = 2 ^ 8 := by norm_num
  simp only [semaphoreSet, h256, Nat.testBit_mod_two_pow, Nat.testBit_or, Nat.one_shiftLeft,
    Nat.testBit_two_pow, hj, decide_True, Bool.true_and]

/-- Bit `j` of the semaphore after bit `i` has been cleared. -/
theorem semaphoreClear_testBit (s i j : Nat) (hj : j < 8) :
    (semaphoreClear s i).testBit j = (s.testBit j && !decide (i = j)) := by
  have h256 : (256 : Nat) = 2 ^ 8 := by norm_num
  have h255 : (255 : Nat) = 2 ^ 8 - 1 := by norm_num
  simp only [semaphoreClear, h256, h255, Nat.testBit_and, Nat.testBit_xor,
    Nat.testBit_mod_two_pow, Nat.testBit_two_pow_sub_one, Nat.one_shiftLeft,
    Nat.testBit_two_pow, hj, decide_True, Bool.true_and, Bool.true_xor]

/-- A send block in terms of the state in which its send action runs. -/
theorem sendReport_sendState (st : updater_state_t) (changed : Bool) (index : Nat)
    (c : foreign_call_t) (action : updater_state_t → Bool) :
    sendReport st changed index c action
      = if changed = true then
          if action (sendState st index c) = true then sendState st index c
          else
            { sendState st index c with
              UsbReportUpdateSemaphore :=
                semaphoreClear (sendState st index c).UsbReportUpdateSemaphore index }
        else st := rfl

/-- The trace after a send block: the send action is called exactly when
`changed` holds. -/
theorem sendReport_calls (st : updater_state_t) (changed : Bool) (index : Nat)
    (c : foreign_call_t) (action : updater_state_t → Bool) :
    (sendReport st changed index c action).calls
      = st.calls ++ (if changed = true then [c] else []) := by
  simp only [sendReport, recordCall]
  split_ifs <;> simp

/-- The semaphore bits after a send block: the bit of the interface is the
result of the send when the send action was called, every other bit is as
before. -/
theorem sendReport_testBit (st : updater_state_t) (changed : Bool) (index : Nat)
    (c : foreign_call_t) (action : updater_state_t → Bool) (j : Nat) (hj : j < 8) :
    (sendReport st changed index c action).UsbReportUpdateSemaphore.testBit j
      = if index = j ∧ changed = true then action (sendState st index c)
        else st.UsbReportUpdateSemaphore.testBit j := by
  rw [sendReport_sendState]
  by_cases hc : changed = true
  · rw [if_pos hc]
    by_cases ha : action (sendState st index c) = true
    · rw [if_pos ha]
      show (semaphoreSet st.UsbReportUpdateSemaphore index).testBit j = _
      rw [semaphoreSet_testBit _ _ _ hj]
      by_cases hi : index = j
      · subst hi
        simp [hc, ha]
      · simp [hi]
    · rw [if_neg ha]
      show (semaphoreClear (semaphoreSet st.UsbReportUpdateSemaphore index) index).testBit j = _
      rw [semaphoreClear_testBit _ _ _ hj, semaphoreSet_testBit _ _ _ hj]
      by_cases hi : index = j
      · subst hi
        simp only [Bool.not_eq_true] at ha
        simp [hc, ha]
      · simp [hi]
  · rw [if_neg hc]
    simp [hc]

/-- The sends of `UpdateUsbReports_run`: the function is the rebuild followed by
the four send blocks, the mouse block deciding on the report of the rebuild. -/
theorem run_sends (E : foreign_t) (C : updater_config_t) (st : updater_state_t) :
    UpdateUsbReports_run E C st
      = sendReport
          (sendReport
            (sendReport
              (sendReport (updateActiveUsbReports E C (rebuiltState C st))
                (decide ((updateActiveUsbReports E C (rebuiltState C st)).ActiveUsbBasicKeyboardReport
                  ≠ (updateActiveUsbReports E C
                      (rebuiltState C st)).InactiveUsbBasicKeyboardReport))
                USB_BASIC_KEYBOARD_INTERFACE_INDEX UsbBasicKeyboardAction E.UsbBasicKeyboardAction)
              (decide ((updateActiveUsbReports E C (rebuiltState C st)).ActiveUsbMediaKeyboardReport
                ≠ (updateActiveUsbReports E C
                    (rebuiltState C st)).InactiveUsbMediaKeyboardReport))
              C.USB_MEDIA_KEYBOARD_INTERFACE_INDEX UsbMediaKeyboardAction E.UsbMediaKeyboardAction)
            (decide ((updateActiveUsbReports E C (rebuiltState C st)).ActiveUsbSystemKeyboardReport
              ≠ (updateActiveUsbReports E C
                  (rebuiltState C st)).InactiveUsbSystemKeyboardReport))
            C.USB_SYSTEM_KEYBOARD_INTERFACE_INDEX UsbSystemKeyboardAction
            E.UsbSystemKeyboardAction)
          (decide ((updateActiveUsbReports E C (rebuiltState C st)).ActiveUsbMouseReport
              ≠ (updateActiveUsbReports E C (rebuiltState C st)).InactiveUsbMouseReport) ||
            decide ((updateActiveUsbReports E C (rebuiltState C st)).ActiveUsbMouseReport.x ≠ 0) ||
            decide ((updateActiveUsbReports E C (rebuiltState C st)).ActiveUsbMouseReport.y ≠ 0) ||
            decide
              ((updateActiveUsbReports E C (rebuiltState C st)).ActiveUsbMouseReport.wheelX ≠ 0) ||
            decide
              ((updateActiveUsbReports E C (rebuiltState C st)).ActiveUsbMouseReport.wheelY ≠ 0))
          C.USB_MOUSE_INTERFACE_INDEX UsbMouseAction E.UsbMouseAction := by
  have h := fun s ch i c a => (sendReport_reports s ch i c a).2.2.2
  simp only [UpdateUsbReports_run, rebuiltState, h]

/-- The function `UpdateUsbReports` in terms of the sampled state: the skip, the
run after the semaphore has been force-cleared, or the run. -/
theorem UpdateUsbReports_sampled (E : foreign_t) (C : updater_config_t) (st : updater_state_t) :
    UpdateUsbReports E C st
      = if st.UsbReportUpdateSemaphore ≠ 0 ∧ st.SleepModeActive = false then
          if sub32 st.CurrentTime st.lastUpdateTime < C.USB_SEMAPHORE_TIMEOUT then
            sampledState C st
          else UpdateUsbReports_run E C { sampledState C st with UsbReportUpdateSemaphore := 0 }
        else UpdateUsbReports_run E C (sampledState C st) := rfl

/-- C24: send decision. In a cycle that starts with the semaphore 0, with the
four interface indices distinct and below 8: `UpdateUsbReports` is the rebuild
followed by the four send blocks; the trace gains, after the calls of the
rebuild, the send action of the basic, media and system interface exactly when
the active report differs from the inactive one, and the send action of the
mouse interface exactly when the report differs or one of x, y, wheelX, wheelY
is non-zero; and after the function the semaphore bit of an interface is set
exactly when its send action was called and returned success. -/
theorem C24_sendDecision (E : foreign_t) (C : updater_config_t) (st : updater_state_t)
    (hsem : st.UsbReportUpdateSemaphore = 0)
    (hmedia : C.USB_MEDIA_KEYBOARD_INTERFACE_INDEX < 8)
    (hsystem : C.USB_SYSTEM_KEYBOARD_INTERFACE_INDEX < 8)
    (hmouse : C.USB_MOUSE_INTERFACE_INDEX < 8)
    (hbm : USB_BASIC_KEYBOARD_INTERFACE_INDEX ≠ C.USB_MEDIA_KEYBOARD_INTERFACE_INDEX)
    (hbs : USB_BASIC_KEYBOARD_INTERFACE_INDEX ≠ C.USB_SYSTEM_KEYBOARD_INTERFACE_INDEX)
    (hbo : USB_BASIC_KEYBOARD_INTERFACE_INDEX ≠ C.USB_MOUSE_INTERFACE_INDEX)
    (hms : C.USB_MEDIA_KEYBOARD_INTERFACE_INDEX ≠ C.USB_SYSTEM_KEYBOARD_INTERFACE_INDEX)
    (hmo : C.USB_MEDIA_KEYBOARD_INTERFACE_INDEX ≠ C.USB_MOUSE_INTERFACE_INDEX)
    (hso : C.USB_SYSTEM_KEYBOARD_INTERFACE_INDEX ≠ C.USB_MOUSE_INTERFACE_INDEX) :
    let s2 := updateActiveUsbReports E C (rebuiltState C (sampledState C st))
    let basic := decide (s2.ActiveUsbBasicKeyboardReport ≠ s2.InactiveUsbBasicKeyboardReport)
    let media := decide (s2.ActiveUsbMediaKeyboardReport ≠ s2.InactiveUsbMediaKeyboardReport)
    let system := decide (s2.ActiveUsbSystemKeyboardReport ≠ s2.InactiveUsbSystemKeyboardReport)
    let mouse :=
      decide (s2.ActiveUsbMouseReport ≠ s2.InactiveUsbMouseReport) ||
        decide (s2.ActiveUsbMouseReport.x ≠ 0) || decide (s2.ActiveUsbMouseReport.y ≠ 0) ||
        decide (s2.ActiveUsbMouseReport.wheelX ≠ 0) || decide (s2.ActiveUsbMouseReport.wheelY ≠ 0)
    let s3 := sendReport s2 basic USB_BASIC_KEYBOARD_INTERFACE_INDEX UsbBasicKeyboardAction
      E.UsbBasicKeyboardAction
    let s4 := sendReport s3 media C.USB_MEDIA_KEYBOARD_INTERFACE_INDEX UsbMediaKeyboardAction
      E.UsbMediaKeyboardAction
    let s5 := sendReport s4 system C.USB_SYSTEM_KEYBOARD_INTERFACE_INDEX UsbSystemKeyboardAction
      E.UsbSystemKeyboardAction
    UpdateUsbReports E C st
      = sendReport s5 mouse C.USB_MOUSE_INTERFACE_INDEX UsbMouseAction E.UsbMouseAction ∧
    (UpdateUsbReports E C st).calls
      = s2.calls ++ (if basic = true then [UsbBasicKeyboardAction] else []) ++
          (if media = true then [UsbMediaKeyboardAction] else []) ++
          (if system = true then [UsbSystemKeyboardAction] else []) ++
          (if mouse = true then [UsbMouseAction] else []) ∧
    (UpdateUsbReports E C st).UsbReportUpdateSemaphore.testBit USB_BASIC_KEYBOARD_INTERFACE_INDEX
      = (basic &&
          E.UsbBasicKeyboardAction
            (sendState s2 USB_BASIC_KEYBOARD_INTERFACE_INDEX UsbBasicKeyboardAction)) ∧
    (UpdateUsbReports E C st).UsbReportUpdateSemaphore.testBit
        C.USB_MEDIA_KEYBOARD_INTERFACE_INDEX
      = (media &&
          E.UsbMediaKeyboardAction
            (sendState s3 C.USB_MEDIA_KEYBOARD_INTERFACE_INDEX UsbMediaKeyboardAction)) ∧
    (UpdateUsbReports E C st).UsbReportUpdateSemaphore.testBit
        C.USB_SYSTEM_KEYBOARD_INTERFACE_INDEX
      = (system &&
          E.UsbSystemKeyboardAction
            (sendState s4 C.USB_SYSTEM_KEYBOARD_INTERFACE_INDEX UsbSystemKeyboardAction)) ∧
    (UpdateUsbReports E C st).UsbReportUpdateSemaphore.testBit C.USB_MOUSE_INTERFACE_INDEX
      = (mouse &&
          E.UsbMouseAction (sendState s5 C.USB_MOUSE_INTERFACE_INDEX UsbMouseAction)) := by
  intro s2 basic media system mouse s3 s4 s5
  have hb8 : USB_BASIC_KEYBOARD_INTERFACE_INDEX < 8 := by decide
  have hu : UpdateUsbReports E C st
      = sendReport s5 mouse C.USB_MOUSE_INTERFACE_INDEX UsbMouseAction E.UsbMouseAction := by
    rw [UpdateUsbReports_sampled, if_neg (fun h => h.1 hsem), run_sends]
  have h2 : s2.UsbReportUpdateSemaphore = 0 := by
    have e := congrArg Prod.fst (cycle_sendVars E C (rebuiltState C (sampledState C st)))
    exact e.trans hsem
  have hz : ∀ j, Nat.testBit 0 j = false := fun j => Nat.zero_testBit j
  have hcalls : (sendReport s5 mouse C.USB_MOUSE_INTERFACE_INDEX UsbMouseAction
        E.UsbMouseAction).calls
      = s2.calls ++ (if basic = true then [UsbBasicKeyboardAction] else []) ++
          (if media = true then [UsbMediaKeyboardAction] else []) ++
          (if system = true then [UsbSystemKeyboardAction] else []) ++
          (if mouse = true then [UsbMouseAction] else []) := by
    simp only [s5, s4, s3, sendReport_calls]
  have b6 := sendReport_testBit s5 mouse C.USB_MOUSE_INTERFACE_INDEX UsbMouseAction
    E.UsbMouseAction
  have b5 : ∀ j, j < 8 → s5.UsbReportUpdateSemaphore.testBit j = _ :=
    sendReport_testBit s4 system C.USB_SYSTEM_KEYBOARD_INTERFACE_INDEX UsbSystemKeyboardAction
      E.UsbSystemKeyboardAction
  have b4 : ∀ j, j < 8 → s4.UsbReportUpdateSemaphore.testBit j = _ :=
    sendReport_testBit s3 media C.USB_MEDIA_KEYBOARD_INTERFACE_INDEX UsbMediaKeyboardAction
      E.UsbMediaKeyboardAction
  have b3 : ∀ j, j < 8 → s3.UsbReportUpdateSemaphore.testBit j = _ :=
    sendReport_testBit s2 basic USB_BASIC_KEYBOARD_INTERFACE_INDEX UsbBasicKeyboardAction
      E.UsbBasicKeyboardAction
  have hfin : ∀ (b x : Bool), (if b = true then x else false) = (b && x) := by
    intro b x
    cases b <;> rfl
  rw [hu]
  clear_value s5 s4 s3 mouse system media basic s2
  refine ⟨rfl, hcalls, ?_, ?_, ?_, ?_⟩
  · rw [b6 _ hb8, if_neg (fun h => hbo h.1.symm), b5 _ hb8, if_neg (fun h => hbs h.1.symm),
      b4 _ hb8, if_neg (fun h => hbm h.1.symm), b3 _ hb8, h2, hz, ← hfin]
    simp only [true_and]
  · rw [b6 _ hmedia, if_neg (fun h => hmo h.1.symm), b5 _ hmedia,
      if_neg (fun h => hms h.1.symm), b4 _ hmedia, b3 _ hmedia,
      if_neg (fun h : USB_BASIC_KEYBOARD_INTERFACE_INDEX = C.USB_MEDIA_KEYBOARD_INTERFACE_INDEX ∧
        basic = true => hbm h.1), h2, hz, ← hfin]
    simp only [eq_self_iff_true, true_and]
  · rw [b6 _ hsystem, if_neg (fun h => hso h.1.symm), b5 _ hsystem, b4 _ hsystem,
      if_neg (fun h : C.USB_MEDIA_KEYBOARD_INTERFACE_INDEX
          = C.USB_SYSTEM_KEYBOARD_INTERFACE_INDEX ∧ media = true => hms h.1),
      b3 _ hsystem,
      if_neg (fun h : USB_BASIC_KEYBOARD_INTERFACE_INDEX = C.USB_SYSTEM_KEYBOARD_INTERFACE_INDEX ∧
        basic = true => hbs h.1), h2, hz, ← hfin]
    simp only [eq_self_iff_true, true_and]
  · rw [b6 _ hmouse, b5 _ hmouse,
      if_neg (fun h : C.USB_SYSTEM_KEYBOARD_INTERFACE_INDEX = C.USB_MOUSE_INTERFACE_INDEX ∧
        system = true => hso h.1),
      b4 _ hmouse,
      if_neg (fun h : C.USB_MEDIA_KEYBOARD_INTERFACE_INDEX = C.USB_MOUSE_INTERFACE_INDEX ∧
        media = true => hmo h.1),
      b3 _ hmouse,
      if_neg (fun h : USB_BASIC_KEYBOARD_INTERFACE_INDEX = C.USB_MOUSE_INTERFACE_INDEX ∧
        basic = true => hbo h.1), h2, hz, ← hfin]
    simp only [eq_self_iff_true, true_and]

/-- C24 at an example: in the boot state of the example configuration the
semaphore is 0 and the indices are distinct, so the bit of the basic keyboard
interface after `UpdateUsbReports` is the result of its send action when the
basic report has changed. -/
theorem C24_sendDecision_witness :
    (initialUpdaterState exampleConfig).UsbReportUpdateSemaphore = 0 ∧
    exampleConfig.USB_MEDIA_KEYBOARD_INTERFACE_INDEX < 8 ∧
    exampleConfig.USB_SYSTEM_KEYBOARD_INTERFACE_INDEX < 8 ∧
    exampleConfig.USB_MOUSE_INTERFACE_INDEX < 8 ∧
    (UpdateUsbReports exampleForeign exampleConfig
        (initialUpdaterState exampleConfig)).UsbReportUpdateSemaphore.testBit
        USB_BASIC_KEYBOARD_INTERFACE_INDEX
      = (decide
            ((updateActiveUsbReports exampleForeign exampleConfig
                (rebuiltState exampleConfig
                  (sampledState exampleConfig
                    (initialUpdaterState exampleConfig)))).ActiveUsbBasicKeyboardReport
              ≠ (updateActiveUsbReports exampleForeign exampleConfig
                  (rebuiltState exampleConfig
                    (sampledState exampleConfig
                      (initialUpdaterState exampleConfig)))).InactiveUsbBasicKeyboardReport) &&
          exampleForeign.UsbBasicKeyboardAction
            (sendState
              (updateActiveUsbReports exampleForeign exampleConfig
                (rebuiltState exampleConfig
                  (sampledState exampleConfig (initialUpdaterState exampleConfig))))
              USB_BASIC_KEYBOARD_INTERFACE_INDEX UsbBasicKeyboardAction)) :=
  ⟨rfl, by decide, by decide, by decide,
    (C24_sendDecision exampleForeign exampleConfig (initialUpdaterState exampleConfig) rfl
      (by decide) (by decide) (by decide) (by decide) (by decide) (by decide) (by decide)
      (by decide) (by decide)).2.2.1⟩

/-! ### SwitchLayer and mouse actions -/

/-- C31: SwitchLayer action dispatch. For a SwitchLayer action `applyKeyAction`
leaves the state as it is when current = previous; when they differ, mode
HoldAndDoubleTapToggle records LayerSwitcher_DoubleTapToggle(layer, key) (on
the press and on the release edge), mode Toggle records
LayerSwitcher_ToggleLayer(layer) on the press edge and nothing on the release
edge, and mode Hold records LayerSwitcher_UnToggleLayerOnly(layer) on the
press edge and nothing on the release edge; a recorded call is the only
change. -/
theorem C31_switchLayerDispatch (E : foreign_t) (C : updater_config_t) (st : updater_state_t)
    (slotId keyId : Nat) (action actionBase : key_action_t)
    (htype : action.type = KeyActionType_SwitchLayer) :
    ((st.KeyStates slotId keyId).current = (st.KeyStates slotId keyId).previous →
      applyKeyAction E C st slotId keyId action actionBase = st) ∧
    (action.switchLayer.mode = SwitchLayerMode_HoldAndDoubleTapToggle →
      (st.KeyStates slotId keyId).current ≠ (st.KeyStates slotId keyId).previous →
      applyKeyAction E C st slotId keyId action actionBase
        = { st with
            calls := st.calls ++
              [LayerSwitcher_DoubleTapToggle action.switchLayer.layer slotId keyId] }) ∧
    (action.switchLayer.mode = SwitchLayerMode_Toggle →
      ((st.KeyStates slotId keyId).current = true ∧
          (st.KeyStates slotId keyId).previous = false →
        applyKeyAction E C st slotId keyId action actionBase
          = { st with calls := st.calls ++ [LayerSwitcher_ToggleLayer action.switchLayer.layer] }) ∧
      ((st.KeyStates slotId keyId).current = false ∧
          (st.KeyStates slotId keyId).previous = true →
        applyKeyAction E C st slotId keyId action actionBase = st)) ∧
    (action.switchLayer.mode = SwitchLayerMode_Hold →
      ((st.KeyStates slotId keyId).current = true ∧
          (st.KeyStates slotId keyId).previous = false →
        applyKeyAction E C st slotId keyId action actionBase
          = { st with
              calls := st.calls ++ [LayerSwitcher_UnToggleLayerOnly action.switchLayer.layer] }) ∧
      ((st.KeyStates slotId keyId).current = false ∧
          (st.KeyStates slotId keyId).previous = true →
        applyKeyAction E C st slotId keyId action actionBase = st)) := by
  refine ⟨?_, ?_, ?_, ?_⟩
  · intro h
    simp only [applyKeyAction, htype, h, ne_eq, not_true_eq_false, if_false]
  · intro hm hne
    simp only [applyKeyAction, htype, applyToggleLayerAction, hm, recordCall]
    rw [if_pos hne, if_pos hne]
  · intro hm
    constructor
    · intro h
      simp only [applyKeyAction, htype, applyToggleLayerAction, hm, recordCall,
        KeyState_ActivatedNow, h.1, h.2]
      simp
    · intro h
      simp only [applyKeyAction, htype, applyToggleLayerAction, hm, recordCall,
        KeyState_ActivatedNow, h.1, h.2]
      simp
  · intro hm
    constructor
    · intro h
      simp only [applyKeyAction, htype, applyToggleLayerAction, hm, recordCall,
        KeyState_ActivatedNow, h.1, h.2]
      simp
    · intro h
      simp only [applyKeyAction, htype, applyToggleLayerAction, hm, recordCall,
        KeyState_ActivatedNow, h.1, h.2]
      simp

/-- C31 at an example: a steadily held key with a SwitchLayer action in mode
Toggle makes no layer-switcher call. -/
theorem C31_switchLayerDispatch_witness :
    (switchLayerAction 1 SwitchLayerMode_Toggle).type = KeyActionType_SwitchLayer ∧
    (stateKeyHeld.KeyStates 0 0).current = (stateKeyHeld.KeyStates 0 0).previous ∧
    applyKeyAction exampleForeign exampleConfig stateKeyHeld 0 0
        (switchLayerAction 1 SwitchLayerMode_Toggle) noAction = stateKeyHeld :=
  ⟨rfl, rfl,
    (C31_switchLayerDispatch exampleForeign exampleConfig stateKeyHeld 0 0
      (switchLayerAction 1 SwitchLayerMode_Toggle) noAction rfl).1 rfl⟩

/-- After the loop body at a key, `previous` of that key equals `current`. -/
theorem key_previous (E : foreign_t) (C : updater_config_t) (st : updater_state_t)
    (slotId keyId : Nat) :
    ((updateActiveUsbReports_key E C st slotId keyId).KeyStates slotId keyId).previous
      = ((updateActiveUsbReports_key E C st slotId keyId).KeyStates slotId keyId).current := by
  simp only [updateActiveUsbReports_key]
  generalize preprocessKeyState E C st slotId keyId = st1
  by_cases hnz : KeyState_NonZero (st1.KeyStates slotId keyId) = true
  · rw [if_pos hnz, setKeyState_same]
  · rw [if_neg hnz]
    simp only [KeyState_NonZero, Bool.or_eq_true, not_or, Bool.not_eq_true] at hnz
    rw [hnz.1, hnz.2]

/-- The loop body at a key that is not NonZero after `preprocessKeyState` is
`preprocessKeyState`: neither `applyLayerHolds` nor `applyKeyAction` runs. -/
theorem key_notNonZero (E : foreign_t) (C : updater_config_t) (st : updater_state_t)
    (slotId keyId : Nat)
    (h : KeyState_NonZero ((preprocessKeyState E C st slotId keyId).KeyStates slotId keyId)
      = false) :
    updateActiveUsbReports_key E C st slotId keyId = preprocessKeyState E C st slotId keyId := by
  simp only [updateActiveUsbReports_key]
  rw [if_neg (by rw [h]; exact Bool.false_ne_true)]

/-- After the key loop, `previous` equals `current` for every key of the
loop. -/
theorem keys_previous (E : foreign_t) (C : updater_config_t) (st : updater_state_t)
    (slotId keyId : Nat) (hs : slotId < C.SLOT_COUNT) (hk : keyId < C.MAX_KEY_COUNT_PER_MODULE) :
    ((updateActiveUsbReports_keys E C st).KeyStates slotId keyId).previous
      = ((updateActiveUsbReports_keys E C st).KeyStates slotId keyId).current := by
  apply keys_single E C (fun _ => True)
    (fun s => (s.KeyStates slotId keyId).previous = (s.KeyStates slotId keyId).current)
    slotId keyId hs hk _ _ _ st trivial
  · intro _ _ _ _ _
    trivial
  · intro s a b hne hq
    show ((updateActiveUsbReports_key E C s a b).KeyStates slotId keyId).previous
      = ((updateActiveUsbReports_key E C s a b).KeyStates slotId keyId).current
    rw [key_otherKeys E C s a b slotId keyId (fun h => hne ⟨h.1.symm, h.2.symm⟩)]
    exact hq
  · intro s _
    exact key_previous E C s slotId keyId

/-- The key state after `preprocessKeyState` with the postponer inactive: the
stamped state with `current` the hardware state when an edge is pending, and
the state with `debouncing` as left by the gate otherwise. -/
theorem preprocessKeyState_key (E : foreign_t) (C : updater_config_t) (st : updater_state_t)
    (slotId keyId : Nat) (hpost : ∀ s, E.PostponerCore_IsActive s = false) :
    (preprocessKeyState E C st slotId keyId).KeyStates slotId keyId
      = if debouncingAfterGate C st.CurrentTime (st.KeyStates slotId keyId) = false ∧
            (st.KeyStates slotId keyId).debouncedSwitchState
              ≠ (st.KeyStates slotId keyId).hardwareSwitchState then
          { st.KeyStates slotId keyId with
            timestamp := st.CurrentTime
            debouncing := true
            debouncedSwitchState := (st.KeyStates slotId keyId).hardwareSwitchState
            current := (st.KeyStates slotId keyId).hardwareSwitchState }
        else
          { st.KeyStates slotId keyId with
            debouncing := debouncingAfterGate C st.CurrentTime (st.KeyStates slotId keyId) } := by
  by_cases h : debouncingAfterGate C st.CurrentTime (st.KeyStates slotId keyId) = false ∧
      (st.KeyStates slotId keyId).debouncedSwitchState
        ≠ (st.KeyStates slotId keyId).hardwareSwitchState
  · rw [if_pos h, preprocessKeyState_edge E C st slotId keyId h,
      (commitKeyState_effect E _ slotId keyId _).1 (hpost _), setKeyState_same, setKeyState_same]
  · rw [if_neg h, preprocessKeyState_noEdge E C st slotId keyId h, setKeyState_same]

/-- C35: previous = current at the end of a cycle. After a non-macro run of
`updateActiveUsbReports` with the postponer inactive every key of the loop has
previous = current. For a key that enters a cycle with previous = current, the
key state the action applier sees (after `preprocessKeyState`) is ActivatedNow
exactly when this run commits a press edge (the debounce gate is open, the
hardware state differs from the debounced state and is pressed, and current was
false), and DeactivatedNow exactly when it commits a release edge. A key that
is not NonZero after `preprocessKeyState` gets `preprocessKeyState` only. -/
theorem C35_previousIsCurrent (E : foreign_t) (C : updater_config_t) (st : updater_state_t)
    (hmac : st.MacroPlaying = false) (hpost : ∀ s, E.PostponerCore_IsActive s = false) :
    (∀ slotId keyId, slotId < C.SLOT_COUNT → keyId < C.MAX_KEY_COUNT_PER_MODULE →
      ((updateActiveUsbReports E C st).KeyStates slotId keyId).previous
        = ((updateActiveUsbReports E C st).KeyStates slotId keyId).current) ∧
    (∀ (s : updater_state_t) (slotId keyId : Nat),
      (s.KeyStates slotId keyId).previous = (s.KeyStates slotId keyId).current →
      (KeyState_ActivatedNow ((preprocessKeyState E C s slotId keyId).KeyStates slotId keyId)
          = true ↔
        (debouncingAfterGate C s.CurrentTime (s.KeyStates slotId keyId) = false ∧
          (s.KeyStates slotId keyId).debouncedSwitchState
            ≠ (s.KeyStates slotId keyId).hardwareSwitchState) ∧
        (s.KeyStates slotId keyId).hardwareSwitchState = true ∧
        (s.KeyStates slotId keyId).current = false) ∧
      (KeyState_DeactivatedNow ((preprocessKeyState E C s slotId keyId).KeyStates slotId keyId)
          = true ↔
        (debouncingAfterGate C s.CurrentTime (s.KeyStates slotId keyId) = false ∧
          (s.KeyStates slotId keyId).debouncedSwitchState
            ≠ (s.KeyStates slotId keyId).hardwareSwitchState) ∧
        (s.KeyStates slotId keyId).hardwareSwitchState = false ∧
        (s.KeyStates slotId keyId).current = true)) ∧
    (∀ (s : updater_state_t) (slotId keyId : Nat),
      KeyState_NonZero ((preprocessKeyState E C s slotId keyId).KeyStates slotId keyId) = false →
      updateActiveUsbReports_key E C s slotId keyId = preprocessKeyState E C s slotId keyId) := by
  refine ⟨?_, ?_, fun s slotId keyId h => key_notNonZero E C s slotId keyId h⟩
  · intro slotId keyId hs hk
    have hu : updateActiveUsbReports E C st
        = updateActiveUsbReports_finish C
            (updateActiveUsbReports_keys E C (updateActiveUsbReports_start E C st)) := by
      simp only [updateActiveUsbReports, hmac]
      rfl
    rw [hu, (finish_facts C _).KeyStates]
    exact keys_previous E C _ slotId keyId hs hk
  · intro s slotId keyId hinv
    rw [preprocessKeyState_key E C s slotId keyId hpost]
    by_cases h : debouncingAfterGate C s.CurrentTime (s.KeyStates slotId keyId) = false ∧
        (s.KeyStates slotId keyId).debouncedSwitchState
          ≠ (s.KeyStates slotId keyId).hardwareSwitchState
    · rw [if_pos h]
      simp only [KeyState_ActivatedNow, KeyState_DeactivatedNow, hinv, h, ne_eq,
        not_false_eq_true, and_self, true_and]
      cases (s.KeyStates slotId keyId).current <;>
        cases (s.KeyStates slotId keyId).hardwareSwitchState <;> simp
    · rw [if_neg h]
      simp only [KeyState_ActivatedNow, KeyState_DeactivatedNow, hinv, h, false_and, iff_false]
      cases (s.KeyStates slotId keyId).current <;> simp

/-- C35 at an example: after a cycle from the boot state key (0, 0) has
previous = current. -/
theorem C35_previousIsCurrent_witness :
    (initialUpdaterState exampleConfig).MacroPlaying = false ∧
    (∀ s, exampleForeign.PostponerCore_IsActive s = false) ∧
    ((updateActiveUsbReports exampleForeign exampleConfig
        (initialUpdaterState exampleConfig)).KeyStates 0 0).previous
      = ((updateActiveUsbReports exampleForeign exampleConfig
          (initialUpdaterState exampleConfig)).KeyStates 0 0).current :=
  ⟨rfl, fun _ => rfl,
    (C35_previousIsCurrent exampleForeign exampleConfig (initialUpdaterState exampleConfig) rfl
      (fun _ => rfl)).1 0 0 (by decide) (by decide)⟩

/-- The loop body at a key that is NonZero after `preprocessKeyState`:
`applyLayerHolds` with the base action, `applyKeyAction` with the cached
action, then the copy of `current` into `previous`. -/
theorem key_nonZero (E : foreign_t) (C : updater_config_t) (st : updater_state_t)
    (slotId keyId : Nat)
    (hnz : KeyState_NonZero ((preprocessKeyState E C st slotId keyId).KeyStates slotId keyId)
      = true) :
    updateActiveUsbReports_key E C st slotId keyId
      = setKeyState
          (applyKeyAction E C
            (applyLayerHolds C (keyCacheState E C st slotId keyId) slotId keyId
              ((keyCacheState E C st slotId keyId).CurrentKeymap LayerId_Base slotId keyId))
            slotId keyId ((keyCacheState E C st slotId keyId).actionCache slotId keyId)
            ((keyCacheState E C st slotId keyId).CurrentKeymap LayerId_Base slotId keyId))
          slotId keyId
          { (applyKeyAction E C
              (applyLayerHolds C (keyCacheState E C st slotId keyId) slotId keyId
                ((keyCacheState E C st slotId keyId).CurrentKeymap LayerId_Base slotId keyId))
              slotId keyId ((keyCacheState E C st slotId keyId).actionCache slotId keyId)
              ((keyCacheState E C st slotId keyId).CurrentKeymap LayerId_Base slotId
                keyId)).KeyStates slotId keyId with
            previous :=
              ((applyKeyAction E C
                (applyLayerHolds C (keyCacheState E C st slotId keyId) slotId keyId
                  ((keyCacheState E C st slotId keyId).CurrentKeymap LayerId_Base slotId keyId))
                slotId keyId ((keyCacheState E C st slotId keyId).actionCache slotId keyId)
                ((keyCacheState E C st slotId keyId).CurrentKeymap LayerId_Base slotId
                  keyId)).KeyStates slotId keyId).current } := by
  simp only [updateActiveUsbReports_key, keyCacheState]
  rw [if_pos hnz]

/-- The state `keyCacheState` differs from the state before the loop body in
key states, the trace and the action cache only, and the key's state is the
one `preprocessKeyState` leaves. -/
theorem keyCacheState_writes (E : foreign_t) (C : updater_config_t) (st : updater_state_t)
    (slotId keyId : Nat) :
    ∃ ks c cache,
      keyCacheState E C st slotId keyId
        = { st with KeyStates := ks, calls := c, actionCache := cache } ∧
      ks slotId keyId = (preprocessKeyState E C st slotId keyId).KeyStates slotId keyId := by
  obtain ⟨ks, c, h1⟩ := preprocessKeyState_writes E C st slotId keyId
  simp only [keyCacheState]
  rw [h1]
  simp only [handleEventInterrupts, recordCall]
  split_ifs <;> exact ⟨_, _, _, rfl, rfl⟩

/-- The action cache entry of the key in `keyCacheState`: the action of the
active layer for a key that is ActivatedNow, the cached one otherwise. -/
theorem keyCacheState_action (E : foreign_t) (C : updater_config_t) (st : updater_state_t)
    (slotId keyId : Nat) :
    (keyCacheState E C st slotId keyId).actionCache slotId keyId
      = if KeyState_ActivatedNow
            ((preprocessKeyState E C st slotId keyId).KeyStates slotId keyId) = true then
          st.CurrentKeymap st.ActiveLayer slotId keyId
        else st.actionCache slotId keyId := by
  obtain ⟨ks, c, h1⟩ := preprocessKeyState_writes E C st slotId keyId
  simp only [keyCacheState]
  rw [h1]
  simp only [handleEventInterrupts, recordCall]
  split_ifs <;> simp

/-- The function `applyKeyAction` for a Mouse action: for a key that is
ActivatedNow the sticky modifiers are cleared and the direction sign is
activated; in every case the entry of the action in `activeMouseStates` is
set. -/
theorem applyKeyAction_mouse (E : foreign_t) (C : updater_config_t) (st : updater_state_t)
    (slotId keyId : Nat) (action actionBase : key_action_t)
    (htype : action.type = KeyActionType_Mouse) :
    applyKeyAction E C st slotId keyId action actionBase
      = { (if KeyState_ActivatedNow (st.KeyStates slotId keyId) = true then
            activateDirectionSigns { st with stickyModifiers := 0 } action.mouseAction
          else st) with
          activeMouseStates := fun a =>
            if a = action.mouseAction then true else st.activeMouseStates a } := by
  simp only [applyKeyAction, htype]
  split_ifs
  · simp only [activateDirectionSigns]
    cases action.mouseAction <;> rfl
  · rfl

/-- The function `applyKeyAction` clears no entry of `activeMouseStates`. -/
theorem applyKeyAction_marks (E : foreign_t) (C : updater_config_t) (st : updater_state_t)
    (slotId keyId : Nat) (action actionBase : key_action_t)
    (x : MouseController.serialized_mouse_action_t) (hx : st.activeMouseStates x = true) :
    (applyKeyAction E C st slotId keyId action actionBase).activeMouseStates x = true := by
  have hp : ∀ s : updater_state_t,
      (applyKeystrokePrimary C s slotId keyId action).activeMouseStates = s.activeMouseStates := by
    intro s
    simp only [applyKeystrokePrimary, activateStickyMods, appendScancode]
    cases action.keystroke.keystrokeType <;> simp only <;> split_ifs <;> rfl
  simp only [applyKeyAction]
  cases htype : action.type
  · exact hx
  · simp only [applyKeystroke]
    split_ifs
    · cases E.SecondaryRoles_ResolveState st slotId keyId <;> simp only <;> first
        | (rw [hp]; exact hx)
        | exact hx
        | (simp only [applyKeystrokeSecondary, recordCall]
           split_ifs <;> exact hx)
    · rw [hp]
      exact hx
    · exact hx
  · simp only []
    split_ifs with h1 <;> first
      | rfl
      | (simp only [activateDirectionSigns]
         cases action.mouseAction <;> exact hx)
      | exact hx
  · simp only [applyToggleLayerAction, recordCall]
    cases action.switchLayer.mode <;> simp only <;> split_ifs <;> exact hx
  · simp only [recordCall]
    split_ifs <;> exact hx
  · simp only [recordCall]
    split_ifs <;> exact hx

/-- The loop body at a key sets entries of `activeMouseStates` and clears
none. -/
theorem key_marks (E : foreign_t) (C : updater_config_t) (st : updater_state_t)
    (slotId keyId : Nat) (x : MouseController.serialized_mouse_action_t)
    (hx : st.activeMouseStates x = true) :
    (updateActiveUsbReports_key E C st slotId keyId).activeMouseStates x = true := by
  by_cases hnz : KeyState_NonZero
      ((preprocessKeyState E C st slotId keyId).KeyStates slotId keyId) = true
  · rw [key_nonZero E C st slotId keyId hnz]
    show (applyKeyAction E C _ slotId keyId _ _).activeMouseStates x = true
    apply applyKeyAction_marks
    obtain ⟨ks, c, cache, h, -⟩ := keyCacheState_writes E C st slotId keyId
    obtain ⟨c2, h2⟩ := applyLayerHolds_writes C (keyCacheState E C st slotId keyId) slotId keyId
      ((keyCacheState E C st slotId keyId).CurrentKeymap LayerId_Base slotId keyId)
    rw [h2, h]
    exact hx
  · rw [key_notNonZero E C st slotId keyId (by simpa using hnz)]
    obtain ⟨ks, c, h1⟩ := preprocessKeyState_writes E C st slotId keyId
    rw [h1]
    exact hx

/-- The loop body at a NonZero key whose cached action is a Mouse action: the
entry of the action in `activeMouseStates` is set, no other entry changes, and
for a key that is not ActivatedNow the sticky modifiers and the two kinetic
states are as before. -/
theorem key_mouse (E : foreign_t) (C : updater_config_t) (st : updater_state_t)
    (slotId keyId : Nat)
    (hnz : KeyState_NonZero ((preprocessKeyState E C st slotId keyId).KeyStates slotId keyId)
      = true)
    (htype : ((keyCacheState E C st slotId keyId).actionCache slotId keyId).type
      = KeyActionType_Mouse) :
    (updateActiveUsbReports_key E C st slotId keyId).activeMouseStates
      = (fun a =>
          if a = ((keyCacheState E C st slotId keyId).actionCache slotId keyId).mouseAction
          then true else st.activeMouseStates a) ∧
    (KeyState_ActivatedNow ((preprocessKeyState E C st slotId keyId).KeyStates slotId keyId)
        = false →
      (updateActiveUsbReports_key E C st slotId keyId).stickyModifiers = st.stickyModifiers ∧
      (updateActiveUsbReports_key E C st slotId keyId).MouseMoveState = st.MouseMoveState ∧
      (updateActiveUsbReports_key E C st slotId keyId).MouseScrollState = st.MouseScrollState) ∧
    (KeyState_ActivatedNow ((preprocessKeyState E C st slotId keyId).KeyStates slotId keyId)
        = true →
      (updateActiveUsbReports_key E C st slotId keyId).stickyModifiers = 0 ∧
      (updateActiveUsbReports_key E C st slotId keyId).MouseMoveState
        = (activateDirectionSigns st
            ((keyCacheState E C st slotId keyId).actionCache slotId keyId).mouseAction).MouseMoveState ∧
      (updateActiveUsbReports_key E C st slotId keyId).MouseScrollState
        = (activateDirectionSigns st
            ((keyCacheState E C st slotId keyId).actionCache slotId
              keyId).mouseAction).MouseScrollState) := by
  obtain ⟨ks, c, cache, h, hk⟩ := keyCacheState_writes E C st slotId keyId
  obtain ⟨c2, h2⟩ := applyLayerHolds_writes C (keyCacheState E C st slotId keyId) slotId keyId
    ((keyCacheState E C st slotId keyId).CurrentKeymap LayerId_Base slotId keyId)
  rw [key_nonZero E C st slotId keyId hnz, applyKeyAction_mouse E C _ slotId keyId _ _ htype, h2]
  generalize ((keyCacheState E C st slotId keyId).actionCache slotId keyId).mouseAction = a
  rw [h]
  simp only [setKeyState]
  rw [hk]
  refine ⟨?_, ?_, ?_⟩
  · trivial
  · intro hact
    rw [if_neg (by rw [hact]; exact Bool.false_ne_true)]
    exact ⟨rfl, rfl, rfl⟩
  · intro hact
    rw [if_pos hact]
    simp only [activateDirectionSigns]
    cases a <;> exact ⟨rfl, rfl, rfl⟩

/-- A function of the state that `handleLayerChanges`, `handleUsbStackTestMode`,
a recorded call and a write of the key states do not change has after the
start of a cycle the value it has after the resets of lines 571-575. -/
theorem start_function {α : Type} (E : foreign_t) (C : updater_config_t) (st : updater_state_t)
    (f : updater_state_t → α)
    (hl : ∀ s, f (handleLayerChanges E s) = f s)
    (ht : ∀ s, f (handleUsbStackTestMode C s) = f s)
    (hrec : ∀ (s : updater_state_t) (c : foreign_call_t), f (recordCall s c) = f s)
    (hks : ∀ (s : updater_state_t) (k : Nat → Nat → key_state_t),
      f { s with KeyStates := k } = f s) :
    f (updateActiveUsbReports_start E C st)
      = f { st with
            activeMouseStates := fun _ => false
            basicScancodeIndex := 0
            mediaScancodeIndex := 0
            systemScancodeIndex := 0 } := by
  simp only [updateActiveUsbReports_start]
  split_ifs
  · rw [hks, hrec, ht, hrec, hrec, hl]
  · rw [ht, hrec, hrec, hl]

/-- The start of a cycle leaves every entry of `activeMouseStates` cleared. -/
theorem start_activeMouseStates (E : foreign_t) (C : updater_config_t) (st : updater_state_t) :
    (updateActiveUsbReports_start E C st).activeMouseStates = fun _ => false := by
  have h := start_function E C st (fun s => s.activeMouseStates)
    (by
      intro s
      simp only [handleLayerChanges, recordCall]
      split_ifs <;> rfl)
    (by
      intro s
      simp only [handleUsbStackTestMode]
      split_ifs <;> rfl)
    (fun _ _ => rfl) (fun _ _ => rfl)
  exact h

/-- A key that enters the key loop with `previous` set and a cached Mouse
action has the entry of that action in `activeMouseStates` set after the
loop. -/
theorem keys_mouse_held (E : foreign_t) (C : updater_config_t) (st : updater_state_t)
    (slotId keyId : Nat) (hs : slotId < C.SLOT_COUNT) (hk : keyId < C.MAX_KEY_COUNT_PER_MODULE)
    (hprev : (st.KeyStates slotId keyId).previous = true)
    (htype : (st.actionCache slotId keyId).type = KeyActionType_Mouse) :
    (updateActiveUsbReports_keys E C st).activeMouseStates
      (st.actionCache slotId keyId).mouseAction = true := by
  apply keys_single E C
    (fun s => (s.KeyStates slotId keyId).previous = true ∧
      s.actionCache slotId keyId = st.actionCache slotId keyId)
    (fun s => s.activeMouseStates (st.actionCache slotId keyId).mouseAction = true)
    slotId keyId hs hk _ _ _ st ⟨hprev, rfl⟩
  · intro s a b hne hp
    have hne2 : ¬ (slotId = a ∧ keyId = b) := fun h => hne ⟨h.1.symm, h.2.symm⟩
    constructor
    · show ((updateActiveUsbReports_key E C s a b).KeyStates slotId keyId).previous = true
      rw [key_otherKeys E C s a b slotId keyId hne2]
      exact hp.1
    · show (updateActiveUsbReports_key E C s a b).actionCache slotId keyId = _
      rw [key_actionCache]
      simp only [hne2, false_and, if_false]
      exact hp.2
  · intro s a b _ hq
    exact key_marks E C s a b _ hq
  · intro s hp
    have hpre : ((preprocessKeyState E C s slotId keyId).KeyStates slotId keyId).previous
        = true := (preprocessKeyState_reads E C s slotId keyId).1.trans hp.1
    have hnz : KeyState_NonZero ((preprocessKeyState E C s slotId keyId).KeyStates slotId keyId)
        = true := by
      simp only [KeyState_NonZero, hpre, Bool.or_true]
    have hact : KeyState_ActivatedNow
        ((preprocessKeyState E C s slotId keyId).KeyStates slotId keyId) = false := by
      simp only [KeyState_ActivatedNow, hpre, Bool.not_true, Bool.false_and]
    have hcache : (keyCacheState E C s slotId keyId).actionCache slotId keyId
        = st.actionCache slotId keyId := by
      rw [keyCacheState_action, hact]
      simp only [Bool.false_eq_true, if_false]
      exact hp.2
    have hm := (key_mouse E C s slotId keyId hnz (by rw [hcache]; exact htype)).1
    show (updateActiveUsbReports_key E C s slotId keyId).activeMouseStates _ = true
    rw [hm, hcache]
    simp only [if_true]

/-- C36: a mouse key in its release cycle. For a Mouse action `applyKeyAction`
sets the entry of the action in `activeMouseStates` whatever the key state,
and clears the sticky modifiers and activates the direction sign only for a
key that is ActivatedNow. The loop body runs it for every NonZero key, so a
key that enters a non-macro cycle with previous set and a cached Mouse action
(held, or released in this cycle: current = false, previous = true) has its
entry set when `processMouseActions` runs, and the kinetic step of a kinetic
state with that action among its four directions sees a move action; in a
cycle entered with every key at rest no entry is set, and a key that is not
NonZero leaves the entries as they are. -/
theorem C36_mouseKeyRelease (E : foreign_t) (C : updater_config_t) (st : updater_state_t)
    (slotId keyId : Nat) (hs : slotId < C.SLOT_COUNT) (hk : keyId < C.MAX_KEY_COUNT_PER_MODULE)
    (hpost : ∀ s, E.PostponerCore_IsActive s = false)
    (htype : (st.actionCache slotId keyId).type = KeyActionType_Mouse) :
    (∀ (s : updater_state_t) (action actionBase : key_action_t),
      action.type = KeyActionType_Mouse →
      applyKeyAction E C s slotId keyId action actionBase
        = { (if KeyState_ActivatedNow (s.KeyStates slotId keyId) = true then
              activateDirectionSigns { s with stickyModifiers := 0 } action.mouseAction
            else s) with
            activeMouseStates := fun a =>
              if a = action.mouseAction then true else s.activeMouseStates a }) ∧
    (∀ s : updater_state_t,
      KeyState_NonZero ((preprocessKeyState E C s slotId keyId).KeyStates slotId keyId) = true →
      ((keyCacheState E C s slotId keyId).actionCache slotId keyId).type = KeyActionType_Mouse →
      (updateActiveUsbReports_key E C s slotId keyId).activeMouseStates
          ((keyCacheState E C s slotId keyId).actionCache slotId keyId).mouseAction = true ∧
      (KeyState_ActivatedNow ((preprocessKeyState E C s slotId keyId).KeyStates slotId keyId)
          = false →
        (updateActiveUsbReports_key E C s slotId keyId).stickyModifiers = s.stickyModifiers ∧
        (updateActiveUsbReports_key E C s slotId keyId).MouseMoveState = s.MouseMoveState ∧
        (updateActiveUsbReports_key E C s slotId keyId).MouseScrollState = s.MouseScrollState)) ∧
    ((st.KeyStates slotId keyId).previous = true →
      (updateActiveUsbReports_keys E C (updateActiveUsbReports_start E C st)).activeMouseStates
          (st.actionCache slotId keyId).mouseAction = true ∧
      ∀ ks : MouseController.mouse_kinetic_state_t,
        (st.actionCache slotId keyId).mouseAction = ks.upState ∨
          (st.actionCache slotId keyId).mouseAction = ks.downState ∨
          (st.actionCache slotId keyId).mouseAction = ks.leftState ∨
          (st.actionCache slotId keyId).mouseAction = ks.rightState →
        isMoveAction
          (updateActiveUsbReports_keys E C (updateActiveUsbReports_start E C st)).activeMouseStates
          ks = true) ∧
    ((∀ a b, keyAtRest (st.KeyStates a b)) →
      (updateActiveUsbReports_keys E C (updateActiveUsbReports_start E C st)).activeMouseStates
        = fun _ => false) ∧
    (st.MacroPlaying = false →
      updateActiveUsbReports E C st
        = updateActiveUsbReports_finish C
            (updateActiveUsbReports_keys E C (updateActiveUsbReports_start E C st))) ∧
    (∀ s : updater_state_t,
      KeyState_NonZero ((preprocessKeyState E C s slotId keyId).KeyStates slotId keyId) = false →
      (updateActiveUsbReports_key E C s slotId keyId).activeMouseStates
        = s.activeMouseStates) := by
  have hstart := start_frame E C st
  refine ⟨fun s action actionBase h => applyKeyAction_mouse E C s slotId keyId action actionBase h,
    ?_, ?_, ?_, ?_, ?_⟩
  · intro s hnz hty
    have hm := key_mouse E C s slotId keyId hnz hty
    refine ⟨?_, hm.2.1⟩
    rw [hm.1]
    simp only [if_true]
  · intro hprev
    have hmark : (updateActiveUsbReports_keys E C
        (updateActiveUsbReports_start E C st)).activeMouseStates
        (st.actionCache slotId keyId).mouseAction = true := by
      have h := keys_mouse_held E C (updateActiveUsbReports_start E C st) slotId keyId hs hk
        (by rw [hstart.2 hpost]; exact hprev) (by rw [hstart.1]; exact htype)
      rw [hstart.1] at h
      exact h
    refine ⟨hmark, ?_⟩
    intro ks hdir
    simp only [isMoveAction, Bool.or_eq_true]
    rcases hdir with h | h | h | h
    · rw [← h]
      exact Or.inl (Or.inl (Or.inl hmark))
    · rw [← h]
      exact Or.inl (Or.inl (Or.inr hmark))
    · rw [← h]
      exact Or.inl (Or.inr hmark)
    · rw [← h]
      exact Or.inr hmark
  · intro hrest
    have h := (keys_allAtRest E C (updateActiveUsbReports_start E C st)
      (by rw [hstart.2 hpost]; exact hrest)).1
    have e := congrArg updater_state_t.activeMouseStates h
    exact e.trans (start_activeMouseStates E C st)
  · intro hmac
    simp only [updateActiveUsbReports, hmac]
    rfl
  · intro s hnz
    obtain ⟨ks, c, h⟩ := preprocessKeyState_writes E C s slotId keyId
    rw [key_notNonZero E C s slotId keyId hnz, h]

/-- C36 at an example: key (0, 0) with a cached MoveRight action is released in
this cycle; MoveRight is set when `processMouseActions` runs. -/
theorem C36_mouseKeyRelease_witness :
    (0 : Nat) < exampleConfig.SLOT_COUNT ∧
    (0 : Nat) < exampleConfig.MAX_KEY_COUNT_PER_MODULE ∧
    (∀ s, exampleForeign.PostponerCore_IsActive s = false) ∧
    (stateMouseKeyReleased.actionCache 0 0).type = KeyActionType_Mouse ∧
    (stateMouseKeyReleased.KeyStates 0 0).previous = true ∧
    (stateMouseKeyReleased.KeyStates 0 0).hardwareSwitchState = false ∧
    (updateActiveUsbReports_keys exampleForeign exampleConfig
        (updateActiveUsbReports_start exampleForeign exampleConfig
          stateMouseKeyReleased)).activeMouseStates
        (stateMouseKeyReleased.actionCache 0 0).mouseAction = true :=
  ⟨by decide, by decide, fun _ => rfl, rfl, rfl, rfl,
    ((C36_mouseKeyRelease exampleForeign exampleConfig stateMouseKeyReleased 0 0 (by decide)
      (by decide) (fun _ => rfl) rfl).2.2.1 rfl).1⟩

/-! ### The two implementations of `processMouseKineticState` -/

/-- With counters that are 0 or 1 no direction of a kinetic state is pressed
twice. -/
theorem doublePressedStateExists_of_le_one
    (c : MouseController.serialized_mouse_action_t → Nat) (hc : ∀ a, c a ≤ 1)
    (ks : MouseController.mouse_kinetic_state_t) :
    MouseController.doublePressedStateExists c ks = false := by
  have h : ∀ a, ¬ (c a > 1) := fun a => Nat.not_lt.mpr (hc a)
  simp [MouseController.doublePressedStateExists, h]

/-- The move-action test of the two files agrees when the booleans are the
counters compared with 0. -/
theorem isMoveAction_counters (c : MouseController.serialized_mouse_action_t → Nat)
    (b : MouseController.serialized_mouse_action_t → Bool)
    (hb : ∀ a, b a = decide (c a ≠ 0)) (ks : MouseController.mouse_kinetic_state_t) :
    MouseController.isMoveAction c ks = UsbReportUpdater.isMoveAction b ks := by
  simp only [MouseController.isMoveAction, UsbReportUpdater.isMoveAction, hb]

/-- The speed mode of the two files agrees for counters that are 0 or 1. -/
theorem mouseSpeed_counters (c : MouseController.serialized_mouse_action_t → Nat)
    (b : MouseController.serialized_mouse_action_t → Bool) (hc : ∀ a, c a ≤ 1)
    (hb : ∀ a, b a = decide (c a ≠ 0)) (ks : MouseController.mouse_kinetic_state_t) :
    MouseController.mouseSpeed c ks = UsbReportUpdater.mouseSpeed b := by
  simp [MouseController.mouseSpeed, UsbReportUpdater.mouseSpeed, hb,
    doublePressedStateExists_of_le_one c hc ks]

/-- The speed stages (reset, target, snap) of the two files agree for counters
that are 0 or 1. -/
theorem speedStages_counters (c : MouseController.serialized_mouse_action_t → Nat)
    (b : MouseController.serialized_mouse_action_t → Bool) (hc : ∀ a, c a ≤ 1)
    (hb : ∀ a, b a = decide (c a ≠ 0)) (ks : MouseController.mouse_kinetic_state_t) :
    MouseController.stepResetSpeed c ks = UsbReportUpdater.stepResetSpeed b ks ∧
    MouseController.stepSelectTarget c ks = UsbReportUpdater.stepSelectTarget b ks ∧
    MouseController.stepSnapSpeed c ks = UsbReportUpdater.stepSnapSpeed b ks := by
  have hm := isMoveAction_counters c b hb ks
  have hsp := mouseSpeed_counters c b hc hb ks
  refine ⟨?_, ?_, ?_⟩
  · simp [MouseController.stepResetSpeed, UsbReportUpdater.stepResetSpeed, hb]
  · simp only [MouseController.stepSelectTarget, UsbReportUpdater.stepSelectTarget, hm,
      doublePressedStateExists_of_le_one c hc ks]
    simp [hb]
  · simp only [MouseController.stepSnapSpeed, UsbReportUpdater.stepSnapSpeed, hm, hsp]

/-- The sign update of the two files agrees when the booleans are the counters
compared with 0. -/
theorem emitSigns_counters (c : MouseController.serialized_mouse_action_t → Nat)
    (b : MouseController.serialized_mouse_action_t → Bool)
    (hb : ∀ a, b a = decide (c a ≠ 0)) (ks : MouseController.mouse_kinetic_state_t) :
    MouseController.emitSigns c ks = UsbReportUpdater.emitSigns b ks := by
  have h1 : ∀ (s e : Int) (x y : MouseController.serialized_mouse_action_t),
      MouseController.updateOneDirectionSign c s e x y
        = UsbReportUpdater.updateOneDirectionSign b s e x y := by
    intro s e x y
    simp [MouseController.updateOneDirectionSign, UsbReportUpdater.updateOneDirectionSign, hb]
  simp only [MouseController.emitSigns, UsbReportUpdater.emitSigns,
    MouseController.updateDirectionSigns, UsbReportUpdater.updateDirectionSigns, h1]

/-- The emission stage of the two files agrees when the axis skew is 1 and
the diagonal compensation is off. -/
theorem stepEmit_counters (c : MouseController.serialized_mouse_action_t → Nat)
    (b : MouseController.serialized_mouse_action_t → Bool)
    (hb : ∀ a, b a = decide (c a ≠ 0)) (t : Nat) (ks : MouseController.mouse_kinetic_state_t)
    (hskew : ks.axisSkew = 1) :
    MouseController.stepEmit c false t ks = UsbReportUpdater.stepEmit b t ks := by
  have hs := emitSigns_counters c b hb ks
  have hd : MouseController.emitDistance c false t ks = ks.currentSpeed * (t : ℚ) / 1000 := by
    simp [MouseController.emitDistance]
  have hx : MouseController.emitXAcc c false t ks
      = (UsbReportUpdater.emitSigns b ks).xSum +
          ks.currentSpeed * (t : ℚ) / 1000 *
            ((UsbReportUpdater.emitSigns b ks).horizontalStateSign : ℚ) := by
    simp only [MouseController.emitXAcc, hd, hs, hskew, mul_one]
  have hy : MouseController.emitYAcc c false t ks
      = (UsbReportUpdater.emitSigns b ks).ySum +
          ks.currentSpeed * (t : ℚ) / 1000 *
            ((UsbReportUpdater.emitSigns b ks).verticalStateSign : ℚ) := by
    simp only [MouseController.emitYAcc, hd, hs, hskew, div_one]
  simp only [MouseController.stepEmit, UsbReportUpdater.stepEmit,
    MouseController.firstScrollTickX, MouseController.firstScrollTickY, hx, hy, hs, hb,
    decide_eq_true_eq]

/-- The speed stages leave the axis skew as it is. -/
theorem speedStages_axisSkew (b : MouseController.serialized_mouse_action_t → Bool) (t : Nat)
    (ks : MouseController.mouse_kinetic_state_t) :
    (UsbReportUpdater.stepRampSpeed t
      (UsbReportUpdater.stepSnapSpeed b
        (UsbReportUpdater.stepSelectTarget b
          (UsbReportUpdater.stepResetSpeed b ks)))).axisSkew = ks.axisSkew := by
  have h1 : ∀ k : MouseController.mouse_kinetic_state_t,
      (UsbReportUpdater.stepResetSpeed b k).axisSkew = k.axisSkew := by
    intro k
    simp only [UsbReportUpdater.stepResetSpeed]
    split_ifs <;> rfl
  have h2 : ∀ k : MouseController.mouse_kinetic_state_t,
      (UsbReportUpdater.stepSelectTarget b k).axisSkew = k.axisSkew := by
    intro k
    simp only [UsbReportUpdater.stepSelectTarget]
    split_ifs <;> rfl
  have h3 : ∀ k : MouseController.mouse_kinetic_state_t,
      (UsbReportUpdater.stepSnapSpeed b k).axisSkew = k.axisSkew := by
    intro k
    simp only [UsbReportUpdater.stepSnapSpeed]
    split_ifs <;> rfl
  have h4 : ∀ k : MouseController.mouse_kinetic_state_t,
      (UsbReportUpdater.stepRampSpeed t k).axisSkew = k.axisSkew := by
    intro k
    simp only [UsbReportUpdater.stepRampSpeed]
    split_ifs <;> rfl
  rw [h4, h3, h2, h1]

/-- C38: the two implementations of `processMouseKineticState` agree. For every
kinetic state whose axisSkew is 1, every elapsed time and all counters
`ActiveMouseStates` that are 0 or 1, with `CompensateDiagonalSpeed` false, the
counter version of `mouse_controller.c` returns the same kinetic state as the
boolean version of `usb_report_updater.c` run on the booleans "counter is not
0"; in particular the signs, currentSpeed, targetSpeed, xSum, ySum, xOut,
yOut, prevMouseSpeed and wasMoveAction are the same. -/
theorem C38_kineticStateRefinement (c : MouseController.serialized_mouse_action_t → Nat)
    (b : MouseController.serialized_mouse_action_t → Bool) (t : Nat)
    (ks : MouseController.mouse_kinetic_state_t)
    (hskew : ks.axisSkew = 1) (hc : ∀ a, c a ≤ 1) (hb : ∀ a, b a = decide (c a ≠ 0)) :
    MouseController.processMouseKineticState c false t ks
      = UsbReportUpdater.processMouseKineticState b t ks := by
  have hm := isMoveAction_counters c b hb ks
  have hsp := mouseSpeed_counters c b hc hb ks
  have h1 := (speedStages_counters c b hc hb ks).1
  have h2 := (speedStages_counters c b hc hb (UsbReportUpdater.stepResetSpeed b ks)).2.1
  have h3 := (speedStages_counters c b hc hb
    (UsbReportUpdater.stepSelectTarget b (UsbReportUpdater.stepResetSpeed b ks))).2.2
  have hr : ∀ k, MouseController.stepRampSpeed t k = UsbReportUpdater.stepRampSpeed t k :=
    fun _ => rfl
  have he := stepEmit_counters c b hb t
    (UsbReportUpdater.stepRampSpeed t
      (UsbReportUpdater.stepSnapSpeed b
        (UsbReportUpdater.stepSelectTarget b (UsbReportUpdater.stepResetSpeed b ks))))
    ((speedStages_axisSkew b t ks).trans hskew)
  simp only [MouseController.processMouseKineticState,
    UsbReportUpdater.processMouseKineticState, hm, hsp, h1, h2, h3, hr, he]

/-- C38 at an example: MoveRight held (counter 1, boolean true), 10 ms, the
initial move state. -/
theorem C38_kineticStateRefinement_witness :
    MouseController.MouseMoveState_init.axisSkew = 1 ∧
    (∀ a, MouseController.moveRightHeld a ≤ 1) ∧
    MouseController.processMouseKineticState MouseController.moveRightHeld false 10
        MouseController.MouseMoveState_init
      = UsbReportUpdater.processMouseKineticState
          (fun a => decide (MouseController.moveRightHeld a ≠ 0)) 10
          MouseController.MouseMoveState_init :=
  ⟨rfl, fun a => by cases a <;> decide,
    C38_kineticStateRefinement MouseController.moveRightHeld
      (fun a => decide (MouseController.moveRightHeld a ≠ 0)) 10
      MouseController.MouseMoveState_init rfl (fun a => by cases a <;> decide) (fun _ => rfl)⟩

/-! ### Keys that hold a layer -/

/-- The function `applyToggleLayerAction` writes the trace, nothing else. -/
theorem applyToggleLayerAction_writes (st : updater_state_t) (slotId keyId : Nat)
    (action : key_action_t) :
    ∃ c, applyToggleLayerAction st slotId keyId action = { st with calls := c } := by
  simp only [applyToggleLayerAction, recordCall]
  cases action.switchLayer.mode <;> simp only <;> split_ifs <;> exact ⟨_, rfl⟩

/-- The function `applyKeyAction` for a SwitchLayer action writes the trace,
nothing else. -/
theorem applyKeyAction_switchLayer_writes (E : foreign_t) (C : updater_config_t)
    (st : updater_state_t) (slotId keyId : Nat) (action actionBase : key_action_t)
    (htype : action.type = KeyActionType_SwitchLayer) :
    ∃ c, applyKeyAction E C st slotId keyId action actionBase = { st with calls := c } := by
  simp only [applyKeyAction, htype]
  split_ifs
  · exact applyToggleLayerAction_writes st slotId keyId action
  · exact ⟨_, rfl⟩

/-- For a key that is not ActivatedNow after `preprocessKeyState` the state in
which the actions are read is the one `preprocessKeyState` leaves. -/
theorem keyCacheState_continued (E : foreign_t) (C : updater_config_t) (st : updater_state_t)
    (slotId keyId : Nat)
    (hact : KeyState_ActivatedNow
      ((preprocessKeyState E C st slotId keyId).KeyStates slotId keyId) = false) :
    keyCacheState E C st slotId keyId = preprocessKeyState E C st slotId keyId := by
  simp only [keyCacheState]
  rw [if_neg (by rw [hact]; exact Bool.false_ne_true)]

/-- The loop body at a key that holds a layer (postponer inactive): it writes
the key's own state and the trace only; the key is at rest afterwards when the
release is committed (its switch is open), and otherwise only its `debouncing`
can have changed. -/
theorem key_holdsLayer (E : foreign_t) (C : updater_config_t) (st : updater_state_t)
    (slotId keyId : Nat) (hpost : ∀ s, E.PostponerCore_IsActive s = false)
    (h : keyHoldsLayer st slotId keyId) :
    ∃ ks c,
      updateActiveUsbReports_key E C st slotId keyId = { st with KeyStates := ks, calls := c } ∧
      (∀ a b, ¬ (a = slotId ∧ b = keyId) → ks a b = st.KeyStates a b) ∧
      ((keyAtRest (ks slotId keyId) ∧ (st.KeyStates slotId keyId).hardwareSwitchState = false) ∨
        ∃ d, ks slotId keyId = { st.KeyStates slotId keyId with debouncing := d }) := by
  obtain ⟨hty, hdeb, hcur, hprev⟩ := h
  have hkey := preprocessKeyState_key E C st slotId keyId hpost
  have hother := preprocessKeyState_otherKeys E C st slotId keyId
  obtain ⟨ks1, c1, hP⟩ := preprocessKeyState_writes E C st slotId keyId
  rw [hP] at hkey hother
  have hkey1 : ks1 slotId keyId
      = if debouncingAfterGate C st.CurrentTime (st.KeyStates slotId keyId) = false ∧
            (st.KeyStates slotId keyId).debouncedSwitchState
              ≠ (st.KeyStates slotId keyId).hardwareSwitchState then
          { st.KeyStates slotId keyId with
            timestamp := st.CurrentTime
            debouncing := true
            debouncedSwitchState := (st.KeyStates slotId keyId).hardwareSwitchState
            current := (st.KeyStates slotId keyId).hardwareSwitchState }
        else
          { st.KeyStates slotId keyId with
            debouncing := debouncingAfterGate C st.CurrentTime (st.KeyStates slotId keyId) } :=
    hkey
  have hother1 : ∀ a b, ¬ (a = slotId ∧ b = keyId) → ks1 a b = st.KeyStates a b :=
    fun a b hne => hother a b hne
  have hprev1 : (ks1 slotId keyId).previous = true := by
    rw [hkey1]
    split_ifs <;> exact hprev
  have hnz : KeyState_NonZero
      ((preprocessKeyState E C st slotId keyId).KeyStates slotId keyId) = true := by
    rw [hP]
    show KeyState_NonZero (ks1 slotId keyId) = true
    simp [KeyState_NonZero, hprev1]
  have hact : KeyState_ActivatedNow
      ((preprocessKeyState E C st slotId keyId).KeyStates slotId keyId) = false := by
    rw [hP]
    show KeyState_ActivatedNow (ks1 slotId keyId) = false
    simp [KeyState_ActivatedNow, hprev1]
  have hbody := key_nonZero E C st slotId keyId hnz
  rw [keyCacheState_continued E C st slotId keyId hact, hP] at hbody
  obtain ⟨c2, h2⟩ := applyLayerHolds_writes C
    ({ st with KeyStates := ks1, calls := c1 } : updater_state_t) slotId keyId
    (st.CurrentKeymap LayerId_Base slotId keyId)
  obtain ⟨c3, h3⟩ := applyKeyAction_switchLayer_writes E C
    ({ st with KeyStates := ks1, calls := c2 } : updater_state_t) slotId keyId
    (st.actionCache slotId keyId) (st.CurrentKeymap LayerId_Base slotId keyId) hty
  have h2' : applyLayerHolds C ({ st with KeyStates := ks1, calls := c1 } : updater_state_t)
      slotId keyId (st.CurrentKeymap LayerId_Base slotId keyId)
      = { st with KeyStates := ks1, calls := c2 } := h2
  have h3' : applyKeyAction E C ({ st with KeyStates := ks1, calls := c2 } : updater_state_t)
      slotId keyId (st.actionCache slotId keyId) (st.CurrentKeymap LayerId_Base slotId keyId)
      = { st with KeyStates := ks1, calls := c3 } := h3
  have hbody2 : updateActiveUsbReports_key E C st slotId keyId
      = setKeyState ({ st with KeyStates := ks1, calls := c3 } : updater_state_t) slotId keyId
          { ks1 slotId keyId with previous := (ks1 slotId keyId).current } := by
    rw [hbody]
    show setKeyState
        (applyKeyAction E C
          (applyLayerHolds C ({ st with KeyStates := ks1, calls := c1 } : updater_state_t)
            slotId keyId (st.CurrentKeymap LayerId_Base slotId keyId))
          slotId keyId (st.actionCache slotId keyId)
          (st.CurrentKeymap LayerId_Base slotId keyId))
        slotId keyId _ = _
    rw [h2', h3']
  refine ⟨fun a b =>
      if a = slotId ∧ b = keyId then
        { ks1 slotId keyId with previous := (ks1 slotId keyId).current }
      else ks1 a b, c3, ?_, ?_, ?_⟩
  · rw [hbody2]
    rfl
  · intro a b hne
    simp only [hne, if_false]
    exact hother1 a b hne
  · simp only [and_self, if_true]
    rw [hkey1]
    by_cases hedge : debouncingAfterGate C st.CurrentTime (st.KeyStates slotId keyId) = false ∧
        (st.KeyStates slotId keyId).debouncedSwitchState
          ≠ (st.KeyStates slotId keyId).hardwareSwitchState
    · rw [if_pos hedge]
      have hhw : (st.KeyStates slotId keyId).hardwareSwitchState = false := by
        have hne := hedge.2
        rw [hdeb] at hne
        cases hh : (st.KeyStates slotId keyId).hardwareSwitchState
        · rfl
        · exact absurd hh.symm hne
      left
      exact ⟨⟨hhw, hhw, hhw, hhw⟩, hhw⟩
    · rw [if_neg hedge]
      right
      refine ⟨debouncingAfterGate C st.CurrentTime (st.KeyStates slotId keyId), ?_⟩
      cases hk0 : st.KeyStates slotId keyId with
      | mk hw db dbg ts cur prev =>
        rw [hk0] at hcur hprev
        simp only at hcur hprev
        simp only [hcur, hprev]

/-- A state with the same key states and the same action cache keeps the other
keys. -/
theorem othersKept_of_eq (s s1 : updater_state_t) (slotId keyId : Nat)
    (hk : ∀ a b, ¬ (a = slotId ∧ b = keyId) → s1.KeyStates a b = s.KeyStates a b)
    (hc : ∀ a b, ¬ (a = slotId ∧ b = keyId) → s1.actionCache a b = s.actionCache a b) :
    othersKept s s1 slotId keyId := by
  intro a b hne
  simp only [keyHoldsLayer, hk a b hne, hc a b hne]
  exact ⟨fun h => h, fun h => Or.inr h, fun h hw => ⟨h, hw⟩⟩

/-- Keeping the other keys is transitive. -/
theorem othersKept_trans (s s1 s2 : updater_state_t) (slotId keyId : Nat)
    (h1 : othersKept s s1 slotId keyId) (h2 : othersKept s1 s2 slotId keyId) :
    othersKept s s2 slotId keyId := by
  intro a b hne
  obtain ⟨p1, p2, p3⟩ := h1 a b hne
  obtain ⟨q1, q2, q3⟩ := h2 a b hne
  refine ⟨fun h => q1 (p1 h), fun h => ?_, fun h hw => ?_⟩
  · rcases p2 h with hr | hh
    · exact Or.inl (q1 hr)
    · exact q2 hh
  · obtain ⟨r1, r2⟩ := p3 h hw
    exact q3 r1 r2

/-- Other keys that were quiet and have been kept are quiet. -/
theorem othersQuiet_of_kept (s s1 : updater_state_t) (slotId keyId : Nat)
    (hq : othersQuiet s slotId keyId) (hk : othersKept s s1 slotId keyId) :
    othersQuiet s1 slotId keyId := by
  intro a b hne
  obtain ⟨p1, p2, -⟩ := hk a b hne
  rcases hq a b hne with hr | hh
  · exact Or.inl (p1 hr)
  · exact p2 hh

/-- The loop body at a key keeps the other keys: it writes no other key state
and no other entry of the action cache. -/
theorem key_othersKept (E : foreign_t) (C : updater_config_t) (st : updater_state_t)
    (slotId keyId : Nat) :
    othersKept st (updateActiveUsbReports_key E C st slotId keyId) slotId keyId := by
  apply othersKept_of_eq
  · intro a b hne
    exact key_otherKeys E C st slotId keyId a b hne
  · intro a b hne
    rw [key_actionCache]
    simp only [hne, false_and, if_false]

/-- The loop body at a quiet key other than `(slotId, keyId)`, the other keys
being quiet: the view of `(slotId, keyId)` is as before and the other keys are
kept. -/
theorem key_quiet_step (E : foreign_t) (C : updater_config_t) (st : updater_state_t)
    (slotId keyId a b : Nat) (hpost : ∀ s, E.PostponerCore_IsActive s = false)
    (hne : ¬ (a = slotId ∧ b = keyId))
    (hq : keyAtRest (st.KeyStates a b) ∨ keyHoldsLayer st a b) :
    keyView (updateActiveUsbReports_key E C st a b) slotId keyId = keyView st slotId keyId ∧
    othersKept st (updateActiveUsbReports_key E C st a b) slotId keyId := by
  have hne2 : ¬ (slotId = a ∧ keyId = b) := fun h => hne ⟨h.1.symm, h.2.symm⟩
  rcases hq with hr | hh
  · refine ⟨?_, ?_⟩
    · rw [key_atRest E C st a b hr, keyView_setKeyState_other _ _ _ _ _ _ hne2]
    · intro a' b' _
      have hk := key_atRest_keys E C st a b hr a' b'
      have hcache : (updateActiveUsbReports_key E C st a b).actionCache = st.actionCache := by
        rw [key_atRest E C st a b hr]
        rfl
      by_cases hab : a' = a ∧ b' = b
      · obtain ⟨e1, e2⟩ := hab
        subst e1
        subst e2
        refine ⟨fun h => hk.1 h, fun h => Or.inl (hk.1 hr), fun h hw => ?_⟩
        rw [hr.1] at hw
        exact absurd hw (by decide)
      · simp only [keyHoldsLayer, hcache, hk.2 hab]
        exact ⟨fun h => h, fun h => Or.inr h, fun h hw => ⟨h, hw⟩⟩
  · obtain ⟨ks, c, hbody, hks, hkey⟩ := key_holdsLayer E C st a b hpost hh
    refine ⟨?_, ?_⟩
    · rw [hbody]
      simp only [keyView, hks slotId keyId hne2]
    · intro a' b' _
      rw [hbody]
      by_cases hab : a' = a ∧ b' = b
      · obtain ⟨e1, e2⟩ := hab
        subst e1
        subst e2
        rcases hkey with ⟨hrest, hhw⟩ | ⟨d, hd⟩
        · refine ⟨fun _ => hrest, fun _ => Or.inl hrest, fun _ hw => ?_⟩
          rw [hhw] at hw
          exact absurd hw (by decide)
        · have hkeep : keyHoldsLayer
              ({ st with KeyStates := ks, calls := c } : updater_state_t) a' b' ∧
              (ks a' b').hardwareSwitchState = (st.KeyStates a' b').hardwareSwitchState := by
            refine ⟨?_, ?_⟩
            · show (st.actionCache a' b').type = KeyActionType_SwitchLayer ∧
                (ks a' b').debouncedSwitchState = true ∧ (ks a' b').current = true ∧
                (ks a' b').previous = true
              rw [hd]
              exact hh
            · rw [hd]
          refine ⟨fun h => ?_, fun _ => Or.inr hkeep.1, fun _ hw => ⟨hkeep.1, ?_⟩⟩
          · have hc := hh.2.2.1
            rw [h.2.2.1] at hc
            exact absurd hc (by decide)
          · exact hkeep.2.trans hw
      · simp only [keyHoldsLayer, hks a' b' hab]
        exact ⟨fun h => h, fun h => Or.inr h, fun h hw => ⟨h, hw⟩⟩

/-- The key loop with every key but `(slotId, keyId)` quiet (at rest or holding
a layer): what the loop body does to the view of that key is what the loop
does to it, and the other keys are kept. -/
theorem keys_view_quiet (E : foreign_t) (C : updater_config_t) (slotId keyId : Nat)
    (hs : slotId < C.SLOT_COUNT) (hk : keyId < C.MAX_KEY_COUNT_PER_MODULE)
    (hpost : ∀ s, E.PostponerCore_IsActive s = false)
    (v w : key_view_t)
    (hbody : ∀ s, keyView s slotId keyId = v →
      keyView (updateActiveUsbReports_key E C s slotId keyId) slotId keyId = w)
    (st : updater_state_t) (hv : keyView st slotId keyId = v)
    (hquiet : othersQuiet st slotId keyId) :
    keyView (updateActiveUsbReports_keys E C st) slotId keyId = w ∧
    othersKept st (updateActiveUsbReports_keys E C st) slotId keyId := by
  have hother : ∀ (u : key_view_t) (s : updater_state_t) (a b : Nat),
      ¬ (a = slotId ∧ b = keyId) →
      keyView s slotId keyId = u ∧ othersKept st s slotId keyId →
      keyView (updateActiveUsbReports_key E C s a b) slotId keyId = u ∧
        othersKept st (updateActiveUsbReports_key E C s a b) slotId keyId := by
    intro u s a b hne hp
    have hq := othersQuiet_of_kept st s slotId keyId hquiet hp.2
    have hstep := key_quiet_step E C s slotId keyId a b hpost hne (hq a b hne)
    exact ⟨hstep.1.trans hp.1, othersKept_trans st s _ slotId keyId hp.2 hstep.2⟩
  apply keys_single E C
    (fun s => keyView s slotId keyId = v ∧ othersKept st s slotId keyId)
    (fun s => keyView s slotId keyId = w ∧ othersKept st s slotId keyId)
    slotId keyId hs hk (hother v) (hother w) _ st
    ⟨hv, othersKept_of_eq st st slotId keyId (fun _ _ _ => rfl) (fun _ _ _ => rfl)⟩
  intro s hp
  exact ⟨hbody s hp.1, othersKept_trans st s _ slotId keyId hp.2
    (key_othersKept E C s slotId keyId)⟩

/-- A cycle of `updateActiveUsbReports` with every key but `(slotId, keyId)`
quiet (at rest or holding a layer), no macro playing, test mode off and the
postponer inactive: when the loop body takes the view of the key from its
value at the start of the loop to `w`, the cycle leaves the basic report of
`w` with the sticky modifiers of `w` OR-ed in and the other variables of `w`,
and the other keys are kept. -/
theorem cycle_view_quiet (E : foreign_t) (C : updater_config_t) (st : updater_state_t)
    (slotId keyId : Nat) (hs : slotId < C.SLOT_COUNT)
    (hk : keyId < C.MAX_KEY_COUNT_PER_MODULE)
    (hmac : st.MacroPlaying = false) (htest : st.TestUsbStack = false)
    (hpost : ∀ s, E.PostponerCore_IsActive s = false)
    (hquiet : othersQuiet st slotId keyId)
    (w : key_view_t)
    (hbody : ∀ s, keyView s slotId keyId = cycleStartView E st slotId keyId →
      keyView (updateActiveUsbReports_key E C s slotId keyId) slotId keyId = w) :
    (updateActiveUsbReports E C st).ActiveUsbBasicKeyboardReport
      = { w.report with modifiers := w.report.modifiers ||| w.stickyModifiers } ∧
    (updateActiveUsbReports E C st).stickyModifiers = w.stickyModifiers ∧
    (updateActiveUsbReports E C st).stickyModifierKey = w.stickyModifierKey ∧
    (updateActiveUsbReports E C st).stickyModifierShouldStick = w.stickyModifierShouldStick ∧
    (updateActiveUsbReports E C st).actionCache slotId keyId = w.cached ∧
    (updateActiveUsbReports E C st).KeyStates slotId keyId = w.key ∧
    (updateActiveUsbReports E C st).previousLayer = w.previousLayer ∧
    othersKept st (updateActiveUsbReports E C st) slotId keyId := by
  have hS := start_facts E C st htest hpost
  have hkS : othersKept st (updateActiveUsbReports_start E C st) slotId keyId :=
    othersKept_of_eq _ _ slotId keyId (fun a b _ => by rw [hS.KeyStates])
      (fun a b _ => by rw [hS.actionCache])
  have hK := keys_view_quiet E C slotId keyId hs hk hpost (cycleStartView E st slotId keyId) w
    hbody (updateActiveUsbReports_start E C st) (start_view E C st slotId keyId htest hpost)
    (othersQuiet_of_kept st _ slotId keyId hquiet hkS)
  have hF := finish_facts C
    (updateActiveUsbReports_keys E C (updateActiveUsbReports_start E C st))
  have hu : updateActiveUsbReports E C st
      = updateActiveUsbReports_finish C
          (updateActiveUsbReports_keys E C (updateActiveUsbReports_start E C st)) := by
    simp only [updateActiveUsbReports, hmac]
    rfl
  rw [hu]
  generalize updateActiveUsbReports_start E C st = s1 at *
  generalize updateActiveUsbReports_keys E C s1 = sK at *
  generalize updateActiveUsbReports_finish C sK = sF at *
  obtain ⟨hK1, hK2⟩ := hK
  have k1 : sK.ActiveUsbBasicKeyboardReport = w.report := by
    have e := congrArg key_view_t.report hK1
    exact e
  have k2 : sK.stickyModifiers = w.stickyModifiers := by
    have e := congrArg key_view_t.stickyModifiers hK1
    exact e
  have k3 : sK.stickyModifierKey = w.stickyModifierKey := by
    have e := congrArg key_view_t.stickyModifierKey hK1
    exact e
  have k4 : sK.stickyModifierShouldStick = w.stickyModifierShouldStick := by
    have e := congrArg key_view_t.stickyModifierShouldStick hK1
    exact e
  have k5 : sK.actionCache slotId keyId = w.cached := by
    have e := congrArg key_view_t.cached hK1
    exact e
  have k6 : sK.KeyStates slotId keyId = w.key := by
    have e := congrArg key_view_t.key hK1
    exact e
  have k7 : sK.previousLayer = w.previousLayer := by
    have e := congrArg key_view_t.previousLayer hK1
    exact e
  have hkF : othersKept sK sF slotId keyId :=
    othersKept_of_eq _ _ slotId keyId (fun a b _ => by rw [hF.KeyStates])
      (fun a b _ => by rw [hF.actionCache])
  refine ⟨?_, ?_, ?_, ?_, ?_, ?_, ?_, ?_⟩
  · rw [hF.basic, k1, k2]
  · rw [hF.stickyModifiers, k2]
  · rw [hF.stickyModifierKey, k3]
  · rw [hF.stickyModifierShouldStick, k4]
  · rw [hF.actionCache, k5]
  · rw [hF.KeyStates, k6]
  · rw [hF.previousLayer, k7]
  · exact othersKept_trans st sK sF slotId keyId
      (othersKept_trans st s1 sK slotId keyId hkS hK2) hkF

/-- The activation cycle of a keystroke key without secondary role, with a
scancode and modifiers other than the sticky modifiers, every other key at
rest or holding a layer: the basic report gains the modifiers and no scancode, the sticky
modifiers are activated and the action of the active layer is cached. -/
theorem cycle_activation_quiet (E : foreign_t) (C : updater_config_t) (st : updater_state_t)
    (slotId keyId : Nat) (hs : slotId < C.SLOT_COUNT)
    (hk : keyId < C.MAX_KEY_COUNT_PER_MODULE)
    (hmac : st.MacroPlaying = false) (htest : st.TestUsbStack = false)
    (hpost : ∀ s, E.PostponerCore_IsActive s = false)
    (hquiet : othersQuiet st slotId keyId)
    (hcur : (st.KeyStates slotId keyId).current = false)
    (hprev : (st.KeyStates slotId keyId).previous = false)
    (hdeb : (st.KeyStates slotId keyId).debouncedSwitchState = false)
    (hhw : (st.KeyStates slotId keyId).hardwareSwitchState = true)
    (hgate : debouncingAfterGate C st.CurrentTime (st.KeyStates slotId keyId) = false)
    (action : key_action_t)
    (hmap : st.CurrentKeymap (E.LayerSwitcher_UpdateActiveLayer (layerQueryState st)).1
      slotId keyId = action)
    (htype : action.type = KeyActionType_Keystroke)
    (hrole : action.keystroke.secondaryRole = 0)
    (hsc : action.keystroke.scancode ≠ 0)
    (hmod : action.keystroke.modifiers
      ≠ (if (E.LayerSwitcher_UpdateActiveLayer (layerQueryState st)).1 ≠ st.previousLayer then 0
          else st.stickyModifiers)) :
    (updateActiveUsbReports E C st).ActiveUsbBasicKeyboardReport
      = { st.ActiveUsbBasicKeyboardReport with
          modifiers := st.ActiveUsbBasicKeyboardReport.modifiers |||
            action.keystroke.modifiers } ∧
    (updateActiveUsbReports E C st).stickyModifiers = action.keystroke.modifiers ∧
    (updateActiveUsbReports E C st).stickyModifierKey = some (slotId, keyId) ∧
    (updateActiveUsbReports E C st).stickyModifierShouldStick
      = ((E.LayerSwitcher_UpdateActiveLayer (layerQueryState st)).2 &&
          isStickyShortcut action) ∧
    (updateActiveUsbReports E C st).actionCache slotId keyId = action ∧
    (updateActiveUsbReports E C st).KeyStates slotId keyId
      = { hardwareSwitchState := true, debouncedSwitchState := true, debouncing := true,
          timestamp := st.CurrentTime, current := true, previous := true } ∧
    (updateActiveUsbReports E C st).previousLayer
      = (E.LayerSwitcher_UpdateActiveLayer (layerQueryState st)).1 ∧
    othersKept st (updateActiveUsbReports E C st) slotId keyId := by
  have hc := cycle_view_quiet E C st slotId keyId hs hk hmac htest hpost hquiet _ (by
    intro s hv
    obtain ⟨f1, f2, f3, f4, f5, f6, f7, f8, f9, f10, f11⟩ :=
      keyView_fields s slotId keyId _ hv
    have e1 : s.KeyStates slotId keyId = st.KeyStates slotId keyId := f7
    have e3 : s.CurrentTime = st.CurrentTime := f10
    have e8 : s.CurrentKeymap s.ActiveLayer slotId keyId = action := by
      rw [f8]
      exact hmap
    have e4 : s.stickyModifiers
        = (if (E.LayerSwitcher_UpdateActiveLayer (layerQueryState st)).1 ≠ st.previousLayer
            then 0 else st.stickyModifiers) := f3
    rw [key_activation_view E C s slotId keyId hpost (by rw [e1]; exact hcur)
      (by rw [e1]; exact hprev) (by rw [e1]; exact hdeb) (by rw [e1]; exact hhw)
      (by rw [e1, e3]; exact hgate) (by rw [e8]; exact htype) (by rw [e8]; exact hrole)
      (by rw [e8]; exact hsc) (by rw [e8, e4]; exact hmod), hv, e8, f9, f10])
  simpa only [cycleStartView] using hc

/-- A cycle in which a keystroke key without secondary role stays held (basic
scancode, no edge pending), every other key at rest or
holding a layer: the basic report gains the
scancode in its first slot and the sticky modifiers that outlive the layer
check. -/
theorem cycle_held_quiet (E : foreign_t) (C : updater_config_t) (st : updater_state_t)
    (slotId keyId : Nat) (hs : slotId < C.SLOT_COUNT)
    (hk : keyId < C.MAX_KEY_COUNT_PER_MODULE)
    (hmac : st.MacroPlaying = false) (htest : st.TestUsbStack = false)
    (hpost : ∀ s, E.PostponerCore_IsActive s = false)
    (hquiet : othersQuiet st slotId keyId)
    (hcur : (st.KeyStates slotId keyId).current = true)
    (hprev : (st.KeyStates slotId keyId).previous = true)
    (hdeb : (st.KeyStates slotId keyId).debouncedSwitchState
      = (st.KeyStates slotId keyId).hardwareSwitchState)
    (htype : (st.actionCache slotId keyId).type = KeyActionType_Keystroke)
    (hrole : (st.actionCache slotId keyId).keystroke.secondaryRole = 0)
    (hbasic : (st.actionCache slotId keyId).keystroke.keystrokeType = KeystrokeType_Basic)
    (hsc : (st.actionCache slotId keyId).keystroke.scancode ≠ 0) :
    (updateActiveUsbReports E C st).ActiveUsbBasicKeyboardReport
      = { modifiers := st.ActiveUsbBasicKeyboardReport.modifiers |||
            (if (E.LayerSwitcher_UpdateActiveLayer (layerQueryState st)).1 ≠ st.previousLayer
              then 0 else st.stickyModifiers)
          reserved := st.ActiveUsbBasicKeyboardReport.reserved
          scancodes := st.ActiveUsbBasicKeyboardReport.scancodes.set 0
            ((st.actionCache slotId keyId).keystroke.scancode % 256) } ∧
    (updateActiveUsbReports E C st).stickyModifiers
      = (if (E.LayerSwitcher_UpdateActiveLayer (layerQueryState st)).1 ≠ st.previousLayer then 0
          else st.stickyModifiers) ∧
    (updateActiveUsbReports E C st).stickyModifierKey = st.stickyModifierKey ∧
    (updateActiveUsbReports E C st).stickyModifierShouldStick = st.stickyModifierShouldStick ∧
    (updateActiveUsbReports E C st).actionCache slotId keyId = st.actionCache slotId keyId ∧
    (updateActiveUsbReports E C st).KeyStates slotId keyId
      = { st.KeyStates slotId keyId with
          debouncing := debouncingAfterGate C st.CurrentTime (st.KeyStates slotId keyId) } ∧
    (updateActiveUsbReports E C st).previousLayer
      = (E.LayerSwitcher_UpdateActiveLayer (layerQueryState st)).1 ∧
    othersKept st (updateActiveUsbReports E C st) slotId keyId := by
  have hc := cycle_view_quiet E C st slotId keyId hs hk hmac htest hpost hquiet _ (by
    intro s hv
    obtain ⟨f1, f2, f3, f4, f5, f6, f7, f8, f9, f10, f11⟩ :=
      keyView_fields s slotId keyId _ hv
    have e1 : s.KeyStates slotId keyId = st.KeyStates slotId keyId := f7
    have e2 : s.actionCache slotId keyId = st.actionCache slotId keyId := f6
    have e5 : s.basicScancodeIndex = 0 := f2
    rw [key_held_view E C s slotId keyId (by rw [e1]; exact hcur)
      (by rw [e1]; exact hprev) (by rw [e1]; exact hdeb) (by rw [e2]; exact htype)
      (by rw [e2]; exact hrole) (by rw [e2]; exact hbasic) (by rw [e2]; exact hsc)
      (by rw [e5]; decide), hv, f1, f2, f6, f7, f10])
  simpa only [cycleStartView] using hc

/-- A cycle in which the release of a keystroke key without secondary role is
committed, every other key at rest or holding a layer: the basic report gains the sticky modifiers
that outlive the layer check and no scancode; they are cleared afterwards when
the key owns them and they are not to stick. -/
theorem cycle_release_quiet (E : foreign_t) (C : updater_config_t) (st : updater_state_t)
    (slotId keyId : Nat) (hs : slotId < C.SLOT_COUNT)
    (hk : keyId < C.MAX_KEY_COUNT_PER_MODULE)
    (hmac : st.MacroPlaying = false) (htest : st.TestUsbStack = false)
    (hpost : ∀ s, E.PostponerCore_IsActive s = false)
    (hquiet : othersQuiet st slotId keyId)
    (hcur : (st.KeyStates slotId keyId).current = true)
    (hprev : (st.KeyStates slotId keyId).previous = true)
    (hdeb : (st.KeyStates slotId keyId).debouncedSwitchState = true)
    (hhw : (st.KeyStates slotId keyId).hardwareSwitchState = false)
    (hgate : debouncingAfterGate C st.CurrentTime (st.KeyStates slotId keyId) = false)
    (htype : (st.actionCache slotId keyId).type = KeyActionType_Keystroke)
    (hrole : (st.actionCache slotId keyId).keystroke.secondaryRole = 0) :
    (updateActiveUsbReports E C st).ActiveUsbBasicKeyboardReport
      = { st.ActiveUsbBasicKeyboardReport with
          modifiers := st.ActiveUsbBasicKeyboardReport.modifiers |||
            (if (E.LayerSwitcher_UpdateActiveLayer (layerQueryState st)).1 ≠ st.previousLayer
              then 0 else st.stickyModifiers) } ∧
    (updateActiveUsbReports E C st).stickyModifiers
      = (if st.stickyModifierKey = some (slotId, keyId) ∧
            st.stickyModifierShouldStick = false then 0
          else if (E.LayerSwitcher_UpdateActiveLayer (layerQueryState st)).1 ≠ st.previousLayer
            then 0 else st.stickyModifiers) ∧
    keyAtRest ((updateActiveUsbReports E C st).KeyStates slotId keyId) ∧
    othersKept st (updateActiveUsbReports E C st) slotId keyId := by
  have hc := cycle_view_quiet E C st slotId keyId hs hk hmac htest hpost hquiet _ (by
    intro s hv
    obtain ⟨f1, f2, f3, f4, f5, f6, f7, f8, f9, f10, f11⟩ :=
      keyView_fields s slotId keyId _ hv
    have e1 : s.KeyStates slotId keyId = st.KeyStates slotId keyId := f7
    have e2 : s.actionCache slotId keyId = st.actionCache slotId keyId := f6
    have e3 : s.CurrentTime = st.CurrentTime := f10
    rw [key_release_view E C s slotId keyId hpost (by rw [e1]; exact hcur)
      (by rw [e1]; exact hprev) (by rw [e1]; exact hdeb) (by rw [e1]; exact hhw)
      (by rw [e1, e3]; exact hgate) (by rw [e2]; exact htype) (by rw [e2]; exact hrole), hv,
      f1, f3, f4, f5, f10])
  obtain ⟨c1, c2, c3, c4, c5, c6, c7, c8⟩ := hc
  simp only [cycleStartView] at c1 c2 c6
  refine ⟨?_, ?_, ?_, c8⟩
  · rw [c1]
    split_ifs <;> simp [Nat.or_assoc]
  · rw [c2]
  · rw [c6]
    exact ⟨rfl, rfl, rfl, rfl⟩

/-- The loop body at a key at rest leaves the view of the key as it is, but for
`debouncing` of the key. -/
theorem key_rest_view (E : foreign_t) (C : updater_config_t) (st : updater_state_t)
    (slotId keyId : Nat) (h : keyAtRest (st.KeyStates slotId keyId)) :
    keyView (updateActiveUsbReports_key E C st slotId keyId) slotId keyId
      = { keyView st slotId keyId with
          key :=
            { st.KeyStates slotId keyId with
              debouncing :=
                debouncingAfterGate C st.CurrentTime (st.KeyStates slotId keyId) } } := by
  rw [key_atRest E C st slotId keyId h]
  simp [keyView, setKeyState]

/-- A cycle in which the key `(slotId, keyId)` is at rest and every other key is
at rest or holds a layer: the basic report gains the sticky modifiers that
outlive the layer check and nothing else, they are left as they are, the key
is at rest afterwards and the other keys are kept. -/
theorem cycle_idle_quiet (E : foreign_t) (C : updater_config_t) (st : updater_state_t)
    (slotId keyId : Nat) (hs : slotId < C.SLOT_COUNT)
    (hk : keyId < C.MAX_KEY_COUNT_PER_MODULE)
    (hmac : st.MacroPlaying = false) (htest : st.TestUsbStack = false)
    (hpost : ∀ s, E.PostponerCore_IsActive s = false)
    (hquiet : othersQuiet st slotId keyId)
    (hkey : keyAtRest (st.KeyStates slotId keyId)) :
    (updateActiveUsbReports E C st).ActiveUsbBasicKeyboardReport
      = { st.ActiveUsbBasicKeyboardReport with
          modifiers := st.ActiveUsbBasicKeyboardReport.modifiers |||
            (if (E.LayerSwitcher_UpdateActiveLayer (layerQueryState st)).1 ≠ st.previousLayer
              then 0 else st.stickyModifiers) } ∧
    (updateActiveUsbReports E C st).stickyModifiers
      = (if (E.LayerSwitcher_UpdateActiveLayer (layerQueryState st)).1 ≠ st.previousLayer then 0
          else st.stickyModifiers) ∧
    (updateActiveUsbReports E C st).stickyModifierKey = st.stickyModifierKey ∧
    (updateActiveUsbReports E C st).stickyModifierShouldStick = st.stickyModifierShouldStick ∧
    keyAtRest ((updateActiveUsbReports E C st).KeyStates slotId keyId) ∧
    othersKept st (updateActiveUsbReports E C st) slotId keyId := by
  have hc := cycle_view_quiet E C st slotId keyId hs hk hmac htest hpost hquiet _ (by
    intro s hv
    obtain ⟨f1, f2, f3, f4, f5, f6, f7, f8, f9, f10, f11⟩ :=
      keyView_fields s slotId keyId _ hv
    have e1 : s.KeyStates slotId keyId = st.KeyStates slotId keyId := f7
    rw [key_rest_view E C s slotId keyId (by rw [e1]; exact hkey), hv, f7, f10])
  obtain ⟨c1, c2, c3, c4, c5, c6, c7, c8⟩ := hc
  simp only [cycleStartView] at c1 c2 c3 c4 c6
  exact ⟨c1, c2, c3, c4, by rw [c6]; exact hkey, c8⟩

/-- The loop body at a key that holds a layer with its switch closed (no edge
pending), whose action on the base layer is a SwitchLayer action in a mode
other than Toggle: `LayerSwitcher_HoldLayer` is called for the layer of that
action, and nothing else is called. -/
theorem key_holdsLayer_calls (E : foreign_t) (C : updater_config_t) (st : updater_state_t)
    (slotId keyId : Nat) (h : keyHoldsLayer st slotId keyId)
    (hhw : (st.KeyStates slotId keyId).hardwareSwitchState = true)
    (hbase : (st.CurrentKeymap LayerId_Base slotId keyId).type = KeyActionType_SwitchLayer)
    (hmode : (st.CurrentKeymap LayerId_Base slotId keyId).switchLayer.mode
      ≠ SwitchLayerMode_Toggle) :
    (updateActiveUsbReports_key E C st slotId keyId).calls
      = st.calls ++
          [LayerSwitcher_HoldLayer
            (st.CurrentKeymap LayerId_Base slotId keyId).switchLayer.layer] := by
  obtain ⟨hty, hdeb, hcur, hprev⟩ := h
  have hpre := preprocessKeyState_noEdge E C st slotId keyId (by
    rintro ⟨-, hne⟩
    rw [hdeb, hhw] at hne
    exact hne rfl)
  have hnz : KeyState_NonZero
      ((preprocessKeyState E C st slotId keyId).KeyStates slotId keyId) = true := by
    rw [hpre, setKeyState_same]
    simp [KeyState_NonZero, hcur]
  have hact : KeyState_ActivatedNow
      ((preprocessKeyState E C st slotId keyId).KeyStates slotId keyId) = false := by
    rw [hpre, setKeyState_same]
    simp [KeyState_ActivatedNow, hprev]
  rw [key_nonZero E C st slotId keyId hnz, keyCacheState_continued E C st slotId keyId hact,
    hpre]
  cases hm : (st.CurrentKeymap LayerId_Base slotId keyId).switchLayer.mode with
  | SwitchLayerMode_Toggle => exact absurd hm hmode
  | SwitchLayerMode_Hold =>
    simp [setKeyState, applyLayerHolds, applyKeyAction, recordCall, KeyState_Active, hty,
      hbase, hcur, hprev, hm]
  | SwitchLayerMode_HoldAndDoubleTapToggle =>
    simp [setKeyState, applyLayerHolds, applyKeyAction, recordCall, KeyState_Active, hty,
      hbase, hcur, hprev, hm]

/-- The start of a next cycle keeps the other keys quiet when the switch of no
key that was at rest has closed. -/
theorem nextCycle_quiet (s s1 : updater_state_t) (slotId keyId : Nat)
    (hnext : nextCycleStart s s1) (hq : othersQuiet s slotId keyId)
    (hhw : ∀ a b, ¬ (a = slotId ∧ b = keyId) → keyAtRest (s.KeyStates a b) →
      (s1.KeyStates a b).hardwareSwitchState = false) :
    othersQuiet s1 slotId keyId := by
  obtain ⟨n1, n2, -⟩ := hnext
  intro a b hne
  obtain ⟨q1, -, -, q4, q5⟩ := n1 a b
  rcases hq a b hne with hr | hh
  · have hw1 := hhw a b hne hr
    obtain ⟨-, p2, p3, p4⟩ := hr
    exact Or.inl ⟨hw1, by rw [q1]; exact p2, by rw [q4]; exact p3, by rw [q5]; exact p4⟩
  · obtain ⟨p1, p2, p3, p4⟩ := hh
    exact Or.inr ⟨by rw [n2]; exact p1, by rw [q1]; exact p2, by rw [q4]; exact p3,
      by rw [q5]; exact p4⟩

/-- A cycle that follows a cycle which left the key `(slotId, keyId)` at rest
and the other keys quiet, with the switch of the key open and no switch of a
key at rest closed: the basic report is the sticky modifiers that outlive the
layer check, they are left as they are, and the keys are left as they were
found. -/
theorem cycle_afterQuiet (E : foreign_t) (C : updater_config_t) (s st : updater_state_t)
    (slotId keyId : Nat) (hs : slotId < C.SLOT_COUNT)
    (hk : keyId < C.MAX_KEY_COUNT_PER_MODULE)
    (hpost : ∀ s, E.PostponerCore_IsActive s = false)
    (hkey : keyAtRest (s.KeyStates slotId keyId))
    (hquiet : othersQuiet s slotId keyId)
    (hnext : nextCycleStart s st)
    (hhw : (st.KeyStates slotId keyId).hardwareSwitchState = false)
    (hrest : ∀ a b, ¬ (a = slotId ∧ b = keyId) → keyAtRest (s.KeyStates a b) →
      (st.KeyStates a b).hardwareSwitchState = false) :
    (updateActiveUsbReports E C st).ActiveUsbBasicKeyboardReport
      = { zeroBasicKeyboardReport with
          modifiers :=
            if (E.LayerSwitcher_UpdateActiveLayer (layerQueryState st)).1 ≠ st.previousLayer
              then 0 else s.stickyModifiers } ∧
    (updateActiveUsbReports E C st).stickyModifiers
      = (if (E.LayerSwitcher_UpdateActiveLayer (layerQueryState st)).1 ≠ st.previousLayer
          then 0 else s.stickyModifiers) ∧
    keyAtRest ((updateActiveUsbReports E C st).KeyStates slotId keyId) ∧
    othersQuiet (updateActiveUsbReports E C st) slotId keyId := by
  have hq := nextCycle_quiet s st slotId keyId hnext hquiet hrest
  obtain ⟨n1, n2, n3, n4, n5, n6, n7, n8, n9⟩ := hnext
  have hkey1 : keyAtRest (st.KeyStates slotId keyId) := by
    obtain ⟨-, p2, p3, p4⟩ := hkey
    obtain ⟨q1, -, -, q4, q5⟩ := n1 slotId keyId
    exact ⟨hhw, by rw [q1]; exact p2, by rw [q4]; exact p3, by rw [q5]; exact p4⟩
  obtain ⟨c1, c2, -, -, c5, c6⟩ :=
    cycle_idle_quiet E C st slotId keyId hs hk n8 n9 hpost hq hkey1
  refine ⟨?_, ?_, c5, othersQuiet_of_kept st _ slotId keyId hq c6⟩
  · rw [c1, n7, n3]
    simp [zeroBasicKeyboardReport]
  · rw [c2, n3]

/-! ### The keymap and `previousLayer` in the key loop -/

/-- The function `applyKeystrokePrimary` writes neither the keymap nor
`previousLayer`. -/
theorem applyKeystrokePrimary_keymap (C : updater_config_t) (st : updater_state_t)
    (slotId keyId : Nat) (action : key_action_t) :
    (applyKeystrokePrimary C st slotId keyId action).CurrentKeymap = st.CurrentKeymap ∧
    (applyKeystrokePrimary C st slotId keyId action).previousLayer = st.previousLayer := by
  have ha : ∀ s : updater_state_t,
      (appendScancode C s action).CurrentKeymap = s.CurrentKeymap ∧
      (appendScancode C s action).previousLayer = s.previousLayer := by
    intro s
    simp only [appendScancode]
    cases action.keystroke.keystrokeType <;> simp only <;> split_ifs <;> exact ⟨rfl, rfl⟩
  simp only [applyKeystrokePrimary, activateStickyMods]
  split_ifs <;> first
    | exact ⟨rfl, rfl⟩
    | exact ha _

/-- The function `applyKeyAction` writes the keymap only for a SwitchKeymap
action, and never `previousLayer`. -/
theorem applyKeyAction_keymap (E : foreign_t) (C : updater_config_t)
    (st : updater_state_t) (slotId keyId : Nat) (action actionBase : key_action_t) :
    (action.type ≠ KeyActionType_SwitchKeymap →
      (applyKeyAction E C st slotId keyId action actionBase).CurrentKeymap
        = st.CurrentKeymap) ∧
    (applyKeyAction E C st slotId keyId action actionBase).previousLayer
      = st.previousLayer := by
  simp only [applyKeyAction]
  cases hty : action.type
  · exact ⟨fun _ => rfl, rfl⟩
  · simp only
    have hp := applyKeystrokePrimary_keymap C st slotId keyId action
    split_ifs
    · simp only [applyKeystroke]
      split_ifs
      · cases E.SecondaryRoles_ResolveState st slotId keyId <;> simp only <;> first
          | exact ⟨fun _ => hp.1, hp.2⟩
          | exact ⟨fun _ => rfl, rfl⟩
          | (simp only [applyKeystrokeSecondary, recordCall]
             split_ifs <;> exact ⟨fun _ => rfl, rfl⟩)
      · exact ⟨fun _ => hp.1, hp.2⟩
    · exact ⟨fun _ => rfl, rfl⟩
  · simp only [activateDirectionSigns]
    split_ifs <;> first
      | exact ⟨fun _ => rfl, rfl⟩
      | (cases action.mouseAction <;> exact ⟨fun _ => rfl, rfl⟩)
  · simp only [applyToggleLayerAction, recordCall]
    cases action.switchLayer.mode <;> simp only <;> split_ifs <;> exact ⟨fun _ => rfl, rfl⟩
  · simp only [recordCall]
    split_ifs <;> exact ⟨fun h => absurd rfl h, rfl⟩
  · simp only [recordCall]
    split_ifs <;> exact ⟨fun _ => rfl, rfl⟩

/-- The loop body at a key writes the keymap only when the cached action or the
action of the active layer is a SwitchKeymap action, and never
`previousLayer`. -/
theorem key_keymap (E : foreign_t) (C : updater_config_t) (st : updater_state_t)
    (slotId keyId : Nat) :
    ((st.actionCache slotId keyId).type ≠ KeyActionType_SwitchKeymap →
      (st.CurrentKeymap st.ActiveLayer slotId keyId).type ≠ KeyActionType_SwitchKeymap →
      (updateActiveUsbReports_key E C st slotId keyId).CurrentKeymap = st.CurrentKeymap) ∧
    (updateActiveUsbReports_key E C st slotId keyId).previousLayer = st.previousLayer := by
  by_cases hnz : KeyState_NonZero
      ((preprocessKeyState E C st slotId keyId).KeyStates slotId keyId) = true
  · rw [key_nonZero E C st slotId keyId hnz]
    obtain ⟨ks, c, cache, hw, -⟩ := keyCacheState_writes E C st slotId keyId
    obtain ⟨c2, h2⟩ := applyLayerHolds_writes C (keyCacheState E C st slotId keyId) slotId keyId
      ((keyCacheState E C st slotId keyId).CurrentKeymap LayerId_Base slotId keyId)
    have hk := applyKeyAction_keymap E C
      (applyLayerHolds C (keyCacheState E C st slotId keyId) slotId keyId
        ((keyCacheState E C st slotId keyId).CurrentKeymap LayerId_Base slotId keyId))
      slotId keyId ((keyCacheState E C st slotId keyId).actionCache slotId keyId)
      ((keyCacheState E C st slotId keyId).CurrentKeymap LayerId_Base slotId keyId)
    have e1 : (applyLayerHolds C (keyCacheState E C st slotId keyId) slotId keyId
        ((keyCacheState E C st slotId keyId).CurrentKeymap LayerId_Base slotId
          keyId)).CurrentKeymap = st.CurrentKeymap := by
      rw [h2, hw]
    have e2 : (applyLayerHolds C (keyCacheState E C st slotId keyId) slotId keyId
        ((keyCacheState E C st slotId keyId).CurrentKeymap LayerId_Base slotId
          keyId)).previousLayer = st.previousLayer := by
      rw [h2, hw]
    refine ⟨fun hc hm => ?_, ?_⟩
    · show (applyKeyAction E C _ slotId keyId _ _).CurrentKeymap = _
      rw [hk.1 (by
        rw [keyCacheState_action E C st slotId keyId]
        split_ifs
        · exact hm
        · exact hc), e1]
    · show (applyKeyAction E C _ slotId keyId _ _).previousLayer = _
      rw [hk.2, e2]
  · have hz : KeyState_NonZero
        ((preprocessKeyState E C st slotId keyId).KeyStates slotId keyId) = false := by
      simpa using hnz
    rw [key_notNonZero E C st slotId keyId hz]
    obtain ⟨ks, c, h1⟩ := preprocessKeyState_writes E C st slotId keyId
    rw [h1]
    exact ⟨fun _ _ => rfl, rfl⟩

/-- The key loop does not write `previousLayer`. -/
theorem keys_previousLayer (E : foreign_t) (C : updater_config_t) (st : updater_state_t) :
    (updateActiveUsbReports_keys E C st).previousLayer = st.previousLayer :=
  keys_invariant E C (fun s => s.previousLayer = st.previousLayer)
    (fun s a b _ _ h => by
      show (updateActiveUsbReports_key E C s a b).previousLayer = st.previousLayer
      rw [(key_keymap E C s a b).2]
      exact h) st rfl

/-- The finish of a cycle does not write the keymap. -/
theorem finish_keymap (C : updater_config_t) (st : updater_state_t) :
    (updateActiveUsbReports_finish C st).CurrentKeymap = st.CurrentKeymap := by
  have hm : ∀ (s : updater_state_t) (l : List Nat),
      (List.foldl (processMouseActions_module C) s l).CurrentKeymap = s.CurrentKeymap := by
    intro s l
    apply foldl_invariant (processMouseActions_module C)
      (fun s1 => s1.CurrentKeymap = s.CurrentKeymap) l _ s rfl
    intro s1 i _ hs
    simp only [processMouseActions_module]
    split_ifs <;> exact hs
  simp only [updateActiveUsbReports_finish, recordCall, processMouseActions]
  exact hm _ _

/-- A left fold over `List.range n` in which the step `i0` takes `P` to `Q`,
the steps before it keep `P` and the steps after it keep `Q` takes `P` to
`Q`. -/
theorem foldl_range_single {σ : Type} (f : σ → Nat → σ) (P Q : σ → Prop) (n i0 : Nat)
    (hi : i0 < n)
    (hP : ∀ s j, j < i0 → P s → P (f s j))
    (hPQ : ∀ s, P s → Q (f s i0))
    (hQ : ∀ s j, i0 < j → j < n → Q s → Q (f s j))
    (s : σ) (hs : P s) : Q (List.foldl f s (List.range n)) := by
  have h : ∀ m, m ≤ n →
      (m ≤ i0 → P (List.foldl f s (List.range m))) ∧
      (i0 < m → Q (List.foldl f s (List.range m))) := by
    intro m
    induction m with
    | zero =>
      intro _
      exact ⟨fun _ => hs, fun h => absurd h (Nat.not_lt_zero _)⟩
    | succ k ih =>
      intro hk
      have ihk := ih (Nat.le_of_succ_le hk)
      rw [List.range_succ, List.foldl_append]
      simp only [List.foldl_cons, List.foldl_nil]
      constructor
      · intro hle
        exact hP _ k (Nat.lt_of_succ_le hle) (ihk.1 (Nat.le_of_succ_le hle))
      · intro hlt
        rcases Nat.lt_or_ge i0 k with h1 | h1
        · exact hQ _ k h1 (Nat.lt_of_succ_le hk) (ihk.2 h1)
        · have e : k = i0 := Nat.le_antisymm h1 (Nat.lt_succ_iff.mp hlt)
          rw [e]
          rw [e] at ihk
          exact hPQ _ (ihk.1 (Nat.le_refl _))
  exact (h n (Nat.le_refl n)).2 hi

/-! ### The call that holds the layer -/

/-- The key loop with a key that holds a layer, its switch closed, whose action
on the base layer is a SwitchLayer action in a mode other than Toggle, when
every key after it in the order of the loop is at rest and no key before it
has a SwitchKeymap action: the last call of the loop is `LayerSwitcher_HoldLayer`
for the layer of that action; the keymap is as before, the key still holds
the layer with its switch closed, and the keys after it are at rest. -/
theorem keys_holdRecorded (E : foreign_t) (C : updater_config_t) (st : updater_state_t)
    (slotId keyId : Nat) (hs : slotId < C.SLOT_COUNT)
    (hk : keyId < C.MAX_KEY_COUNT_PER_MODULE)
    (hpost : ∀ s, E.PostponerCore_IsActive s = false)
    (hhold : keyHoldsLayer st slotId keyId)
    (hhw : (st.KeyStates slotId keyId).hardwareSwitchState = true)
    (hbase : (st.CurrentKeymap LayerId_Base slotId keyId).type = KeyActionType_SwitchLayer)
    (hmode : (st.CurrentKeymap LayerId_Base slotId keyId).switchLayer.mode
      ≠ SwitchLayerMode_Toggle)
    (hafter : ∀ a b, slotId < a ∨ (a = slotId ∧ keyId < b) → keyAtRest (st.KeyStates a b))
    (hbefore : ∀ a b, a < slotId ∨ (a = slotId ∧ b < keyId) →
      (st.actionCache a b).type ≠ KeyActionType_SwitchKeymap ∧
      ∀ layer, (st.CurrentKeymap layer a b).type ≠ KeyActionType_SwitchKeymap) :
    (∃ X, (updateActiveUsbReports_keys E C st).calls
      = X ++ [LayerSwitcher_HoldLayer
          (st.CurrentKeymap LayerId_Base slotId keyId).switchLayer.layer]) ∧
    (updateActiveUsbReports_keys E C st).CurrentKeymap = st.CurrentKeymap ∧
    keyHoldsLayer (updateActiveUsbReports_keys E C st) slotId keyId ∧
    ((updateActiveUsbReports_keys E C st).KeyStates slotId keyId).hardwareSwitchState = true ∧
    (∀ a b, slotId < a ∨ (a = slotId ∧ keyId < b) →
      keyAtRest ((updateActiveUsbReports_keys E C st).KeyStates a b)) ∧
    (∀ a b, a < slotId ∨ (a = slotId ∧ b < keyId) →
      ((updateActiveUsbReports_keys E C st).actionCache a b).type
        ≠ KeyActionType_SwitchKeymap) := by
  -- what holds until the loop reaches the key, and what holds after it
  let P : updater_state_t → Prop := fun s =>
    s.CurrentKeymap = st.CurrentKeymap ∧
    s.actionCache slotId keyId = st.actionCache slotId keyId ∧
    s.KeyStates slotId keyId = st.KeyStates slotId keyId ∧
    (∀ a b, slotId < a ∨ (a = slotId ∧ keyId < b) → s.KeyStates a b = st.KeyStates a b) ∧
    (∀ a b, a < slotId ∨ (a = slotId ∧ b < keyId) →
      (s.actionCache a b).type ≠ KeyActionType_SwitchKeymap)
  let Q : updater_state_t → Prop := fun s =>
    (∃ X, s.calls
      = X ++ [LayerSwitcher_HoldLayer
          (st.CurrentKeymap LayerId_Base slotId keyId).switchLayer.layer]) ∧
    s.CurrentKeymap = st.CurrentKeymap ∧
    keyHoldsLayer s slotId keyId ∧
    (s.KeyStates slotId keyId).hardwareSwitchState = true ∧
    (∀ a b, slotId < a ∨ (a = slotId ∧ keyId < b) → keyAtRest (s.KeyStates a b)) ∧
    (∀ a b, a < slotId ∨ (a = slotId ∧ b < keyId) →
      (s.actionCache a b).type ≠ KeyActionType_SwitchKeymap)
  have stepBefore : ∀ s a b, a < slotId ∨ (a = slotId ∧ b < keyId) → P s →
      P (updateActiveUsbReports_key E C s a b) := by
    intro s a b hab hp
    obtain ⟨p1, p2, p3, p4, p5⟩ := hp
    have hne : ¬ (slotId = a ∧ keyId = b) := by
      rintro ⟨e1, e2⟩
      rcases hab with h | h
      · exact absurd e1 (Nat.ne_of_gt h)
      · exact absurd e2 (Nat.ne_of_gt h.2)
    have hmap : (s.CurrentKeymap s.ActiveLayer a b).type ≠ KeyActionType_SwitchKeymap := by
      rw [p1]
      exact (hbefore a b hab).2 _
    refine ⟨?_, ?_, ?_, ?_, ?_⟩
    · rw [(key_keymap E C s a b).1 (p5 a b hab) hmap]
      exact p1
    · rw [key_actionCache E C s a b]
      simp only [hne, false_and, if_false]
      exact p2
    · rw [key_otherKeys E C s a b slotId keyId hne]
      exact p3
    · intro a1 b1 h1
      have hne1 : ¬ (a1 = a ∧ b1 = b) := by
        rintro ⟨e1, e2⟩
        subst e1
        subst e2
        rcases hab with h | h <;> rcases h1 with h2 | h2
        · exact absurd h (Nat.lt_asymm h2)
        · rw [h2.1] at h
          exact absurd h (Nat.lt_irrefl _)
        · rw [h.1] at h2
          exact absurd h2 (Nat.lt_irrefl _)
        · exact absurd h.2 (Nat.lt_asymm h2.2)
      rw [key_otherKeys E C s a b a1 b1 hne1]
      exact p4 a1 b1 h1
    · intro a1 b1 h1
      rw [key_actionCache E C s a b]
      simp only []
      split_ifs with hc
      · exact hmap
      · exact p5 a1 b1 h1
  have stepHold : ∀ s, P s → Q (updateActiveUsbReports_key E C s slotId keyId) := by
    intro s hp
    obtain ⟨p1, p2, p3, p4, p5⟩ := hp
    have hh : keyHoldsLayer s slotId keyId := by
      obtain ⟨h1, h2, h3, h4⟩ := hhold
      exact ⟨by rw [p2]; exact h1, by rw [p3]; exact h2, by rw [p3]; exact h3,
        by rw [p3]; exact h4⟩
    have hw : (s.KeyStates slotId keyId).hardwareSwitchState = true := by
      rw [p3]
      exact hhw
    have hc := key_holdsLayer_calls E C s slotId keyId hh hw (by rw [p1]; exact hbase)
      (by rw [p1]; exact hmode)
    obtain ⟨ks, c, e, ho, hown⟩ := key_holdsLayer E C s slotId keyId hpost hh
    have hd : ∃ d, ks slotId keyId = { s.KeyStates slotId keyId with debouncing := d } := by
      rcases hown with h | h
      · rw [hw] at h
        exact absurd h.2 (by decide)
      · exact h
    obtain ⟨d, hd⟩ := hd
    refine ⟨⟨s.calls, ?_⟩, ?_, ?_, ?_, ?_, ?_⟩
    · rw [hc, p1]
    · rw [e]
      exact p1
    · rw [e]
      obtain ⟨h1, h2, h3, h4⟩ := hh
      refine ⟨h1, ?_, ?_, ?_⟩
      · show (ks slotId keyId).debouncedSwitchState = true
        rw [hd]
        exact h2
      · show (ks slotId keyId).current = true
        rw [hd]
        exact h3
      · show (ks slotId keyId).previous = true
        rw [hd]
        exact h4
    · rw [e]
      show (ks slotId keyId).hardwareSwitchState = true
      rw [hd]
      exact hw
    · intro a b hab
      rw [e]
      show keyAtRest (ks a b)
      rw [ho a b (by
        rintro ⟨e1, e2⟩
        rcases hab with h | h
        · exact absurd e1 (Nat.ne_of_gt h)
        · exact absurd e2 (Nat.ne_of_gt h.2)), p4 a b hab]
      exact hafter a b hab
    · intro a b hab
      rw [e]
      exact p5 a b hab
  have stepAfter : ∀ s a b, slotId < a ∨ (a = slotId ∧ keyId < b) → Q s →
      Q (updateActiveUsbReports_key E C s a b) := by
    intro s a b hab hq
    obtain ⟨q1, q2, q3, q4, q5, q6⟩ := hq
    have hne : ¬ (slotId = a ∧ keyId = b) := by
      rintro ⟨e1, e2⟩
      rcases hab with h | h
      · exact absurd e1 (Nat.ne_of_lt h)
      · exact absurd e2 (Nat.ne_of_lt h.2)
    have hr := q5 a b hab
    have hkeys := key_atRest_keys E C s a b hr
    have e := key_atRest E C s a b hr
    refine ⟨?_, ?_, ?_, ?_, ?_, ?_⟩
    · rw [e]
      exact q1
    · rw [e]
      exact q2
    · obtain ⟨h1, h2, h3, h4⟩ := q3
      have ek := (hkeys slotId keyId).2 hne
      refine ⟨?_, by rw [ek]; exact h2, by rw [ek]; exact h3, by rw [ek]; exact h4⟩
      rw [e]
      exact h1
    · rw [(hkeys slotId keyId).2 hne]
      exact q4
    · intro a1 b1 h1
      exact (hkeys a1 b1).1 (q5 a1 b1 h1)
    · intro a1 b1 h1
      rw [e]
      exact q6 a1 b1 h1
  have hP0 : P st := ⟨rfl, rfl, rfl, fun _ _ _ => rfl, fun a b hab => (hbefore a b hab).1⟩
  have hQ : Q (updateActiveUsbReports_keys E C st) := by
    unfold updateActiveUsbReports_keys
    apply foldl_range_single _ P Q C.SLOT_COUNT slotId hs _ _ _ st hP0
    · intro s a ha hp
      apply foldl_invariant _ P _ _ s hp
      intro s1 b _ hp1
      exact stepBefore s1 a b (Or.inl ha) hp1
    · intro s hp
      apply foldl_range_single _ P Q C.MAX_KEY_COUNT_PER_MODULE keyId hk _ _ _ s hp
      · intro s1 b hb hp1
        exact stepBefore s1 slotId b (Or.inr ⟨rfl, hb⟩) hp1
      · intro s1 hp1
        exact stepHold s1 hp1
      · intro s1 b hb _ hq1
        exact stepAfter s1 slotId b (Or.inr ⟨rfl, hb⟩) hq1
    · intro s a ha _ hq
      apply foldl_invariant _ Q _ _ s hq
      intro s1 b _ hq1
      exact stepAfter s1 a b (Or.inl ha) hq1
  exact hQ

/-- A cycle with a key that holds a layer, its switch closed, whose action on
the base layer is a SwitchLayer action in a mode other than Toggle, when every
key after it in the order of the loop is at rest and no key before it has a
SwitchKeymap action: the trace of the cycle ends with the call
`LayerSwitcher_HoldLayer` for the layer of that action and the call
`PostponerCore_FinishCycle`; the keymap is as before, `previousLayer` is the
layer the layer switcher reported, the key still holds the layer with its
switch closed, and the keys after it are at rest. -/
theorem cycle_holdRecorded (E : foreign_t) (C : updater_config_t) (st : updater_state_t)
    (slotId keyId : Nat) (hs : slotId < C.SLOT_COUNT)
    (hk : keyId < C.MAX_KEY_COUNT_PER_MODULE)
    (hmac : st.MacroPlaying = false) (htest : st.TestUsbStack = false)
    (hpost : ∀ s, E.PostponerCore_IsActive s = false)
    (hhold : keyHoldsLayer st slotId keyId)
    (hhw : (st.KeyStates slotId keyId).hardwareSwitchState = true)
    (hbase : (st.CurrentKeymap LayerId_Base slotId keyId).type = KeyActionType_SwitchLayer)
    (hmode : (st.CurrentKeymap LayerId_Base slotId keyId).switchLayer.mode
      ≠ SwitchLayerMode_Toggle)
    (hafter : ∀ a b, slotId < a ∨ (a = slotId ∧ keyId < b) → keyAtRest (st.KeyStates a b))
    (hbefore : ∀ a b, a < slotId ∨ (a = slotId ∧ b < keyId) →
      (st.actionCache a b).type ≠ KeyActionType_SwitchKeymap ∧
      ∀ layer, (st.CurrentKeymap layer a b).type ≠ KeyActionType_SwitchKeymap) :
    (∃ X, (updateActiveUsbReports E C st).calls
      = X ++ [LayerSwitcher_HoldLayer
          (st.CurrentKeymap LayerId_Base slotId keyId).switchLayer.layer,
        PostponerCore_FinishCycle]) ∧
    (updateActiveUsbReports E C st).CurrentKeymap = st.CurrentKeymap ∧
    (updateActiveUsbReports E C st).previousLayer
      = (E.LayerSwitcher_UpdateActiveLayer (layerQueryState st)).1 ∧
    keyHoldsLayer (updateActiveUsbReports E C st) slotId keyId ∧
    ((updateActiveUsbReports E C st).KeyStates slotId keyId).hardwareSwitchState = true ∧
    (∀ a b, slotId < a ∨ (a = slotId ∧ keyId < b) →
      keyAtRest ((updateActiveUsbReports E C st).KeyStates a b)) ∧
    (∀ a b, a < slotId ∨ (a = slotId ∧ b < keyId) →
      ((updateActiveUsbReports E C st).actionCache a b).type
        ≠ KeyActionType_SwitchKeymap) := by
  have hS := start_facts E C st htest hpost
  have hK := keys_holdRecorded E C (updateActiveUsbReports_start E C st) slotId keyId hs hk hpost
    (by
      obtain ⟨h1, h2, h3, h4⟩ := hhold
      exact ⟨by rw [hS.actionCache]; exact h1, by rw [hS.KeyStates]; exact h2,
        by rw [hS.KeyStates]; exact h3, by rw [hS.KeyStates]; exact h4⟩)
    (by rw [hS.KeyStates]; exact hhw) (by rw [hS.CurrentKeymap]; exact hbase)
    (by rw [hS.CurrentKeymap]; exact hmode)
    (fun a b hab => by rw [hS.KeyStates]; exact hafter a b hab)
    (fun a b hab => by rw [hS.actionCache, hS.CurrentKeymap]; exact hbefore a b hab)
  have hL := keys_previousLayer E C (updateActiveUsbReports_start E C st)
  have hF := finish_facts C
    (updateActiveUsbReports_keys E C (updateActiveUsbReports_start E C st))
  have hM := finish_keymap C
    (updateActiveUsbReports_keys E C (updateActiveUsbReports_start E C st))
  have hu : updateActiveUsbReports E C st
      = updateActiveUsbReports_finish C
          (updateActiveUsbReports_keys E C (updateActiveUsbReports_start E C st)) := by
    simp only [updateActiveUsbReports, hmac]
    rfl
  rw [hu]
  have hSk := hS.CurrentKeymap
  have hSp := hS.previousLayer
  generalize updateActiveUsbReports_start E C st = s1 at *
  generalize updateActiveUsbReports_keys E C s1 = sK at *
  generalize updateActiveUsbReports_finish C sK = sF at *
  obtain ⟨⟨X, k1⟩, k2, k3, k4, k5, k6⟩ := hK
  refine ⟨⟨X, ?_⟩, ?_, ?_, ?_, ?_, ?_, ?_⟩
  · rw [hF.calls, k1, hSk]
    simp
  · rw [hM, k2, hSk]
  · rw [hF.previousLayer, hL, hSp]
  · obtain ⟨h1, h2, h3, h4⟩ := k3
    exact ⟨by rw [hF.actionCache]; exact h1, by rw [hF.KeyStates]; exact h2,
      by rw [hF.KeyStates]; exact h3, by rw [hF.KeyStates]; exact h4⟩
  · rw [hF.KeyStates]
    exact k4
  · intro a b hab
    rw [hF.KeyStates]
    exact k5 a b hab
  · intro a b hab
    rw [hF.actionCache]
    exact k6 a b hab

/-- C16: scenario S3 (sticky Alt+Tab). A key without secondary role whose
action on the active layer is the Basic keystroke Tab with modifiers LeftAlt is
pressed while a layer is held (ActiveLayerHeld true), every other key at rest
or holding a layer (held, with a cached SwitchLayer action), `stickyModifiers`
0, postponer inactive; in the later cycles no switch of a key at rest closes.
In the activation cycle (from `stA`) the basic report has modifiers LeftAlt and
no scancode; in the next cycle (from `stB`, key still held, layer unchanged) it
has modifiers LeftAlt and scancode Tab; in the release cycle (from `stC`,
release committed, layer unchanged) it has modifiers LeftAlt and no scancode,
and leaves the key at rest, the other keys quiet and `stickyModifiers`
LeftAlt; every cycle that follows a cycle which left the key at rest, the
other keys quiet and `stickyModifiers` LeftAlt, with the layer unchanged, has
the same report and leaves the same situation; and such a cycle in which
ActiveLayer changes has an all-zero basic report. In each of the three cycles
a key that holds a layer with its switch closed still holds it afterwards. The
loop body at such a key, whose base action is SwitchLayer in a mode other than
Toggle, calls `LayerSwitcher_HoldLayer` for its layer and nothing else; and a
cycle in which the keys after such a key in the order of the loop are at rest
and no key before it has a SwitchKeymap action ends its trace with that call
and `PostponerCore_FinishCycle`, which is what the layer switcher has received
when the next cycle asks it for ActiveLayer and ActiveLayerHeld. -/
theorem C16_stickyAltTab (E : foreign_t) (C : updater_config_t) (slotId keyId : Nat)
    (action : key_action_t) (stA stB stC : updater_state_t)
    (hs : slotId < C.SLOT_COUNT) (hk : keyId < C.MAX_KEY_COUNT_PER_MODULE)
    (hpost : ∀ s, E.PostponerCore_IsActive s = false)
    (htype : action.type = KeyActionType_Keystroke)
    (hks : action.keystroke
      = { keystrokeType := KeystrokeType_Basic, scancode := HID_KEYBOARD_SC_TAB,
          modifiers := HID_KEYBOARD_MODIFIER_LEFTALT, secondaryRole := 0 })
    (hAmac : stA.MacroPlaying = false) (hAtest : stA.TestUsbStack = false)
    (hAquiet : othersQuiet stA slotId keyId)
    (hAkey : (stA.KeyStates slotId keyId).hardwareSwitchState = true ∧
      (stA.KeyStates slotId keyId).debouncedSwitchState = false ∧
      (stA.KeyStates slotId keyId).debouncing = false ∧
      (stA.KeyStates slotId keyId).current = false ∧
      (stA.KeyStates slotId keyId).previous = false)
    (hAsticky : stA.stickyModifiers = 0)
    (hAzero : stA.ActiveUsbBasicKeyboardReport = zeroBasicKeyboardReport)
    (hAheld : (E.LayerSwitcher_UpdateActiveLayer (layerQueryState stA)).2 = true)
    (hAmap : stA.CurrentKeymap (E.LayerSwitcher_UpdateActiveLayer (layerQueryState stA)).1
      slotId keyId = action)
    (hB : nextCycleStart (updateActiveUsbReports E C stA) stB)
    (hBkey : (stB.KeyStates slotId keyId).hardwareSwitchState = true)
    (hBrest : ∀ a b, ¬ (a = slotId ∧ b = keyId) →
      keyAtRest ((updateActiveUsbReports E C stA).KeyStates a b) →
      (stB.KeyStates a b).hardwareSwitchState = false)
    (hBlayer : (E.LayerSwitcher_UpdateActiveLayer (layerQueryState stB)).1 = stB.previousLayer)
    (hC : nextCycleStart (updateActiveUsbReports E C stB) stC)
    (hCkey : (stC.KeyStates slotId keyId).hardwareSwitchState = false)
    (hCrest : ∀ a b, ¬ (a = slotId ∧ b = keyId) →
      keyAtRest ((updateActiveUsbReports E C stB).KeyStates a b) →
      (stC.KeyStates a b).hardwareSwitchState = false)
    (hClayer : (E.LayerSwitcher_UpdateActiveLayer (layerQueryState stC)).1 = stC.previousLayer)
    (hCtime : sub32 stC.CurrentTime stA.CurrentTime % 256 > C.DebounceTimePress % 256) :
    (updateActiveUsbReports E C stA).ActiveUsbBasicKeyboardReport
      = { zeroBasicKeyboardReport with modifiers := HID_KEYBOARD_MODIFIER_LEFTALT } ∧
    (updateActiveUsbReports E C stB).ActiveUsbBasicKeyboardReport
      = { modifiers := HID_KEYBOARD_MODIFIER_LEFTALT, reserved := 0,
          scancodes := [HID_KEYBOARD_SC_TAB, 0, 0, 0, 0, 0] } ∧
    ((updateActiveUsbReports E C stC).ActiveUsbBasicKeyboardReport
        = { zeroBasicKeyboardReport with modifiers := HID_KEYBOARD_MODIFIER_LEFTALT } ∧
      (updateActiveUsbReports E C stC).stickyModifiers = HID_KEYBOARD_MODIFIER_LEFTALT ∧
      keyAtRest ((updateActiveUsbReports E C stC).KeyStates slotId keyId) ∧
      othersQuiet (updateActiveUsbReports E C stC) slotId keyId) ∧
    (∀ s stD : updater_state_t, keyAtRest (s.KeyStates slotId keyId) →
      othersQuiet s slotId keyId →
      s.stickyModifiers = HID_KEYBOARD_MODIFIER_LEFTALT →
      nextCycleStart s stD →
      (stD.KeyStates slotId keyId).hardwareSwitchState = false →
      (∀ a b, ¬ (a = slotId ∧ b = keyId) → keyAtRest (s.KeyStates a b) →
        (stD.KeyStates a b).hardwareSwitchState = false) →
      (E.LayerSwitcher_UpdateActiveLayer (layerQueryState stD)).1 = stD.previousLayer →
      (updateActiveUsbReports E C stD).ActiveUsbBasicKeyboardReport
        = { zeroBasicKeyboardReport with modifiers := HID_KEYBOARD_MODIFIER_LEFTALT } ∧
      (updateActiveUsbReports E C stD).stickyModifiers = HID_KEYBOARD_MODIFIER_LEFTALT ∧
      keyAtRest ((updateActiveUsbReports E C stD).KeyStates slotId keyId) ∧
      othersQuiet (updateActiveUsbReports E C stD) slotId keyId) ∧
    (∀ s stE : updater_state_t, keyAtRest (s.KeyStates slotId keyId) →
      othersQuiet s slotId keyId →
      nextCycleStart s stE →
      (stE.KeyStates slotId keyId).hardwareSwitchState = false →
      (∀ a b, ¬ (a = slotId ∧ b = keyId) → keyAtRest (s.KeyStates a b) →
        (stE.KeyStates a b).hardwareSwitchState = false) →
      (E.LayerSwitcher_UpdateActiveLayer (layerQueryState stE)).1 ≠ stE.previousLayer →
      (updateActiveUsbReports E C stE).ActiveUsbBasicKeyboardReport
        = zeroBasicKeyboardReport) ∧
    (othersKept stA (updateActiveUsbReports E C stA) slotId keyId ∧
      othersKept stB (updateActiveUsbReports E C stB) slotId keyId ∧
      othersKept stC (updateActiveUsbReports E C stC) slotId keyId) ∧
    (∀ (s : updater_state_t) (a b : Nat), keyHoldsLayer s a b →
      (s.KeyStates a b).hardwareSwitchState = true →
      (s.CurrentKeymap LayerId_Base a b).type = KeyActionType_SwitchLayer →
      (s.CurrentKeymap LayerId_Base a b).switchLayer.mode ≠ SwitchLayerMode_Toggle →
      (updateActiveUsbReports_key E C s a b).calls
        = s.calls ++
            [LayerSwitcher_HoldLayer (s.CurrentKeymap LayerId_Base a b).switchLayer.layer]) ∧
    (∀ (s : updater_state_t) (a b : Nat), a < C.SLOT_COUNT → b < C.MAX_KEY_COUNT_PER_MODULE →
      s.MacroPlaying = false → s.TestUsbStack = false →
      keyHoldsLayer s a b →
      (s.KeyStates a b).hardwareSwitchState = true →
      (s.CurrentKeymap LayerId_Base a b).type = KeyActionType_SwitchLayer →
      (s.CurrentKeymap LayerId_Base a b).switchLayer.mode ≠ SwitchLayerMode_Toggle →
      (∀ a1 b1, a < a1 ∨ (a1 = a ∧ b < b1) → keyAtRest (s.KeyStates a1 b1)) →
      (∀ a1 b1, a1 < a ∨ (a1 = a ∧ b1 < b) →
        (s.actionCache a1 b1).type ≠ KeyActionType_SwitchKeymap ∧
        ∀ layer, (s.CurrentKeymap layer a1 b1).type ≠ KeyActionType_SwitchKeymap) →
      ∃ X, (updateActiveUsbReports E C s).calls
        = X ++
            [LayerSwitcher_HoldLayer (s.CurrentKeymap LayerId_Base a b).switchLayer.layer,
              PostponerCore_FinishCycle]) := by
  obtain ⟨t1, t2, t3, t4, t5, t6, t7⟩ := altTab_facts action htype hks
  obtain ⟨ka1, ka2, ka3, ka4, ka5⟩ := hAkey
  -- the activation cycle
  have hA := cycle_activation_quiet E C stA slotId keyId hs hk hAmac hAtest hpost hAquiet ka4
    ka5 ka2 ka1 (by simp [debouncingAfterGate, ka3]) action hAmap htype t4 t2 (by
      rw [hAsticky, ite_self]
      exact t3)
  obtain ⟨a1, a2, a3, a4, a5, a6, a7, a8⟩ := hA
  have hAend : othersQuiet (updateActiveUsbReports E C stA) slotId keyId :=
    othersQuiet_of_kept stA _ slotId keyId hAquiet a8
  -- the cycle in which the key is held
  have hBquiet : othersQuiet stB slotId keyId :=
    nextCycle_quiet _ stB slotId keyId hB hAend hBrest
  obtain ⟨b1, b2, b3, b4, b5, b6, b7, b8, b9⟩ := hB
  have hBkeys : (stB.KeyStates slotId keyId).hardwareSwitchState = true ∧
      (stB.KeyStates slotId keyId).debouncedSwitchState = true ∧
      (stB.KeyStates slotId keyId).timestamp = stA.CurrentTime ∧
      (stB.KeyStates slotId keyId).current = true ∧
      (stB.KeyStates slotId keyId).previous = true := by
    obtain ⟨q1, q2, q3, q4, q5⟩ := b1 slotId keyId
    rw [a6] at q1 q2 q3 q4 q5
    exact ⟨hBkey, q1, q3, q4, q5⟩
  have hBcache : stB.actionCache slotId keyId = action := by
    rw [b2]
    exact a5
  have hBr := cycle_held_quiet E C stB slotId keyId hs hk b8 b9 hpost hBquiet hBkeys.2.2.2.1
    hBkeys.2.2.2.2 (by rw [hBkeys.1, hBkeys.2.1]) (by rw [hBcache]; exact htype)
    (by rw [hBcache]; exact t4) (by rw [hBcache]; exact t5) (by rw [hBcache]; exact t2)
  obtain ⟨r1, r2, r3, r4, r5, r6, r7, r8⟩ := hBr
  have hBend : othersQuiet (updateActiveUsbReports E C stB) slotId keyId :=
    othersQuiet_of_kept stB _ slotId keyId hBquiet r8
  -- the release cycle
  have hCquiet : othersQuiet stC slotId keyId :=
    nextCycle_quiet _ stC slotId keyId hC hBend hCrest
  obtain ⟨c1, c2, c3, c4, c5, c6, c7, c8, c9⟩ := hC
  have hCkeys : (stC.KeyStates slotId keyId).debouncedSwitchState = true ∧
      (stC.KeyStates slotId keyId).timestamp = stA.CurrentTime ∧
      (stC.KeyStates slotId keyId).current = true ∧
      (stC.KeyStates slotId keyId).previous = true := by
    obtain ⟨q1, q2, q3, q4, q5⟩ := c1 slotId keyId
    rw [r6] at q1 q2 q3 q4 q5
    exact ⟨by rw [q1]; exact hBkeys.2.1, by rw [q3]; exact hBkeys.2.2.1,
      by rw [q4]; exact hBkeys.2.2.2.1, by rw [q5]; exact hBkeys.2.2.2.2⟩
  have hCcache : stC.actionCache slotId keyId = action := by
    rw [c2, r5]
    exact hBcache
  have hCr := cycle_release_quiet E C stC slotId keyId hs hk c8 c9 hpost hCquiet hCkeys.2.2.1
    hCkeys.2.2.2 hCkeys.1 hCkey
    (debouncingAfterGate_of_time C _ _ (by
      simp only [debounceTime, hCkeys.2.2.2, if_true, hCkeys.2.1]
      exact hCtime))
    (by rw [hCcache]; exact htype) (by rw [hCcache]; exact t4)
  obtain ⟨s1, s2, s3, s4⟩ := hCr
  have hBsticky : stB.stickyModifiers = HID_KEYBOARD_MODIFIER_LEFTALT := by
    rw [b3, a2]
    exact t6
  have hCsticky : stC.stickyModifiers = HID_KEYBOARD_MODIFIER_LEFTALT := by
    rw [c3, r2, hBlayer]
    simp [hBsticky]
  have hCstick : stC.stickyModifierShouldStick = true := by
    rw [c5, r4, b5, a4, hAheld, t1]
    rfl
  refine ⟨?_, ?_, ⟨?_, ?_, s3, othersQuiet_of_kept stC _ slotId keyId hCquiet s4⟩, ?_, ?_,
    ⟨a8, r8, s4⟩, ?_, ?_⟩
  · rw [a1, hAzero, t6]
    simp [zeroBasicKeyboardReport]
  · rw [r1, b7, hBlayer, hBcache, t7, hBsticky]
    simp [zeroBasicKeyboardReport, USB_BASIC_KEYBOARD_MAX_KEYS]
  · rw [s1, c7, hClayer, hCsticky]
    simp [zeroBasicKeyboardReport]
  · rw [s2, hCstick, hClayer, hCsticky]
    simp
  · intro s stD hkey hquiet hsticky hnext hhw hrest hlayer
    obtain ⟨d1, d2, d3, d4⟩ :=
      cycle_afterQuiet E C s stD slotId keyId hs hk hpost hkey hquiet hnext hhw hrest
    rw [hlayer, hsticky] at d1 d2
    simp only [ne_eq, not_true_eq_false, if_false] at d1 d2
    exact ⟨d1, d2, d3, d4⟩
  · intro s stE hkey hquiet hnext hhw hrest hlayer
    obtain ⟨d1, -, -, -⟩ :=
      cycle_afterQuiet E C s stE slotId keyId hs hk hpost hkey hquiet hnext hhw hrest
    rw [d1, if_pos hlayer]
    rfl
  · intro s a b hh hhw hbase hmode
    exact key_holdsLayer_calls E C s a b hh hhw hbase hmode
  · intro s a b ha hb hmac htest hh hhw hbase hmode hafter hbefore
    exact (cycle_holdRecorded E C s a b ha hb hmac htest hpost hh hhw hbase hmode hafter
      hbefore).1

/-- The state `stateNextCycleKey s t pressed` can start the cycle that follows
a cycle ending in `s`. -/
theorem stateNextCycleKey_next (s : updater_state_t) (t : Nat) (pressed : Bool) :
    nextCycleStart s (stateNextCycleKey s t pressed) := by
  refine ⟨fun a b => ?_, rfl, rfl, rfl, rfl, rfl, rfl, rfl, rfl⟩
  by_cases h : a = 0 ∧ b = 0
  · simp only [stateNextCycleKey, h, and_self, if_true]
  · simp only [stateNextCycleKey, h, if_false, and_self]

/-- The switches and the time in `stateNextCycleKey s t pressed`. -/
theorem stateNextCycleKey_inputs (s : updater_state_t) (t : Nat) (pressed : Bool) :
    ((stateNextCycleKey s t pressed).KeyStates 0 0).hardwareSwitchState = pressed ∧
    (∀ a b, ¬ (a = 0 ∧ b = 0) → keyAtRest (s.KeyStates a b) →
      ((stateNextCycleKey s t pressed).KeyStates a b).hardwareSwitchState = false) ∧
    (stateNextCycleKey s t pressed).CurrentTime = t := by
  refine ⟨rfl, fun a b hne hr => ?_, rfl⟩
  simp only [stateNextCycleKey, hne, if_false]
  exact hr.1

/-- The layer switcher `holdingLayerForeign` after a cycle whose trace ends
with a `LayerSwitcher_HoldLayer` call and `PostponerCore_FinishCycle`: the layer
of the call is the active layer, held. -/
theorem holdingLayerForeign_held (s : updater_state_t) (X : List foreign_call_t) (layer : Nat)
    (h : s.calls = X ++ [LayerSwitcher_HoldLayer layer, PostponerCore_FinishCycle]) :
    holdingLayerForeign.LayerSwitcher_UpdateActiveLayer (layerQueryState s) = (layer, true) := by
  simp [holdingLayerForeign, layerQueryState, recordCall, h, heldLayerOf]

/-- The scenario with the layer key, from one cycle to the next: when a cycle
starts with key 1 of slot 0 holding layer 1 (switch closed), the keymap of the
scenario, every key after key 1 at rest, no SwitchKeymap action cached for key
0, and a trace that ends with `LayerSwitcher_HoldLayer 1` and
`PostponerCore_FinishCycle`, then `holdingLayerForeign` reports layer 1, held,
and the start `stateNextCycleKey` of the next cycle is in the same situation,
with `previousLayer` 1. -/
theorem layerScene_step (st s1 : updater_state_t) (t : Nat) (pressed : Bool)
    (hs1 : s1 = stateNextCycleKey
      (updateActiveUsbReports holdingLayerForeign exampleConfig st) t pressed)
    (hmac : st.MacroPlaying = false) (htest : st.TestUsbStack = false)
    (hmap : st.CurrentKeymap = stateLayerAltTabPressed.CurrentKeymap)
    (hhold : keyHoldsLayer st 0 1)
    (hhw : (st.KeyStates 0 1).hardwareSwitchState = true)
    (hafter : ∀ a b, 0 < a ∨ (a = 0 ∧ 1 < b) → keyAtRest (st.KeyStates a b))
    (hcache : (st.actionCache 0 0).type ≠ KeyActionType_SwitchKeymap)
    (hcalls : ∃ X, st.calls = X ++ [LayerSwitcher_HoldLayer 1, PostponerCore_FinishCycle]) :
    holdingLayerForeign.LayerSwitcher_UpdateActiveLayer (layerQueryState st) = (1, true) ∧
    s1.MacroPlaying = false ∧ s1.TestUsbStack = false ∧
    s1.CurrentKeymap = stateLayerAltTabPressed.CurrentKeymap ∧
    keyHoldsLayer s1 0 1 ∧
    (s1.KeyStates 0 1).hardwareSwitchState = true ∧
    (∀ a b, 0 < a ∨ (a = 0 ∧ 1 < b) → keyAtRest (s1.KeyStates a b)) ∧
    (s1.actionCache 0 0).type ≠ KeyActionType_SwitchKeymap ∧
    (∃ X, s1.calls = X ++ [LayerSwitcher_HoldLayer 1, PostponerCore_FinishCycle]) ∧
    s1.previousLayer = 1 := by
  obtain ⟨X0, hX0⟩ := hcalls
  have horacle := holdingLayerForeign_held st X0 1 hX0
  have hbase : st.CurrentKeymap LayerId_Base 0 1 = switchLayerAction 1 SwitchLayerMode_Hold := by
    rw [hmap]
    rfl
  have hr := cycle_holdRecorded holdingLayerForeign exampleConfig st 0 1 (by decide) (by decide)
    hmac htest (fun _ => rfl) hhold hhw (by rw [hbase]; rfl) (by rw [hbase]; decide) hafter
    (by
      intro a b hab
      have ha : a = 0 ∧ b = 0 := by
        rcases hab with h | h
        · exact absurd h (Nat.not_lt_zero _)
        · exact ⟨h.1, Nat.lt_one_iff.mp h.2⟩
      obtain ⟨e1, e2⟩ := ha
      subst e1
      subst e2
      refine ⟨hcache, fun layer => ?_⟩
      rw [hmap]
      show altTabAction.type ≠ KeyActionType_SwitchKeymap
      decide)
  obtain ⟨⟨X, r1⟩, r2, r3, r4, r5, r6, r7⟩ := hr
  rw [hbase] at r1
  have hk1 : s1.KeyStates 0 1
      = (updateActiveUsbReports holdingLayerForeign exampleConfig st).KeyStates 0 1 := by
    rw [hs1]
    simp [stateNextCycleKey]
  refine ⟨horacle, by rw [hs1]; rfl, by rw [hs1]; rfl, ?_, ?_, ?_, ?_, ?_, ⟨X, ?_⟩, ?_⟩
  · rw [hs1]
    show (updateActiveUsbReports holdingLayerForeign exampleConfig st).CurrentKeymap = _
    rw [r2, hmap]
  · obtain ⟨h1, h2, h3, h4⟩ := r4
    refine ⟨?_, by rw [hk1]; exact h2, by rw [hk1]; exact h3, by rw [hk1]; exact h4⟩
    rw [hs1]
    exact h1
  · rw [hk1]
    exact r5
  · intro a b hab
    have hab0 : ¬ (a = 0 ∧ b = 0) := by
      rintro ⟨e1, e2⟩
      rcases hab with h | h
      · exact absurd e1 (Nat.ne_of_gt h)
      · exact absurd e2 (Nat.ne_of_gt (Nat.lt_trans Nat.zero_lt_one h.2))
    rw [hs1]
    simp only [stateNextCycleKey, hab0, if_false]
    exact r6 a b hab
  · rw [hs1]
    exact r7 0 0 (Or.inr ⟨rfl, Nat.zero_lt_one⟩)
  · rw [hs1]
    exact r1
  · rw [hs1]
    show (updateActiveUsbReports holdingLayerForeign exampleConfig st).previousLayer = 1
    rw [r3, horacle]

/-- C16 at a concrete input, with a layer switcher that follows the recorded
`LayerSwitcher_HoldLayer` calls: key 1 of slot 0 holds layer 1 (held,
SwitchLayer in mode Hold), key 0 of slot 0 carries Alt+Tab. The Alt+Tab key is
pressed, still held 10 ms later and released 60 ms after the press, the layer
key staying held. In each cycle the layer switcher reports layer 1, held,
because the cycle before recorded the call `LayerSwitcher_HoldLayer 1` of the
layer key; the three basic reports are LeftAlt alone, LeftAlt with Tab, and
LeftAlt alone; the trace of the first cycle ends with the hold call of the
layer key, and the layer key still holds the layer after it. -/
theorem C16_stickyAltTab_witness :
    keyHoldsLayer stateLayerAltTabPressed 0 1 ∧
    (stateLayerAltTabPressed.KeyStates 0 1).hardwareSwitchState = true ∧
    othersQuiet stateLayerAltTabPressed 0 0 ∧
    (stateLayerAltTabPressed.KeyStates 0 0).hardwareSwitchState = true ∧
    stateLayerAltTabPressed.stickyModifiers = 0 ∧
    holdingLayerForeign.LayerSwitcher_UpdateActiveLayer
      (layerQueryState stateLayerAltTabPressed) = (1, true) ∧
    holdingLayerForeign.LayerSwitcher_UpdateActiveLayer
      (layerQueryState stateLayerAltTabHeld) = (1, true) ∧
    holdingLayerForeign.LayerSwitcher_UpdateActiveLayer
      (layerQueryState stateLayerAltTabReleased) = (1, true) ∧
    nextCycleStart
      (updateActiveUsbReports holdingLayerForeign exampleConfig stateLayerAltTabPressed)
      stateLayerAltTabHeld ∧
    nextCycleStart
      (updateActiveUsbReports holdingLayerForeign exampleConfig stateLayerAltTabHeld)
      stateLayerAltTabReleased ∧
    (updateActiveUsbReports holdingLayerForeign exampleConfig
        stateLayerAltTabPressed).ActiveUsbBasicKeyboardReport
      = { zeroBasicKeyboardReport with modifiers := HID_KEYBOARD_MODIFIER_LEFTALT } ∧
    (updateActiveUsbReports holdingLayerForeign exampleConfig
        stateLayerAltTabHeld).ActiveUsbBasicKeyboardReport
      = { modifiers := HID_KEYBOARD_MODIFIER_LEFTALT, reserved := 0,
          scancodes := [HID_KEYBOARD_SC_TAB, 0, 0, 0, 0, 0] } ∧
    (updateActiveUsbReports holdingLayerForeign exampleConfig
        stateLayerAltTabReleased).ActiveUsbBasicKeyboardReport
      = { zeroBasicKeyboardReport with modifiers := HID_KEYBOARD_MODIFIER_LEFTALT } ∧
    (∃ X, (updateActiveUsbReports holdingLayerForeign exampleConfig
        stateLayerAltTabPressed).calls
      = X ++ [LayerSwitcher_HoldLayer 1, PostponerCore_FinishCycle]) ∧
    keyHoldsLayer
      (updateActiveUsbReports holdingLayerForeign exampleConfig stateLayerAltTabPressed)
      0 1 := by
  have hhold : keyHoldsLayer stateLayerAltTabPressed 0 1 := ⟨rfl, rfl, rfl, rfl⟩
  have hafter : ∀ a b, 0 < a ∨ (a = 0 ∧ 1 < b) →
      keyAtRest (stateLayerAltTabPressed.KeyStates a b) := by
    intro a b hab
    have h0 : ¬ (a = 0 ∧ b = 0) := by
      rintro ⟨e1, e2⟩
      rcases hab with h | h
      · exact absurd e1 (Nat.ne_of_gt h)
      · exact absurd e2 (Nat.ne_of_gt (Nat.lt_trans Nat.zero_lt_one h.2))
    have h1 : ¬ (a = 0 ∧ b = 1) := by
      rintro ⟨e1, e2⟩
      rcases hab with h | h
      · exact absurd e1 (Nat.ne_of_gt h)
      · exact absurd e2 (Nat.ne_of_gt h.2)
    simp only [stateLayerAltTabPressed, h0, h1, if_false]
    exact ⟨rfl, rfl, rfl, rfl⟩
  have hquiet : othersQuiet stateLayerAltTabPressed 0 0 := by
    intro a b hne
    by_cases h1 : a = 0 ∧ b = 1
    · obtain ⟨e1, e2⟩ := h1
      subst e1
      subst e2
      exact Or.inr hhold
    · left
      simp only [stateLayerAltTabPressed, hne, h1, if_false]
      exact ⟨rfl, rfl, rfl, rfl⟩
  -- the layer switcher in the three cycles
  have stepA := layerScene_step stateLayerAltTabPressed stateLayerAltTabHeld 10 true rfl rfl rfl
    rfl hhold rfl hafter (by decide) ⟨[], rfl⟩
  obtain ⟨oA, b1, b2, b3, b4, b5, b6, b7, b8, b9⟩ := stepA
  have stepB := layerScene_step stateLayerAltTabHeld stateLayerAltTabReleased 60 false rfl b1 b2
    b3 b4 b5 b6 b7 b8
  obtain ⟨oB, c1, c2, c3, c4, c5, c6, c7, c8, c9⟩ := stepB
  obtain ⟨XC, hXC⟩ := c8
  have oC := holdingLayerForeign_held stateLayerAltTabReleased XC 1 hXC
  have hB : nextCycleStart
      (updateActiveUsbReports holdingLayerForeign exampleConfig stateLayerAltTabPressed)
      stateLayerAltTabHeld := stateNextCycleKey_next _ 10 true
  have hC : nextCycleStart
      (updateActiveUsbReports holdingLayerForeign exampleConfig stateLayerAltTabHeld)
      stateLayerAltTabReleased := stateNextCycleKey_next _ 60 false
  have hBi := stateNextCycleKey_inputs
    (updateActiveUsbReports holdingLayerForeign exampleConfig stateLayerAltTabPressed) 10 true
  have hCi := stateNextCycleKey_inputs
    (updateActiveUsbReports holdingLayerForeign exampleConfig stateLayerAltTabHeld) 60 false
  have hCt : stateLayerAltTabReleased.CurrentTime = 60 := hCi.2.2
  have h := C16_stickyAltTab holdingLayerForeign exampleConfig 0 0 altTabAction
    stateLayerAltTabPressed stateLayerAltTabHeld stateLayerAltTabReleased (by decide)
    (by decide) (fun _ => rfl) rfl rfl rfl rfl hquiet ⟨rfl, rfl, rfl, rfl, rfl⟩ rfl rfl
    (by rw [oA]) rfl
    hB hBi.1 hBi.2.1 (by rw [oB, b9]) hC hCi.1 hCi.2.1 (by rw [oC, c9])
    (by
      rw [hCt]
      decide)
  exact ⟨hhold, rfl, hquiet, rfl, rfl, oA, oB, oC, hB, hC, h.1, h.2.1, h.2.2.1.1,
    h.2.2.2.2.2.2.2 stateLayerAltTabPressed 0 1 (by decide) (by decide) rfl rfl hhold rfl rfl
      (by decide) hafter (by
        intro a b hab
        have ha : a = 0 ∧ b = 0 := by
          rcases hab with h | h
          · exact absurd h (Nat.not_lt_zero _)
          · exact ⟨h.1, Nat.lt_one_iff.mp h.2⟩
        obtain ⟨e1, e2⟩ := ha
        subst e1
        subst e2
        exact ⟨by decide, fun layer => by
          show altTabAction.type ≠ KeyActionType_SwitchKeymap
          decide⟩),
    ((h.2.2.2.2.2.1.1 0 1 (by decide)).2.2 hhold rfl).1⟩

end UsbReportUpdater
